import Mathlib

/-! # annobin 3.2: the note encoder

A shallow embedding of `plugin/annobin.cc` (and of the target files
`dummy.annobin.cc`, `x86_64.annobin.cc`, `aarch64.annobin.cc`,
`powerpc.annobin.cc`) together with theorems about the notes they emit.

Conventions of the embedding.

* A C string is the list of its bytes before the terminating NUL; a `char`
  buffer is the list of its bytes; `NULL` is `none`.
* `unsigned long` is a natural number below `2^64`, `unsigned int` one below
  `2^32`; conversions from `int` reduce modulo the width.
* The plugin's file-scope variables form `State`; what the host compiler
  supplies when a callback runs forms `Env`; constants that come from headers
  which are not part of the plugin sources form `Build`.
* The assembler stream `asm_out_file` is the list `State.asm_out`; each call of
  `annobin_output_note` appends one `Chunk.note`, holding the arguments of the
  call and the lines that the call prints.
-/

namespace Annobin

/-! ## Parameters supplied by headers and by the host compiler -/

/-- The target file that is linked into the plugin. -/
inductive Target
  | dummy
  | x86_64
  | aarch64
  | powerpc
deriving DecidableEq, Repr

/-- Constants used by the sources but defined in headers that are not part of
them (`annobin.h`, the ELF headers, the host compiler's headers), and the
conditional-compilation switches. They are parameters of the model. -/
structure Build where
  GNU_BUILD_ATTRIBUTE_TYPE_NUMERIC : Nat
  GNU_BUILD_ATTRIBUTE_TYPE_STRING : Nat
  GNU_BUILD_ATTRIBUTE_TYPE_BOOL_TRUE : Nat
  GNU_BUILD_ATTRIBUTE_TYPE_BOOL_FALSE : Nat
  GNU_BUILD_ATTRIBUTE_VERSION : Nat
  GNU_BUILD_ATTRIBUTE_STACK_PROT : Nat
  GNU_BUILD_ATTRIBUTE_STACK_SIZE : Nat
  GNU_BUILD_ATTRIBUTE_TOOL : Nat
  GNU_BUILD_ATTRIBUTE_ABI : Nat
  GNU_BUILD_ATTRIBUTE_PIC : Nat
  GNU_BUILD_ATTRIBUTE_SHORT_ENUM : Nat
  NT_GNU_BUILD_ATTRIBUTE_OPEN : Nat
  NT_GNU_BUILD_ATTRIBUTE_FUNC : Nat
  NT_GNU_PROPERTY_TYPE_0 : Nat
  GNU_BUILD_ATTRS_SECTION_NAME : String
  NOTE_GNU_PROPERTY_SECTION_NAME : String
  SHF_GNU_BUILD_NOTE : Nat
  GNU_PROPERTY_STACK_SIZE : Nat
  VMS_AND_DWARF2_DEBUG : Nat
  DINFO_LEVEL_VERBOSE : Nat
  OPTION_MASK_ISA_SSE : Nat
  OPTION_MASK_ISA_SSE2 : Nat
  OPTION_MASK_ISA_SSE3 : Nat
  OPTION_MASK_ISA_SSE4_1 : Nat
  OPTION_MASK_ISA_SSE4_2 : Nat
  OPTION_MASK_ISA_AVX : Nat
  OPTION_MASK_ISA_AVX2 : Nat
  OPTION_MASK_ISA_AVX512F : Option Nat
  OPTION_MASK_ISA_AVX512CD : Nat
  OPTION_MASK_ISA_AVX512ER : Nat
  OPTION_MASK_ISA_AVX512PF : Nat
  OPTION_MASK_ISA_AVX512VL : Nat
  OPTION_MASK_ISA_AVX512DQ : Nat
  OPTION_MASK_ISA_AVX512BW : Nat
  stack_clash_defined : Bool
  OLD_GAS : Bool
  target : Target
deriving DecidableEq, Repr

/-- A sample build with the dummy target, used where a theorem is evaluated on
concrete data: the type bytes are `'*'`, `'$'`, `'+'`, `'!'`, the attribute
identifiers lie between 1 and 8, the note types are 256 and 257 as in the
annobin header; the other values are samples. -/
def Build.standard : Build :=
  { GNU_BUILD_ATTRIBUTE_TYPE_NUMERIC := 42
    GNU_BUILD_ATTRIBUTE_TYPE_STRING := 36
    GNU_BUILD_ATTRIBUTE_TYPE_BOOL_TRUE := 43
    GNU_BUILD_ATTRIBUTE_TYPE_BOOL_FALSE := 33
    GNU_BUILD_ATTRIBUTE_VERSION := 1
    GNU_BUILD_ATTRIBUTE_STACK_PROT := 2
    GNU_BUILD_ATTRIBUTE_STACK_SIZE := 4
    GNU_BUILD_ATTRIBUTE_TOOL := 5
    GNU_BUILD_ATTRIBUTE_ABI := 6
    GNU_BUILD_ATTRIBUTE_PIC := 7
    GNU_BUILD_ATTRIBUTE_SHORT_ENUM := 8
    NT_GNU_BUILD_ATTRIBUTE_OPEN := 256
    NT_GNU_BUILD_ATTRIBUTE_FUNC := 257
    NT_GNU_PROPERTY_TYPE_0 := 5
    GNU_BUILD_ATTRS_SECTION_NAME := ".gnu.build.attributes"
    NOTE_GNU_PROPERTY_SECTION_NAME := ".note.gnu.property"
    SHF_GNU_BUILD_NOTE := 1048576
    GNU_PROPERTY_STACK_SIZE := 1
    VMS_AND_DWARF2_DEBUG := 6
    DINFO_LEVEL_VERBOSE := 3
    OPTION_MASK_ISA_SSE := 2 ^ 50
    OPTION_MASK_ISA_SSE2 := 2 ^ 51
    OPTION_MASK_ISA_SSE3 := 2 ^ 52
    OPTION_MASK_ISA_SSE4_1 := 2 ^ 53
    OPTION_MASK_ISA_SSE4_2 := 2 ^ 54
    OPTION_MASK_ISA_AVX := 2 ^ 8
    OPTION_MASK_ISA_AVX2 := 2 ^ 9
    OPTION_MASK_ISA_AVX512F := some (2 ^ 15)
    OPTION_MASK_ISA_AVX512CD := 2 ^ 17
    OPTION_MASK_ISA_AVX512ER := 2 ^ 19
    OPTION_MASK_ISA_AVX512PF := 2 ^ 18
    OPTION_MASK_ISA_AVX512VL := 2 ^ 22
    OPTION_MASK_ISA_AVX512DQ := 2 ^ 20
    OPTION_MASK_ISA_AVX512BW := 2 ^ 21
    stack_clash_defined := false
    OLD_GAS := false
    target := Target.dummy }

/-- The `opt_index` of a saved command-line option, as far as the plugin
distinguishes them. -/
inductive OptIndex
  | OPT_Wall
  | OPT_D
  | OPT_fpreprocessed
  | other (code : Nat)
deriving DecidableEq, Repr

/-- One entry of `save_decoded_options`. -/
structure DecodedOption where
  opt_index : OptIndex
  arg : Option (List Nat)
deriving DecidableEq, Repr

/-- What the host compiler supplies when one of the plugin's callbacks runs. -/
structure Env where
  asm_out_file : Bool
  stack_fill : Nat
  main_input_filename : Option (List Nat)
  tv_sec : Nat
  tv_usec : Nat
  POINTER_SIZE : Nat
  flag_stack_protect : Int
  flag_stack_clash_protection : Int
  flag_pie : Int
  flag_pic : Int
  flag_short_enums : Int
  write_symbols : Nat
  use_gnu_debug_info_extensions : Bool
  debug_info_level : Nat
  dwarf_version : Int
  optimize : Int
  optimize_size : Int
  optimize_fast : Int
  optimize_debug : Int
  save_decoded_options : List DecodedOption
  current_function_name : Option (List Nat)
  function_asm_name : Option (List Nat)
  current_function_static_stack_size : Int
  ix86_isa_flags : Int
  aarch64_tls_dialect : Int
  rs6000_tls_size : Int
deriving DecidableEq, Repr

/-- A compilation for a 64-bit target with every flag off, no saved option, and
the function `f` being compiled; unwritten memory holds the byte `0xAA`. -/
def Env.plain : Env :=
  { asm_out_file := true
    stack_fill := 170
    main_input_filename := some [104, 101, 108, 108, 111, 46, 99]
    tv_sec := 0
    tv_usec := 0
    POINTER_SIZE := 64
    flag_stack_protect := 0
    flag_stack_clash_protection := 0
    flag_pie := 0
    flag_pic := 0
    flag_short_enums := 0
    write_symbols := 0
    use_gnu_debug_info_extensions := false
    debug_info_level := 0
    dwarf_version := 4
    optimize := 0
    optimize_size := 0
    optimize_fast := 0
    optimize_debug := 0
    save_decoded_options := []
    current_function_name := some [102]
    function_asm_name := some [102]
    current_function_static_stack_size := 0
    ix86_isa_flags := 0
    aarch64_tls_dialect := 0
    rs6000_tls_size := 0 }

/-! ## The output stream and the plugin state -/

/-- One line of assembler text. The comment that the source prints after a
directive is kept where it carries information. -/
inductive Asm
  | pushsection (sect : String) (flags : String)
  | popsection
  | balign (n : Nat)
  | dc_l (value : Nat) (comment : String)
  | dc_l_sym (sym : List Nat)
  | quad_sym (sym : List Nat)
  | asciz (str : List Nat) (comment : String)
  | dc_b (bytes : List Nat) (comment : String)
  | label (sym : List Nat)
  | global (sym : List Nat)
  | type_object (sym : List Nat)
  | size (sym : List Nat) (endsym : List Nat)
  | blank
deriving DecidableEq, Repr

/-- The arguments of one call of `annobin_output_note`. -/
structure NoteArgs where
  name : Option (List Nat)
  namesz : Nat
  name_is_string : Bool
  name_description : String
  desc1 : Option (List Nat)
  desc2 : Option (List Nat)
  descsz : Nat
  desc_is_string : Bool
  type : Nat
deriving DecidableEq, Repr

/-- A piece of `asm_out_file`: either everything one call of
`annobin_output_note` printed (with the arguments of the call), or a line
printed directly by another function. -/
inductive Chunk
  | note (args : NoteArgs) (text : List Asm)
  | line (l : Asm)
deriving DecidableEq, Repr

/-- The lines of a chunk. -/
def Chunk.text : Chunk → List Asm
  | Chunk.note _ t => t
  | Chunk.line l => [l]

/-- One message printed by `annobin_inform`: its level, the file name printed
in front of it, and its format string (the arguments are not kept). -/
structure Diag where
  level : Nat
  file : Option (List Nat)
  format : String
deriving DecidableEq, Repr

/-- The file-scope variables of the plugin and of its target files, the flag
`flag_stack_usage_info` of the host (which the plugin sets), and the two
streams written so far. -/
structure State where
  enabled : Bool
  global_file_name_symbols : Bool
  annobin_enable_stack_size_notes : Bool
  annobin_total_static_stack_usage : Nat
  annobin_max_stack_size : Nat
  stack_threshold : Nat
  annobin_is_64bit : Bool
  annobin_enable_dynamic_notes : Bool
  annobin_enable_static_notes : Bool
  annobin_note_count : Nat
  global_GOWall_options : Nat
  global_stack_prot_option : Int
  global_stack_clash_option : Int
  global_pic_option : Int
  global_short_enums : Int
  compiler_version : Option (List Nat)
  verbose_level : Nat
  annobin_current_filename : Option (List Nat)
  annobin_current_endname : Option (List Nat)
  global_x86_isa : Nat
  min_x86_isa : Nat
  max_x86_isa : Nat
  saved_tls_dialect : Int
  saved_tls_size : Int
  flag_stack_usage_info : Bool
  asm_out : List Chunk
  stderr : List Diag
deriving DecidableEq, Repr

/-- `DEFAULT_THRESHOLD`. -/
def DEFAULT_THRESHOLD : Nat := 10240

/-- The initial values of the file-scope variables, with nothing written yet.
`compiler_version` is the string built by `plugin_init`. -/
def State.initial (compiler_version : Option (List Nat)) : State :=
  { enabled := true
    global_file_name_symbols := false
    annobin_enable_stack_size_notes := false
    annobin_total_static_stack_usage := 0
    annobin_max_stack_size := 0
    stack_threshold := DEFAULT_THRESHOLD
    annobin_is_64bit := false
    annobin_enable_dynamic_notes := true
    annobin_enable_static_notes := true
    annobin_note_count := 0
    global_GOWall_options := 0
    global_stack_prot_option := -1
    global_stack_clash_option := -1
    global_pic_option := -1
    global_short_enums := -1
    compiler_version := compiler_version
    verbose_level := 0
    annobin_current_filename := none
    annobin_current_endname := none
    global_x86_isa := 0
    min_x86_isa := 0
    max_x86_isa := 0
    saved_tls_dialect := -1
    saved_tls_size := 0
    flag_stack_usage_info := false
    asm_out := []
    stderr := [] }

/-! ## C library functions and conversions -/

/-- Conversion of an integer to `unsigned long`. -/
def toULong (x : Int) : Nat := (x % 18446744073709551616).toNat

/-- Conversion of an integer to `unsigned int`. -/
def toUInt (x : Int) : Nat := (x % 4294967296).toNat

/-- The bytes of an ASCII string literal. -/
def cstr (s : String) : List Nat := s.toList.map Char.toNat

/-- The C function `strlen` on a buffer: the number of bytes before the first NUL. -/
def strlen (buffer : List Nat) : Nat := (buffer.takeWhile (fun b => b != 0)).length

/-- The C function `sprintf`: the formatted bytes `out` and a terminating NUL are
stored at the start of `buffer`; the bytes behind them are kept. -/
def sprintf (buffer : List Nat) (out : List Nat) : List Nat :=
  out ++ 0 :: buffer.drop (out.length + 1)

/-- An automatic or freshly allocated array of `n` bytes that has not been
written yet. Its contents are indeterminate; `Env.stack_fill` supplies them. -/
def uninit (env : Env) (n : Nat) : List Nat := List.replicate n (env.stack_fill % 256)

/-- The function `lbasename` of libiberty (for a host whose directory separator
is `/`): the loop keeps the position behind the last separator seen. -/
def lbasename_loop (base : List Nat) : List Nat → List Nat
  | [] => base
  | c :: cs => if c = 47 then lbasename_loop cs cs else lbasename_loop base cs

/-- The part of a path behind its last `/`. -/
def lbasename (name : List Nat) : List Nat := lbasename_loop name name

/-- The test `ISDIGIT` of libiberty. -/
def ISDIGIT (c : Nat) : Bool := decide (48 ≤ c ∧ c ≤ 57)

/-- The test `ISALNUM` of libiberty: an ASCII letter or digit. -/
def ISALNUM (c : Nat) : Bool :=
  decide ((48 ≤ c ∧ c ≤ 57) ∨ (65 ≤ c ∧ c ≤ 90) ∨ (97 ≤ c ∧ c ≤ 122))

/-- A hexadecimal digit in lower case. -/
def hex_digit (d : Nat) : Nat := if d < 10 then 48 + d else 87 + d

/-- The `k` lowest hexadecimal digits of `n`, most significant first. -/
def hex_digits : Nat → Nat → List Nat
  | 0, _ => []
  | k + 1, n => hex_digits k (n / 16) ++ [hex_digit (n % 16)]

/-- The conversion `%8.8lx`: a `long` in hexadecimal with at least 8 digits. -/
def hex8 (n : Nat) : List Nat :=
  let d := hex_digits 16 (n % 18446744073709551616)
  (d.take 8).dropWhile (fun c => c == 48) ++ d.drop 8

/-! ## `init_annobin_current_filename` and `annobin_inform` -/

/-- The body of the loop that turns a file name into a symbol name: the
character `c` at index `i`. -/
def sanitize_char (i : Nat) (c : Nat) : Nat :=
  if !ISALNUM c && c != 95 && c != 46 && c != 36 then 95
  else if i == 0 && ISDIGIT c then 95
  else c

/-- The loop over all characters of the name; `i` is the index of the first
character of the list. -/
def sanitize_from (i : Nat) : List Nat → List Nat
  | [] => []
  | c :: cs => sanitize_char i c :: sanitize_from (i + 1) cs

/-- The function `init_annobin_current_filename`. The call `gettimeofday
(&tv, NULL)` is taken to succeed, as POSIX specifies; it yields `env.tv_sec`
and `env.tv_usec`. -/
def init_annobin_current_filename (env : Env) (st : State) : State :=
  if st.annobin_current_filename.isSome || env.main_input_filename.isNone then st
  else
    let name := lbasename (env.main_input_filename.getD [])
    let name := if name.length == 0 then cstr "piped_input" else name
    let name := sanitize_from 0 name
    let name :=
      if st.global_file_name_symbols then
        name ++ [95] ++ hex8 env.tv_sec ++ [95] ++ hex8 env.tv_usec
      else name
    { st with
      annobin_current_filename := some name
      annobin_current_endname := some (name ++ cstr "_end") }

/-- The function `annobin_inform`: the message is printed unless its level is
positive and above `verbose_level`; printing first derives the file name if
that has not happened yet. -/
def annobin_inform (env : Env) (st : State) (level : Nat) (format : String) : State :=
  if level > 0 ∧ level > st.verbose_level then st
  else
    let st := if st.annobin_current_filename.isNone then init_annobin_current_filename env st
              else st
    { st with stderr := st.stderr ++ [⟨level, st.annobin_current_filename, format⟩] }

/-- A call of `annobin_inform` at level 0 guarded by a condition. -/
def inform_if (c : Bool) (env : Env) (st : State) (format : String) : State :=
  if c then annobin_inform env st 0 format else st

/-! ## `annobin_output_note` -/

/-- The loop `while (sz % 4) { sz++; print a zero byte }`: the zero bytes it
prints. Four rounds of fuel are more than the loop can use. -/
def padding_loop : Nat → Nat → List Nat
  | 0, _ => []
  | fuel + 1, sz => if sz % 4 ≠ 0 then 0 :: padding_loop fuel (sz + 1) else []

/-- The `.dc.b` line holding the zero bytes that bring `sz` up to a multiple of
4, printed only if `sz` is not one. -/
def padding (sz : Nat) : List Asm :=
  if sz % 4 ≠ 0 then [Asm.dc_b (padding_loop 4 sz) "Padding"] else []

/-- The lines printed for a description that is not a symbol name: one `.dc.b`
line per 8 bytes. With no byte at all a bare `.dc.b` is printed. -/
def raw_desc_lines : Nat → List Nat → List Asm
  | 0, _ => [Asm.dc_b [] ""]
  | fuel + 1, bytes =>
    if bytes.length ≤ 8 then [Asm.dc_b bytes "description"]
    else Asm.dc_b (bytes.take 8) "description" :: raw_desc_lines fuel (bytes.drop 8)

/-- A reference to a symbol of the size of an address. -/
def sym_ref (is64 : Bool) (sym : List Nat) : Asm :=
  if is64 then Asm.quad_sym sym else Asm.dc_l_sym sym

/-- The lines that `annobin_output_note` prints for the arguments `a`. -/
def note_text (K : Build) (is64 : Bool) (a : NoteArgs) : List Asm :=
  let wrapped : Bool :=
    a.type == K.NT_GNU_BUILD_ATTRIBUTE_FUNC || a.type == K.NT_GNU_BUILD_ATTRIBUTE_OPEN
  (if wrapped then [Asm.pushsection K.GNU_BUILD_ATTRS_SECTION_NAME ""] else [])
  ++ (match a.name with
      | none => [Asm.dc_l 0 "no name"]
      | some _ =>
        if a.name_is_string then [Asm.dc_l a.namesz "namesz = strlen (name)"]
        else [Asm.dc_l a.namesz "size of name"])
  ++ (match a.desc1 with
      | none => [Asm.dc_l 0 "no description"]
      | some _ =>
        if a.desc_is_string then
          [Asm.dc_l a.descsz
            (if a.desc2.isNone then "descsz = sizeof (address)"
             else "descsz = sizeof (addresses)")]
        else [Asm.dc_l a.descsz "size of description"])
  ++ [Asm.dc_l a.type
        (if a.type == K.NT_GNU_BUILD_ATTRIBUTE_OPEN then "type = OPEN"
         else if a.type == K.NT_GNU_BUILD_ATTRIBUTE_FUNC then "type = FUNC"
         else if a.type == K.NT_GNU_PROPERTY_TYPE_0 then "type = PROPERTY_TYPE_0"
         else "type = *UNKNOWN*")]
  ++ (match a.name with
      | none => []
      | some name =>
        (if a.name_is_string then
           Asm.asciz (name.takeWhile (fun b => b != 0)) a.name_description
         else Asm.dc_b (name.take a.namesz) a.name_description)
        :: padding a.namesz)
  ++ (match a.desc1 with
      | none => []
      | some desc1 =>
        if a.desc_is_string then
          sym_ref is64 desc1 ::
            (match a.desc2 with
             | none => []
             | some desc2 => [sym_ref is64 desc2])
        else raw_desc_lines a.descsz (desc1.take a.descsz) ++ padding a.descsz)
  ++ (if wrapped then [Asm.popsection] else [])
  ++ [Asm.blank]

/-- The checks of `annobin_output_note` on a description that is a symbol name
(the `switch` on `descsz`). -/
def check_descsz (env : Env) (st : State) (a : NoteArgs) : State :=
  if a.descsz = 0 then annobin_inform env st 0 "ICE: zero descsz with string description"
  else if a.descsz = 4 then
    let st := inform_if (st.annobin_is_64bit || a.desc2.isSome) env st "ICE: descz too small"
    inform_if a.desc1.isNone env st "ICE: descz too big"
  else if a.descsz = 8 then
    if st.annobin_is_64bit then inform_if a.desc2.isSome env st "ICE: descz too small"
    else inform_if (a.desc1.isNone || a.desc2.isNone) env st "ICE: descz too big"
  else if a.descsz = 16 then
    inform_if (!st.annobin_is_64bit || a.desc1.isNone || a.desc2.isNone) env st
      "ICE: descz too big"
  else
    annobin_inform env st 0 "ICE: description string size (%d) does not match address size"

/-- The messages that `annobin_output_note` reports for the arguments `a`. -/
def note_checks (env : Env) (st : State) (a : NoteArgs) : State :=
  let st :=
    match a.name with
    | none => inform_if (a.namesz != 0) env st "ICE: null name with non-zero size"
    | some name =>
      if a.name_is_string then
        inform_if (strlen name != (a.namesz + 4294967295) % 4294967296) env st
          "ICE: name string '%s' does not match name size %d"
      else st
  match a.desc1 with
  | none =>
    let st := inform_if (a.descsz != 0) env st "ICE: null desc1 with non-zero size"
    inform_if a.desc2.isSome env st "ICE: non-null desc2 with null desc1"
  | some _ =>
    if a.desc_is_string then check_descsz env st a
    else inform_if a.desc2.isSome env st
      "ICE: second description not empty for non-string description"

/-- The function `annobin_output_note`. Without an output file nothing happens;
otherwise the checks are made, the note is printed and `annobin_note_count` is
incremented. -/
def annobin_output_note (K : Build) (env : Env) (st : State) (a : NoteArgs) : State :=
  if !env.asm_out_file then st
  else
    let st := note_checks env st a
    { st with
      asm_out := st.asm_out ++ [Chunk.note a (note_text K st.annobin_is_64bit a)]
      annobin_note_count := (st.annobin_note_count + 1) % 4294967296 }

/-! ## The three encoders -/

/-- The conversion `%c` of `sprintf`: the argument as an `unsigned char`. -/
def fmt_c (x : Nat) : Nat := x % 256

/-- The conversion `%s` of `sprintf`: the bytes of the string up to its NUL. -/
def fmt_s (s : List Nat) : List Nat := s.takeWhile (fun b => b != 0)

/-- The expression that the three encoders pass as `descsz`:
`start == NULL ? 0 : (annobin_is_64bit ? (end == NULL ? 8 : 16) : (end == NULL ? 4 : 8))`. -/
def descsz_for (is64 : Bool) (start end_ : Option (List Nat)) : Nat :=
  if start.isNone then 0
  else if is64 then (if end_.isNone then 8 else 16)
  else (if end_.isNone then 4 else 8)

/-- The arguments with which `annobin_output_bool_note` calls
`annobin_output_note`. -/
def bool_note_args (K : Build) (env : Env) (is64 : Bool) (bool_type : Nat) (bool_value : Bool)
    (name_description : String) (start end_ : Option (List Nat)) (note_type : Nat) :
    NoteArgs :=
  let buffer := sprintf (uninit env 6)
    [71, 65,
     fmt_c (if bool_value then K.GNU_BUILD_ATTRIBUTE_TYPE_BOOL_TRUE
            else K.GNU_BUILD_ATTRIBUTE_TYPE_BOOL_FALSE),
     fmt_c bool_type]
  { name := some buffer
    namesz := strlen buffer + 1
    name_is_string := false
    name_description := name_description
    desc1 := start
    desc2 := end_
    descsz := descsz_for is64 start end_
    desc_is_string := true
    type := note_type }

/-- The function `annobin_output_bool_note`. -/
def annobin_output_bool_note (K : Build) (env : Env) (st : State) (bool_type : Nat)
    (bool_value : Bool) (name_description : String) (start end_ : Option (List Nat))
    (note_type : Nat) : State :=
  annobin_output_note K env st
    (bool_note_args K env st.annobin_is_64bit bool_type bool_value name_description
      start end_ note_type)

/-- The arguments with which `annobin_output_string_note` calls
`annobin_output_note`. The length is held in an `unsigned int`. -/
def string_note_args (K : Build) (env : Env) (is64 : Bool) (string_type : Nat)
    (string : List Nat) (name_description : String) (start end_ : Option (List Nat))
    (note_type : Nat) : NoteArgs :=
  let len := strlen string % 4294967296
  let buffer := sprintf (uninit env ((len + 5) % 4294967296))
    ([71, 65, fmt_c K.GNU_BUILD_ATTRIBUTE_TYPE_STRING, fmt_c string_type] ++ fmt_s string)
  { name := some buffer
    namesz := (len + 5) % 4294967296
    name_is_string := true
    name_description := name_description
    desc1 := start
    desc2 := end_
    descsz := descsz_for is64 start end_
    desc_is_string := true
    type := note_type }

/-- The function `annobin_output_string_note`. -/
def annobin_output_string_note (K : Build) (env : Env) (st : State) (string_type : Nat)
    (string : List Nat) (name_description : String) (start end_ : Option (List Nat))
    (note_type : Nat) : State :=
  annobin_output_note K env st
    (string_note_args K env st.annobin_is_64bit string_type string name_description
      start end_ note_type)

/-- The loop `for (; i < sizeof buffer; i++) { buffer[i] = value & 0xff;
if (value == 0) break; value >>= 8; }`, with `fuel = sizeof buffer - i`. It
yields the buffer, `i` and `value` as they are behind the loop. -/
def numeric_loop : Nat → List Nat → Nat → Nat → List Nat × Nat × Nat
  | 0, buffer, i, value => (buffer, i, value)
  | fuel + 1, buffer, i, value =>
    let buffer := buffer.set i (value % 256)
    if value = 0 then (buffer, i, value)
    else numeric_loop fuel buffer (i + 1) (value / 256)

/-- The first part of `annobin_output_numeric_note`: the buffer, `i` and
`value` as they are when the loop has been left. -/
def numeric_note_encode (K : Build) (env : Env) (numeric_type : Nat) (value : Nat) :
    List Nat × Nat × Nat :=
  let buffer := sprintf (uninit env 32)
    [71, 65, fmt_c K.GNU_BUILD_ATTRIBUTE_TYPE_NUMERIC, fmt_c numeric_type]
  if value = 0 then ((buffer.set 5 0).set 4 0, 5, value)
  else numeric_loop 28 buffer 4 value

/-- The arguments with which `annobin_output_numeric_note` calls
`annobin_output_note`. -/
def numeric_note_args (K : Build) (env : Env) (is64 : Bool) (numeric_type : Nat)
    (value : Nat) (name_description : String) (start end_ : Option (List Nat))
    (note_type : Nat) : NoteArgs :=
  let r := numeric_note_encode K env numeric_type value
  { name := some r.1
    namesz := r.2.1 + 1
    name_is_string := false
    name_description := name_description
    desc1 := start
    desc2 := end_
    descsz := descsz_for is64 start end_
    desc_is_string := true
    type := note_type }

/-- The function `annobin_output_numeric_note`; `value` is an `unsigned long`. -/
def annobin_output_numeric_note (K : Build) (env : Env) (st : State) (numeric_type : Nat)
    (value : Nat) (name_description : String) (start end_ : Option (List Nat))
    (note_type : Nat) : State :=
  let r := numeric_note_encode K env numeric_type value
  let st := inform_if (r.2.1 > 12) env st
    "ICE: Numeric value for %s too big to fit into 8 bytes\n"
  let st := inform_if (r.2.2 != 0) env st
    "ICE: Unable to record numeric value in note %s\n"
  annobin_output_note K env st
    (numeric_note_args K env st.annobin_is_64bit numeric_type value name_description
      start end_ note_type)

/-! ## Values derived from the compiler's flags -/

/-- The function `compute_pic_option`. -/
def compute_pic_option (env : Env) : Int :=
  if env.flag_pie > 1 then 4
  else if env.flag_pie ≠ 0 then 3
  else if env.flag_pic > 1 then 2
  else if env.flag_pic ≠ 0 then 1
  else 0

/-- The loop of `compute_GOWall_options` over the saved options: whether one of
them is `-Wall`. -/
def wall_loop : List DecodedOption → Bool
  | [] => false
  | o :: os => if o.opt_index = OptIndex.OPT_Wall then true else wall_loop os

/-- The value that `compute_GOWall_options` returns; `val` is an `unsigned int`.
Where the source reports a message instead of setting bits, `val` is kept. -/
def GOWall_value (K : Build) (env : Env) : Nat :=
  let val := if env.write_symbols > K.VMS_AND_DWARF2_DEBUG then 0
             else env.write_symbols % 4294967296
  let val := if env.use_gnu_debug_info_extensions then val ||| (1 <<< 3) else val
  let val := if env.debug_info_level > K.DINFO_LEVEL_VERBOSE then val
             else val ||| toUInt (env.debug_info_level * 16)
  let val := if env.dwarf_version < 0 ∨ env.dwarf_version > 7 then val
             else val ||| toUInt (env.dwarf_version * 64)
  let val := if env.optimize > 3 then val ||| (3 <<< 9) else val ||| toUInt (env.optimize * 512)
  let val := if env.optimize_size ≠ 0 then val ||| (1 <<< 11) else val
  let val := if env.optimize_fast ≠ 0 then val ||| (1 <<< 12) else val
  let val := if env.optimize_debug ≠ 0 then val ||| (1 <<< 13) else val
  let val := if wall_loop env.save_decoded_options then val ||| (1 <<< 14) else val
  val

/-- The messages that `compute_GOWall_options` reports, in the order of its
tests. -/
def GOWall_checks (K : Build) (env : Env) (st : State) : State :=
  let st := inform_if (decide (env.write_symbols > K.VMS_AND_DWARF2_DEBUG)) env st
    "ICE: unknown debug info type %d\n"
  let st := inform_if (decide (env.debug_info_level > K.DINFO_LEVEL_VERBOSE)) env st
    "ICE: unknown debug info level %d\n"
  inform_if (decide (env.dwarf_version < 0 ∨ env.dwarf_version > 7)) env st
    "ICE: unknown dwarf version level %d\n"

/-- The function `compute_GOWall_options`: the packed word, and the state
behind the messages it may report. -/
def compute_GOWall_options (K : Build) (env : Env) (st : State) : Nat × State :=
  (GOWall_value K env, GOWall_checks K env st)

/-- The arguments with which `record_GOW_settings` calls `annobin_output_note`. -/
def GOW_note_args (K : Build) (env : Env) (is64 : Bool) (gow : Nat) (is_local : Bool)
    (aname aname_end : Option (List Nat)) : NoteArgs :=
  let buffer := sprintf (uninit env 128)
    [71, 65, fmt_c K.GNU_BUILD_ATTRIBUTE_TYPE_NUMERIC, 71, 79, 87]
  let r := numeric_loop 121 buffer 7 gow
  if is_local then
    { name := some r.1
      namesz := r.2.1 + 1
      name_is_string := false
      name_description := "numeric: -g/-O/-Wall"
      desc1 := aname
      desc2 := aname_end
      descsz := if is64 then 16 else 8
      desc_is_string := true
      type := K.NT_GNU_BUILD_ATTRIBUTE_FUNC }
  else
    { name := some r.1
      namesz := r.2.1 + 1
      name_is_string := false
      name_description := "numeric: -g/-O/-Wall"
      desc1 := none
      desc2 := none
      descsz := 0
      desc_is_string := false
      type := K.NT_GNU_BUILD_ATTRIBUTE_OPEN }

/-- The function `record_GOW_settings`. -/
def record_GOW_settings (K : Build) (env : Env) (st : State) (gow : Nat) (is_local : Bool)
    (aname aname_end : Option (List Nat)) : State :=
  let st := annobin_inform env st 1
    (if is_local then "Record a change in -g/-O/-Wall status for %s"
     else "Record status of -g/-O/-Wall")
  annobin_output_note K env st (GOW_note_args K env st.annobin_is_64bit gow is_local aname aname_end)

/-- The function `record_stack_clash_note` (compiled only when the host defines
`flag_stack_clash_protection`). -/
def record_stack_clash_note (K : Build) (env : Env) (st : State)
    (start end_ : Option (List Nat)) (type : Nat) : State :=
  let out : List Nat :=
    [71, 65,
     fmt_c (if env.flag_stack_clash_protection ≠ 0 then K.GNU_BUILD_ATTRIBUTE_TYPE_BOOL_TRUE
            else K.GNU_BUILD_ATTRIBUTE_TYPE_BOOL_FALSE)] ++ cstr "stack_clash"
  let buffer := sprintf (uninit env 128) out
  let len := out.length
  annobin_output_note K env st
    { name := some buffer
      namesz := len + 1
      name_is_string := true
      name_description := "bool: -fstack-clash-protection status"
      desc1 := start
      desc2 := end_
      descsz := descsz_for st.annobin_is_64bit start end_
      desc_is_string := true
      type := type }

/-! ## The target files -/

/-- The function `annobin_record_global_target_notes` of the target file in use. -/
def annobin_record_global_target_notes (K : Build) (env : Env) (st : State) : State :=
  match K.target with
  | Target.dummy => st
  | Target.x86_64 =>
    let isa := toULong env.ix86_isa_flags
    let st := { st with min_x86_isa := isa, max_x86_isa := isa, global_x86_isa := isa }
    let st := annobin_output_numeric_note K env st K.GNU_BUILD_ATTRIBUTE_ABI
      st.global_x86_isa "numeric: ABI" none none K.NT_GNU_BUILD_ATTRIBUTE_OPEN
    annobin_inform env st 1 "Record global isa of %lx"
  | Target.aarch64 =>
    let st := inform_if (!st.annobin_is_64bit) env st "ICE: Should be 64-bit target"
    let st := { st with saved_tls_dialect := env.aarch64_tls_dialect }
    let st := annobin_output_numeric_note K env st K.GNU_BUILD_ATTRIBUTE_ABI
      (toULong st.saved_tls_dialect) "numeric: ABI: TLS dialect" none none
      K.NT_GNU_BUILD_ATTRIBUTE_OPEN
    annobin_inform env st 1 "Recording global TLS dialect of %d"
  | Target.powerpc =>
    let st := inform_if (!st.annobin_is_64bit) env st "ICE: Should be 64-bit target"
    let st := { st with saved_tls_size := env.rs6000_tls_size }
    let st := annobin_output_numeric_note K env st K.GNU_BUILD_ATTRIBUTE_ABI
      (toULong st.saved_tls_size) "numeric: ABI: TLS size" none none
      K.NT_GNU_BUILD_ATTRIBUTE_OPEN
    annobin_inform env st 1 "Recording global TLS size of %d"

/-- The function `annobin_target_specific_function_notes` of the target file in
use. -/
def annobin_target_specific_function_notes (K : Build) (env : Env) (st : State)
    (aname aname_end : Option (List Nat)) : State :=
  match K.target with
  | Target.dummy => st
  | Target.x86_64 =>
    let isa := toULong env.ix86_isa_flags
    if isa ≠ st.global_x86_isa then
      let st := annobin_inform env st 1 "ISA value has changed from %lx to %lx for %s"
      let st := annobin_output_numeric_note K env st K.GNU_BUILD_ATTRIBUTE_ABI isa
        "numeric: ABI" aname aname_end K.NT_GNU_BUILD_ATTRIBUTE_FUNC
      let st := if isa < st.min_x86_isa then { st with min_x86_isa := isa } else st
      if isa > st.max_x86_isa then { st with max_x86_isa := isa } else st
    else st
  | Target.aarch64 =>
    if st.saved_tls_dialect = env.aarch64_tls_dialect then st
    else
      let st := annobin_inform env st 1 "TLS dialect has changed from %d to %d for %s"
      annobin_output_numeric_note K env st K.GNU_BUILD_ATTRIBUTE_ABI
        (toULong env.aarch64_tls_dialect) "numeric: ABI: TLS dialect" aname aname_end
        K.NT_GNU_BUILD_ATTRIBUTE_FUNC
  | Target.powerpc =>
    if st.saved_tls_size = env.rs6000_tls_size then st
    else
      let st := annobin_inform env st 1 "TLS size has changed from %d to %d for %s"
      annobin_output_numeric_note K env st K.GNU_BUILD_ATTRIBUTE_ABI
        (toULong env.rs6000_tls_size) "numeric: ABI: TLS size" aname aname_end
        K.NT_GNU_BUILD_ATTRIBUTE_FUNC

/-! ## `annobin_create_function_notes` -/

/-- The state together with the local variables `aname` and `aname_end` of
`annobin_create_function_notes`. -/
structure Locals where
  st : State
  aname : Option (List Nat)
  aname_end : Option (List Nat)
deriving DecidableEq, Repr

/-- The statement `if (aname != NULL) aname = aname_end = NULL;`. -/
def Locals.clear (l : Locals) : Locals :=
  if l.aname.isSome then { l with aname := none, aname_end := none } else l

/-- The block of `annobin_create_function_notes` for the stack protector. -/
def stack_prot_block (K : Build) (env : Env) (l : Locals) : Locals :=
  if l.st.global_stack_prot_option ≠ env.flag_stack_protect then
    let st := annobin_inform env l.st 1
      "Recording change in stack protection status for %s (from %d to %d)"
    let st := annobin_output_numeric_note K env st K.GNU_BUILD_ATTRIBUTE_STACK_PROT
      (toULong env.flag_stack_protect) "numeric: -fstack-protector status"
      l.aname l.aname_end K.NT_GNU_BUILD_ATTRIBUTE_FUNC
    Locals.clear { l with st := st }
  else l

/-- The block for stack clash protection (compiled only when the host defines
`flag_stack_clash_protection`). -/
def stack_clash_block (K : Build) (env : Env) (l : Locals) : Locals :=
  if K.stack_clash_defined = true ∧
      l.st.global_stack_clash_option ≠ env.flag_stack_clash_protection then
    let st := annobin_inform env l.st 1
      "Recording change in stack clash protection status for %s (from %d to %d)"
    let st := record_stack_clash_note K env st l.aname l.aname_end
      K.NT_GNU_BUILD_ATTRIBUTE_FUNC
    Locals.clear { l with st := st }
  else l

/-- The block for the PIC status. -/
def pic_block (K : Build) (env : Env) (l : Locals) : Locals :=
  if l.st.global_pic_option ≠ compute_pic_option env then
    let st := annobin_inform env l.st 1 "Recording change in PIC status for %s"
    let st := annobin_output_numeric_note K env st K.GNU_BUILD_ATTRIBUTE_PIC
      (toULong (compute_pic_option env)) "numeric: pic type"
      l.aname l.aname_end K.NT_GNU_BUILD_ATTRIBUTE_FUNC
    Locals.clear { l with st := st }
  else l

/-- The block for the packed word of the `-g`, `-O` and `-Wall` settings; `compute_GOWall_options` is
called for the comparison and again for the argument. -/
def GOW_block (K : Build) (env : Env) (l : Locals) : Locals :=
  let r := compute_GOWall_options K env l.st
  if l.st.global_GOWall_options ≠ r.1 then
    let r := compute_GOWall_options K env r.2
    let st := record_GOW_settings K env r.2 r.1 true l.aname l.aname_end
    Locals.clear { l with st := st }
  else { l with st := r.2 }

/-- The block for the size of enumerations. -/
def short_enums_block (K : Build) (env : Env) (l : Locals) : Locals :=
  if l.st.global_short_enums ≠ env.flag_short_enums then
    let st := annobin_inform env l.st 1 "Recording change in enum size for %s"
    let st := annobin_output_bool_note K env st K.GNU_BUILD_ATTRIBUTE_SHORT_ENUM
      (decide (env.flag_short_enums ≠ 0))
      (if env.flag_short_enums ≠ 0 then "bool: short-enums: on" else "bool: short-enums: off")
      l.aname l.aname_end K.NT_GNU_BUILD_ATTRIBUTE_FUNC
    Locals.clear { l with st := st }
  else l

/-- The block for the stack usage: the note for a size above the threshold, the
running total and the running maximum. -/
def stack_size_block (K : Build) (env : Env) (l : Locals) : Locals :=
  if l.st.annobin_enable_stack_size_notes && l.st.flag_stack_usage_info then
    let size := toULong env.current_function_static_stack_size
    let l :=
      if size > l.st.stack_threshold then
        let st := annobin_inform env l.st 1 "Recording stack usage of %lu for %s"
        let st := annobin_output_numeric_note K env st K.GNU_BUILD_ATTRIBUTE_STACK_SIZE
          size "numeric: stack-size" l.aname l.aname_end K.NT_GNU_BUILD_ATTRIBUTE_FUNC
        Locals.clear { l with st := st }
      else l
    let st := { l.st with
      annobin_total_static_stack_usage :=
        (l.st.annobin_total_static_stack_usage + size) % 18446744073709551616 }
    let st :=
      if size > st.annobin_max_stack_size then { st with annobin_max_stack_size := size }
      else st
    { l with st := st }
  else l

/-- The function `annobin_create_function_notes`, the callback run behind the
passes over one function. -/
def annobin_create_function_notes (K : Build) (env : Env) (st : State) : State :=
  if !st.annobin_enable_static_notes then st
  else if !env.asm_out_file then st
  else
    match env.current_function_name, env.function_asm_name with
    | none, none => annobin_inform env st 0 "ICE: function name not available"
    | cname, aname =>
      let aname : List Nat := (aname.orElse (fun _ => cname)).getD []
      let aname_end := aname ++ cstr "_end"
      let count := st.annobin_note_count
      let st := annobin_target_specific_function_notes K env st (some aname) (some aname_end)
      let l : Locals :=
        if count > st.annobin_note_count then ⟨st, none, none⟩
        else ⟨st, some aname, some aname_end⟩
      let l := stack_prot_block K env l
      let l := stack_clash_block K env l
      let l := pic_block K env l
      let l := GOW_block K env l
      let l := short_enums_block K env l
      let l := stack_size_block K env l
      if l.st.annobin_note_count > count then
        { l.st with asm_out := l.st.asm_out ++ [Chunk.line (Asm.label aname_end)] }
      else l.st

/-! ## `annobin_create_global_notes` -/

/-- The digits read by `atoi`: the value of the leading decimal digits of the
string, continuing from `acc`. -/
def atoi_digits (acc : Nat) : List Nat → Nat
  | [] => acc
  | c :: cs => if 48 ≤ c ∧ c ≤ 57 then atoi_digits (acc * 10 + (c - 48)) cs else acc

/-- The C function `strtol (s, NULL, 10)`: white space, an optional sign,
decimal digits; a number that does not fit a `long` gives `LONG_MAX` or
`LONG_MIN`. -/
def strtol (s : List Nat) : Int :=
  let s := s.dropWhile (fun c => c == 32 || (9 ≤ c && c ≤ 13))
  let v : Int :=
    match s with
    | 45 :: cs => - (atoi_digits 0 cs : Int)
    | 43 :: cs => (atoi_digits 0 cs : Int)
    | _ => (atoi_digits 0 s : Int)
  if v > 9223372036854775807 then 9223372036854775807
  else if v < -9223372036854775808 then -9223372036854775808
  else v

/-- Conversion of an integer to `int`. -/
def toInt (x : Int) : Int := (x + 2147483648) % 4294967296 - 2147483648

/-- The C function `atoi`, whose result the source stores in an `int`: as in the
C library of the host it is `(int) strtol (s, NULL, 10)`, so that a number
outside the range of `int` is reduced modulo 2^32. -/
def atoi (s : List Nat) : Int := toInt (strtol s)

/-- The function `record_fortify_level`. -/
def record_fortify_level (K : Build) (env : Env) (st : State) (level : Int) : State :=
  let out : List Nat := [71, 65, fmt_c K.GNU_BUILD_ATTRIBUTE_TYPE_NUMERIC] ++ cstr "FORTIFY"
  let buffer := sprintf (uninit env 128) out
  let len := out.length
  let buffer := buffer.set (len + 1) (level % 256).toNat
  let buffer := buffer.set (len + 2) 0
  let st := annobin_output_note K env st
    { name := some buffer
      namesz := len + 2 + 1
      name_is_string := false
      name_description := "FORTIFY SOURCE level"
      desc1 := none
      desc2 := none
      descsz := 0
      desc_is_string := false
      type := K.NT_GNU_BUILD_ATTRIBUTE_OPEN }
  annobin_inform env st 1 "Record a FORTIFY SOURCE level of %d"

/-- The function `record_glibcxx_assertions`. -/
def record_glibcxx_assertions (K : Build) (env : Env) (st : State) (is_on : Bool) : State :=
  let out : List Nat :=
    [71, 65,
     fmt_c (if is_on then K.GNU_BUILD_ATTRIBUTE_TYPE_BOOL_TRUE
            else K.GNU_BUILD_ATTRIBUTE_TYPE_BOOL_FALSE)] ++ cstr "GLIBCXX_ASSERTIONS"
  let buffer := sprintf (uninit env 128) out
  let len := out.length
  let st := annobin_output_note K env st
    { name := some buffer
      namesz := len + 1
      name_is_string := false
      name_description := "_GLIBCXX_ASSERTIONS defined"
      desc1 := none
      desc2 := none
      descsz := 0
      desc_is_string := false
      type := K.NT_GNU_BUILD_ATTRIBUTE_OPEN }
  annobin_inform env st 1 "Record a _GLIBCXX_ASSERTIONS as %s"

/-- The state of the loop over the saved options in
`annobin_create_global_notes`. -/
structure Scan where
  st : State
  fortify_level_recorded : Bool
  glibcxx_assertions_recorded : Bool
deriving DecidableEq, Repr

/-- The loop `for (i = save_decoded_options_count; i--;)`; the list holds the
options still to be visited, the last option of the command line first. -/
def scan_options (K : Build) (env : Env) : List DecodedOption → Scan → Scan
  | [], s => s
  | o :: os, s =>
    if o.opt_index = OptIndex.OPT_D then
      match o.arg with
      | none => scan_options K env os s
      | some arg =>
        if arg.take 16 = cstr "_FORTIFY_SOURCE=" then
          let level := atoi (arg.drop 16)
          let bad : Bool := decide (level < 0 ∨ level > 3)
          let st := inform_if bad env s.st "Unexpected value for FORIFY SOURCE: %s"
          let level := if bad then 0 else level
          let s :=
            if !s.fortify_level_recorded then
              { s with st := record_fortify_level K env st level, fortify_level_recorded := true }
            else { s with st := st }
          scan_options K env os s
        else if arg.take 19 = cstr "_GLIBCXX_ASSERTIONS" then
          let s :=
            if !s.glibcxx_assertions_recorded then
              { s with
                st := record_glibcxx_assertions K env s.st true
                glibcxx_assertions_recorded := true }
            else s
          scan_options K env os s
        else scan_options K env os s
    else if o.opt_index = OptIndex.OPT_fpreprocessed then
      let st := record_fortify_level K env s.st (-1)
      let st := record_glibcxx_assertions K env st false
      { st := st, fortify_level_recorded := true, glibcxx_assertions_recorded := true }
    else scan_options K env os s

/-- `SPEC_VERSION`. -/
def SPEC_VERSION : Nat := 3

/-- The initial value of `annobin_version`, which nothing changes. -/
def annobin_version : Nat := 3

/-- The line with which `annobin_create_global_notes` opens the notes section;
the flags are kept as the text of the source, the number is not printed. -/
def open_section_line (K : Build) : Asm :=
  if K.OLD_GAS then Asm.pushsection K.GNU_BUILD_ATTRS_SECTION_NAME "\"\", %note"
  else Asm.pushsection K.GNU_BUILD_ATTRS_SECTION_NAME "\"SHF_GNU_BUILD_NOTE\", %note"

/-- The statement `switch (POINTER_SIZE)` of `annobin_create_global_notes`. -/
def select_word_size (env : Env) (st : State) : State :=
  if env.POINTER_SIZE = 16 ∨ env.POINTER_SIZE = 32 then { st with annobin_is_64bit := false }
  else if env.POINTER_SIZE = 64 then { st with annobin_is_64bit := true }
  else annobin_inform env st 0 "Unknown target pointer size: %d"

/-- The statements of `annobin_create_global_notes` that set
`flag_stack_usage_info` and save the values of the unit in `global_...`. -/
def save_unit_values (K : Build) (env : Env) (st : State) : State :=
  let st :=
    if st.annobin_enable_stack_size_notes then { st with flag_stack_usage_info := true }
    else st
  let st := { st with global_stack_prot_option := env.flag_stack_protect }
  let st :=
    if K.stack_clash_defined then
      { st with global_stack_clash_option := env.flag_stack_clash_protection }
    else st
  let st := { st with global_pic_option := compute_pic_option env }
  let st := { st with global_short_enums := env.flag_short_enums }
  let r := compute_GOWall_options K env st
  { r.2 with global_GOWall_options := r.1 }

/-- The statements of `annobin_create_global_notes` that settle the file name
symbol, print it and open the notes section. -/
def output_file_symbol (K : Build) (env : Env) (st : State) : State :=
  let st :=
    if st.annobin_current_filename.isNone then init_annobin_current_filename env st else st
  let st :=
    if st.annobin_current_filename.isNone then
      let st := annobin_inform env st 0 "ICE: Could not find output filename"
      { st with annobin_current_filename := some (cstr "unknown_source") }
    else st
  let filename := st.annobin_current_filename.getD []
  let endname := st.annobin_current_endname.getD (cstr "(null)")
  { st with asm_out := st.asm_out
      ++ (if st.global_file_name_symbols then [Chunk.line (Asm.global filename)] else [])
      ++ [Chunk.line (Asm.type_object filename),
          Chunk.line (Asm.size filename endname),
          Chunk.line (Asm.label filename),
          Chunk.line (open_section_line K),
          Chunk.line (Asm.balign 4)] }

/-- The statements of `annobin_create_global_notes` that record the level of
`_FORTIFY_SOURCE` and the state of `_GLIBCXX_ASSERTIONS`: the loop over the
saved options and the two defaults behind it. -/
def output_fortify_notes (K : Build) (env : Env) (st : State) : State :=
  let s := scan_options K env env.save_decoded_options.reverse ⟨st, false, false⟩
  let st := if !s.fortify_level_recorded then record_fortify_level K env s.st 0 else s.st
  if !s.glibcxx_assertions_recorded then record_glibcxx_assertions K env st false else st

/-- The function `annobin_create_global_notes`, the callback run at the start of
a unit. (`compiler_version` has been set by `plugin_init`; a decimal number
below 10 is printed as one digit.) -/
def annobin_create_global_notes (K : Build) (env : Env) (st : State) : State :=
  if !st.annobin_enable_static_notes then st
  else if !env.asm_out_file then
    annobin_inform env st 1 "Output file not available - unable to generate notes"
  else
    let st := select_word_size env st
    let st := save_unit_values K env st
    let st := output_file_symbol K env st
    let st := annobin_output_string_note K env st K.GNU_BUILD_ATTRIBUTE_VERSION
      [48 + SPEC_VERSION, 112, 48 + annobin_version] "string: version"
      st.annobin_current_filename st.annobin_current_endname K.NT_GNU_BUILD_ATTRIBUTE_OPEN
    let st := annobin_output_string_note K env st K.GNU_BUILD_ATTRIBUTE_TOOL
      (st.compiler_version.getD []) "string: build-tool" none none
      K.NT_GNU_BUILD_ATTRIBUTE_OPEN
    let st := record_GOW_settings K env st st.global_GOWall_options false none none
    let st := annobin_output_numeric_note K env st K.GNU_BUILD_ATTRIBUTE_STACK_PROT
      (toULong st.global_stack_prot_option) "numeric: -fstack-protector status" none none
      K.NT_GNU_BUILD_ATTRIBUTE_OPEN
    let st :=
      if K.stack_clash_defined then
        record_stack_clash_note K env st none none K.NT_GNU_BUILD_ATTRIBUTE_OPEN
      else st
    let st := output_fortify_notes K env st
    let st := annobin_output_numeric_note K env st K.GNU_BUILD_ATTRIBUTE_PIC
      (toULong st.global_pic_option) "numeric: PIC" none none K.NT_GNU_BUILD_ATTRIBUTE_OPEN
    let st := annobin_output_bool_note K env st K.GNU_BUILD_ATTRIBUTE_SHORT_ENUM
      (decide (st.global_short_enums ≠ 0))
      (if st.global_short_enums ≠ 0 then "bool: short-enums: on" else "bool: short-enums: off")
      none none K.NT_GNU_BUILD_ATTRIBUTE_OPEN
    let st := annobin_record_global_target_notes K env st
    { st with asm_out := st.asm_out ++ [Chunk.line Asm.popsection] }

/-- The function loop of a unit: `annobin_create_function_notes` is run for each
function in turn, each in its own environment. -/
def run_functions (K : Build) (envs : List Env) (st : State) : State :=
  envs.foldl (fun st env => annobin_create_function_notes K env st) st

/-! ## Notions used to state the properties -/

/-- A list of bytes read as a little-endian unsigned integer. -/
def decode_le : List Nat → Nat
  | [] => 0
  | b :: bs => b + 256 * decode_le bs

/-- The bytes of the name of a note as they are written to the output: the
first `namesz` bytes of the buffer passed as name. -/
def NoteArgs.name_bytes (a : NoteArgs) : List Nat := (a.name.getD []).take a.namesz

/-- The `k` low bytes of `v`, least significant first. -/
def le_bytes : Nat → Nat → List Nat
  | 0, _ => []
  | k + 1, v => v % 256 :: le_bytes k (v / 256)

/-- The bytes of `v` in little-endian order, trimmed to the least number of
bytes that represent it, that is the number of its bits divided by 8 and
rounded up (no byte at all for 0). -/
def value_bytes (v : Nat) : List Nat := le_bytes ((Nat.size v + 7) / 8) v

/-- The value carried by a numeric note: the bytes of its name behind the four
leading bytes and before the final terminator, read as a little-endian
integer. -/
def NoteArgs.value (a : NoteArgs) : Nat := decode_le ((a.name_bytes.drop 4).dropLast)

/-- The notes written to the output, in order (the arguments of the calls of
`annobin_output_note` that printed them). -/
def notes_of : List Chunk → List NoteArgs
  | [] => []
  | Chunk.note a _ :: cs => a :: notes_of cs
  | Chunk.line _ :: cs => notes_of cs

/-- The size of a word of the target: 8 bytes if `annobin_is_64bit`, else 4. -/
def word_size (is64 : Bool) : Nat := if is64 then 8 else 4

/-- The size of the descriptor that belongs to a symbol range: nothing without
a start symbol, one word for a start symbol alone, two words for a start and an
end symbol. -/
def symbols_descsz (is64 : Bool) : Option (List Nat) → Option (List Nat) → Nat
  | none, _ => 0
  | some _, none => word_size is64
  | some _, some _ => 2 * word_size is64

/-- The format strings of the messages printed so far, in order. -/
def State.formats (st : State) : List String := st.stderr.map Diag.format

/-- The state without the messages printed so far and without the file name
derived for them: what `annobin_inform` leaves alone. -/
def State.core (st : State) : State :=
  { st with stderr := [], annobin_current_filename := none, annobin_current_endname := none }

/-- The state without the two streams, the file name, the note counter and the
running bounds of the x86 target: the part that the emission of a note leaves
alone. -/
def State.frame (st : State) : State :=
  { st with
    stderr := []
    annobin_current_filename := none
    annobin_current_endname := none
    asm_out := []
    annobin_note_count := 0
    min_x86_isa := 0
    max_x86_isa := 0 }

/-- What identifies a note apart from its descriptor: its type (open scope or
function scope) and the bytes of its name. -/
def NoteArgs.key (a : NoteArgs) : Nat × List Nat := (a.type, a.name_bytes)

/-- The type and name of every note written so far, in order. -/
def State.keys (st : State) : List (Nat × List Nat) := (notes_of st.asm_out).map NoteArgs.key

/-- The name of a numeric note for the attribute `tag` with the value `v`: the
four leading bytes, the trimmed little-endian bytes of `v` (one zero byte for
0), and the terminator. -/
def numeric_name (K : Build) (tag v : Nat) : List Nat :=
  [71, 65, fmt_c K.GNU_BUILD_ATTRIBUTE_TYPE_NUMERIC, fmt_c tag]
    ++ (if v = 0 then [0] else value_bytes v) ++ [0]

/-- The name of a bool note for the attribute `tag`. -/
def bool_name (K : Build) (tag : Nat) (b : Bool) : List Nat :=
  [71, 65,
   fmt_c (if b then K.GNU_BUILD_ATTRIBUTE_TYPE_BOOL_TRUE
          else K.GNU_BUILD_ATTRIBUTE_TYPE_BOOL_FALSE),
   fmt_c tag, 0]

/-- The name of the note for the packed word `gow`: `GA`, the numeric type
byte, `GOW`, a NUL, the trimmed little-endian bytes of `gow`, a zero byte. -/
def GOW_name (K : Build) (gow : Nat) : List Nat :=
  [71, 65, fmt_c K.GNU_BUILD_ATTRIBUTE_TYPE_NUMERIC, 71, 79, 87, 0] ++ value_bytes gow ++ [0]

/-- The name of the note for stack clash protection. -/
def stack_clash_name (K : Build) (env : Env) : List Nat :=
  [71, 65,
   fmt_c (if env.flag_stack_clash_protection ≠ 0 then K.GNU_BUILD_ATTRIBUTE_TYPE_BOOL_TRUE
          else K.GNU_BUILD_ATTRIBUTE_TYPE_BOOL_FALSE)] ++ cstr "stack_clash" ++ [0]

/-- The type and name of the note that `annobin_target_specific_function_notes`
writes for a function, if it writes one; `f` supplies the values saved at the
start of the unit. -/
def target_function_keys (K : Build) (env : Env) (f : State) : List (Nat × List Nat) :=
  match K.target with
  | Target.dummy => []
  | Target.x86_64 =>
    if toULong env.ix86_isa_flags ≠ f.global_x86_isa then
      [(K.NT_GNU_BUILD_ATTRIBUTE_FUNC,
        numeric_name K K.GNU_BUILD_ATTRIBUTE_ABI (toULong env.ix86_isa_flags))]
    else []
  | Target.aarch64 =>
    if f.saved_tls_dialect = env.aarch64_tls_dialect then []
    else
      [(K.NT_GNU_BUILD_ATTRIBUTE_FUNC,
        numeric_name K K.GNU_BUILD_ATTRIBUTE_ABI (toULong env.aarch64_tls_dialect))]
  | Target.powerpc =>
    if f.saved_tls_size = env.rs6000_tls_size then []
    else
      [(K.NT_GNU_BUILD_ATTRIBUTE_FUNC,
        numeric_name K K.GNU_BUILD_ATTRIBUTE_ABI (toULong env.rs6000_tls_size))]

/-- The stack-protector note of a function: written iff the level of the
function differs from the level saved at the start of the unit. -/
def stack_prot_keys (K : Build) (env : Env) (f : State) : List (Nat × List Nat) :=
  if f.global_stack_prot_option ≠ env.flag_stack_protect then
    [(K.NT_GNU_BUILD_ATTRIBUTE_FUNC,
      numeric_name K K.GNU_BUILD_ATTRIBUTE_STACK_PROT (toULong env.flag_stack_protect))]
  else []

/-- The stack-clash note of a function. -/
def stack_clash_keys (K : Build) (env : Env) (f : State) : List (Nat × List Nat) :=
  if K.stack_clash_defined = true ∧
      f.global_stack_clash_option ≠ env.flag_stack_clash_protection then
    [(K.NT_GNU_BUILD_ATTRIBUTE_FUNC, stack_clash_name K env)]
  else []

/-- The PIC note of a function. -/
def pic_keys (K : Build) (env : Env) (f : State) : List (Nat × List Nat) :=
  if f.global_pic_option ≠ compute_pic_option env then
    [(K.NT_GNU_BUILD_ATTRIBUTE_FUNC,
      numeric_name K K.GNU_BUILD_ATTRIBUTE_PIC (toULong (compute_pic_option env)))]
  else []

/-- The note of a function for the packed word. -/
def GOW_keys (K : Build) (env : Env) (f : State) : List (Nat × List Nat) :=
  if f.global_GOWall_options ≠ GOWall_value K env then
    [(K.NT_GNU_BUILD_ATTRIBUTE_FUNC, GOW_name K (GOWall_value K env))]
  else []

/-- The short-enum note of a function. -/
def short_enums_keys (K : Build) (env : Env) (f : State) : List (Nat × List Nat) :=
  if f.global_short_enums ≠ env.flag_short_enums then
    [(K.NT_GNU_BUILD_ATTRIBUTE_FUNC,
      bool_name K K.GNU_BUILD_ATTRIBUTE_SHORT_ENUM (decide (env.flag_short_enums ≠ 0)))]
  else []

/-- The stack-size note of a function: written iff stack-size notes are in
force and the size is above the threshold. -/
def stack_size_keys (K : Build) (env : Env) (f : State) : List (Nat × List Nat) :=
  if (f.annobin_enable_stack_size_notes && f.flag_stack_usage_info) = true ∧
      toULong env.current_function_static_stack_size > f.stack_threshold then
    [(K.NT_GNU_BUILD_ATTRIBUTE_FUNC,
      numeric_name K K.GNU_BUILD_ATTRIBUTE_STACK_SIZE
        (toULong env.current_function_static_stack_size))]
  else []

/-- The running total and the running maximum of the stack usage behind a
function, when stack-size notes are in force. -/
def stack_update (env : Env) (f : State) : State :=
  if (f.annobin_enable_stack_size_notes && f.flag_stack_usage_info) = true then
    { f with
      annobin_total_static_stack_usage :=
        (f.annobin_total_static_stack_usage
          + toULong env.current_function_static_stack_size) % 18446744073709551616
      annobin_max_stack_size :=
        if toULong env.current_function_static_stack_size > f.annobin_max_stack_size then
          toULong env.current_function_static_stack_size
        else f.annobin_max_stack_size }
  else f

/-- The type and name of every note that `annobin_create_function_notes` writes
for a function, in order. -/
def function_keys (K : Build) (env : Env) (f : State) : List (Nat × List Nat) :=
  target_function_keys K env f ++ stack_prot_keys K env f ++ stack_clash_keys K env f
    ++ pic_keys K env f ++ GOW_keys K env f ++ short_enums_keys K env f
    ++ stack_size_keys K env f

/-- The header constants follow the note format: the four type bytes are
printable ASCII characters different from each other, the attribute
identifiers are control characters (1 to 31) different from each other, and
the note types for open scope and function scope differ. -/
def Build.wf (K : Build) : Prop :=
  (∀ b ∈ [K.GNU_BUILD_ATTRIBUTE_TYPE_NUMERIC, K.GNU_BUILD_ATTRIBUTE_TYPE_STRING,
      K.GNU_BUILD_ATTRIBUTE_TYPE_BOOL_TRUE, K.GNU_BUILD_ATTRIBUTE_TYPE_BOOL_FALSE],
    32 ≤ b ∧ b < 128) ∧
  [K.GNU_BUILD_ATTRIBUTE_TYPE_NUMERIC, K.GNU_BUILD_ATTRIBUTE_TYPE_STRING,
    K.GNU_BUILD_ATTRIBUTE_TYPE_BOOL_TRUE, K.GNU_BUILD_ATTRIBUTE_TYPE_BOOL_FALSE].Nodup ∧
  (∀ t ∈ [K.GNU_BUILD_ATTRIBUTE_VERSION, K.GNU_BUILD_ATTRIBUTE_STACK_PROT,
      K.GNU_BUILD_ATTRIBUTE_STACK_SIZE, K.GNU_BUILD_ATTRIBUTE_TOOL, K.GNU_BUILD_ATTRIBUTE_ABI,
      K.GNU_BUILD_ATTRIBUTE_PIC, K.GNU_BUILD_ATTRIBUTE_SHORT_ENUM],
    1 ≤ t ∧ t < 32) ∧
  [K.GNU_BUILD_ATTRIBUTE_VERSION, K.GNU_BUILD_ATTRIBUTE_STACK_PROT,
    K.GNU_BUILD_ATTRIBUTE_STACK_SIZE, K.GNU_BUILD_ATTRIBUTE_TOOL, K.GNU_BUILD_ATTRIBUTE_ABI,
    K.GNU_BUILD_ATTRIBUTE_PIC, K.GNU_BUILD_ATTRIBUTE_SHORT_ENUM].Nodup ∧
  K.NT_GNU_BUILD_ATTRIBUTE_OPEN ≠ K.NT_GNU_BUILD_ATTRIBUTE_FUNC

/-- A note of the scope `scope` is a numeric note for the attribute `tag`: its
name starts with `GA`, the numeric type byte and the tag. -/
def is_numeric_key (K : Build) (scope tag : Nat) (k : Nat × List Nat) : Bool :=
  k.1 == scope && k.2.take 4 == [71, 65, fmt_c K.GNU_BUILD_ATTRIBUTE_TYPE_NUMERIC, fmt_c tag]

/-- A note of the scope `scope` is the note for the packed word: its name
starts with `GA`, the numeric type byte, `GOW` and a NUL. -/
def is_GOW_key (K : Build) (scope : Nat) (k : Nat × List Nat) : Bool :=
  k.1 == scope
    && k.2.take 7 == [71, 65, fmt_c K.GNU_BUILD_ATTRIBUTE_TYPE_NUMERIC, 71, 79, 87, 0]

/-- A note of the scope `scope` is a bool note for the attribute `tag`: its
name is `GA`, one of the two bool type bytes, the tag and a NUL. -/
def is_bool_key (K : Build) (scope tag : Nat) (k : Nat × List Nat) : Bool :=
  k.1 == scope && (k.2 == bool_name K tag true || k.2 == bool_name K tag false)

/-- The value carried by a numeric note with the given type and name. -/
def key_value (k : Nat × List Nat) : Nat := decode_le ((k.2.drop 4).dropLast)

/-- The value carried by the note for the packed word. -/
def GOW_key_value (k : Nat × List Nat) : Nat := decode_le ((k.2.drop 7).dropLast)

/-- The name of the note for the level of `_FORTIFY_SOURCE`. -/
def fortify_name (K : Build) (level : Int) : List Nat :=
  [71, 65, fmt_c K.GNU_BUILD_ATTRIBUTE_TYPE_NUMERIC] ++ cstr "FORTIFY"
    ++ [0, (level % 256).toNat, 0]

/-- The name of the note for `_GLIBCXX_ASSERTIONS`. -/
def glibcxx_name (K : Build) (is_on : Bool) : List Nat :=
  [71, 65,
   fmt_c (if is_on then K.GNU_BUILD_ATTRIBUTE_TYPE_BOOL_TRUE
          else K.GNU_BUILD_ATTRIBUTE_TYPE_BOOL_FALSE)] ++ cstr "GLIBCXX_ASSERTIONS" ++ [0]

/-- A note is one of the notes for `_FORTIFY_SOURCE` and `_GLIBCXX_ASSERTIONS`,
which have open scope. -/
def is_fortify_key (K : Build) (k : Nat × List Nat) : Prop :=
  k.1 = K.NT_GNU_BUILD_ATTRIBUTE_OPEN ∧
    ((∃ level : Int, k.2 = fortify_name K level) ∨ (∃ b : Bool, k.2 = glibcxx_name K b))

/-- A note has the given scope and, if its name has four bytes or more, the
string type byte as third byte of the name. -/
def is_string_key (K : Build) (scope : Nat) (k : Nat × List Nat) : Prop :=
  k.1 = scope ∧
    ∀ a b c d : Nat, k.2.take 4 = [a, b, c, d] → c = fmt_c K.GNU_BUILD_ATTRIBUTE_TYPE_STRING

/-- The frame behind `select_word_size`. -/
def word_size_frame (env : Env) (f : State) : State :=
  { f with annobin_is_64bit :=
      if env.POINTER_SIZE = 16 ∨ env.POINTER_SIZE = 32 then false
      else if env.POINTER_SIZE = 64 then true
      else f.annobin_is_64bit }

/-- The frame behind `save_unit_values`: the values of the unit are saved. -/
def unit_values_frame (K : Build) (env : Env) (f : State) : State :=
  { f with
    flag_stack_usage_info := if f.annobin_enable_stack_size_notes then true
                             else f.flag_stack_usage_info
    global_stack_prot_option := env.flag_stack_protect
    global_stack_clash_option := if K.stack_clash_defined then env.flag_stack_clash_protection
                                 else f.global_stack_clash_option
    global_pic_option := compute_pic_option env
    global_short_enums := env.flag_short_enums
    global_GOWall_options := GOWall_value K env }

/-- The frame behind `annobin_record_global_target_notes`. -/
def target_global_frame (K : Build) (env : Env) (f : State) : State :=
  match K.target with
  | Target.dummy => f
  | Target.x86_64 => { f with global_x86_isa := toULong env.ix86_isa_flags }
  | Target.aarch64 => { f with saved_tls_dialect := env.aarch64_tls_dialect }
  | Target.powerpc => { f with saved_tls_size := env.rs6000_tls_size }

/-- The frame behind `annobin_create_global_notes`. -/
def unit_start_frame (K : Build) (env : Env) (f : State) : State :=
  target_global_frame K env (unit_values_frame K env (word_size_frame env f))

/-- The type and name of the note that `annobin_record_global_target_notes`
writes. -/
def target_global_keys (K : Build) (env : Env) : List (Nat × List Nat) :=
  match K.target with
  | Target.dummy => []
  | Target.x86_64 =>
    [(K.NT_GNU_BUILD_ATTRIBUTE_OPEN,
      numeric_name K K.GNU_BUILD_ATTRIBUTE_ABI (toULong env.ix86_isa_flags))]
  | Target.aarch64 =>
    [(K.NT_GNU_BUILD_ATTRIBUTE_OPEN,
      numeric_name K K.GNU_BUILD_ATTRIBUTE_ABI (toULong env.aarch64_tls_dialect))]
  | Target.powerpc =>
    [(K.NT_GNU_BUILD_ATTRIBUTE_OPEN,
      numeric_name K K.GNU_BUILD_ATTRIBUTE_ABI (toULong env.rs6000_tls_size))]

/-- The type and name of every note that `annobin_create_global_notes` writes,
in order: the two string notes `k1` and `k2` (version and build tool), the
packed word, the stack protector, the stack clash protection where the host
has it, the notes `L` for `_FORTIFY_SOURCE` and `_GLIBCXX_ASSERTIONS`, the PIC
status, the size of enumerations, and the note of the target. -/
def unit_start_keys (K : Build) (env : Env) (k1 k2 : Nat × List Nat)
    (L : List (Nat × List Nat)) : List (Nat × List Nat) :=
  [k1, k2,
   (K.NT_GNU_BUILD_ATTRIBUTE_OPEN, GOW_name K (GOWall_value K env)),
   (K.NT_GNU_BUILD_ATTRIBUTE_OPEN,
    numeric_name K K.GNU_BUILD_ATTRIBUTE_STACK_PROT (toULong env.flag_stack_protect))]
  ++ (if K.stack_clash_defined then [(K.NT_GNU_BUILD_ATTRIBUTE_OPEN, stack_clash_name K env)]
      else [])
  ++ L
  ++ [(K.NT_GNU_BUILD_ATTRIBUTE_OPEN,
       numeric_name K K.GNU_BUILD_ATTRIBUTE_PIC (toULong (compute_pic_option env))),
      (K.NT_GNU_BUILD_ATTRIBUTE_OPEN,
       bool_name K K.GNU_BUILD_ATTRIBUTE_SHORT_ENUM (decide (env.flag_short_enums ≠ 0)))]
  ++ target_global_keys K env

/-! ### Sample data -/

/-- The sample compilation `Env.plain` with another stack-protector level. -/
def Env.with_stack_protect (level : Int) : Env := { Env.plain with flag_stack_protect := level }

/-- The sample compilation `Env.plain` with `-fpie`. -/
def Env.with_pie : Env := { Env.plain with flag_pie := 1 }

/-- The state of the plugin when it has been loaded with the option
`stack-size-notes` and the host provides the stack usage. -/
def State.with_stack_size_notes : State :=
  { State.initial none with
    annobin_enable_stack_size_notes := true
    flag_stack_usage_info := true }

/-- A condition as a bit: 1 if it holds, else 0. -/
def flag_bit (c : Prop) [Decidable c] : Nat := if c then 1 else 0

/-- The sample compilation `Env.plain` with `-g -O2 -Wall`: DWARF debug
information of version 4 with GNU extensions at the normal level. -/
def Env.with_g_O2_Wall : Env :=
  { Env.plain with
    write_symbols := 3
    use_gnu_debug_info_extensions := true
    debug_info_level := 2
    dwarf_version := 4
    optimize := 2
    save_decoded_options := [⟨OptIndex.OPT_Wall, none⟩] }

/-- The bytes that a line of assembler text with literal data (`.asciz`,
`.dc.b`) adds to the section. -/
def Asm.data : Asm → List Nat
  | Asm.asciz str _ => str ++ [0]
  | Asm.dc_b bytes _ => bytes
  | _ => []

/-- The arguments of a sample call of `annobin_output_note`: the note for the
size of enumerations of a function `f` on a 32-bit target. -/
def NoteArgs.sample : NoteArgs :=
  { name := some [71, 65, 43, 8, 0]
    namesz := 5
    name_is_string := false
    name_description := "bool: short-enums: on"
    desc1 := some [102]
    desc2 := some [102, 95, 101, 110, 100]
    descsz := 8
    desc_is_string := true
    type := 257 }

/-- The sample note with a descriptor size that is too small for its two
symbols. -/
def NoteArgs.sample_short : NoteArgs := { NoteArgs.sample with descsz := 4 }

/-- The sample compilation `Env.plain` before the output file has been opened. -/
def Env.without_output : Env := { Env.plain with asm_out_file := false }

/-- The arguments of a sample call of `annobin_output_note` with a descriptor
that is not a symbol: a property note with 9 descriptor bytes. -/
def NoteArgs.sample_raw : NoteArgs :=
  { name := some [71, 78, 85, 0]
    namesz := 4
    name_is_string := true
    name_description := "string: GNU"
    desc1 := some [1, 0, 0, 0, 8, 0, 0, 0, 7]
    desc2 := none
    descsz := 9
    desc_is_string := false
    type := 5 }

/-- A character that may stand in a symbol name: an ASCII letter or digit, `_`,
`.` or `$`. -/
def symbol_char (c : Nat) : Bool := ISALNUM c || c == 95 || c == 46 || c == 36

/-- The base name of an input file, with the name that stands in for an empty
one (source code read from a pipe). -/
def base_name (file : List Nat) : List Nat :=
  if (lbasename file).length == 0 then cstr "piped_input" else lbasename file

/-- The sample compilation `Env.plain` with the input file `src/9-to-5.c`. -/
def Env.with_input_file : Env :=
  { Env.plain with
    main_input_filename := some [115, 114, 99, 47, 57, 45, 116, 111, 45, 53, 46, 99] }

/-- The arguments of every call of `annobin_output_note` made so far, in order. -/
def State.notes (st : State) : List NoteArgs := notes_of st.asm_out

/-- The file name symbol is complete: if the start symbol of the unit has been
derived, so has its end symbol. -/
def State.symbols_ok (st : State) : Prop :=
  st.annobin_current_filename.isSome = true → st.annobin_current_endname.isSome = true

/-- What a piece of the plugin does to the streams and to the file name symbol
when it turns the state `s` into `t`: it writes the notes `N`, it may report
messages, and it keeps a file name symbol that has been derived. -/
def State.step (s t : State) (N : List NoteArgs) : Prop :=
  t.notes = s.notes ++ N ∧
  (∃ M : List String, t.formats = s.formats ++ M) ∧
  (s.annobin_current_filename.isSome = true →
    t.annobin_current_filename = s.annobin_current_filename ∧
    t.annobin_current_endname = s.annobin_current_endname)

/-- The arguments with which `record_stack_clash_note` calls
`annobin_output_note`. -/
def stack_clash_note_args (K : Build) (env : Env) (is64 : Bool)
    (start end_ : Option (List Nat)) (type : Nat) : NoteArgs :=
  { name := some (sprintf (uninit env 128)
      ([71, 65,
        fmt_c (if env.flag_stack_clash_protection ≠ 0 then K.GNU_BUILD_ATTRIBUTE_TYPE_BOOL_TRUE
               else K.GNU_BUILD_ATTRIBUTE_TYPE_BOOL_FALSE)] ++ cstr "stack_clash"))
    namesz := 15
    name_is_string := true
    name_description := "bool: -fstack-clash-protection status"
    desc1 := start
    desc2 := end_
    descsz := descsz_for is64 start end_
    desc_is_string := true
    type := type }

/-- The arguments with which `record_fortify_level` calls `annobin_output_note`. -/
def fortify_note_args (K : Build) (env : Env) (level : Int) : NoteArgs :=
  { name := some (((sprintf (uninit env 128)
      ([71, 65, fmt_c K.GNU_BUILD_ATTRIBUTE_TYPE_NUMERIC] ++ cstr "FORTIFY")).set 11
        (level % 256).toNat).set 12 0)
    namesz := 13
    name_is_string := false
    name_description := "FORTIFY SOURCE level"
    desc1 := none
    desc2 := none
    descsz := 0
    desc_is_string := false
    type := K.NT_GNU_BUILD_ATTRIBUTE_OPEN }

/-- The arguments with which `record_glibcxx_assertions` calls
`annobin_output_note`. -/
def glibcxx_note_args (K : Build) (env : Env) (is_on : Bool) : NoteArgs :=
  { name := some (sprintf (uninit env 128)
      ([71, 65,
        fmt_c (if is_on then K.GNU_BUILD_ATTRIBUTE_TYPE_BOOL_TRUE
               else K.GNU_BUILD_ATTRIBUTE_TYPE_BOOL_FALSE)] ++ cstr "GLIBCXX_ASSERTIONS"))
    namesz := 22
    name_is_string := false
    name_description := "_GLIBCXX_ASSERTIONS defined"
    desc1 := none
    desc2 := none
    descsz := 0
    desc_is_string := false
    type := K.NT_GNU_BUILD_ATTRIBUTE_OPEN }

/-- The notes that the loop of `annobin_create_global_notes` over the saved
options writes, and the two flags `fortify_level_recorded` and
`glibcxx_assertions_recorded` behind the loop; the list holds the options
still to be visited, the last option of the command line first. -/
def scan_notes (K : Build) (env : Env) :
    List DecodedOption → Bool → Bool → List NoteArgs × Bool × Bool
  | [], fr, gr => ([], fr, gr)
  | o :: os, fr, gr =>
    if o.opt_index = OptIndex.OPT_D then
      match o.arg with
      | none => scan_notes K env os fr gr
      | some arg =>
        if arg.take 16 = cstr "_FORTIFY_SOURCE=" then
          if !fr then
            let level := atoi (arg.drop 16)
            let r := scan_notes K env os true gr
            (fortify_note_args K env (if level < 0 ∨ level > 3 then 0 else level) :: r.1, r.2)
          else scan_notes K env os fr gr
        else if arg.take 19 = cstr "_GLIBCXX_ASSERTIONS" then
          if !gr then
            let r := scan_notes K env os fr true
            (glibcxx_note_args K env true :: r.1, r.2)
          else scan_notes K env os fr gr
        else scan_notes K env os fr gr
    else if o.opt_index = OptIndex.OPT_fpreprocessed then
      ([fortify_note_args K env (-1), glibcxx_note_args K env false], true, true)
    else scan_notes K env os fr gr

/-- The notes for `_FORTIFY_SOURCE` and `_GLIBCXX_ASSERTIONS` that
`annobin_create_global_notes` writes: those of the loop over the saved
options, and the two defaults for what the loop has not recorded. -/
def fortify_notes (K : Build) (env : Env) : List NoteArgs :=
  let r := scan_notes K env env.save_decoded_options.reverse false false
  r.1 ++ (if !r.2.1 then [fortify_note_args K env 0] else [])
    ++ (if !r.2.2 then [glibcxx_note_args K env false] else [])

/-- The note that `annobin_record_global_target_notes` writes. -/
def target_global_notes (K : Build) (env : Env) (is64 : Bool) : List NoteArgs :=
  match K.target with
  | Target.dummy => []
  | Target.x86_64 =>
    [numeric_note_args K env is64 K.GNU_BUILD_ATTRIBUTE_ABI (toULong env.ix86_isa_flags)
      "numeric: ABI" none none K.NT_GNU_BUILD_ATTRIBUTE_OPEN]
  | Target.aarch64 =>
    [numeric_note_args K env is64 K.GNU_BUILD_ATTRIBUTE_ABI (toULong env.aarch64_tls_dialect)
      "numeric: ABI: TLS dialect" none none K.NT_GNU_BUILD_ATTRIBUTE_OPEN]
  | Target.powerpc =>
    [numeric_note_args K env is64 K.GNU_BUILD_ATTRIBUTE_ABI (toULong env.rs6000_tls_size)
      "numeric: ABI: TLS size" none none K.NT_GNU_BUILD_ATTRIBUTE_OPEN]

/-- The arguments of every call of `annobin_output_note` that
`annobin_create_global_notes` makes, in order, for the word size, the file name
symbol and the compiler version in force when the notes are written. -/
def unit_start_notes (K : Build) (env : Env) (is64 : Bool)
    (filename endname : Option (List Nat)) (version : List Nat) : List NoteArgs :=
  [string_note_args K env is64 K.GNU_BUILD_ATTRIBUTE_VERSION
     [48 + SPEC_VERSION, 112, 48 + annobin_version] "string: version" filename endname
     K.NT_GNU_BUILD_ATTRIBUTE_OPEN,
   string_note_args K env is64 K.GNU_BUILD_ATTRIBUTE_TOOL version "string: build-tool"
     none none K.NT_GNU_BUILD_ATTRIBUTE_OPEN,
   GOW_note_args K env is64 (GOWall_value K env) false none none,
   numeric_note_args K env is64 K.GNU_BUILD_ATTRIBUTE_STACK_PROT
     (toULong env.flag_stack_protect) "numeric: -fstack-protector status" none none
     K.NT_GNU_BUILD_ATTRIBUTE_OPEN]
  ++ (if K.stack_clash_defined then
        [stack_clash_note_args K env is64 none none K.NT_GNU_BUILD_ATTRIBUTE_OPEN]
      else [])
  ++ fortify_notes K env
  ++ [numeric_note_args K env is64 K.GNU_BUILD_ATTRIBUTE_PIC
        (toULong (compute_pic_option env)) "numeric: PIC" none none
        K.NT_GNU_BUILD_ATTRIBUTE_OPEN,
      bool_note_args K env is64 K.GNU_BUILD_ATTRIBUTE_SHORT_ENUM
        (decide (env.flag_short_enums ≠ 0))
        (if env.flag_short_enums ≠ 0 then "bool: short-enums: on"
         else "bool: short-enums: off")
        none none K.NT_GNU_BUILD_ATTRIBUTE_OPEN]
  ++ target_global_notes K env is64

/-- A note is the note for the level of `_FORTIFY_SOURCE`: it has open scope and
its name starts with `GA`, the numeric type byte, `FORTIFY` and a NUL. -/
def is_FORTIFY_key (K : Build) (k : Nat × List Nat) : Bool :=
  k.1 == K.NT_GNU_BUILD_ATTRIBUTE_OPEN
    && k.2.take 11 == [71, 65, fmt_c K.GNU_BUILD_ATTRIBUTE_TYPE_NUMERIC] ++ cstr "FORTIFY" ++ [0]

/-- A note is the note for `_GLIBCXX_ASSERTIONS`: it has open scope and its name
is `GA`, one of the two bool type bytes, `GLIBCXX_ASSERTIONS` and a NUL. -/
def is_GLIBCXX_key (K : Build) (k : Nat × List Nat) : Bool :=
  k.1 == K.NT_GNU_BUILD_ATTRIBUTE_OPEN
    && (k.2 == glibcxx_name K true || k.2 == glibcxx_name K false)

/-- A saved option defines `_FORTIFY_SOURCE`: it is `-D` with an argument that
starts with `_FORTIFY_SOURCE=`. -/
def is_fortify_option (o : DecodedOption) : Bool :=
  match o.opt_index, o.arg with
  | OptIndex.OPT_D, some arg => decide (arg.take 16 = cstr "_FORTIFY_SOURCE=")
  | _, _ => false

/-- A saved option defines `_GLIBCXX_ASSERTIONS`: it is `-D` with an argument
that starts with `_GLIBCXX_ASSERTIONS`. -/
def is_glibcxx_option (o : DecodedOption) : Bool :=
  match o.opt_index, o.arg with
  | OptIndex.OPT_D, some arg => decide (arg.take 19 = cstr "_GLIBCXX_ASSERTIONS")
  | _, _ => false

/-- A saved option is `-fpreprocessed`. -/
def is_preprocessed_option (o : DecodedOption) : Bool :=
  decide (o.opt_index = OptIndex.OPT_fpreprocessed)

/-- The number that an option `-D_FORTIFY_SOURCE=<n>` gives, as `atoi` reads it. -/
def option_level (o : DecodedOption) : Int := atoi ((o.arg.getD []).drop 16)

/-- The level recorded for the number `n`: `n` itself from 0 to 3, else 0. -/
def clamp_level (n : Int) : Int := if n < 0 ∨ n > 3 then 0 else n

/-- The options that stand behind the last `-fpreprocessed` on the command line
(all options if there is none), the last one first. -/
def options_behind_preprocessed (opts : List DecodedOption) : List DecodedOption :=
  opts.reverse.takeWhile (fun o => !is_preprocessed_option o)

/-- The sample compilation `Env.plain` with `-fpreprocessed -D_FORTIFY_SOURCE=2`. -/
def Env.with_preprocessed : Env :=
  { Env.plain with
    save_decoded_options :=
      [⟨OptIndex.OPT_fpreprocessed, none⟩,
       ⟨OptIndex.OPT_D, some (cstr "_FORTIFY_SOURCE=2")⟩] }

/-- The sample compilation `Env.plain` with a debug type of 7, a value above
every member of `enum debug_info_type`. -/
def Env.with_debug_type_7 : Env := { Env.plain with write_symbols := 7 }

/-! ## `annobin_create_loader_notes` and the loader notes of the target files -/

/-- The bits `GNU_PROPERTY_X86_ISA_1_...` defined in `x86_64.annobin.cc`. -/
def GNU_PROPERTY_X86_ISA_1_SSE : Nat := 1 <<< 3

/-- Bit 4. -/
def GNU_PROPERTY_X86_ISA_1_SSE2 : Nat := 1 <<< 4

/-- Bit 5. -/
def GNU_PROPERTY_X86_ISA_1_SSE3 : Nat := 1 <<< 5

/-- Bit 6. -/
def GNU_PROPERTY_X86_ISA_1_SSSE3 : Nat := 1 <<< 6

/-- Bit 7. -/
def GNU_PROPERTY_X86_ISA_1_SSE4_1 : Nat := 1 <<< 7

/-- Bit 8. -/
def GNU_PROPERTY_X86_ISA_1_SSE4_2 : Nat := 1 <<< 8

/-- Bit 9. -/
def GNU_PROPERTY_X86_ISA_1_AVX : Nat := 1 <<< 9

/-- Bit 10. -/
def GNU_PROPERTY_X86_ISA_1_AVX2 : Nat := 1 <<< 10

/-- Bit 11. -/
def GNU_PROPERTY_X86_ISA_1_AVX512F : Nat := 1 <<< 11

/-- Bit 12. -/
def GNU_PROPERTY_X86_ISA_1_AVX512CD : Nat := 1 <<< 12

/-- Bit 13. -/
def GNU_PROPERTY_X86_ISA_1_AVX512ER : Nat := 1 <<< 13

/-- Bit 14. -/
def GNU_PROPERTY_X86_ISA_1_AVX512PF : Nat := 1 <<< 14

/-- Bit 15. -/
def GNU_PROPERTY_X86_ISA_1_AVX512VL : Nat := 1 <<< 15

/-- Bit 16. -/
def GNU_PROPERTY_X86_ISA_1_AVX512DQ : Nat := 1 <<< 16

/-- Bit 17. -/
def GNU_PROPERTY_X86_ISA_1_AVX512BW : Nat := 1 <<< 17

/-- `GNU_PROPERTY_X86_ISA_1_USED`. -/
def GNU_PROPERTY_X86_ISA_1_USED : Nat := 0xc0000000

/-- `GNU_PROPERTY_X86_ISA_1_NEEDED`. -/
def GNU_PROPERTY_X86_ISA_1_NEEDED : Nat := 0xc0000001

/-- The statement `if (isa & mask) result |= bit;`. -/
def isa_step (isa mask bit result : Nat) : Nat :=
  if isa &&& mask ≠ 0 then result ||| bit else result

/-- The function `convert_gcc_isa_to_gnu_property_isa` of `x86_64.annobin.cc`;
`isa` is an `unsigned int`. The tests of the AVX512 bits are compiled only
when the host defines `OPTION_MASK_ISA_AVX512F`. -/
def convert_gcc_isa_to_gnu_property_isa (K : Build) (isa : Nat) : Nat :=
  let result := 0
  let result := isa_step isa K.OPTION_MASK_ISA_SSE GNU_PROPERTY_X86_ISA_1_SSE result
  let result := isa_step isa K.OPTION_MASK_ISA_SSE2 GNU_PROPERTY_X86_ISA_1_SSE2 result
  let result := isa_step isa K.OPTION_MASK_ISA_SSE3 GNU_PROPERTY_X86_ISA_1_SSSE3 result
  let result := isa_step isa K.OPTION_MASK_ISA_SSE4_1 GNU_PROPERTY_X86_ISA_1_SSE4_1 result
  let result := isa_step isa K.OPTION_MASK_ISA_SSE4_2 GNU_PROPERTY_X86_ISA_1_SSE4_2 result
  let result := isa_step isa K.OPTION_MASK_ISA_AVX GNU_PROPERTY_X86_ISA_1_AVX result
  let result := isa_step isa K.OPTION_MASK_ISA_AVX2 GNU_PROPERTY_X86_ISA_1_AVX2 result
  match K.OPTION_MASK_ISA_AVX512F with
  | none => result
  | some avx512f =>
    let result := isa_step isa avx512f GNU_PROPERTY_X86_ISA_1_AVX512F result
    let result := isa_step isa K.OPTION_MASK_ISA_AVX512CD GNU_PROPERTY_X86_ISA_1_AVX512CD result
    let result := isa_step isa K.OPTION_MASK_ISA_AVX512ER GNU_PROPERTY_X86_ISA_1_AVX512ER result
    let result := isa_step isa K.OPTION_MASK_ISA_AVX512PF GNU_PROPERTY_X86_ISA_1_AVX512PF result
    let result := isa_step isa K.OPTION_MASK_ISA_AVX512VL GNU_PROPERTY_X86_ISA_1_AVX512VL result
    let result := isa_step isa K.OPTION_MASK_ISA_AVX512DQ GNU_PROPERTY_X86_ISA_1_AVX512DQ result
    isa_step isa K.OPTION_MASK_ISA_AVX512BW GNU_PROPERTY_X86_ISA_1_AVX512BW result

/-- The bytes of an unsigned integer member of `size` bytes in the memory of the
host, which `memcpy` copies: least significant byte first unless the host is
big-endian. The value is reduced to the size of the member. -/
def host_bytes (big_endian : Bool) (size value : Nat) : List Nat :=
  if big_endian then (le_bytes size value).reverse else le_bytes size value

/-- The bytes of an `Elf64_loader_note`: two words and a double word. -/
def Elf64_loader_note (big_endian : Bool) (pr_type pr_data : Nat) : List Nat :=
  host_bytes big_endian 4 pr_type ++ host_bytes big_endian 4 8 ++ host_bytes big_endian 8 pr_data

/-- The bytes of an `Elf32_loader_note`: three words. -/
def Elf32_loader_note (big_endian : Bool) (pr_type pr_data : Nat) : List Nat :=
  host_bytes big_endian 4 pr_type ++ host_bytes big_endian 4 4 ++ host_bytes big_endian 4 pr_data

/-- The bytes of an `Elf64_32_loader_note`: three words and a word of padding
that holds 0. -/
def Elf64_32_loader_note (big_endian : Bool) (pr_type pr_data : Nat) : List Nat :=
  host_bytes big_endian 4 pr_type ++ host_bytes big_endian 4 4 ++ host_bytes big_endian 4 pr_data
    ++ host_bytes big_endian 4 0

/-- The common end of the functions `annobin_target_specific_loader_notes`: the
section of the loader notes is entered and the note `GNU` is written, whose
descriptor is the start of the 1024-byte buffer that holds `bytes`. -/
def output_loader_note (K : Build) (env : Env) (st : State) (bytes : List Nat) : State :=
  let st := annobin_inform env st 1 "Creating notes for the dynamic loader"
  let st := { st with asm_out := st.asm_out
    ++ [Chunk.line (Asm.pushsection K.NOTE_GNU_PROPERTY_SECTION_NAME "\"a\", %note"),
        Chunk.line (Asm.balign 4)] }
  annobin_output_note K env st
    { name := some (cstr "GNU" ++ [0])
      namesz := 4
      name_is_string := true
      name_description := "Loader notes"
      desc1 := some (bytes ++ (uninit env 1024).drop bytes.length)
      desc2 := none
      descsz := bytes.length
      desc_is_string := false
      type := K.NT_GNU_PROPERTY_TYPE_0 }

/-- The function `annobin_target_specific_loader_notes` of the target file in
use; `big_endian` tells the byte order of the host on which the plugin runs. -/
def annobin_target_specific_loader_notes (K : Build) (big_endian : Bool) (env : Env)
    (st : State) : State :=
  match K.target with
  | Target.dummy => st
  | Target.x86_64 =>
    let used := convert_gcc_isa_to_gnu_property_isa K (st.max_x86_isa % 4294967296)
    let needed := convert_gcc_isa_to_gnu_property_isa K (st.min_x86_isa % 4294967296)
    if st.annobin_is_64bit then
      output_loader_note K env st
        ((if st.annobin_enable_stack_size_notes then
            Elf64_loader_note big_endian K.GNU_PROPERTY_STACK_SIZE st.annobin_max_stack_size
          else [])
         ++ Elf64_32_loader_note big_endian GNU_PROPERTY_X86_ISA_1_USED used
         ++ Elf64_32_loader_note big_endian GNU_PROPERTY_X86_ISA_1_NEEDED needed)
    else
      output_loader_note K env st
        ((if st.annobin_enable_stack_size_notes then
            Elf32_loader_note big_endian K.GNU_PROPERTY_STACK_SIZE st.annobin_max_stack_size
          else [])
         ++ Elf32_loader_note big_endian GNU_PROPERTY_X86_ISA_1_USED used
         ++ Elf32_loader_note big_endian GNU_PROPERTY_X86_ISA_1_NEEDED needed)
  | Target.aarch64 =>
    if !st.annobin_enable_stack_size_notes then st
    else output_loader_note K env st
      (Elf64_loader_note big_endian K.GNU_PROPERTY_STACK_SIZE st.annobin_max_stack_size)
  | Target.powerpc =>
    if !st.annobin_enable_stack_size_notes then st
    else output_loader_note K env st
      (Elf64_loader_note big_endian K.GNU_PROPERTY_STACK_SIZE st.annobin_max_stack_size)

/-- The first statements of `annobin_create_loader_notes`: the end symbol of the
unit is defined in the text section. A null `annobin_current_endname` is
printed as `(null)`. -/
def output_end_symbol (st : State) : State :=
  { st with asm_out := st.asm_out
    ++ [Chunk.line (Asm.pushsection ".text" ""),
        Chunk.line (Asm.label (st.annobin_current_endname.getD (cstr "(null)"))),
        Chunk.line Asm.popsection] }

/-- The statements of `annobin_create_loader_notes` that record the total of
the static stack usage of the unit. -/
def output_total_stack_usage (K : Build) (env : Env) (st : State) : State :=
  if st.annobin_enable_stack_size_notes ∧ st.annobin_total_static_stack_usage ≠ 0 then
    let st := annobin_inform env st 1 "Recording total static usage of %ld"
    let st := { st with asm_out := st.asm_out
      ++ [Chunk.line (Asm.pushsection K.GNU_BUILD_ATTRS_SECTION_NAME "")] }
    let st := annobin_output_numeric_note K env st K.GNU_BUILD_ATTRIBUTE_STACK_SIZE
      st.annobin_total_static_stack_usage "numeric: stack-size" none none
      K.NT_GNU_BUILD_ATTRIBUTE_OPEN
    { st with asm_out := st.asm_out ++ [Chunk.line Asm.popsection] }
  else st

/-- The function `annobin_create_loader_notes`, the callback run at the end of a
unit. -/
def annobin_create_loader_notes (K : Build) (big_endian : Bool) (env : Env) (st : State) :
    State :=
  if !env.asm_out_file then st
  else
    let st := output_end_symbol st
    if !st.annobin_enable_dynamic_notes then st
    else annobin_target_specific_loader_notes K big_endian env (output_total_stack_usage K env st)

/-! ## `parse_args` and `plugin_init` -/

/-- One element of the array `argv` that the host passes to `plugin_init`: the
key of a plugin argument and its value, null when the argument has none. -/
structure plugin_argument where
  key : List Nat
  value : Option (List Nat)
deriving DecidableEq, Repr

/-- The string `version_string`. -/
def version_string : String := "Version 3"

/-- The string `help_string`. -/
def help_string : String :=
  "Supported options:\n" ++
  "   disable                Disable this plugin\n" ++
  "   enable                 Enable this plugin\n" ++
  "   help                   Print out this information\n" ++
  "   version                Print out the version of the plugin\n" ++
  "   verbose                Be talkative about what is going on\n" ++
  "   [no-]dynamic-notes     Do [do not] create dynamic notes (default: do)\n" ++
  "   [no-]static-notes      Do [do not] create static notes (default: do)\n" ++
  "   [no-]global-file-syms  Create global [or local] file name symbols (default: local)\n" ++
  "   [no-]stack-size-notes  Do [do not] create stack size notes (default: do not)\n" ++
  "   stack-threshold=N      Only create function specific stack size notes when the size is > N."

/-- The value of a character as a digit in a base up to 36. -/
def digit_value (c : Nat) : Option Nat :=
  if 48 ≤ c ∧ c ≤ 57 then some (c - 48)
  else if 97 ≤ c ∧ c ≤ 122 then some (c - 87)
  else if 65 ≤ c ∧ c ≤ 90 then some (c - 55)
  else none

/-- The digits read by `strtoul` in the base `base`: the value of the leading
digits of the string, continuing from `acc`, not yet reduced. -/
def strtoul_digits (base : Nat) (acc : Nat) : List Nat → Nat
  | [] => acc
  | c :: cs =>
    match digit_value c with
    | some d => if d < base then strtoul_digits base (acc * base + d) cs else acc
    | none => acc

/-- The C function `strtoul (s, NULL, 0)`: white space, an optional sign, then a
hexadecimal number behind `0x`, an octal number behind `0`, or a decimal
number. A number that does not fit an `unsigned long` gives `ULONG_MAX`; a
minus sign negates the value as an `unsigned long`. -/
def strtoul (s : List Nat) : Nat :=
  let s := s.dropWhile (fun c => c == 32 || (9 ≤ c && c ≤ 13))
  let negative : Bool := s.head? == some 45
  let s := if s.head? == some 45 || s.head? == some 43 then s.drop 1 else s
  let v :=
    match s with
    | 48 :: x :: c :: cs =>
      if (x = 120 ∨ x = 88) ∧ (digit_value c).any (fun d => d < 16) then
        strtoul_digits 16 0 (c :: cs)
      else strtoul_digits 8 0 (x :: c :: cs)
    | 48 :: cs => strtoul_digits 8 0 cs
    | _ => strtoul_digits 10 0 s
  if v ≥ 18446744073709551616 then 18446744073709551615
  else if negative then (18446744073709551616 - v) % 18446744073709551616
  else v

/-- The loop `while (argc--)` of `parse_args`; the list holds the elements of
`argv` still to be visited, the last element of the array first. The result
is the value returned and the state behind the call; `none` stands for the
call of `strtoul` on the null value of a `stack-threshold` argument, whose
behaviour is undefined. -/
def parse_args_loop (env : Env) : List plugin_argument → State → Option (Bool × State)
  | [], st => some (true, st)
  | a :: rest, st =>
    let key := a.key.dropWhile (fun c => c == 45)
    if key = cstr "disable" then parse_args_loop env rest { st with enabled := false }
    else if key = cstr "enable" then parse_args_loop env rest { st with enabled := true }
    else if key = cstr "help" then
      parse_args_loop env rest (annobin_inform env st 0 help_string)
    else if key = cstr "version" then
      parse_args_loop env rest (annobin_inform env st 0 version_string)
    else if key = cstr "verbose" then
      parse_args_loop env rest { st with verbose_level := (st.verbose_level + 1) % 4294967296 }
    else if key = cstr "global-file-syms" then
      parse_args_loop env rest { st with global_file_name_symbols := true }
    else if key = cstr "no-global-file-syms" then
      parse_args_loop env rest { st with global_file_name_symbols := false }
    else if key = cstr "stack-size-notes" then
      parse_args_loop env rest { st with annobin_enable_stack_size_notes := true }
    else if key = cstr "no-stack-size-notes" then
      parse_args_loop env rest { st with annobin_enable_stack_size_notes := false }
    else if key = cstr "dynamic-notes" then
      parse_args_loop env rest { st with annobin_enable_dynamic_notes := true }
    else if key = cstr "no-dynamic-notes" then
      parse_args_loop env rest { st with annobin_enable_dynamic_notes := false }
    else if key = cstr "static-notes" then
      parse_args_loop env rest { st with annobin_enable_static_notes := true }
    else if key = cstr "no-static-notes" then
      parse_args_loop env rest { st with annobin_enable_static_notes := false }
    else if key = cstr "stack-threshold" then
      match a.value with
      | none => none
      | some value =>
        parse_args_loop env rest
          { st with
            stack_threshold := if strtoul value = 0 then DEFAULT_THRESHOLD else strtoul value }
    else some (false, annobin_inform env st 0 "unrecognised option: %s")

/-- The function `parse_args` on the array `argv` (`argc` is its length). -/
def parse_args (env : Env) (st : State) (argv : List plugin_argument) :
    Option (Bool × State) :=
  parse_args_loop env argv.reverse st

/-- The type `struct plugin_gcc_version` of the host. -/
structure plugin_gcc_version where
  basever : List Nat
  datestamp : List Nat
  devphase : List Nat
  revision : List Nat
  configuration_arguments : List Nat
deriving DecidableEq, Repr

/-- The members of `struct plugin_name_args` that `plugin_init` reads. -/
structure plugin_name_args where
  base_name : List Nat
  argv : List plugin_argument
deriving DecidableEq, Repr

/-- The events for which `plugin_init` registers a callback. -/
inductive Event
  | PLUGIN_INFO
  | PLUGIN_START_UNIT
  | PLUGIN_ALL_PASSES_END
  | PLUGIN_FINISH_UNIT
deriving DecidableEq, Repr

/-- A call of `register_callback`: the name given and the event. The callback
registered for `PLUGIN_START_UNIT` is `annobin_create_global_notes`, the one
for `PLUGIN_ALL_PASSES_END` is `annobin_create_function_notes`, the one for
`PLUGIN_FINISH_UNIT` is `annobin_create_loader_notes`; `PLUGIN_INFO` has none. -/
structure Callback where
  name : List Nat
  event : Event
deriving DecidableEq, Repr

/-- What the plugin finds when `plugin_init` runs, besides its arguments:
`gcc_version`, the constant of the header `plugin-version.h` that was compiled
into the plugin; the result of the host function
`plugin_default_version_check (version, &gcc_version)`; and `native_span`, the
value of `plugin_target_end - plugin_target` in the case in which these two
pointers point into different objects. -/
structure Host where
  gcc_version : plugin_gcc_version
  default_version_check : Bool
  native_span : Nat
deriving DecidableEq, Repr

/-- What a call of `plugin_init` leaves: the value returned, the state, and the
callbacks registered, in order. -/
structure InitResult where
  ret : Int
  st : State
  callbacks : List Callback
deriving DecidableEq, Repr

/-- The C function `strstr`: the part of `hay` from the first place at which
`needle` stands, null if there is none. -/
def strstr (hay needle : List Nat) : Option (List Nat) :=
  match hay with
  | [] => if needle = [] then some [] else none
  | c :: cs => if (c :: cs).take needle.length = needle then some (c :: cs) else strstr cs needle

/-- The C function `strchr` on a string and a character other than NUL: the
offset of the first place at which the character stands, null if there is
none. -/
def strchr (s : List Nat) (c : Nat) : Option Nat :=
  if c ∈ s then some (s.indexOf c) else none

/-- The test of `plugin_init` on the two configuration strings, which differ:
the message it reports, and whether `fail` is set. -/
def check_configuration (env : Env) (host : Host) (version : plugin_gcc_version)
    (st : State) : State × Bool :=
  let plugin_found := strstr version.configuration_arguments (cstr "target=")
  let gcc_found := strstr host.gcc_version.configuration_arguments (cstr "target=")
  let plugin_target : List Nat :=
    match plugin_found with
    | some p => p.drop 7
    | none => cstr "native"
  let plugin_span : Option Nat :=
    match plugin_found with
    | some p => strchr (p.drop 7) 32
    | none => some host.native_span
  let gcc_target : List Nat :=
    match gcc_found with
    | some g => g.drop 7
    | none => cstr "native"
  let gcc_span : Option Nat :=
    match gcc_found with
    | some g => strchr (g.drop 7) 32
    | none => some 6
  if plugin_span.isSome ∧ gcc_span.isSome
      ∧ plugin_target.take (plugin_span.getD 0) ≠ gcc_target.take (plugin_span.getD 0) then
    (annobin_inform env st 0
      "Error: plugin run on a %.*s compiler but built on a %.*s compiler", true)
  else
    (annobin_inform env st 1 "Plugin run on a compiler configured as (%s) not (%s)", false)

/-- The first part of `plugin_init`: the comparison of the version of the host
with the one the plugin was built for. It yields the state and whether
`plugin_init` returns 1 at this point. -/
def check_version (env : Env) (host : Host) (version : plugin_gcc_version) (st : State) :
    State × Bool :=
  if host.default_version_check then (st, false)
  else
    let fail : Bool := decide (version.basever ≠ host.gcc_version.basever)
    let st := inform_if fail env st
      "Error: plugin built for compiler version (%s) but run with compiler version (%s)"
    let st :=
      if version.datestamp ≠ host.gcc_version.datestamp then
        annobin_inform env st 1 "Plugin datestamp (%s) is different from compiler datestamp (%s)"
      else st
    let st :=
      if version.devphase ≠ host.gcc_version.devphase then
        annobin_inform env st 1 "Plugin built for compiler development phase (%s) not (%s)"
      else st
    let st :=
      if version.revision ≠ host.gcc_version.revision then
        annobin_inform env st 1 "Warning: plugin built for compiler revision (%s) not (%s)"
      else st
    if version.configuration_arguments ≠ host.gcc_version.configuration_arguments then
      let r := check_configuration env host version st
      (r.1, fail || r.2)
    else (st, fail)

/-- The callbacks that `plugin_init` registers, in order. -/
def annobin_callbacks (plugin_info : plugin_name_args) : List Callback :=
  [⟨plugin_info.base_name, Event.PLUGIN_INFO⟩,
   ⟨cstr "annobin: Generate global annotations", Event.PLUGIN_START_UNIT⟩,
   ⟨cstr "annobin: Generate per-function annotations", Event.PLUGIN_ALL_PASSES_END⟩,
   ⟨cstr "annobin: Generate final annotations", Event.PLUGIN_FINISH_UNIT⟩]

/-- The function `plugin_init`. The function
`annobin_save_target_specific_information` is empty in every target file.
`none` stands for undefined behaviour in `parse_args`. -/
def plugin_init (env : Env) (host : Host) (st : State) (plugin_info : plugin_name_args)
    (version : plugin_gcc_version) : Option InitResult :=
  let r := check_version env host version st
  if r.2 then some ⟨1, r.1, []⟩
  else
    match parse_args env r.1 plugin_info.argv with
    | none => none
    | some (false, st) =>
      some ⟨1, annobin_inform env st 1 "failed to parse arguments to the plugin", []⟩
    | some (true, st) =>
      if !st.enabled then some ⟨0, st, []⟩
      else if !st.annobin_enable_dynamic_notes && !st.annobin_enable_static_notes then
        some ⟨0, annobin_inform env st 1 "nothing to be done", []⟩
      else
        let st := { st with
          compiler_version := some (cstr "gcc " ++ version.basever ++ [32] ++ version.datestamp) }
        some ⟨0, st, annobin_callbacks plugin_info⟩

/-- A compilation for a target with pointers of 48 bits. -/
def Env.with_pointer_size_48 : Env := { Env.plain with POINTER_SIZE := 48 }

/-- The sample compilation `Env.plain` with `-O2 -Wall` and with a debug type, a
debug level and a DWARF version that are all out of range. -/
def Env.with_unknown_debug : Env :=
  { Env.plain with
    write_symbols := 7
    debug_info_level := 5
    dwarf_version := 9
    optimize := 2
    save_decoded_options := [⟨OptIndex.OPT_Wall, none⟩] }

/-- The messages of `annobin_output_note` about the name `a.name`. -/
def name_check_messages (a : NoteArgs) : List String :=
  match a.name with
  | none => if a.namesz != 0 then ["ICE: null name with non-zero size"] else []
  | some name =>
    if a.name_is_string ∧ strlen name ≠ (a.namesz + 4294967295) % 4294967296 then
      ["ICE: name string '%s' does not match name size %d"]
    else []

/-- The messages of the `switch` on `descsz` in `annobin_output_note`, made for
a descriptor that holds symbol names. -/
def descsz_check_messages (is64 : Bool) (a : NoteArgs) : List String :=
  if a.descsz = 0 then ["ICE: zero descsz with string description"]
  else if a.descsz = 4 then
    (if is64 || a.desc2.isSome then ["ICE: descz too small"] else [])
    ++ (if a.desc1.isNone then ["ICE: descz too big"] else [])
  else if a.descsz = 8 then
    if is64 then (if a.desc2.isSome then ["ICE: descz too small"] else [])
    else (if a.desc1.isNone || a.desc2.isNone then ["ICE: descz too big"] else [])
  else if a.descsz = 16 then
    (if !is64 || a.desc1.isNone || a.desc2.isNone then ["ICE: descz too big"] else [])
  else ["ICE: description string size (%d) does not match address size"]

/-- The messages of `annobin_output_note` about the descriptor. -/
def desc_check_messages (is64 : Bool) (a : NoteArgs) : List String :=
  match a.desc1 with
  | none =>
    (if a.descsz != 0 then ["ICE: null desc1 with non-zero size"] else [])
    ++ (if a.desc2.isSome then ["ICE: non-null desc2 with null desc1"] else [])
  | some _ =>
    if a.desc_is_string then descsz_check_messages is64 a
    else if a.desc2.isSome then
      ["ICE: second description not empty for non-string description"]
    else []

/-- The number of bytes that a line of assembler text with a reference to a
symbol adds to the section. -/
def Asm.ref_bytes : Asm → Nat
  | Asm.quad_sym _ => 8
  | Asm.dc_l_sym _ => 4
  | _ => 0

/-- The number that a `.dc.l` line holds: one of the three words in front of a
note. -/
def Asm.word : Asm → Option Nat
  | Asm.dc_l v _ => some v
  | _ => none

/-- The number of symbols in the descriptor of a note: the start symbol, and the
end symbol if there is one. -/
def NoteArgs.symbols (a : NoteArgs) : Nat := if a.desc2.isSome then 2 else 1

/-- The messages of the `switch` on `descsz`. -/
def descsz_messages : List String :=
  ["ICE: zero descsz with string description", "ICE: descz too small", "ICE: descz too big",
   "ICE: description string size (%d) does not match address size"]

/-- The function `f` compiled with `-fstack-protector-strong -O2` in a unit
whose other functions are compiled as in `Env.plain`. -/
def Env.with_stack_protect_O2 : Env :=
  { Env.plain with flag_stack_protect := 2, optimize := 2 }

/-- The step of the counter `annobin_note_count`, an `unsigned int`. -/
def count_step (c : Nat) : Nat := (c + 1) % 4294967296

/-- Between the states `s` and `t` the output has grown by the chunks `L`, each
of them a note, and the note counter has been stepped once for each. -/
def State.wrote (s t : State) (L : List Chunk) : Prop :=
  t.asm_out = s.asm_out ++ L ∧ (∀ c ∈ L, ∃ a text, c = Chunk.note a text) ∧
  t.annobin_note_count = count_step^[L.length] s.annobin_note_count

/-- Between the states `s` and `t` at most `n` notes have been written, and
nothing else. -/
def State.wrote_le (s t : State) (n : Nat) : Prop :=
  ∃ L : List Chunk, s.wrote t L ∧ L.length ≤ n

/-- The label that `annobin_create_function_notes` may print behind the notes
of a function: the assembler name of the function (its plain name if it has no
assembler name) followed by `_end`. -/
def function_end_symbol (env : Env) : List Nat :=
  (env.function_asm_name.orElse (fun _ => env.current_function_name)).getD [] ++ cstr "_end"

/-- A unit with stack-size notes enabled whose functions used 12000 bytes of
stack in all. -/
def State.with_stack_total : State :=
  { State.with_stack_size_notes with
    annobin_total_static_stack_usage := 12000
    annobin_max_stack_size := 12000 }

/-- The key of a plugin argument without its leading `-` characters. -/
def strip_dashes (key : List Nat) : List Nat := key.dropWhile (fun c => c == 45)

/-- The names of the options that `parse_args` knows. -/
def recognised_keys : List (List Nat) :=
  [cstr "disable", cstr "enable", cstr "help", cstr "version", cstr "verbose",
   cstr "global-file-syms", cstr "no-global-file-syms", cstr "stack-size-notes",
   cstr "no-stack-size-notes", cstr "dynamic-notes", cstr "no-dynamic-notes",
   cstr "static-notes", cstr "no-static-notes", cstr "stack-threshold"]

/-- A host that runs the plugin it was built for. -/
def Host.sample : Host :=
  { gcc_version := ⟨cstr "7.3.1", cstr "20180130", cstr "", cstr "", cstr ""⟩
    default_version_check := true
    native_span := 6 }

/-- The arguments `verbose` and `bogus` of the plugin `annobin`. -/
def plugin_name_args.sample : plugin_name_args :=
  { base_name := cstr "annobin"
    argv := [⟨cstr "verbose", none⟩, ⟨cstr "bogus", none⟩] }

/-- A sample build for the x86_64 target in which the masks `OPTION_MASK_ISA_...`
are the bits 0 to 13, so that they fit the `unsigned int` argument of
`convert_gcc_isa_to_gnu_property_isa`. -/
def Build.x86_sample : Build :=
  { Build.standard with
    target := Target.x86_64
    OPTION_MASK_ISA_SSE := 1
    OPTION_MASK_ISA_SSE2 := 2
    OPTION_MASK_ISA_SSE3 := 4
    OPTION_MASK_ISA_SSE4_1 := 8
    OPTION_MASK_ISA_SSE4_2 := 16
    OPTION_MASK_ISA_AVX := 32
    OPTION_MASK_ISA_AVX2 := 64
    OPTION_MASK_ISA_AVX512F := some 128
    OPTION_MASK_ISA_AVX512CD := 256
    OPTION_MASK_ISA_AVX512ER := 512
    OPTION_MASK_ISA_AVX512PF := 1024
    OPTION_MASK_ISA_AVX512VL := 2048
    OPTION_MASK_ISA_AVX512DQ := 4096
    OPTION_MASK_ISA_AVX512BW := 8192 }

/-- A sequence of calls of `annobin_target_specific_function_notes`, one for each
function of the unit in turn: each call is given the compiler state for its
function and the two symbols. -/
def target_function_notes_calls (K : Build)
    (calls : List (Env × Option (List Nat) × Option (List Nat))) (st : State) : State :=
  calls.foldl (fun s c => annobin_target_specific_function_notes K c.1 s c.2.1 c.2.2) st

/-- The note that `annobin_target_specific_function_notes` writes on x86 for a
function whose ISA value differs from the unit value `g`. -/
def x86_function_ABI_note (K : Build) (is64 : Bool) (g : Nat)
    (c : Env × Option (List Nat) × Option (List Nat)) : Option NoteArgs :=
  if toULong c.1.ix86_isa_flags ≠ g then
    some (numeric_note_args K c.1 is64 K.GNU_BUILD_ATTRIBUTE_ABI (toULong c.1.ix86_isa_flags)
      "numeric: ABI" c.2.1 c.2.2 K.NT_GNU_BUILD_ATTRIBUTE_FUNC)
  else none
/-- The compilation `Env.plain` with the value `isa` in `ix86_isa_flags`. -/
def Env.with_isa (isa : Int) : Env := { Env.plain with ix86_isa_flags := isa }
/-- The function `f` compiled with the ISA value 4 and
`-fstack-protector-strong` in a unit whose other functions are compiled as in
`Env.plain`. -/
def Env.with_isa_stack_protect : Env :=
  { Env.plain with ix86_isa_flags := 4, flag_stack_protect := 2 }

/-- The sample compilation `Env.plain` with
`-fpreprocessed -D_GLIBCXX_ASSERTIONS -D_FORTIFY_SOURCE=1`. -/
def Env.with_preprocessed_assertions : Env :=
  { Env.plain with
    save_decoded_options :=
      [⟨OptIndex.OPT_fpreprocessed, none⟩,
       ⟨OptIndex.OPT_D, some (cstr "_GLIBCXX_ASSERTIONS")⟩,
       ⟨OptIndex.OPT_D, some (cstr "_FORTIFY_SOURCE=1")⟩] }
/-- The value that one plugin argument gives to a setting with two states:
true for the key `key_on`, false for the key `key_off`, nothing for any other key. -/
def arg_switch (key_on key_off : String) (a : plugin_argument) : Option Bool :=
  if strip_dashes a.key = cstr key_on then some true
  else if strip_dashes a.key = cstr key_off then some false
  else none

/-- The threshold that one plugin argument sets: for the key `stack-threshold`
the number read from its value, and `DEFAULT_THRESHOLD` when that number is
0; nothing for any other key. -/
def arg_threshold (a : plugin_argument) : Option Nat :=
  if strip_dashes a.key = cstr "stack-threshold" then
    a.value.map (fun value => if strtoul value = 0 then DEFAULT_THRESHOLD else strtoul value)
  else none

/-- The argument is `verbose`. -/
def is_verbose_arg (a : plugin_argument) : Bool :=
  decide (strip_dashes a.key = cstr "verbose")
/-- The arguments `enable`, `disable`, `verbose`, `--verbose`,
`stack-threshold=0`, `stack-threshold=500`, `no-static-notes` and
`static-notes` of the plugin, in this order. -/
def argv_contradictory : List plugin_argument :=
  [⟨cstr "enable", none⟩, ⟨cstr "disable", none⟩, ⟨cstr "verbose", none⟩,
   ⟨cstr "--verbose", none⟩, ⟨cstr "stack-threshold", some (cstr "0")⟩,
   ⟨cstr "stack-threshold", some (cstr "500")⟩, ⟨cstr "no-static-notes", none⟩,
   ⟨cstr "static-notes", none⟩]

/-! ## Auxiliary facts -/

theorem decode_le_eq_ofDigits (bs : List Nat) : decode_le bs = Nat.ofDigits 256 bs := by
  induction bs with
  | nil => rfl
  | cons b bs ih => simp [decode_le, Nat.ofDigits_cons, ih]

theorem decode_le_digits (v : Nat) : decode_le (Nat.digits 256 v) = v := by
  rw [decode_le_eq_ofDigits, Nat.ofDigits_digits]

/-- The number of base-256 digits of `v` is the number of its bits divided by 8,
rounded up. -/
theorem digits_256_length (v : Nat) : (Nat.digits 256 v).length = (Nat.size v + 7) / 8 := by
  by_cases hv : v = 0
  · subst hv; simp
  · have hlen := Nat.digits_len 256 v (by norm_num) hv
    have h1 : 256 ^ Nat.log 256 v ≤ v := Nat.pow_log_le_self 256 hv
    have h2 : v < 256 ^ (Nat.log 256 v + 1) := Nat.lt_pow_succ_log_self (by norm_num) v
    have e : ∀ k : Nat, 256 ^ k = 2 ^ (8 * k) := by
      intro k; rw [pow_mul]; norm_num
    rw [e] at h1 h2
    have h3 : Nat.size v ≤ 8 * (Nat.log 256 v + 1) := Nat.size_le.mpr h2
    have h4 : 8 * Nat.log 256 v < Nat.size v := Nat.lt_size.mpr h1
    omega

theorem digits_256_length_le (v : Nat) (hv : v < 2 ^ 64) : (Nat.digits 256 v).length ≤ 8 := by
  rw [digits_256_length]
  have : Nat.size v ≤ 64 := Nat.size_le.mpr hv
  omega

theorem take_succ_set (l : List Nat) : ∀ (i x : Nat), i < l.length →
    (l.set i x).take (i + 1) = l.take i ++ [x] := by
  induction l with
  | nil => intro i x h; simp at h
  | cons a l ih =>
    intro i x h
    cases i with
    | zero => simp
    | succ i =>
      simp only [List.length_cons, Nat.add_lt_add_iff_right] at h
      simp [ih i x h]

/-- The loop stores the base-256 digits of the value and one zero byte, and
leaves with the value used up, provided the buffer has room for them. -/
theorem numeric_loop_spec (fuel : Nat) : ∀ (buffer : List Nat) (i v : Nat),
    (Nat.digits 256 v).length < fuel → i + (Nat.digits 256 v).length < buffer.length →
    (numeric_loop fuel buffer i v).2 = (i + (Nat.digits 256 v).length, 0) ∧
    (numeric_loop fuel buffer i v).1.take (i + (Nat.digits 256 v).length + 1)
      = buffer.take i ++ Nat.digits 256 v ++ [0] := by
  induction fuel with
  | zero => intro buffer i v h; omega
  | succ fuel ih =>
    intro buffer i v hf hb
    by_cases hv : v = 0
    · subst hv
      simp only [numeric_loop, Nat.digits_zero, List.length_nil, Nat.add_zero, if_true,
        List.append_nil, Nat.zero_mod, true_and]
      simp only [Nat.digits_zero, List.length_nil, Nat.add_zero] at hb
      exact take_succ_set buffer i 0 hb
    · have hd : Nat.digits 256 v = v % 256 :: Nat.digits 256 (v / 256) :=
        Nat.digits_def' (by norm_num) (Nat.pos_of_ne_zero hv)
      rw [hd] at hf hb ⊢
      simp only [List.length_cons] at hf hb
      have hlen : (buffer.set i (v % 256)).length = buffer.length := List.length_set ..
      have := ih (buffer.set i (v % 256)) (i + 1) (v / 256) (by omega) (by rw [hlen]; omega)
      obtain ⟨h1, h2⟩ := this
      simp only [numeric_loop, hv, if_false, List.length_cons]
      refine ⟨by rw [h1]; congr 1; omega, ?_⟩
      have e : i + ((Nat.digits 256 (v / 256)).length + 1) + 1
          = i + 1 + (Nat.digits 256 (v / 256)).length + 1 := by omega
      have hi : i < buffer.length := by omega
      rw [e, h2, take_succ_set buffer i (v % 256) hi]
      simp

/-! ### What the reporting functions leave alone -/

theorem core_asm_out {s t : State} (h : s.core = t.core) : s.asm_out = t.asm_out := by
  have := congrArg State.asm_out h
  exact this

theorem core_is_64bit {s t : State} (h : s.core = t.core) :
    s.annobin_is_64bit = t.annobin_is_64bit := by
  have := congrArg State.annobin_is_64bit h
  exact this

theorem core_note_count {s t : State} (h : s.core = t.core) :
    s.annobin_note_count = t.annobin_note_count := by
  have := congrArg State.annobin_note_count h
  exact this

theorem init_core (env : Env) (st : State) :
    (init_annobin_current_filename env st).core = st.core := by
  unfold init_annobin_current_filename
  split <;> rfl

theorem inform_core (env : Env) (st : State) (level : Nat) (format : String) :
    (annobin_inform env st level format).core = st.core := by
  unfold annobin_inform
  split
  · rfl
  · split
    · exact init_core env st
    · rfl

theorem inform_if_core (c : Bool) (env : Env) (st : State) (format : String) :
    (inform_if c env st format).core = st.core := by
  unfold inform_if
  split
  · exact inform_core ..
  · rfl

theorem check_descsz_core (env : Env) (st : State) (a : NoteArgs) :
    (check_descsz env st a).core = st.core := by
  unfold check_descsz
  repeat' split
  all_goals simp only [inform_core, inform_if_core]

theorem note_checks_core (env : Env) (st : State) (a : NoteArgs) :
    (note_checks env st a).core = st.core := by
  unfold note_checks
  repeat' split
  all_goals simp only [inform_core, inform_if_core, check_descsz_core]

/-- With an output file, `annobin_output_note` appends exactly one note, printed
for the word size in force. -/
theorem output_note_asm_out (K : Build) (env : Env) (st : State) (a : NoteArgs)
    (hsink : env.asm_out_file = true) :
    (annobin_output_note K env st a).asm_out
      = st.asm_out ++ [Chunk.note a (note_text K st.annobin_is_64bit a)] := by
  have h := note_checks_core env st a
  have h1 : (note_checks env st a).asm_out = st.asm_out := core_asm_out h
  have h2 : (note_checks env st a).annobin_is_64bit = st.annobin_is_64bit := core_is_64bit h
  simp [annobin_output_note, hsink, h1, h2]

/-- The first part of `annobin_output_numeric_note` on a 64-bit value: the loop
is left with the value used up, and the buffer starts with the four leading
bytes, the value bytes and one zero byte. -/
theorem numeric_note_encode_spec (K : Build) (env : Env) (numeric_type v : Nat)
    (hv : v < 2 ^ 64) :
    (numeric_note_encode K env numeric_type v).2
      = (4 + (if v = 0 then 1 else (Nat.digits 256 v).length), 0) ∧
    (numeric_note_encode K env numeric_type v).1.take
        (4 + (if v = 0 then 1 else (Nat.digits 256 v).length) + 1)
      = [71, 65, fmt_c K.GNU_BUILD_ATTRIBUTE_TYPE_NUMERIC, fmt_c numeric_type]
        ++ (if v = 0 then [0] else Nat.digits 256 v) ++ [0] := by
  by_cases h0 : v = 0
  · subst h0
    simp [numeric_note_encode, sprintf, uninit, List.replicate]
  · have hlen := digits_256_length_le v hv
    have hb : (sprintf (uninit env 32)
        [71, 65, fmt_c K.GNU_BUILD_ATTRIBUTE_TYPE_NUMERIC, fmt_c numeric_type]).length = 32 := by
      simp [sprintf, uninit]
    have := numeric_loop_spec 28 (sprintf (uninit env 32)
        [71, 65, fmt_c K.GNU_BUILD_ATTRIBUTE_TYPE_NUMERIC, fmt_c numeric_type]) 4 v
        (by omega) (by rw [hb]; omega)
    simp only [numeric_note_encode, h0, if_false]
    refine ⟨this.1, ?_⟩
    rw [this.2]
    simp [sprintf]

theorem le_bytes_digits (k : Nat) : ∀ v : Nat, (Nat.digits 256 v).length = k →
    le_bytes k v = Nat.digits 256 v := by
  induction k with
  | zero =>
    intro v h
    rw [List.length_eq_zero.mp h]; rfl
  | succ k ih =>
    intro v h
    have hv : v ≠ 0 := by
      intro h0; subst h0; simp at h
    have hd : Nat.digits 256 v = v % 256 :: Nat.digits 256 (v / 256) :=
      Nat.digits_def' (by norm_num) (Nat.pos_of_ne_zero hv)
    rw [hd] at h ⊢
    simp only [List.length_cons, Nat.add_right_cancel_iff] at h
    simp [le_bytes, ih (v / 256) h]

theorem value_bytes_eq_digits (v : Nat) : value_bytes v = Nat.digits 256 v :=
  le_bytes_digits _ v (digits_256_length v)

theorem toULong_lt (x : Int) : toULong x < 2 ^ 64 := by
  unfold toULong
  have h1 : 0 ≤ x % 18446744073709551616 := Int.emod_nonneg _ (by norm_num)
  have h2 : x % 18446744073709551616 < 18446744073709551616 := Int.emod_lt_of_pos _ (by norm_num)
  omega

/-- With an output file, `annobin_output_numeric_note` appends exactly the note
built by `numeric_note_args`. -/
theorem numeric_note_asm_out (K : Build) (env : Env) (st : State) (numeric_type v : Nat)
    (name_description : String) (start end_ : Option (List Nat)) (note_type : Nat)
    (hsink : env.asm_out_file = true) :
    (annobin_output_numeric_note K env st numeric_type v name_description start end_
        note_type).asm_out
      = st.asm_out ++
        [Chunk.note
          (numeric_note_args K env st.annobin_is_64bit numeric_type v name_description
            start end_ note_type)
          (note_text K st.annobin_is_64bit
            (numeric_note_args K env st.annobin_is_64bit numeric_type v name_description
              start end_ note_type))] := by
  unfold annobin_output_numeric_note
  simp only []
  rw [output_note_asm_out K env _ _ hsink]
  have h : (inform_if ((numeric_note_encode K env numeric_type v).2.2 != 0) env
      (inform_if (decide ((numeric_note_encode K env numeric_type v).2.1 > 12)) env st
        "ICE: Numeric value for %s too big to fit into 8 bytes\n")
      "ICE: Unable to record numeric value in note %s\n").core = st.core := by
    rw [inform_if_core, inform_if_core]
  rw [core_asm_out h, core_is_64bit h]

/-- The name written for a numeric note with a 64-bit value. -/
theorem numeric_note_name_bytes (K : Build) (env : Env) (is64 : Bool) (numeric_type v : Nat)
    (name_description : String) (start end_ : Option (List Nat)) (note_type : Nat)
    (hv : v < 2 ^ 64) :
    (numeric_note_args K env is64 numeric_type v name_description start end_
        note_type).name_bytes
      = [71, 65, fmt_c K.GNU_BUILD_ATTRIBUTE_TYPE_NUMERIC, fmt_c numeric_type]
        ++ (if v = 0 then [0] else value_bytes v) ++ [0] ∧
    (numeric_note_args K env is64 numeric_type v name_description start end_
        note_type).namesz
      = 4 + (if v = 0 then 1 else (value_bytes v).length) + 1 := by
  have h := numeric_note_encode_spec K env numeric_type v hv
  rw [value_bytes_eq_digits]
  simp only [NoteArgs.name_bytes, numeric_note_args, Option.getD_some, h.1]
  exact ⟨h.2, trivial⟩

/-- C1: for every attribute tag and every value `v < 2^64`, the name written by
`annobin_output_numeric_note` has the declared size; its bytes from offset 4 up
to, but not including, the final terminator (a zero byte) read as a
little-endian unsigned integer give `v` back; and the payload length (the
declared name size minus the 4 leading bytes) is the number of bits of `v`
divided by 8 and rounded up, plus 1, with 2 bytes when `v` is 0. -/
theorem numeric_note_roundtrip (K : Build) (env : Env) (st : State) (numeric_type v : Nat)
    (name_description : String) (start end_ : Option (List Nat)) (note_type : Nat)
    (hsink : env.asm_out_file = true) (hv : v < 2 ^ 64) :
    ∃ a text,
      (annobin_output_numeric_note K env st numeric_type v name_description start end_
          note_type).asm_out = st.asm_out ++ [Chunk.note a text] ∧
      a.name_bytes.length = a.namesz ∧
      a.name_bytes.getLast? = some 0 ∧
      decode_le ((a.name_bytes.drop 4).dropLast) = v ∧
      a.namesz - 4 = (if v = 0 then 2 else (Nat.size v + 7) / 8 + 1) := by
  refine ⟨_, _, numeric_note_asm_out K env st numeric_type v name_description start end_
    note_type hsink, ?_⟩
  obtain ⟨h1, h2⟩ := numeric_note_name_bytes K env st.annobin_is_64bit numeric_type v
    name_description start end_ note_type hv
  rw [h1, h2]
  by_cases h0 : v = 0
  · subst h0
    simp [decode_le]
  · have hl : (value_bytes v).length = (Nat.size v + 7) / 8 := by
      rw [value_bytes_eq_digits, digits_256_length]
    simp only [h0, if_false]
    refine ⟨by simp; omega, ?_, ?_, by rw [hl]; omega⟩
    · rw [List.getLast?_append]; simp
    · rw [value_bytes_eq_digits]
      simp [List.dropLast_append_of_ne_nil, decode_le_digits]

/-- Witness of `numeric_note_roundtrip`, at the value `0x1234`. -/
theorem numeric_note_roundtrip_witness :
    ∃ a text,
      (annobin_output_numeric_note Build.standard Env.plain (State.initial none) 7 4660
          "numeric: PIC" none none 256).asm_out
        = (State.initial none).asm_out ++ [Chunk.note a text] ∧
      a.name_bytes.length = a.namesz ∧
      a.name_bytes.getLast? = some 0 ∧
      decode_le ((a.name_bytes.drop 4).dropLast) = 4660 ∧
      a.namesz - 4 = (if 4660 = 0 then 2 else (Nat.size 4660 + 7) / 8 + 1) :=
  numeric_note_roundtrip Build.standard Env.plain (State.initial none) 7 4660
    "numeric: PIC" none none 256 rfl (by norm_num)

/-- The line that prints the name of a note whose name is not a string holds
exactly the bytes `name_bytes`. -/
theorem note_text_name_line (K : Build) (is64 : Bool) (a : NoteArgs) (nm : List Nat)
    (hn : a.name = some nm) (hs : a.name_is_string = false) :
    Asm.dc_b a.name_bytes a.name_description ∈ note_text K is64 a := by
  simp [note_text, hn, hs, NoteArgs.name_bytes]

/-- The line that prints the name of a note whose name is a string holds the
bytes of the name before its first NUL. -/
theorem note_text_asciz_line (K : Build) (is64 : Bool) (a : NoteArgs) (nm : List Nat)
    (hn : a.name = some nm) (hs : a.name_is_string = true) :
    Asm.asciz (nm.takeWhile (fun b => b != 0)) a.name_description ∈ note_text K is64 a := by
  simp [note_text, hn, hs]

theorem le_bytes_lt (k : Nat) : ∀ v : Nat, ∀ b ∈ le_bytes k v, b < 256 := by
  induction k with
  | zero => intro v b hb; simp [le_bytes] at hb
  | succ k ih =>
    intro v b hb
    simp only [le_bytes, List.mem_cons] at hb
    rcases hb with rfl | hb
    · exact Nat.mod_lt _ (by norm_num)
    · exact ih _ b hb

/-- C2: for every tag and every `v < 2^64` the name written by
`annobin_output_numeric_note` is exactly `G`, `A`, the numeric type byte, the
tag byte, the bytes of the value least significant first and trimmed (so that
for `v ≠ 0` the last value byte is not zero), and one zero byte as terminator;
for `v = 0` the payload is two zero bytes and the declared name size is 6. -/
theorem numeric_note_name (K : Build) (env : Env) (st : State) (numeric_type v : Nat)
    (name_description : String) (start end_ : Option (List Nat)) (note_type : Nat)
    (hsink : env.asm_out_file = true) (hv : v < 2 ^ 64) :
    ∃ a text,
      (annobin_output_numeric_note K env st numeric_type v name_description start end_
          note_type).asm_out = st.asm_out ++ [Chunk.note a text] ∧
      Asm.dc_b a.name_bytes name_description ∈ text ∧
      a.name_bytes
        = [71, 65, fmt_c K.GNU_BUILD_ATTRIBUTE_TYPE_NUMERIC, fmt_c numeric_type]
          ++ (if v = 0 then [0] else value_bytes v) ++ [0] ∧
      a.namesz = a.name_bytes.length ∧
      (∀ b ∈ value_bytes v, b < 256) ∧
      (v ≠ 0 → ∃ h : value_bytes v ≠ [], (value_bytes v).getLast h ≠ 0) ∧
      (v = 0 → a.name_bytes.drop 4 = [0, 0] ∧ a.namesz = 6) := by
  refine ⟨_, _, numeric_note_asm_out K env st numeric_type v name_description start end_
    note_type hsink, ?_, ?_⟩
  · exact note_text_name_line K _ _ _ rfl rfl
  obtain ⟨h1, h2⟩ := numeric_note_name_bytes K env st.annobin_is_64bit numeric_type v
    name_description start end_ note_type hv
  refine ⟨h1, ?_, le_bytes_lt _ v, ?_, ?_⟩
  · rw [h1, h2]; simp only [List.length_append, List.length_cons, List.length_nil]
    split <;> simp
  · intro h0
    have hne : value_bytes v ≠ [] := by
      rw [value_bytes_eq_digits]; exact Nat.digits_ne_nil_iff_ne_zero.mpr h0
    refine ⟨hne, ?_⟩
    have := Nat.getLast_digit_ne_zero 256 h0
    simpa only [value_bytes_eq_digits] using this
  · intro h0
    rw [h1, h2]; simp [h0]

/-- Witness of `numeric_note_name`, at the value 0. -/
theorem numeric_note_name_witness :
    ∃ a text,
      (annobin_output_numeric_note Build.standard Env.plain (State.initial none) 2 0
          "numeric: -fstack-protector status" none none 256).asm_out
        = (State.initial none).asm_out ++ [Chunk.note a text] ∧
      Asm.dc_b a.name_bytes "numeric: -fstack-protector status" ∈ text ∧
      a.name_bytes
        = [71, 65, fmt_c Build.standard.GNU_BUILD_ATTRIBUTE_TYPE_NUMERIC, fmt_c 2]
          ++ (if 0 = 0 then [0] else value_bytes 0) ++ [0] ∧
      a.namesz = a.name_bytes.length ∧
      (∀ b ∈ value_bytes 0, b < 256) ∧
      (0 ≠ 0 → ∃ h : value_bytes 0 ≠ [], (value_bytes 0).getLast h ≠ 0) ∧
      (0 = 0 → a.name_bytes.drop 4 = [0, 0] ∧ a.namesz = 6) :=
  numeric_note_name Build.standard Env.plain (State.initial none) 2 0
    "numeric: -fstack-protector status" none none 256 rfl (by norm_num)

/-! ### The messages that are reported -/

theorem init_stderr (env : Env) (st : State) :
    (init_annobin_current_filename env st).stderr = st.stderr := by
  unfold init_annobin_current_filename
  split <;> rfl

theorem inform_formats (env : Env) (st : State) (level : Nat) (format : String) :
    (annobin_inform env st level format).formats
      = st.formats ++ (if level > 0 ∧ level > st.verbose_level then [] else [format]) := by
  unfold annobin_inform
  split
  · simp
  · split <;> simp [State.formats, init_stderr]

theorem inform_if_formats (c : Bool) (env : Env) (st : State) (format : String) :
    (inform_if c env st format).formats = st.formats ++ (if c then [format] else []) := by
  unfold inform_if
  split <;> simp [inform_formats]

/-- The messages of `annobin_output_note` for a name that is a string of the
declared length: the message about the length of the name is not among
them. -/
theorem note_checks_formats_string_ok (env : Env) (st : State) (a : NoteArgs) (nm : List Nat)
    (hn : a.name = some nm) (hs : a.name_is_string = true)
    (hl : strlen nm = (a.namesz + 4294967295) % 4294967296) :
    ∃ L, (note_checks env st a).formats = st.formats ++ L ∧
      "ICE: name string '%s' does not match name size %d" ∉ L := by
  unfold note_checks check_descsz
  simp only [hn, hs, hl, if_true, bne_self_eq_false]
  repeat' split
  all_goals simp only [inform_if_formats, inform_formats, List.append_assoc]
  all_goals refine ⟨_, rfl, ?_⟩
  all_goals repeat' split
  all_goals first
    | contradiction
    | simp

theorem output_note_formats (K : Build) (env : Env) (st : State) (a : NoteArgs)
    (hsink : env.asm_out_file = true) :
    (annobin_output_note K env st a).formats = (note_checks env st a).formats := by
  simp [annobin_output_note, hsink, State.formats]

theorem takeWhile_nul_free (l r : List Nat) (h : ∀ b ∈ l, b ≠ 0) :
    (l ++ 0 :: r).takeWhile (fun b => b != 0) = l := by
  induction l with
  | nil => simp
  | cons b l ih =>
    have hb : b ≠ 0 := h b (List.mem_cons_self _ _)
    have hl : ∀ c ∈ l, c ≠ 0 := fun c hc => h c (List.mem_cons_of_mem _ hc)
    simp [List.takeWhile_cons, hb, ih hl]

theorem takeWhile_nul_free_self (l : List Nat) (h : ∀ b ∈ l, b ≠ 0) :
    l.takeWhile (fun b => b != 0) = l := by
  induction l with
  | nil => simp
  | cons b l ih =>
    have hb : b ≠ 0 := h b (List.mem_cons_self _ _)
    have hl : ∀ c ∈ l, c ≠ 0 := fun c hc => h c (List.mem_cons_of_mem _ hc)
    simp [List.takeWhile_cons, hb, ih hl]

/-- The buffer that `annobin_output_string_note` builds for a string without
NUL whose length fits: the four leading bytes, the string, one NUL. -/
theorem string_note_args_name (K : Build) (env : Env) (is64 : Bool) (string_type : Nat)
    (s : List Nat) (name_description : String) (start end_ : Option (List Nat))
    (note_type : Nat) (hs : ∀ b ∈ s, b ≠ 0) (hlen : s.length + 5 < 2 ^ 32) :
    (string_note_args K env is64 string_type s name_description start end_ note_type).name
      = some ([71, 65, fmt_c K.GNU_BUILD_ATTRIBUTE_TYPE_STRING, fmt_c string_type] ++ s ++ [0]) ∧
    (string_note_args K env is64 string_type s name_description start end_ note_type).namesz
      = s.length + 5 := by
  have h1 : strlen s = s.length := by rw [strlen, takeWhile_nul_free_self s hs]
  have h2 : fmt_s s = s := takeWhile_nul_free_self s hs
  have h3 : s.length % 4294967296 = s.length := Nat.mod_eq_of_lt (by omega)
  have h4 : (s.length + 5) % 4294967296 = s.length + 5 := Nat.mod_eq_of_lt (by omega)
  simp only [string_note_args, h1, h2, h3, h4, sprintf, uninit]
  refine ⟨?_, trivial⟩
  simp

/-- C3 (amended): for every tag that is not NUL and every string `s` without NUL
whose length fits the 32-bit length variable, `annobin_output_string_note`
builds the name `G`, `A`, the string type byte, the tag byte, the bytes of `s`
and one NUL, and declares the name size `strlen (s) + 5`; the check
`strlen (name) == namesz - 1` of the emitter passes, so the message about the
name size is not reported; and the name without its 4 leading bytes and its
terminator is `s`. -/
theorem string_note_name (K : Build) (env : Env) (st : State) (string_type : Nat)
    (s : List Nat) (name_description : String) (start end_ : Option (List Nat))
    (note_type : Nat) (hsink : env.asm_out_file = true)
    (hty : fmt_c K.GNU_BUILD_ATTRIBUTE_TYPE_STRING ≠ 0) (htag : fmt_c string_type ≠ 0)
    (hs : ∀ b ∈ s, b ≠ 0) (hlen : s.length + 5 < 2 ^ 32) :
    ∃ a text nm L,
      (annobin_output_string_note K env st string_type s name_description start end_
          note_type).asm_out = st.asm_out ++ [Chunk.note a text] ∧
      a.name = some nm ∧
      nm = [71, 65, fmt_c K.GNU_BUILD_ATTRIBUTE_TYPE_STRING, fmt_c string_type] ++ s ++ [0] ∧
      a.namesz = s.length + 5 ∧
      a.name_is_string = true ∧
      strlen nm = a.namesz - 1 ∧
      (annobin_output_string_note K env st string_type s name_description start end_
          note_type).formats = st.formats ++ L ∧
      "ICE: name string '%s' does not match name size %d" ∉ L ∧
      (nm.drop 4).dropLast = s ∧
      Asm.asciz nm.dropLast name_description ∈ text := by
  obtain ⟨h1, h2⟩ := string_note_args_name K env st.annobin_is_64bit string_type s
    name_description start end_ note_type hs hlen
  have hnz : ∀ b ∈ [71, 65, fmt_c K.GNU_BUILD_ATTRIBUTE_TYPE_STRING, fmt_c string_type] ++ s,
      b ≠ 0 := by
    intro b hb
    simp only [List.mem_append, List.mem_cons, List.mem_singleton, List.not_mem_nil,
      or_false] at hb
    rcases hb with (rfl | rfl | rfl | rfl) | hb
    · decide
    · decide
    · exact hty
    · exact htag
    · exact hs b hb
  have hstr : strlen ([71, 65, fmt_c K.GNU_BUILD_ATTRIBUTE_TYPE_STRING, fmt_c string_type]
      ++ s ++ [0]) = s.length + 4 := by
    rw [strlen, takeWhile_nul_free _ [] hnz]; simp
  have hchk := note_checks_formats_string_ok env st
    (string_note_args K env st.annobin_is_64bit string_type s name_description start end_
      note_type) _ h1 rfl (by rw [hstr, h2]; omega)
  obtain ⟨L, hL, hL2⟩ := hchk
  refine ⟨_, _, _, L, output_note_asm_out K env st _ hsink, h1, rfl, h2, rfl, ?_, ?_, hL2,
    ?_, ?_⟩
  · rw [hstr, h2]; omega
  · rw [← hL]; exact output_note_formats K env st _ hsink
  · simp [List.dropLast_append_of_ne_nil]
  · have h := note_text_asciz_line K st.annobin_is_64bit _ _ h1 rfl
    rw [takeWhile_nul_free _ [] hnz] at h
    rw [List.dropLast_concat]
    exact h

/-- Witness of `string_note_name`: the version note `3p3`. -/
theorem string_note_name_witness :
    ∃ a text nm L,
      (annobin_output_string_note Build.standard Env.plain (State.initial none) 1
          [51, 112, 51] "string: version" none none 256).asm_out
        = (State.initial none).asm_out ++ [Chunk.note a text] ∧
      a.name = some nm ∧
      nm = [71, 65, fmt_c Build.standard.GNU_BUILD_ATTRIBUTE_TYPE_STRING, fmt_c 1]
        ++ [51, 112, 51] ++ [0] ∧
      a.namesz = [51, 112, 51].length + 5 ∧
      a.name_is_string = true ∧
      strlen nm = a.namesz - 1 ∧
      (annobin_output_string_note Build.standard Env.plain (State.initial none) 1
          [51, 112, 51] "string: version" none none 256).formats
        = (State.initial none).formats ++ L ∧
      "ICE: name string '%s' does not match name size %d" ∉ L ∧
      (nm.drop 4).dropLast = [51, 112, 51] ∧
      Asm.asciz nm.dropLast "string: version" ∈ text :=
  string_note_name Build.standard Env.plain (State.initial none) 1 [51, 112, 51]
    "string: version" none none 256 rfl (by decide) (by decide) (by decide) (by norm_num)

/-- C3, counterexample: with the tag NUL the string `gcc` (which has no NUL) gives
a name for which the check of the emitter fails; the message about the name
size is reported. -/
theorem string_note_nul_tag :
    (∀ b ∈ [103, 99, 99], b ≠ 0) ∧
    (annobin_output_string_note Build.standard Env.plain (State.initial none) 0
        [103, 99, 99] "string: build-tool" none none 256).formats
      = ["ICE: name string '%s' does not match name size %d"] := by
  decide

/-- The name that `annobin_output_bool_note` builds when neither the type byte
nor the tag is NUL. -/
theorem bool_note_args_name (K : Build) (env : Env) (is64 : Bool) (bool_type : Nat)
    (b : Bool) (name_description : String) (start end_ : Option (List Nat)) (note_type : Nat)
    (hT : fmt_c K.GNU_BUILD_ATTRIBUTE_TYPE_BOOL_TRUE ≠ 0)
    (hF : fmt_c K.GNU_BUILD_ATTRIBUTE_TYPE_BOOL_FALSE ≠ 0) (htag : fmt_c bool_type ≠ 0) :
    (bool_note_args K env is64 bool_type b name_description start end_ note_type).namesz = 5 ∧
    (bool_note_args K env is64 bool_type b name_description start end_ note_type).name_bytes
      = [71, 65,
         fmt_c (if b then K.GNU_BUILD_ATTRIBUTE_TYPE_BOOL_TRUE
                else K.GNU_BUILD_ATTRIBUTE_TYPE_BOOL_FALSE),
         fmt_c bool_type, 0] := by
  have hb : fmt_c (if b then K.GNU_BUILD_ATTRIBUTE_TYPE_BOOL_TRUE
      else K.GNU_BUILD_ATTRIBUTE_TYPE_BOOL_FALSE) ≠ 0 := by
    cases b
    · simpa using hF
    · simpa using hT
  have hlen : strlen (sprintf (uninit env 6)
      [71, 65,
       fmt_c (if b then K.GNU_BUILD_ATTRIBUTE_TYPE_BOOL_TRUE
              else K.GNU_BUILD_ATTRIBUTE_TYPE_BOOL_FALSE),
       fmt_c bool_type]) = 4 := by
    simp [strlen, sprintf, List.takeWhile_cons, hb, htag]
  simp only [bool_note_args, NoteArgs.name_bytes, hlen, Option.getD_some]
  refine ⟨trivial, ?_⟩
  simp [sprintf]

/-- C4 (amended): for every tag that is not NUL and either boolean,
`annobin_output_bool_note` builds a name of exactly 5 bytes: `G`, `A`, the
bool-true type byte for true and the bool-false type byte for false, the tag
byte, and a NUL; the payload is empty; and the names for true and for false
with the same tag differ only in the byte at index 2. -/
theorem bool_note_name (K : Build) (env : Env) (st : State) (bool_type : Nat)
    (name_description : String) (start end_ : Option (List Nat)) (note_type : Nat)
    (hsink : env.asm_out_file = true)
    (hT : fmt_c K.GNU_BUILD_ATTRIBUTE_TYPE_BOOL_TRUE ≠ 0)
    (hF : fmt_c K.GNU_BUILD_ATTRIBUTE_TYPE_BOOL_FALSE ≠ 0) (htag : fmt_c bool_type ≠ 0) :
    (∀ b : Bool, ∃ a text,
      (annobin_output_bool_note K env st bool_type b name_description start end_
          note_type).asm_out = st.asm_out ++ [Chunk.note a text] ∧
      a = bool_note_args K env st.annobin_is_64bit bool_type b name_description start end_
          note_type ∧
      Asm.dc_b a.name_bytes name_description ∈ text ∧
      a.namesz = 5 ∧
      a.name_bytes
        = [71, 65,
           fmt_c (if b then K.GNU_BUILD_ATTRIBUTE_TYPE_BOOL_TRUE
                  else K.GNU_BUILD_ATTRIBUTE_TYPE_BOOL_FALSE),
           fmt_c bool_type, 0] ∧
      a.name_bytes.drop 4 = [0]) ∧
    (bool_note_args K env st.annobin_is_64bit bool_type true name_description start end_
        note_type).name_bytes.set 2 (fmt_c K.GNU_BUILD_ATTRIBUTE_TYPE_BOOL_FALSE)
      = (bool_note_args K env st.annobin_is_64bit bool_type false name_description start end_
          note_type).name_bytes := by
  have h := fun b => bool_note_args_name K env st.annobin_is_64bit bool_type b
    name_description start end_ note_type hT hF htag
  constructor
  · intro b
    refine ⟨_, _, output_note_asm_out K env st _ hsink, rfl,
      note_text_name_line K _ _ _ rfl rfl, (h b).1, (h b).2, ?_⟩
    rw [(h b).2]; rfl
  · rw [(h true).2, (h false).2]; simp

/-- Witness of `bool_note_name`: the note for the size of enumerations. -/
theorem bool_note_name_witness :
    (∀ b : Bool, ∃ a text,
      (annobin_output_bool_note Build.standard Env.plain (State.initial none) 8 b
          "bool: short-enums: on" none none 256).asm_out
        = (State.initial none).asm_out ++ [Chunk.note a text] ∧
      a = bool_note_args Build.standard Env.plain (State.initial none).annobin_is_64bit 8 b
          "bool: short-enums: on" none none 256 ∧
      Asm.dc_b a.name_bytes "bool: short-enums: on" ∈ text ∧
      a.namesz = 5 ∧
      a.name_bytes
        = [71, 65,
           fmt_c (if b then Build.standard.GNU_BUILD_ATTRIBUTE_TYPE_BOOL_TRUE
                  else Build.standard.GNU_BUILD_ATTRIBUTE_TYPE_BOOL_FALSE),
           fmt_c 8, 0] ∧
      a.name_bytes.drop 4 = [0]) ∧
    (bool_note_args Build.standard Env.plain (State.initial none).annobin_is_64bit 8 true
        "bool: short-enums: on" none none 256).name_bytes.set 2
        (fmt_c Build.standard.GNU_BUILD_ATTRIBUTE_TYPE_BOOL_FALSE)
      = (bool_note_args Build.standard Env.plain (State.initial none).annobin_is_64bit 8 false
          "bool: short-enums: on" none none 256).name_bytes :=
  bool_note_name Build.standard Env.plain (State.initial none) 8 "bool: short-enums: on"
    none none 256 rfl (by decide) (by decide) (by decide)

/-- C4, counterexample: with the tag NUL the name built for `true` has 4 bytes,
not 5; the tag byte is taken for the terminator. -/
theorem bool_note_nul_tag :
    (bool_note_args Build.standard Env.plain true 0 true "bool" none none 256).namesz = 4 ∧
    (bool_note_args Build.standard Env.plain true 0 true "bool" none none 256).name_bytes
      = [71, 65, 43, 0] ∧
    notes_of (annobin_output_bool_note Build.standard Env.plain (State.initial none) 0 true
        "bool" none none 256).asm_out
      = [bool_note_args Build.standard Env.plain false 0 true "bool" none none 256] := by
  decide

theorem descsz_for_eq (is64 : Bool) (start end_ : Option (List Nat)) :
    descsz_for is64 start end_ = symbols_descsz is64 start end_ := by
  cases start <;> cases end_ <;> cases is64 <;> rfl

/-- C5: every note that `annobin_output_numeric_note`, `annobin_output_bool_note`
and `annobin_output_string_note` emit passes `start` and `end` on as the
descriptor and requests the descriptor size 0 when the start symbol is absent,
one word when only the start symbol is present, and two words when both are
present, a word being 8 bytes if `annobin_is_64bit` and 4 bytes otherwise; so
the size is always one of 0, one word, two words. -/
theorem descsz_requested (K : Build) (env : Env) (st : State) (tag v : Nat) (b : Bool)
    (s : List Nat) (name_description : String) (start end_ : Option (List Nat))
    (note_type : Nat) (hsink : env.asm_out_file = true) :
    (∃ a text,
      (annobin_output_numeric_note K env st tag v name_description start end_
          note_type).asm_out = st.asm_out ++ [Chunk.note a text] ∧
      a.desc1 = start ∧ a.desc2 = end_ ∧ a.desc_is_string = true ∧
      a.descsz = symbols_descsz st.annobin_is_64bit start end_) ∧
    (∃ a text,
      (annobin_output_bool_note K env st tag b name_description start end_
          note_type).asm_out = st.asm_out ++ [Chunk.note a text] ∧
      a.desc1 = start ∧ a.desc2 = end_ ∧ a.desc_is_string = true ∧
      a.descsz = symbols_descsz st.annobin_is_64bit start end_) ∧
    (∃ a text,
      (annobin_output_string_note K env st tag s name_description start end_
          note_type).asm_out = st.asm_out ++ [Chunk.note a text] ∧
      a.desc1 = start ∧ a.desc2 = end_ ∧ a.desc_is_string = true ∧
      a.descsz = symbols_descsz st.annobin_is_64bit start end_) ∧
    (symbols_descsz st.annobin_is_64bit start end_ = 0 ∨
      symbols_descsz st.annobin_is_64bit start end_ = word_size st.annobin_is_64bit ∨
      symbols_descsz st.annobin_is_64bit start end_ = 2 * word_size st.annobin_is_64bit) := by
  refine ⟨⟨_, _, numeric_note_asm_out K env st tag v name_description start end_ note_type
      hsink, rfl, rfl, rfl, descsz_for_eq ..⟩,
    ⟨_, _, output_note_asm_out K env st _ hsink, rfl, rfl, rfl, descsz_for_eq ..⟩,
    ⟨_, _, output_note_asm_out K env st _ hsink, rfl, rfl, rfl, descsz_for_eq ..⟩, ?_⟩
  cases start <;> cases end_ <;> simp [symbols_descsz]

/-! ### The effect of the emitting functions on the state and on the notes -/

theorem notes_of_append (l₁ l₂ : List Chunk) :
    notes_of (l₁ ++ l₂) = notes_of l₁ ++ notes_of l₂ := by
  induction l₁ with
  | nil => rfl
  | cons c l ih => cases c <;> simp [notes_of, ih]

theorem core_frame {s t : State} (h : s.core = t.core) : s.frame = t.frame := by
  have := congrArg State.frame h
  exact this

theorem core_keys {s t : State} (h : s.core = t.core) : s.keys = t.keys := by
  unfold State.keys; rw [core_asm_out h]

theorem inform_frame (env : Env) (st : State) (level : Nat) (format : String) :
    (annobin_inform env st level format).frame = st.frame :=
  core_frame (inform_core ..)

theorem inform_keys (env : Env) (st : State) (level : Nat) (format : String) :
    (annobin_inform env st level format).keys = st.keys :=
  core_keys (inform_core ..)

theorem output_note_frame (K : Build) (env : Env) (st : State) (a : NoteArgs) :
    (annobin_output_note K env st a).frame = st.frame := by
  have h := core_frame (note_checks_core env st a)
  unfold annobin_output_note
  split
  · rfl
  · exact h

theorem output_note_keys (K : Build) (env : Env) (st : State) (a : NoteArgs)
    (hsink : env.asm_out_file = true) :
    (annobin_output_note K env st a).keys = st.keys ++ [a.key] := by
  unfold State.keys
  rw [output_note_asm_out K env st a hsink, notes_of_append]
  simp [notes_of]

theorem numeric_note_frame (K : Build) (env : Env) (st : State) (numeric_type v : Nat)
    (name_description : String) (start end_ : Option (List Nat)) (note_type : Nat) :
    (annobin_output_numeric_note K env st numeric_type v name_description start end_
        note_type).frame = st.frame := by
  unfold annobin_output_numeric_note
  simp only []
  rw [output_note_frame]
  exact core_frame (by rw [inform_if_core, inform_if_core])

theorem numeric_note_keys (K : Build) (env : Env) (st : State) (numeric_type v : Nat)
    (name_description : String) (start end_ : Option (List Nat)) (note_type : Nat)
    (hsink : env.asm_out_file = true) (hv : v < 2 ^ 64) :
    (annobin_output_numeric_note K env st numeric_type v name_description start end_
        note_type).keys = st.keys ++ [(note_type, numeric_name K numeric_type v)] := by
  unfold State.keys
  rw [numeric_note_asm_out K env st numeric_type v name_description start end_ note_type
    hsink, notes_of_append]
  simp only [notes_of, List.map_append, List.map_cons, List.map_nil, NoteArgs.key]
  rw [(numeric_note_name_bytes K env st.annobin_is_64bit numeric_type v name_description
    start end_ note_type hv).1]
  rfl

theorem bool_note_frame (K : Build) (env : Env) (st : State) (bool_type : Nat) (b : Bool)
    (name_description : String) (start end_ : Option (List Nat)) (note_type : Nat) :
    (annobin_output_bool_note K env st bool_type b name_description start end_
        note_type).frame = st.frame :=
  output_note_frame ..

theorem bool_note_keys (K : Build) (env : Env) (st : State) (bool_type : Nat) (b : Bool)
    (name_description : String) (start end_ : Option (List Nat)) (note_type : Nat)
    (hsink : env.asm_out_file = true)
    (hT : fmt_c K.GNU_BUILD_ATTRIBUTE_TYPE_BOOL_TRUE ≠ 0)
    (hF : fmt_c K.GNU_BUILD_ATTRIBUTE_TYPE_BOOL_FALSE ≠ 0) (htag : fmt_c bool_type ≠ 0) :
    (annobin_output_bool_note K env st bool_type b name_description start end_
        note_type).keys = st.keys ++ [(note_type, bool_name K bool_type b)] := by
  unfold annobin_output_bool_note
  rw [output_note_keys K env st _ hsink]
  simp only [NoteArgs.key]
  rw [(bool_note_args_name K env st.annobin_is_64bit bool_type b name_description start end_
    note_type hT hF htag).2]
  rfl

theorem stack_clash_note_frame (K : Build) (env : Env) (st : State)
    (start end_ : Option (List Nat)) (type : Nat) :
    (record_stack_clash_note K env st start end_ type).frame = st.frame :=
  output_note_frame ..

theorem stack_clash_note_keys (K : Build) (env : Env) (st : State)
    (start end_ : Option (List Nat)) (type : Nat) (hsink : env.asm_out_file = true) :
    (record_stack_clash_note K env st start end_ type).keys
      = st.keys ++ [(type, stack_clash_name K env)] := by
  unfold record_stack_clash_note
  simp only []
  rw [output_note_keys K env st _ hsink]
  simp [NoteArgs.key, NoteArgs.name_bytes, stack_clash_name, sprintf, cstr]

theorem toUInt_lt (x : Int) : toUInt x < 2 ^ 32 := by
  unfold toUInt
  have h1 : 0 ≤ x % 4294967296 := Int.emod_nonneg _ (by norm_num)
  have h2 : x % 4294967296 < 4294967296 := Int.emod_lt_of_pos _ (by norm_num)
  omega

/-- The name written for the packed word, for a word of 32 bits. -/
theorem GOW_note_args_key (K : Build) (env : Env) (is64 : Bool) (gow : Nat) (is_local : Bool)
    (aname aname_end : Option (List Nat)) (hg : gow < 2 ^ 32) :
    (GOW_note_args K env is64 gow is_local aname aname_end).key
      = (if is_local then K.NT_GNU_BUILD_ATTRIBUTE_FUNC else K.NT_GNU_BUILD_ATTRIBUTE_OPEN,
         GOW_name K gow) := by
  have hlen : (Nat.digits 256 gow).length ≤ 8 := digits_256_length_le gow (by omega)
  have hb : (sprintf (uninit env 128)
      [71, 65, fmt_c K.GNU_BUILD_ATTRIBUTE_TYPE_NUMERIC, 71, 79, 87]).length = 128 := by
    simp [sprintf, uninit]
  have h := numeric_loop_spec 121 (sprintf (uninit env 128)
      [71, 65, fmt_c K.GNU_BUILD_ATTRIBUTE_TYPE_NUMERIC, 71, 79, 87]) 7 gow
      (by omega) (by rw [hb]; omega)
  have hname : ((numeric_loop 121 (sprintf (uninit env 128)
      [71, 65, fmt_c K.GNU_BUILD_ATTRIBUTE_TYPE_NUMERIC, 71, 79, 87]) 7 gow).1.take
        ((numeric_loop 121 (sprintf (uninit env 128)
          [71, 65, fmt_c K.GNU_BUILD_ATTRIBUTE_TYPE_NUMERIC, 71, 79, 87]) 7 gow).2.1 + 1))
      = GOW_name K gow := by
    rw [h.1, h.2, GOW_name, value_bytes_eq_digits]
    simp [sprintf]
  cases is_local <;>
    simp only [GOW_note_args, NoteArgs.key, NoteArgs.name_bytes, Option.getD_some, hname,
      if_true, if_false, Bool.false_eq_true]

theorem record_GOW_frame (K : Build) (env : Env) (st : State) (gow : Nat) (is_local : Bool)
    (aname aname_end : Option (List Nat)) :
    (record_GOW_settings K env st gow is_local aname aname_end).frame = st.frame := by
  unfold record_GOW_settings
  simp only []
  rw [output_note_frame, inform_frame]

theorem record_GOW_keys (K : Build) (env : Env) (st : State) (gow : Nat) (is_local : Bool)
    (aname aname_end : Option (List Nat)) (hsink : env.asm_out_file = true)
    (hg : gow < 2 ^ 32) :
    (record_GOW_settings K env st gow is_local aname aname_end).keys
      = st.keys ++
        [(if is_local then K.NT_GNU_BUILD_ATTRIBUTE_FUNC else K.NT_GNU_BUILD_ATTRIBUTE_OPEN,
          GOW_name K gow)] := by
  unfold record_GOW_settings
  simp only []
  rw [output_note_keys K env _ _ hsink, inform_keys, GOW_note_args_key _ _ _ _ _ _ _ hg]

theorem compute_GOWall_core (K : Build) (env : Env) (st : State) :
    (compute_GOWall_options K env st).2.core = st.core := by
  simp only [compute_GOWall_options, GOWall_checks, inform_if_core]

theorem or_if_lt (c : Prop) [Decidable c] (v k : Nat) (hv : v < 2 ^ 32) (hk : k < 2 ^ 32) :
    (if c then v ||| k else v) < 2 ^ 32 := by
  split
  · exact Nat.or_lt_two_pow hv hk
  · exact hv

theorem GOWall_value_lt (K : Build) (env : Env) : GOWall_value K env < 2 ^ 32 := by
  unfold GOWall_value
  lift_lets
  intro v1 v2 v3 v4 v5 v6 v7 v8 v9
  have h1 : v1 < 2 ^ 32 := by
    show (if _ then _ else _) < _
    split
    · norm_num
    · exact Nat.mod_lt _ (by norm_num)
  have h2 : v2 < 2 ^ 32 := or_if_lt _ _ _ h1 (by decide)
  have h3 : v3 < 2 ^ 32 := by
    show (if _ then _ else _) < _
    split
    · exact h2
    · exact Nat.or_lt_two_pow h2 (toUInt_lt _)
  have h4 : v4 < 2 ^ 32 := by
    show (if _ then _ else _) < _
    split
    · exact h3
    · exact Nat.or_lt_two_pow h3 (toUInt_lt _)
  have h5 : v5 < 2 ^ 32 := by
    show (if _ then _ else _) < _
    split
    · exact Nat.or_lt_two_pow h4 (by decide)
    · exact Nat.or_lt_two_pow h4 (toUInt_lt _)
  have h6 : v6 < 2 ^ 32 := or_if_lt _ _ _ h5 (by decide)
  have h7 : v7 < 2 ^ 32 := or_if_lt _ _ _ h6 (by decide)
  have h8 : v8 < 2 ^ 32 := or_if_lt _ _ _ h7 (by decide)
  exact or_if_lt _ _ _ h8 (by decide)

theorem target_function_frame (K : Build) (env : Env) (st : State)
    (aname aname_end : Option (List Nat)) :
    (annobin_target_specific_function_notes K env st aname aname_end).frame = st.frame := by
  unfold annobin_target_specific_function_notes
  split
  · rfl
  · simp only []
    split
    · have h : (annobin_output_numeric_note K env
          (annobin_inform env st 1 "ISA value has changed from %lx to %lx for %s")
          K.GNU_BUILD_ATTRIBUTE_ABI (toULong env.ix86_isa_flags) "numeric: ABI" aname
          aname_end K.NT_GNU_BUILD_ATTRIBUTE_FUNC).frame = st.frame := by
        rw [numeric_note_frame, inform_frame]
      split_ifs <;> exact h
    · rfl
  · split
    · rfl
    · simp only []
      rw [numeric_note_frame, inform_frame]
  · split
    · rfl
    · simp only []
      rw [numeric_note_frame, inform_frame]

theorem target_function_keys_eq (K : Build) (env : Env) (st : State)
    (aname aname_end : Option (List Nat)) (hsink : env.asm_out_file = true) :
    (annobin_target_specific_function_notes K env st aname aname_end).keys
      = st.keys ++ target_function_keys K env st.frame := by
  unfold annobin_target_specific_function_notes target_function_keys
  split
  · simp
  · simp only []
    have hgl : st.frame.global_x86_isa = st.global_x86_isa := rfl
    rw [hgl]
    split
    · have h : (annobin_output_numeric_note K env
          (annobin_inform env st 1 "ISA value has changed from %lx to %lx for %s")
          K.GNU_BUILD_ATTRIBUTE_ABI (toULong env.ix86_isa_flags) "numeric: ABI" aname
          aname_end K.NT_GNU_BUILD_ATTRIBUTE_FUNC).keys
          = st.keys ++ [(K.NT_GNU_BUILD_ATTRIBUTE_FUNC,
              numeric_name K K.GNU_BUILD_ATTRIBUTE_ABI (toULong env.ix86_isa_flags))] := by
        rw [numeric_note_keys _ _ _ _ _ _ _ _ _ hsink (toULong_lt _), inform_keys]
      split_ifs <;> exact h
    · simp
  · have hgl : st.frame.saved_tls_dialect = st.saved_tls_dialect := rfl
    rw [hgl]
    split
    · simp
    · simp only []
      rw [numeric_note_keys _ _ _ _ _ _ _ _ _ hsink (toULong_lt _), inform_keys]
  · have hgl : st.frame.saved_tls_size = st.saved_tls_size := rfl
    rw [hgl]
    split
    · simp
    · simp only []
      rw [numeric_note_keys _ _ _ _ _ _ _ _ _ hsink (toULong_lt _), inform_keys]

/-! ### The blocks of `annobin_create_function_notes` -/

theorem clear_st (l : Locals) : (Locals.clear l).st = l.st := by
  unfold Locals.clear; split <;> rfl

theorem stack_prot_block_spec (K : Build) (env : Env) (l : Locals)
    (hsink : env.asm_out_file = true) :
    (stack_prot_block K env l).st.frame = l.st.frame ∧
    (stack_prot_block K env l).st.keys = l.st.keys ++ stack_prot_keys K env l.st.frame := by
  unfold stack_prot_block stack_prot_keys
  have hg : l.st.frame.global_stack_prot_option = l.st.global_stack_prot_option := rfl
  rw [hg]
  split
  · simp only [clear_st]
    rw [numeric_note_frame, inform_frame,
      numeric_note_keys _ _ _ _ _ _ _ _ _ hsink (toULong_lt _), inform_keys]
    exact ⟨rfl, rfl⟩
  · simp

theorem stack_clash_block_spec (K : Build) (env : Env) (l : Locals)
    (hsink : env.asm_out_file = true) :
    (stack_clash_block K env l).st.frame = l.st.frame ∧
    (stack_clash_block K env l).st.keys = l.st.keys ++ stack_clash_keys K env l.st.frame := by
  unfold stack_clash_block stack_clash_keys
  have hg : l.st.frame.global_stack_clash_option = l.st.global_stack_clash_option := rfl
  rw [hg]
  split
  · simp only [clear_st]
    rw [stack_clash_note_frame, inform_frame, stack_clash_note_keys _ _ _ _ _ _ hsink,
      inform_keys]
    exact ⟨rfl, rfl⟩
  · simp

theorem pic_block_spec (K : Build) (env : Env) (l : Locals)
    (hsink : env.asm_out_file = true) :
    (pic_block K env l).st.frame = l.st.frame ∧
    (pic_block K env l).st.keys = l.st.keys ++ pic_keys K env l.st.frame := by
  unfold pic_block pic_keys
  have hg : l.st.frame.global_pic_option = l.st.global_pic_option := rfl
  rw [hg]
  split
  · simp only [clear_st]
    rw [numeric_note_frame, inform_frame,
      numeric_note_keys _ _ _ _ _ _ _ _ _ hsink (toULong_lt _), inform_keys]
    exact ⟨rfl, rfl⟩
  · simp

theorem GOW_block_spec (K : Build) (env : Env) (l : Locals)
    (hsink : env.asm_out_file = true) :
    (GOW_block K env l).st.frame = l.st.frame ∧
    (GOW_block K env l).st.keys = l.st.keys ++ GOW_keys K env l.st.frame := by
  unfold GOW_block GOW_keys
  have hg : l.st.frame.global_GOWall_options = l.st.global_GOWall_options := rfl
  have hv : ∀ s, (compute_GOWall_options K env s).1 = GOWall_value K env := fun _ => rfl
  have hc1 := compute_GOWall_core K env l.st
  have hc2 := compute_GOWall_core K env (compute_GOWall_options K env l.st).2
  rw [hg]
  simp only [hv]
  split
  · simp only [clear_st]
    rw [record_GOW_frame, record_GOW_keys _ _ _ _ _ _ _ hsink (GOWall_value_lt K env),
      core_frame hc2, core_frame hc1, core_keys hc2, core_keys hc1]
    exact ⟨rfl, rfl⟩
  · simp only [List.append_nil]
    exact ⟨core_frame hc1, core_keys hc1⟩

theorem short_enums_block_spec (K : Build) (env : Env) (l : Locals)
    (hsink : env.asm_out_file = true)
    (hT : fmt_c K.GNU_BUILD_ATTRIBUTE_TYPE_BOOL_TRUE ≠ 0)
    (hF : fmt_c K.GNU_BUILD_ATTRIBUTE_TYPE_BOOL_FALSE ≠ 0)
    (htag : fmt_c K.GNU_BUILD_ATTRIBUTE_SHORT_ENUM ≠ 0) :
    (short_enums_block K env l).st.frame = l.st.frame ∧
    (short_enums_block K env l).st.keys = l.st.keys ++ short_enums_keys K env l.st.frame := by
  unfold short_enums_block short_enums_keys
  have hg : l.st.frame.global_short_enums = l.st.global_short_enums := rfl
  rw [hg]
  split
  · simp only [clear_st]
    rw [bool_note_frame, inform_frame,
      bool_note_keys _ _ _ _ _ _ _ _ _ hsink hT hF htag, inform_keys]
    exact ⟨rfl, rfl⟩
  · simp

theorem frame_total {s t : State} (h : s.frame = t.frame) :
    s.annobin_total_static_stack_usage = t.annobin_total_static_stack_usage := by
  have := congrArg State.annobin_total_static_stack_usage h
  exact this

theorem frame_max {s t : State} (h : s.frame = t.frame) :
    s.annobin_max_stack_size = t.annobin_max_stack_size := by
  have := congrArg State.annobin_max_stack_size h
  exact this

/-- The running total and maximum are updated on a state as on its frame. -/
theorem stack_update_step (env : Env) (s t : State) (h : s.frame = t.frame)
    (hen : (t.annobin_enable_stack_size_notes && t.flag_stack_usage_info) = true) :
    (if toULong env.current_function_static_stack_size >
          ({ s with annobin_total_static_stack_usage :=
              (s.annobin_total_static_stack_usage
                + toULong env.current_function_static_stack_size)
                % 18446744073709551616 } : State).annobin_max_stack_size
      then
        { ({ s with annobin_total_static_stack_usage :=
              (s.annobin_total_static_stack_usage
                + toULong env.current_function_static_stack_size)
                % 18446744073709551616 } : State) with
          annobin_max_stack_size := toULong env.current_function_static_stack_size }
      else
        ({ s with annobin_total_static_stack_usage :=
              (s.annobin_total_static_stack_usage
                + toULong env.current_function_static_stack_size)
                % 18446744073709551616 } : State)).frame
      = stack_update env t.frame := by
  have ht := frame_total h
  have hm := frame_max h
  have hen' : (t.frame.annobin_enable_stack_size_notes && t.frame.flag_stack_usage_info)
      = true := hen
  unfold stack_update
  rw [if_pos hen']
  have e1 : t.frame.annobin_total_static_stack_usage = s.annobin_total_static_stack_usage :=
    ht.symm
  have e2 : t.frame.annobin_max_stack_size = s.annobin_max_stack_size := hm.symm
  rw [e1, e2, ← h]
  show (if _ > s.annobin_max_stack_size then _ else _ : State).frame = _
  split <;> rfl

theorem stack_size_block_spec (K : Build) (env : Env) (l : Locals)
    (hsink : env.asm_out_file = true) :
    (stack_size_block K env l).st.frame = stack_update env l.st.frame ∧
    (stack_size_block K env l).st.keys = l.st.keys ++ stack_size_keys K env l.st.frame := by
  unfold stack_size_block stack_size_keys
  have hg1 : l.st.frame.annobin_enable_stack_size_notes
      = l.st.annobin_enable_stack_size_notes := rfl
  have hg2 : l.st.frame.flag_stack_usage_info = l.st.flag_stack_usage_info := rfl
  have hg3 : l.st.frame.stack_threshold = l.st.stack_threshold := rfl
  rw [hg1, hg2, hg3]
  by_cases hen : (l.st.annobin_enable_stack_size_notes && l.st.flag_stack_usage_info) = true
  · rw [if_pos hen]
    simp only [hen, true_and]
    by_cases hth : toULong env.current_function_static_stack_size > l.st.stack_threshold
    · rw [if_pos hth, if_pos hth]
      simp only [clear_st]
      have hfr : (annobin_output_numeric_note K env
          (annobin_inform env l.st 1 "Recording stack usage of %lu for %s")
          K.GNU_BUILD_ATTRIBUTE_STACK_SIZE (toULong env.current_function_static_stack_size)
          "numeric: stack-size" l.aname l.aname_end K.NT_GNU_BUILD_ATTRIBUTE_FUNC).frame
          = l.st.frame := by
        rw [numeric_note_frame, inform_frame]
      have hk : (annobin_output_numeric_note K env
          (annobin_inform env l.st 1 "Recording stack usage of %lu for %s")
          K.GNU_BUILD_ATTRIBUTE_STACK_SIZE (toULong env.current_function_static_stack_size)
          "numeric: stack-size" l.aname l.aname_end K.NT_GNU_BUILD_ATTRIBUTE_FUNC).keys
          = l.st.keys ++ [(K.NT_GNU_BUILD_ATTRIBUTE_FUNC,
              numeric_name K K.GNU_BUILD_ATTRIBUTE_STACK_SIZE
                (toULong env.current_function_static_stack_size))] := by
        rw [numeric_note_keys _ _ _ _ _ _ _ _ _ hsink (toULong_lt _), inform_keys]
      refine ⟨stack_update_step env _ l.st hfr hen, ?_⟩
      rw [← hk]
      split <;> rfl
    · rw [if_neg hth, if_neg hth]
      refine ⟨stack_update_step env l.st l.st rfl hen, ?_⟩
      simp only [List.append_nil]
      split <;> rfl
  · rw [if_neg hen]
    simp only [hen, false_and, if_false, List.append_nil, and_true, Bool.false_eq_true]
    have hen' : ¬ (l.st.frame.annobin_enable_stack_size_notes
        && l.st.frame.flag_stack_usage_info) = true := hen
    unfold stack_update
    rw [if_neg hen']

/-- The blocks of `annobin_create_function_notes` behind the target's notes,
taken together. -/
theorem blocks_spec (K : Build) (env : Env) (l : Locals) (hsink : env.asm_out_file = true)
    (hT : fmt_c K.GNU_BUILD_ATTRIBUTE_TYPE_BOOL_TRUE ≠ 0)
    (hF : fmt_c K.GNU_BUILD_ATTRIBUTE_TYPE_BOOL_FALSE ≠ 0)
    (htag : fmt_c K.GNU_BUILD_ATTRIBUTE_SHORT_ENUM ≠ 0) :
    (stack_size_block K env (short_enums_block K env (GOW_block K env (pic_block K env
      (stack_clash_block K env (stack_prot_block K env l)))))).st.frame
      = stack_update env l.st.frame ∧
    (stack_size_block K env (short_enums_block K env (GOW_block K env (pic_block K env
      (stack_clash_block K env (stack_prot_block K env l)))))).st.keys
      = l.st.keys ++ stack_prot_keys K env l.st.frame ++ stack_clash_keys K env l.st.frame
        ++ pic_keys K env l.st.frame ++ GOW_keys K env l.st.frame
        ++ short_enums_keys K env l.st.frame ++ stack_size_keys K env l.st.frame := by
  obtain ⟨f1, k1⟩ := stack_prot_block_spec K env l hsink
  obtain ⟨f2, k2⟩ := stack_clash_block_spec K env (stack_prot_block K env l) hsink
  obtain ⟨f3, k3⟩ := pic_block_spec K env (stack_clash_block K env (stack_prot_block K env l))
    hsink
  obtain ⟨f4, k4⟩ := GOW_block_spec K env
    (pic_block K env (stack_clash_block K env (stack_prot_block K env l))) hsink
  obtain ⟨f5, k5⟩ := short_enums_block_spec K env
    (GOW_block K env (pic_block K env (stack_clash_block K env (stack_prot_block K env l))))
    hsink hT hF htag
  obtain ⟨f6, k6⟩ := stack_size_block_spec K env
    (short_enums_block K env (GOW_block K env (pic_block K env
      (stack_clash_block K env (stack_prot_block K env l))))) hsink
  rw [f5, f4, f3, f2, f1] at f6 k6
  rw [f4, f3, f2, f1] at k5
  rw [f3, f2, f1] at k4
  rw [f2, f1] at k3
  rw [f1] at k2
  refine ⟨f6, ?_⟩
  rw [k6, k5, k4, k3, k2, k1]

/-- What `annobin_create_function_notes` does when static notes are enabled, the
output file is open and the function has a name: the running total and
maximum of the stack usage are updated, nothing else of the frame changes, and
the notes listed by `function_keys` are written. -/
theorem function_notes_spec (K : Build) (env : Env) (st : State)
    (hstatic : st.annobin_enable_static_notes = true) (hsink : env.asm_out_file = true)
    (hname : env.current_function_name.isSome = true ∨ env.function_asm_name.isSome = true)
    (hT : fmt_c K.GNU_BUILD_ATTRIBUTE_TYPE_BOOL_TRUE ≠ 0)
    (hF : fmt_c K.GNU_BUILD_ATTRIBUTE_TYPE_BOOL_FALSE ≠ 0)
    (htag : fmt_c K.GNU_BUILD_ATTRIBUTE_SHORT_ENUM ≠ 0) :
    (annobin_create_function_notes K env st).frame = stack_update env st.frame ∧
    (annobin_create_function_notes K env st).keys = st.keys ++ function_keys K env st.frame := by
  unfold annobin_create_function_notes
  simp only [hstatic, hsink, Bool.not_true, Bool.false_eq_true, if_false]
  split
  · rename_i h1 h2
    rw [h1, h2] at hname
    simp at hname
  · generalize hst1 : annobin_target_specific_function_notes K env st _ _ = st1
    have ft : st1.frame = st.frame := by rw [← hst1]; exact target_function_frame ..
    have kt : st1.keys = st.keys ++ target_function_keys K env st.frame := by
      rw [← hst1]; exact target_function_keys_eq _ _ _ _ _ hsink
    generalize hl0 : (if st.annobin_note_count > st1.annobin_note_count then
        (⟨st1, none, none⟩ : Locals) else _) = l0
    have hl0st : l0.st = st1 := by rw [← hl0]; split <;> rfl
    obtain ⟨fb, kb⟩ := blocks_spec K env l0 hsink hT hF htag
    rw [hl0st, ft] at fb kb
    rw [kt] at kb
    generalize (stack_size_block K env (short_enums_block K env (GOW_block K env
      (pic_block K env (stack_clash_block K env (stack_prot_block K env l0)))))) = l6
      at fb kb ⊢
    unfold function_keys
    split
    · refine ⟨fb, ?_⟩
      unfold State.keys at kb ⊢
      simp only [notes_of_append, notes_of, List.append_nil]
      rw [kb]
      simp only [List.append_assoc]
    · refine ⟨fb, ?_⟩
      rw [kb]
      simp only [List.append_assoc]

/-! ### The frame of `annobin_create_function_notes`, without assumptions -/

theorem stack_prot_block_frame (K : Build) (env : Env) (l : Locals) :
    (stack_prot_block K env l).st.frame = l.st.frame := by
  unfold stack_prot_block
  split
  · simp only [clear_st]; rw [numeric_note_frame, inform_frame]
  · rfl

theorem stack_clash_block_frame (K : Build) (env : Env) (l : Locals) :
    (stack_clash_block K env l).st.frame = l.st.frame := by
  unfold stack_clash_block
  split
  · simp only [clear_st]; rw [stack_clash_note_frame, inform_frame]
  · rfl

theorem pic_block_frame (K : Build) (env : Env) (l : Locals) :
    (pic_block K env l).st.frame = l.st.frame := by
  unfold pic_block
  split
  · simp only [clear_st]; rw [numeric_note_frame, inform_frame]
  · rfl

theorem GOW_block_frame (K : Build) (env : Env) (l : Locals) :
    (GOW_block K env l).st.frame = l.st.frame := by
  unfold GOW_block
  have hc1 := compute_GOWall_core K env l.st
  have hc2 := compute_GOWall_core K env (compute_GOWall_options K env l.st).2
  simp only []
  split
  · simp only [clear_st]; rw [record_GOW_frame, core_frame hc2, core_frame hc1]
  · exact core_frame hc1

theorem short_enums_block_frame (K : Build) (env : Env) (l : Locals) :
    (short_enums_block K env l).st.frame = l.st.frame := by
  unfold short_enums_block
  split
  · simp only [clear_st]; rw [bool_note_frame, inform_frame]
  · rfl

theorem stack_size_block_frame (K : Build) (env : Env) (l : Locals) :
    (stack_size_block K env l).st.frame = stack_update env l.st.frame := by
  unfold stack_size_block
  by_cases hen : (l.st.annobin_enable_stack_size_notes && l.st.flag_stack_usage_info) = true
  · rw [if_pos hen]
    simp only []
    split
    · simp only [clear_st]
      exact stack_update_step env _ l.st (by rw [numeric_note_frame, inform_frame]) hen
    · exact stack_update_step env l.st l.st rfl hen
  · rw [if_neg hen]
    have hen' : ¬ (l.st.frame.annobin_enable_stack_size_notes
        && l.st.frame.flag_stack_usage_info) = true := hen
    unfold stack_update
    rw [if_neg hen']

/-- The frame behind `annobin_create_function_notes`, in every case: either the
function returns early and the frame is kept, or only the running total and
maximum of the stack usage are updated. -/
theorem function_notes_frame (K : Build) (env : Env) (st : State) :
    (annobin_create_function_notes K env st).frame
      = if st.annobin_enable_static_notes = true ∧ env.asm_out_file = true ∧
          (env.current_function_name.isSome = true ∨ env.function_asm_name.isSome = true)
        then stack_update env st.frame else st.frame := by
  unfold annobin_create_function_notes
  by_cases hstatic : st.annobin_enable_static_notes = true
  swap
  · simp [hstatic]
  by_cases hsink : env.asm_out_file = true
  swap
  · simp [hstatic, hsink]
  simp only [hstatic, hsink, Bool.not_true, Bool.false_eq_true, if_false, true_and]
  split
  · rename_i h1 h2
    rw [h1, h2]
    simp only [Option.isSome_none, Bool.false_eq_true, or_self, if_false]
    exact inform_frame ..
  · rename_i h
    have hname : env.current_function_name.isSome = true ∨ env.function_asm_name.isSome = true := by
      cases h1 : env.current_function_name
      · cases h2 : env.function_asm_name
        · exact absurd h2 (h h1)
        · simp
      · simp
    rw [if_pos hname]
    generalize hst1 : annobin_target_specific_function_notes K env st _ _ = st1
    have ft : st1.frame = st.frame := by rw [← hst1]; exact target_function_frame ..
    generalize hl0 : (if st.annobin_note_count > st1.annobin_note_count then
        (⟨st1, none, none⟩ : Locals) else _) = l0
    have hl0st : l0.st = st1 := by rw [← hl0]; split <;> rfl
    have fb : (stack_size_block K env (short_enums_block K env (GOW_block K env
        (pic_block K env (stack_clash_block K env (stack_prot_block K env l0)))))).st.frame
        = stack_update env st.frame := by
      rw [stack_size_block_frame, short_enums_block_frame, GOW_block_frame, pic_block_frame,
        stack_clash_block_frame, stack_prot_block_frame, hl0st, ft]
    generalize (stack_size_block K env (short_enums_block K env (GOW_block K env
      (pic_block K env (stack_clash_block K env (stack_prot_block K env l0)))))) = l6
      at fb ⊢
    split
    · exact fb
    · exact fb

/-! ### The parts of `annobin_create_global_notes` -/

theorem select_word_size_spec (env : Env) (st : State) :
    (select_word_size env st).frame = word_size_frame env st.frame ∧
    (select_word_size env st).keys = st.keys := by
  unfold select_word_size word_size_frame
  split
  · exact ⟨rfl, rfl⟩
  · split
    · exact ⟨rfl, rfl⟩
    · rw [inform_frame, inform_keys]
      exact ⟨rfl, rfl⟩

theorem frame_set_GOW (X s : State) (v : Nat) (h : X.frame = s.frame) :
    ({ X with global_GOWall_options := v } : State).frame
      = ({ s with global_GOWall_options := v } : State).frame := by
  have := congrArg (fun f : State => ({ f with global_GOWall_options := v } : State)) h
  exact this

theorem keys_set_GOW (X s : State) (v : Nat) (h : X.keys = s.keys) :
    ({ X with global_GOWall_options := v } : State).keys = s.keys := h

theorem save_unit_values_spec (K : Build) (env : Env) (st : State) :
    (save_unit_values K env st).frame = unit_values_frame K env st.frame ∧
    (save_unit_values K env st).keys = st.keys := by
  unfold save_unit_values
  simp only []
  constructor
  · refine (frame_set_GOW _ _ _ (core_frame (compute_GOWall_core K env _))).trans ?_
    unfold unit_values_frame
    have e : st.frame.annobin_enable_stack_size_notes = st.annobin_enable_stack_size_notes :=
      rfl
    cases h1 : st.annobin_enable_stack_size_notes <;> cases h2 : K.stack_clash_defined <;>
      simp only [e, h1, h2, if_true, if_false, Bool.false_eq_true] <;> rfl
  · refine (keys_set_GOW _ _ _ (core_keys (compute_GOWall_core K env _))).trans ?_
    cases h1 : st.annobin_enable_stack_size_notes <;> cases h2 : K.stack_clash_defined <;>
      simp only [h1, h2, if_true, if_false, Bool.false_eq_true] <;> rfl

theorem init_frame (env : Env) (st : State) :
    (init_annobin_current_filename env st).frame = st.frame :=
  core_frame (init_core env st)

theorem init_keys (env : Env) (st : State) :
    (init_annobin_current_filename env st).keys = st.keys :=
  core_keys (init_core env st)

theorem output_file_symbol_spec (K : Build) (env : Env) (st : State) :
    (output_file_symbol K env st).frame = st.frame ∧
    (output_file_symbol K env st).keys = st.keys := by
  unfold output_file_symbol
  simp only []
  generalize hs1 : (if st.annobin_current_filename.isNone = true then
    init_annobin_current_filename env st else st) = s1
  have f1 : s1.frame = st.frame := by
    rw [← hs1]; split
    · exact init_frame env st
    · rfl
  have k1 : s1.keys = st.keys := by
    rw [← hs1]; split
    · exact init_keys env st
    · rfl
  generalize hs2 : (if s1.annobin_current_filename.isNone = true then
    ({ annobin_inform env s1 0 "ICE: Could not find output filename" with
        annobin_current_filename := some (cstr "unknown_source") } : State) else s1) = s2
  have f2 : s2.frame = st.frame := by
    rw [← hs2, ← f1]; split
    · exact inform_frame env s1 0 "ICE: Could not find output filename"
    · rfl
  have k2 : s2.keys = st.keys := by
    rw [← hs2, ← k1]; split
    · exact inform_keys env s1 0 "ICE: Could not find output filename"
    · rfl
  refine ⟨f2, ?_⟩
  rw [← k2]
  unfold State.keys
  simp only [notes_of_append]
  split <;> simp [notes_of]

theorem string_note_frame (K : Build) (env : Env) (st : State) (string_type : Nat)
    (s : List Nat) (name_description : String) (start end_ : Option (List Nat))
    (note_type : Nat) :
    (annobin_output_string_note K env st string_type s name_description start end_
        note_type).frame = st.frame :=
  output_note_frame ..

/-- The name of a string note starts with `GA` and the string type byte
whenever it has four bytes or more. -/
theorem string_note_key (K : Build) (env : Env) (is64 : Bool) (string_type : Nat)
    (s : List Nat) (name_description : String) (start end_ : Option (List Nat))
    (note_type : Nat) :
    (string_note_args K env is64 string_type s name_description start end_ note_type).key.1
      = note_type ∧
    ∀ a b c d : Nat,
      (string_note_args K env is64 string_type s name_description start end_
        note_type).key.2.take 4 = [a, b, c, d] →
      c = fmt_c K.GNU_BUILD_ATTRIBUTE_TYPE_STRING := by
  refine ⟨rfl, ?_⟩
  intro a b c d h
  simp only [NoteArgs.key, NoteArgs.name_bytes, string_note_args, Option.getD_some, sprintf,
    List.take_take] at h
  have h2 := congrArg (fun l => l[2]?) h
  simp only [List.getElem?_take] at h2
  split at h2
  · simp at h2; exact h2.symm
  · simp at h2

theorem cstr_FORTIFY : cstr "FORTIFY" = [70, 79, 82, 84, 73, 70, 89] := by decide

theorem cstr_GLIBCXX : cstr "GLIBCXX_ASSERTIONS"
    = [71, 76, 73, 66, 67, 88, 88, 95, 65, 83, 83, 69, 82, 84, 73, 79, 78, 83] := by decide

theorem fortify_level_spec (K : Build) (env : Env) (st : State) (level : Int)
    (hsink : env.asm_out_file = true) :
    (record_fortify_level K env st level).frame = st.frame ∧
    (record_fortify_level K env st level).keys
      = st.keys ++ [(K.NT_GNU_BUILD_ATTRIBUTE_OPEN, fortify_name K level)] := by
  unfold record_fortify_level
  simp only []
  rw [inform_frame, inform_keys, output_note_frame, output_note_keys _ _ _ _ hsink]
  refine ⟨rfl, ?_⟩
  simp [NoteArgs.key, NoteArgs.name_bytes, fortify_name, sprintf, uninit, cstr_FORTIFY,
    List.replicate]

theorem glibcxx_spec (K : Build) (env : Env) (st : State) (is_on : Bool)
    (hsink : env.asm_out_file = true) :
    (record_glibcxx_assertions K env st is_on).frame = st.frame ∧
    (record_glibcxx_assertions K env st is_on).keys
      = st.keys ++ [(K.NT_GNU_BUILD_ATTRIBUTE_OPEN, glibcxx_name K is_on)] := by
  unfold record_glibcxx_assertions
  simp only []
  rw [inform_frame, inform_keys, output_note_frame, output_note_keys _ _ _ _ hsink]
  refine ⟨rfl, ?_⟩
  simp [NoteArgs.key, NoteArgs.name_bytes, glibcxx_name, sprintf, uninit, cstr_GLIBCXX]

/-- How a step of the loop over the saved options combines with the rest of
the loop. -/
theorem scan_lift (K : Build) (t : State) (s s' : Scan) (L0 : List (Nat × List Nat))
    (h : t.frame = s'.st.frame ∧
      ∃ L, t.keys = s'.st.keys ++ L ∧ ∀ k ∈ L, is_fortify_key K k)
    (hf : s'.st.frame = s.st.frame) (hk : s'.st.keys = s.st.keys ++ L0)
    (hL0 : ∀ k ∈ L0, is_fortify_key K k) :
    t.frame = s.st.frame ∧
      ∃ L, t.keys = s.st.keys ++ L ∧ ∀ k ∈ L, is_fortify_key K k := by
  obtain ⟨h1, L, h2, h3⟩ := h
  refine ⟨h1.trans hf, L0 ++ L, ?_, ?_⟩
  · rw [h2, hk, List.append_assoc]
  · intro k hk'
    rcases List.mem_append.mp hk' with h | h
    · exact hL0 k h
    · exact h3 k h

theorem fortify_key_fortify (K : Build) (level : Int) :
    is_fortify_key K (K.NT_GNU_BUILD_ATTRIBUTE_OPEN, fortify_name K level) :=
  ⟨rfl, Or.inl ⟨level, rfl⟩⟩

theorem fortify_key_glibcxx (K : Build) (b : Bool) :
    is_fortify_key K (K.NT_GNU_BUILD_ATTRIBUTE_OPEN, glibcxx_name K b) :=
  ⟨rfl, Or.inr ⟨b, rfl⟩⟩

/-- The loop over the saved options keeps the frame and writes only notes for
`_FORTIFY_SOURCE` and `_GLIBCXX_ASSERTIONS`. -/
theorem scan_options_spec (K : Build) (env : Env) (hsink : env.asm_out_file = true) :
    ∀ (os : List DecodedOption) (s : Scan),
      (scan_options K env os s).st.frame = s.st.frame ∧
      ∃ L, (scan_options K env os s).st.keys = s.st.keys ++ L ∧
        ∀ k ∈ L, is_fortify_key K k := by
  intro os
  induction os with
  | nil =>
    intro s
    exact ⟨rfl, [], by simp [scan_options], by simp⟩
  | cons o os ih =>
    intro s
    rw [scan_options]
    split
    · split
      · exact ih s
      · split
        · simp only []
          split
          · refine scan_lift K _ s _ ?L0 (ih _) ?hf ?hk ?hL
            case hk =>
              simp only []
              rw [(fortify_level_spec K env _ _ hsink).2, core_keys (inform_if_core ..)]
              exact rfl
            case hf =>
              exact ((fortify_level_spec K env _ _ hsink).1).trans
                (core_frame (inform_if_core ..))
            case hL =>
              intro k hk
              rw [List.mem_singleton.mp hk]
              exact fortify_key_fortify K _
          · refine scan_lift K _ s _ [] (ih _) ?_ ?_ ?_
            · exact core_frame (inform_if_core ..)
            · simp only [List.append_nil]
              exact core_keys (inform_if_core ..)
            · simp
        · split
          · simp only []
            split
            · refine scan_lift K _ s _ [(K.NT_GNU_BUILD_ATTRIBUTE_OPEN, glibcxx_name K true)]
                (ih _) ?_ ?_ ?_
              · exact (glibcxx_spec K env _ _ hsink).1
              · exact (glibcxx_spec K env _ _ hsink).2
              · intro k hk
                rw [List.mem_singleton.mp hk]
                exact fortify_key_glibcxx K _
            · exact ih s
          · exact ih s
    · split
      · simp only []
        refine ⟨?_, [(K.NT_GNU_BUILD_ATTRIBUTE_OPEN, fortify_name K (-1)),
          (K.NT_GNU_BUILD_ATTRIBUTE_OPEN, glibcxx_name K false)], ?_, ?_⟩
        · rw [(glibcxx_spec K env _ _ hsink).1, (fortify_level_spec K env _ _ hsink).1]
        · rw [(glibcxx_spec K env _ _ hsink).2, (fortify_level_spec K env _ _ hsink).2]
          simp
        · intro k hk
          simp only [List.mem_cons, List.mem_singleton, List.not_mem_nil, or_false] at hk
          rcases hk with rfl | rfl
          · exact fortify_key_fortify K _
          · exact fortify_key_glibcxx K _
      · exact ih s

theorem output_fortify_notes_spec (K : Build) (env : Env) (st : State)
    (hsink : env.asm_out_file = true) :
    (output_fortify_notes K env st).frame = st.frame ∧
    ∃ L, (output_fortify_notes K env st).keys = st.keys ++ L ∧
      ∀ k ∈ L, is_fortify_key K k := by
  unfold output_fortify_notes
  simp only []
  generalize hs : scan_options K env env.save_decoded_options.reverse ⟨st, false, false⟩ = s
  have h := scan_options_spec K env hsink env.save_decoded_options.reverse ⟨st, false, false⟩
  rw [hs] at h
  obtain ⟨hf, L, hk, hL⟩ := h
  simp only [] at hf hk
  generalize hs1 : (if (!s.fortify_level_recorded) = true then
    record_fortify_level K env s.st 0 else s.st) = s1
  have h1 : s1.frame = st.frame ∧ ∃ L1, s1.keys = st.keys ++ L1 ∧
      ∀ k ∈ L1, is_fortify_key K k := by
    rw [← hs1]
    split
    · refine ⟨((fortify_level_spec K env _ _ hsink).1).trans hf,
        L ++ [(K.NT_GNU_BUILD_ATTRIBUTE_OPEN, fortify_name K 0)], ?_, ?_⟩
      · rw [(fortify_level_spec K env _ _ hsink).2, hk, List.append_assoc]
      · intro k hk'
        rcases List.mem_append.mp hk' with h | h
        · exact hL k h
        · rw [List.mem_singleton.mp h]; exact fortify_key_fortify K _
    · exact ⟨hf, L, hk, hL⟩
  obtain ⟨hf1, L1, hk1, hL1⟩ := h1
  split
  · refine ⟨((glibcxx_spec K env _ _ hsink).1).trans hf1,
      L1 ++ [(K.NT_GNU_BUILD_ATTRIBUTE_OPEN, glibcxx_name K false)], ?_, ?_⟩
    · rw [(glibcxx_spec K env _ _ hsink).2, hk1, List.append_assoc]
    · intro k hk'
      rcases List.mem_append.mp hk' with h | h
      · exact hL1 k h
      · rw [List.mem_singleton.mp h]; exact fortify_key_glibcxx K _
  · exact ⟨hf1, L1, hk1, hL1⟩

theorem frame_congr (g : State → State) {X s : State}
    (hg : ∀ u : State, (g u).frame = g u.frame) (h : X.frame = s.frame) :
    (g X).frame = g s.frame := by
  rw [hg, h]

theorem target_global_spec (K : Build) (env : Env) (st : State)
    (hsink : env.asm_out_file = true) :
    (annobin_record_global_target_notes K env st).frame = target_global_frame K env st.frame ∧
    (annobin_record_global_target_notes K env st).keys = st.keys ++ target_global_keys K env := by
  unfold annobin_record_global_target_notes target_global_frame target_global_keys
  split
  · simp
  · simp only []
    rw [inform_frame, inform_keys, numeric_note_frame,
      numeric_note_keys _ _ _ _ _ _ _ _ _ hsink (toULong_lt _)]
    exact ⟨rfl, rfl⟩
  · simp only []
    rw [inform_frame, inform_keys, numeric_note_frame,
      numeric_note_keys _ _ _ _ _ _ _ _ _ hsink (toULong_lt _)]
    constructor
    · exact frame_congr (fun u => { u with saved_tls_dialect := env.aarch64_tls_dialect })
        (fun _ => rfl) (core_frame (inform_if_core ..))
    · have : (inform_if (!st.annobin_is_64bit) env st "ICE: Should be 64-bit target").keys
          = st.keys := core_keys (inform_if_core ..)
      rw [← this]; rfl
  · simp only []
    rw [inform_frame, inform_keys, numeric_note_frame,
      numeric_note_keys _ _ _ _ _ _ _ _ _ hsink (toULong_lt _)]
    constructor
    · exact frame_congr (fun u => { u with saved_tls_size := env.rs6000_tls_size })
        (fun _ => rfl) (core_frame (inform_if_core ..))
    · have : (inform_if (!st.annobin_is_64bit) env st "ICE: Should be 64-bit target").keys
          = st.keys := core_keys (inform_if_core ..)
      rw [← this]; rfl

/-- What `annobin_create_global_notes` does when static notes are enabled and
the output file is open: the word size is selected, the values of the unit
are saved, and the notes listed by `unit_start_keys` are written. -/
theorem global_notes_spec (K : Build) (env : Env) (st : State)
    (hstatic : st.annobin_enable_static_notes = true) (hsink : env.asm_out_file = true)
    (hT : fmt_c K.GNU_BUILD_ATTRIBUTE_TYPE_BOOL_TRUE ≠ 0)
    (hF : fmt_c K.GNU_BUILD_ATTRIBUTE_TYPE_BOOL_FALSE ≠ 0)
    (htag : fmt_c K.GNU_BUILD_ATTRIBUTE_SHORT_ENUM ≠ 0) :
    (annobin_create_global_notes K env st).frame = unit_start_frame K env st.frame ∧
    ∃ k1 k2 L,
      (annobin_create_global_notes K env st).keys
        = st.keys ++ unit_start_keys K env k1 k2 L ∧
      is_string_key K K.NT_GNU_BUILD_ATTRIBUTE_OPEN k1 ∧
      is_string_key K K.NT_GNU_BUILD_ATTRIBUTE_OPEN k2 ∧
      ∀ k ∈ L, is_fortify_key K k := by
  unfold annobin_create_global_notes
  simp only [hstatic, hsink, Bool.not_true, Bool.false_eq_true, if_false]
  obtain ⟨f1, k1⟩ := select_word_size_spec env st
  generalize select_word_size env st = s1 at f1 k1 ⊢
  obtain ⟨f2, k2⟩ := save_unit_values_spec K env s1
  generalize save_unit_values K env s1 = s2 at f2 k2 ⊢
  obtain ⟨f3, k3⟩ := output_file_symbol_spec K env s2
  generalize output_file_symbol K env s2 = s3 at f3 k3 ⊢
  have f4 := string_note_frame K env s3 K.GNU_BUILD_ATTRIBUTE_VERSION
    [48 + SPEC_VERSION, 112, 48 + annobin_version] "string: version"
    s3.annobin_current_filename s3.annobin_current_endname K.NT_GNU_BUILD_ATTRIBUTE_OPEN
  have k4 := output_note_keys K env s3 (string_note_args K env s3.annobin_is_64bit
    K.GNU_BUILD_ATTRIBUTE_VERSION [48 + SPEC_VERSION, 112, 48 + annobin_version]
    "string: version" s3.annobin_current_filename s3.annobin_current_endname
    K.NT_GNU_BUILD_ATTRIBUTE_OPEN) hsink
  have hk4 := string_note_key K env s3.annobin_is_64bit
    K.GNU_BUILD_ATTRIBUTE_VERSION [48 + SPEC_VERSION, 112, 48 + annobin_version]
    "string: version" s3.annobin_current_filename s3.annobin_current_endname
    K.NT_GNU_BUILD_ATTRIBUTE_OPEN
  generalize (string_note_args K env s3.annobin_is_64bit
    K.GNU_BUILD_ATTRIBUTE_VERSION [48 + SPEC_VERSION, 112, 48 + annobin_version]
    "string: version" s3.annobin_current_filename s3.annobin_current_endname
    K.NT_GNU_BUILD_ATTRIBUTE_OPEN).key = key1 at k4 hk4
  change (annobin_output_string_note K env s3 K.GNU_BUILD_ATTRIBUTE_VERSION
    [48 + SPEC_VERSION, 112, 48 + annobin_version] "string: version"
    s3.annobin_current_filename s3.annobin_current_endname
    K.NT_GNU_BUILD_ATTRIBUTE_OPEN).keys = _ at k4
  generalize annobin_output_string_note K env s3 K.GNU_BUILD_ATTRIBUTE_VERSION
    [48 + SPEC_VERSION, 112, 48 + annobin_version] "string: version"
    s3.annobin_current_filename s3.annobin_current_endname
    K.NT_GNU_BUILD_ATTRIBUTE_OPEN = s4 at f4 k4 ⊢
  have f5 := string_note_frame K env s4 K.GNU_BUILD_ATTRIBUTE_TOOL
    (s4.compiler_version.getD []) "string: build-tool" none none
    K.NT_GNU_BUILD_ATTRIBUTE_OPEN
  have k5 := output_note_keys K env s4 (string_note_args K env s4.annobin_is_64bit
    K.GNU_BUILD_ATTRIBUTE_TOOL (s4.compiler_version.getD []) "string: build-tool" none none
    K.NT_GNU_BUILD_ATTRIBUTE_OPEN) hsink
  have hk5 := string_note_key K env s4.annobin_is_64bit
    K.GNU_BUILD_ATTRIBUTE_TOOL (s4.compiler_version.getD []) "string: build-tool" none none
    K.NT_GNU_BUILD_ATTRIBUTE_OPEN
  generalize (string_note_args K env s4.annobin_is_64bit
    K.GNU_BUILD_ATTRIBUTE_TOOL (s4.compiler_version.getD []) "string: build-tool" none none
    K.NT_GNU_BUILD_ATTRIBUTE_OPEN).key = key2 at k5 hk5
  change (annobin_output_string_note K env s4 K.GNU_BUILD_ATTRIBUTE_TOOL
    (s4.compiler_version.getD []) "string: build-tool" none none
    K.NT_GNU_BUILD_ATTRIBUTE_OPEN).keys = _ at k5
  generalize annobin_output_string_note K env s4 K.GNU_BUILD_ATTRIBUTE_TOOL
    (s4.compiler_version.getD []) "string: build-tool" none none
    K.NT_GNU_BUILD_ATTRIBUTE_OPEN = s5 at f5 k5 ⊢
  have fr5 : s5.frame = unit_values_frame K env (word_size_frame env st.frame) := by
    rw [f5, f4, f3, f2, f1]
  have g5 : s5.global_GOWall_options = GOWall_value K env :=
    congrArg State.global_GOWall_options fr5
  have sp5 : ∀ u : State, u.frame = s5.frame →
      u.global_stack_prot_option = env.flag_stack_protect := fun u hu =>
    congrArg State.global_stack_prot_option (hu.trans fr5)
  have pic5 : ∀ u : State, u.frame = s5.frame →
      u.global_pic_option = compute_pic_option env := fun u hu =>
    congrArg State.global_pic_option (hu.trans fr5)
  have se5 : ∀ u : State, u.frame = s5.frame →
      u.global_short_enums = env.flag_short_enums := fun u hu =>
    congrArg State.global_short_enums (hu.trans fr5)
  rw [g5]
  have f6 := record_GOW_frame K env s5 (GOWall_value K env) false none none
  have k6 := record_GOW_keys K env s5 (GOWall_value K env) false none none hsink
    (GOWall_value_lt K env)
  generalize record_GOW_settings K env s5 (GOWall_value K env) false none none = s6
    at f6 k6 ⊢
  rw [sp5 s6 f6]
  have f7 := numeric_note_frame K env s6 K.GNU_BUILD_ATTRIBUTE_STACK_PROT
    (toULong env.flag_stack_protect) "numeric: -fstack-protector status" none none
    K.NT_GNU_BUILD_ATTRIBUTE_OPEN
  have k7 := numeric_note_keys K env s6 K.GNU_BUILD_ATTRIBUTE_STACK_PROT
    (toULong env.flag_stack_protect) "numeric: -fstack-protector status" none none
    K.NT_GNU_BUILD_ATTRIBUTE_OPEN hsink (toULong_lt _)
  generalize annobin_output_numeric_note K env s6 K.GNU_BUILD_ATTRIBUTE_STACK_PROT
    (toULong env.flag_stack_protect) "numeric: -fstack-protector status" none none
    K.NT_GNU_BUILD_ATTRIBUTE_OPEN = s7 at f7 k7 ⊢
  have h8 : (if K.stack_clash_defined = true then
      record_stack_clash_note K env s7 none none K.NT_GNU_BUILD_ATTRIBUTE_OPEN else s7).frame
        = s7.frame ∧
      (if K.stack_clash_defined = true then
        record_stack_clash_note K env s7 none none K.NT_GNU_BUILD_ATTRIBUTE_OPEN
        else s7).keys
        = s7.keys ++ (if K.stack_clash_defined = true then
            [(K.NT_GNU_BUILD_ATTRIBUTE_OPEN, stack_clash_name K env)] else []) := by
    split
    · exact ⟨stack_clash_note_frame .., stack_clash_note_keys _ _ _ _ _ _ hsink⟩
    · simp
  obtain ⟨f8, k8⟩ := h8
  generalize (if K.stack_clash_defined = true then
      record_stack_clash_note K env s7 none none K.NT_GNU_BUILD_ATTRIBUTE_OPEN else s7) = s8
    at f8 k8 ⊢
  obtain ⟨f9, L, k9, hL⟩ := output_fortify_notes_spec K env s8 hsink
  generalize output_fortify_notes K env s8 = s9 at f9 k9 ⊢
  have fr9 : s9.frame = s5.frame := by rw [f9, f8, f7, f6]
  rw [pic5 s9 fr9]
  have f10 := numeric_note_frame K env s9 K.GNU_BUILD_ATTRIBUTE_PIC
    (toULong (compute_pic_option env)) "numeric: PIC" none none
    K.NT_GNU_BUILD_ATTRIBUTE_OPEN
  have k10 := numeric_note_keys K env s9 K.GNU_BUILD_ATTRIBUTE_PIC
    (toULong (compute_pic_option env)) "numeric: PIC" none none
    K.NT_GNU_BUILD_ATTRIBUTE_OPEN hsink (toULong_lt _)
  generalize annobin_output_numeric_note K env s9 K.GNU_BUILD_ATTRIBUTE_PIC
    (toULong (compute_pic_option env)) "numeric: PIC" none none
    K.NT_GNU_BUILD_ATTRIBUTE_OPEN = s10 at f10 k10 ⊢
  rw [se5 s10 (f10.trans fr9)]
  generalize (if env.flag_short_enums ≠ 0 then "bool: short-enums: on"
    else "bool: short-enums: off") = descr
  have f11 := bool_note_frame K env s10 K.GNU_BUILD_ATTRIBUTE_SHORT_ENUM
    (decide (env.flag_short_enums ≠ 0)) descr none none K.NT_GNU_BUILD_ATTRIBUTE_OPEN
  have k11 := bool_note_keys K env s10 K.GNU_BUILD_ATTRIBUTE_SHORT_ENUM
    (decide (env.flag_short_enums ≠ 0)) descr none none K.NT_GNU_BUILD_ATTRIBUTE_OPEN
    hsink hT hF htag
  generalize annobin_output_bool_note K env s10 K.GNU_BUILD_ATTRIBUTE_SHORT_ENUM
    (decide (env.flag_short_enums ≠ 0)) descr none none K.NT_GNU_BUILD_ATTRIBUTE_OPEN = s11
    at f11 k11 ⊢
  obtain ⟨f12, k12⟩ := target_global_spec K env s11 hsink
  generalize annobin_record_global_target_notes K env s11 = s12 at f12 k12 ⊢
  constructor
  · show s12.frame = _
    rw [f12, f11, f10, fr9, fr5]
    rfl
  · refine ⟨key1, key2, L, ?_, hk4, hk5, hL⟩
    have : ({ s12 with asm_out := s12.asm_out ++ [Chunk.line Asm.popsection] } : State).keys
        = s12.keys := by
      unfold State.keys
      simp [notes_of_append, notes_of]
    rw [this, k12, k11, k10, k9, k8, k7, k6, k5, k4, k3, k2, k1]
    unfold unit_start_keys
    simp only [List.append_assoc, List.cons_append, List.nil_append, if_false,
      Bool.false_eq_true]

/-! ### Telling the notes apart -/

/-- What the well-formedness of the header constants yields for the bytes that
are written. -/
theorem wf_facts (K : Build) (h : K.wf) :
    (fmt_c K.GNU_BUILD_ATTRIBUTE_TYPE_NUMERIC = K.GNU_BUILD_ATTRIBUTE_TYPE_NUMERIC ∧
     fmt_c K.GNU_BUILD_ATTRIBUTE_TYPE_STRING = K.GNU_BUILD_ATTRIBUTE_TYPE_STRING ∧
     fmt_c K.GNU_BUILD_ATTRIBUTE_TYPE_BOOL_TRUE = K.GNU_BUILD_ATTRIBUTE_TYPE_BOOL_TRUE ∧
     fmt_c K.GNU_BUILD_ATTRIBUTE_TYPE_BOOL_FALSE = K.GNU_BUILD_ATTRIBUTE_TYPE_BOOL_FALSE) ∧
    (fmt_c K.GNU_BUILD_ATTRIBUTE_STACK_PROT = K.GNU_BUILD_ATTRIBUTE_STACK_PROT ∧
     fmt_c K.GNU_BUILD_ATTRIBUTE_STACK_SIZE = K.GNU_BUILD_ATTRIBUTE_STACK_SIZE ∧
     fmt_c K.GNU_BUILD_ATTRIBUTE_ABI = K.GNU_BUILD_ATTRIBUTE_ABI ∧
     fmt_c K.GNU_BUILD_ATTRIBUTE_PIC = K.GNU_BUILD_ATTRIBUTE_PIC ∧
     fmt_c K.GNU_BUILD_ATTRIBUTE_SHORT_ENUM = K.GNU_BUILD_ATTRIBUTE_SHORT_ENUM) ∧
    (32 ≤ K.GNU_BUILD_ATTRIBUTE_TYPE_NUMERIC ∧ 32 ≤ K.GNU_BUILD_ATTRIBUTE_TYPE_STRING ∧
     32 ≤ K.GNU_BUILD_ATTRIBUTE_TYPE_BOOL_TRUE ∧ 32 ≤ K.GNU_BUILD_ATTRIBUTE_TYPE_BOOL_FALSE) ∧
    (K.GNU_BUILD_ATTRIBUTE_TYPE_NUMERIC ≠ K.GNU_BUILD_ATTRIBUTE_TYPE_STRING ∧
     K.GNU_BUILD_ATTRIBUTE_TYPE_NUMERIC ≠ K.GNU_BUILD_ATTRIBUTE_TYPE_BOOL_TRUE ∧
     K.GNU_BUILD_ATTRIBUTE_TYPE_NUMERIC ≠ K.GNU_BUILD_ATTRIBUTE_TYPE_BOOL_FALSE ∧
     K.GNU_BUILD_ATTRIBUTE_TYPE_BOOL_TRUE ≠ K.GNU_BUILD_ATTRIBUTE_TYPE_BOOL_FALSE) ∧
    ((1 ≤ K.GNU_BUILD_ATTRIBUTE_STACK_PROT ∧ K.GNU_BUILD_ATTRIBUTE_STACK_PROT < 32) ∧
     (1 ≤ K.GNU_BUILD_ATTRIBUTE_STACK_SIZE ∧ K.GNU_BUILD_ATTRIBUTE_STACK_SIZE < 32) ∧
     (1 ≤ K.GNU_BUILD_ATTRIBUTE_ABI ∧ K.GNU_BUILD_ATTRIBUTE_ABI < 32) ∧
     (1 ≤ K.GNU_BUILD_ATTRIBUTE_PIC ∧ K.GNU_BUILD_ATTRIBUTE_PIC < 32) ∧
     (1 ≤ K.GNU_BUILD_ATTRIBUTE_SHORT_ENUM ∧ K.GNU_BUILD_ATTRIBUTE_SHORT_ENUM < 32)) ∧
    (K.GNU_BUILD_ATTRIBUTE_STACK_PROT ≠ K.GNU_BUILD_ATTRIBUTE_STACK_SIZE ∧
     K.GNU_BUILD_ATTRIBUTE_STACK_PROT ≠ K.GNU_BUILD_ATTRIBUTE_ABI ∧
     K.GNU_BUILD_ATTRIBUTE_STACK_PROT ≠ K.GNU_BUILD_ATTRIBUTE_PIC ∧
     K.GNU_BUILD_ATTRIBUTE_STACK_SIZE ≠ K.GNU_BUILD_ATTRIBUTE_ABI ∧
     K.GNU_BUILD_ATTRIBUTE_STACK_SIZE ≠ K.GNU_BUILD_ATTRIBUTE_PIC ∧
     K.GNU_BUILD_ATTRIBUTE_ABI ≠ K.GNU_BUILD_ATTRIBUTE_PIC) ∧
    K.NT_GNU_BUILD_ATTRIBUTE_OPEN ≠ K.NT_GNU_BUILD_ATTRIBUTE_FUNC := by
  obtain ⟨hty, htyd, htg, htgd, hsc⟩ := h
  simp only [List.mem_cons, List.mem_singleton, List.not_mem_nil, or_false, forall_eq_or_imp,
    forall_eq] at hty htg
  simp only [List.nodup_cons, List.mem_cons, List.mem_singleton, List.not_mem_nil, or_false,
    not_or, List.nodup_nil, and_true, not_false_eq_true] at htyd htgd
  have m : ∀ x : Nat, x < 256 → fmt_c x = x := fun x hx => Nat.mod_eq_of_lt hx
  obtain ⟨⟨a1, a2, a3⟩, ⟨_, _⟩, a6⟩ := htyd
  obtain ⟨_, ⟨c1, _, c3, c4, _⟩, ⟨_, d2, d3, _⟩, _, ⟨g1, _⟩, _⟩ := htgd
  refine ⟨⟨m _ (by omega), m _ (by omega), m _ (by omega), m _ (by omega)⟩,
    ⟨m _ (by omega), m _ (by omega), m _ (by omega), m _ (by omega), m _ (by omega)⟩,
    ⟨by omega, by omega, by omega, by omega⟩,
    ⟨a1, a2, a3, a6⟩,
    ⟨by omega, by omega, by omega, by omega, by omega⟩,
    ⟨c1, c3, c4, d2, d3, g1⟩, hsc⟩

theorem cstr_stack_clash : cstr "stack_clash"
    = [115, 116, 97, 99, 107, 95, 99, 108, 97, 115, 104] := by decide

theorem filter_ite_single {α : Type} (p : α → Bool) (c : Prop) [Decidable c] (k : α) :
    (if c then [k] else []).filter p = if c ∧ p k = true then [k] else [] := by
  by_cases hc : c <;> by_cases hp : p k = true <;> simp [hc, hp]

theorem numeric_key_numeric (K : Build) (sc tag sc' tag' v : Nat) :
    is_numeric_key K sc tag (sc', numeric_name K tag' v)
      = (sc' == sc && fmt_c tag' == fmt_c tag) := by
  simp [is_numeric_key, numeric_name]

theorem numeric_key_GOW (K : Build) (sc tag sc' g : Nat) :
    is_numeric_key K sc tag (sc', GOW_name K g) = (sc' == sc && 71 == fmt_c tag) := by
  simp [is_numeric_key, GOW_name]

theorem numeric_key_bool (K : Build) (sc tag sc' t : Nat) (b : Bool)
    (h : fmt_c (if b then K.GNU_BUILD_ATTRIBUTE_TYPE_BOOL_TRUE
        else K.GNU_BUILD_ATTRIBUTE_TYPE_BOOL_FALSE) ≠ fmt_c K.GNU_BUILD_ATTRIBUTE_TYPE_NUMERIC) :
    is_numeric_key K sc tag (sc', bool_name K t b) = false := by
  simp [is_numeric_key, bool_name, h]

theorem numeric_key_stack_clash (K : Build) (env : Env) (sc tag sc' : Nat)
    (h : ∀ b : Bool, fmt_c (if b then K.GNU_BUILD_ATTRIBUTE_TYPE_BOOL_TRUE
        else K.GNU_BUILD_ATTRIBUTE_TYPE_BOOL_FALSE) ≠ fmt_c K.GNU_BUILD_ATTRIBUTE_TYPE_NUMERIC) :
    is_numeric_key K sc tag (sc', stack_clash_name K env) = false := by
  have h1 := h true
  have h2 := h false
  simp only [if_true, if_false, Bool.false_eq_true] at h1 h2
  by_cases hc : env.flag_stack_clash_protection = 0 <;>
    simp [is_numeric_key, stack_clash_name, cstr_stack_clash, hc, h1, h2]

/-- The bool type bytes differ from the numeric type byte. -/
theorem wf_bool_ne_numeric (K : Build) (hwf : K.wf) (b : Bool) :
    fmt_c (if b then K.GNU_BUILD_ATTRIBUTE_TYPE_BOOL_TRUE
        else K.GNU_BUILD_ATTRIBUTE_TYPE_BOOL_FALSE) ≠ fmt_c K.GNU_BUILD_ATTRIBUTE_TYPE_NUMERIC := by
  obtain ⟨⟨eN, _, eT, eF⟩, _, _, ⟨_, dNT, dNF, _⟩, _⟩ := wf_facts K hwf
  cases b
  · simp only [Bool.false_eq_true, if_false, eN, eF]; exact Ne.symm dNF
  · simp only [if_true, eN, eT]; exact Ne.symm dNT

theorem filter_target_function (K : Build) (env : Env) (f : State) (sc tag : Nat)
    (h : fmt_c K.GNU_BUILD_ATTRIBUTE_ABI ≠ fmt_c tag) :
    (target_function_keys K env f).filter (is_numeric_key K sc tag) = [] := by
  unfold target_function_keys
  split <;> (try split) <;> simp [numeric_key_numeric, h]

/-- Among the notes of a function, the numeric notes of function scope for the
stack protector, the PIC status and the stack size are those written by the
block for that attribute. -/
theorem filter_numeric (K : Build) (env : Env) (f : State) (hwf : K.wf) :
    (function_keys K env f).filter
        (is_numeric_key K K.NT_GNU_BUILD_ATTRIBUTE_FUNC K.GNU_BUILD_ATTRIBUTE_STACK_PROT)
      = stack_prot_keys K env f ∧
    (function_keys K env f).filter
        (is_numeric_key K K.NT_GNU_BUILD_ATTRIBUTE_FUNC K.GNU_BUILD_ATTRIBUTE_PIC)
      = pic_keys K env f ∧
    (function_keys K env f).filter
        (is_numeric_key K K.NT_GNU_BUILD_ATTRIBUTE_FUNC K.GNU_BUILD_ATTRIBUTE_STACK_SIZE)
      = stack_size_keys K env f := by
  obtain ⟨⟨eN, eS, eT, eF⟩, ⟨eSP, eSS, eABI, ePIC, eSE⟩, ⟨rN, rS, rT, rF⟩,
    ⟨dNS, dNT, dNF, dTF⟩, ⟨rSP, rSS, rABI, rPIC, rSE⟩,
    ⟨d1, d2, d3, d4, d5, d6⟩, hsc⟩ := wf_facts K hwf
  have n1 : (71 : Nat) ≠ K.GNU_BUILD_ATTRIBUTE_STACK_PROT := by omega
  have n2 : (71 : Nat) ≠ K.GNU_BUILD_ATTRIBUTE_PIC := by omega
  have n3 : (71 : Nat) ≠ K.GNU_BUILD_ATTRIBUTE_STACK_SIZE := by omega
  have hb := wf_bool_ne_numeric K hwf
  unfold function_keys
  simp only [List.filter_append]
  refine ⟨?_, ?_, ?_⟩
  · rw [filter_target_function K env f _ _ (by rw [eABI, eSP]; exact Ne.symm d2)]
    unfold stack_prot_keys stack_clash_keys pic_keys GOW_keys short_enums_keys stack_size_keys
    simp only [filter_ite_single, numeric_key_numeric, numeric_key_GOW,
      numeric_key_bool K _ _ _ _ _ (hb _), numeric_key_stack_clash K env _ _ _ hb,
      eSP, eSS, ePIC]
    simp [d1, d3, Ne.symm d1, Ne.symm d3, n1]
  · rw [filter_target_function K env f _ _ (by rw [eABI, ePIC]; exact d6)]
    unfold stack_prot_keys stack_clash_keys pic_keys GOW_keys short_enums_keys stack_size_keys
    simp only [filter_ite_single, numeric_key_numeric, numeric_key_GOW,
      numeric_key_bool K _ _ _ _ _ (hb _), numeric_key_stack_clash K env _ _ _ hb,
      eSP, eSS, ePIC]
    simp [d3, d5, Ne.symm d3, Ne.symm d5, n2]
  · rw [filter_target_function K env f _ _ (by rw [eABI, eSS]; exact Ne.symm d4)]
    unfold stack_prot_keys stack_clash_keys pic_keys GOW_keys short_enums_keys stack_size_keys
    simp only [filter_ite_single, numeric_key_numeric, numeric_key_GOW,
      numeric_key_bool K _ _ _ _ _ (hb _), numeric_key_stack_clash K env _ _ _ hb,
      eSP, eSS, ePIC]
    simp [d1, d5, Ne.symm d1, Ne.symm d5, n3]

theorem GOW_key_numeric (K : Build) (sc sc' tag' v : Nat) (h : fmt_c tag' ≠ 71) :
    is_GOW_key K sc (sc', numeric_name K tag' v) = false := by
  simp [is_GOW_key, numeric_name, h]

theorem GOW_key_GOW (K : Build) (sc sc' g : Nat) :
    is_GOW_key K sc (sc', GOW_name K g) = (sc' == sc) := by
  simp [is_GOW_key, GOW_name]

theorem GOW_key_bool (K : Build) (sc sc' t : Nat) (b : Bool) :
    is_GOW_key K sc (sc', bool_name K t b) = false := by
  simp [is_GOW_key, bool_name]

theorem GOW_key_stack_clash (K : Build) (env : Env) (sc sc' : Nat) :
    is_GOW_key K sc (sc', stack_clash_name K env) = false := by
  simp [is_GOW_key, stack_clash_name, cstr_stack_clash]

theorem filter_target_function_GOW (K : Build) (env : Env) (f : State) (sc : Nat)
    (h : fmt_c K.GNU_BUILD_ATTRIBUTE_ABI ≠ 71) :
    (target_function_keys K env f).filter (is_GOW_key K sc) = [] := by
  unfold target_function_keys
  split <;> (try split) <;> simp [GOW_key_numeric, h]

/-- Among the notes of a function, the note of function scope for the packed
word is the one written by the block for it. -/
theorem filter_GOW (K : Build) (env : Env) (f : State) (hwf : K.wf) :
    (function_keys K env f).filter (is_GOW_key K K.NT_GNU_BUILD_ATTRIBUTE_FUNC)
      = GOW_keys K env f := by
  obtain ⟨⟨eN, eS, eT, eF⟩, ⟨eSP, eSS, eABI, ePIC, eSE⟩, ⟨rN, rS, rT, rF⟩,
    ⟨dNS, dNT, dNF, dTF⟩, ⟨rSP, rSS, rABI, rPIC, rSE⟩,
    ⟨d1, d2, d3, d4, d5, d6⟩, hsc⟩ := wf_facts K hwf
  unfold function_keys
  simp only [List.filter_append]
  rw [filter_target_function_GOW K env f _ (by rw [eABI]; omega)]
  unfold stack_prot_keys stack_clash_keys pic_keys GOW_keys short_enums_keys stack_size_keys
  simp only [filter_ite_single, GOW_key_GOW, GOW_key_stack_clash,
    GOW_key_bool,
    GOW_key_numeric K _ _ K.GNU_BUILD_ATTRIBUTE_STACK_PROT _ (by rw [eSP]; omega),
    GOW_key_numeric K _ _ K.GNU_BUILD_ATTRIBUTE_PIC _ (by rw [ePIC]; omega),
    GOW_key_numeric K _ _ K.GNU_BUILD_ATTRIBUTE_STACK_SIZE _ (by rw [eSS]; omega)]
  simp

theorem bool_key_numeric (K : Build) (sc tag sc' tag' v : Nat)
    (h : ∀ b : Bool, fmt_c (if b then K.GNU_BUILD_ATTRIBUTE_TYPE_BOOL_TRUE
        else K.GNU_BUILD_ATTRIBUTE_TYPE_BOOL_FALSE) ≠ fmt_c K.GNU_BUILD_ATTRIBUTE_TYPE_NUMERIC) :
    is_bool_key K sc tag (sc', numeric_name K tag' v) = false := by
  have h1 := h true
  have h2 := h false
  simp only [if_true, if_false, Bool.false_eq_true] at h1 h2
  simp [is_bool_key, numeric_name, bool_name, Ne.symm h1, Ne.symm h2]

theorem bool_key_GOW (K : Build) (sc tag sc' g : Nat)
    (h : ∀ b : Bool, fmt_c (if b then K.GNU_BUILD_ATTRIBUTE_TYPE_BOOL_TRUE
        else K.GNU_BUILD_ATTRIBUTE_TYPE_BOOL_FALSE) ≠ fmt_c K.GNU_BUILD_ATTRIBUTE_TYPE_NUMERIC) :
    is_bool_key K sc tag (sc', GOW_name K g) = false := by
  have h1 := h true
  have h2 := h false
  simp only [if_true, if_false, Bool.false_eq_true] at h1 h2
  simp [is_bool_key, GOW_name, bool_name, Ne.symm h1, Ne.symm h2]

theorem bool_key_stack_clash (K : Build) (env : Env) (sc tag sc' : Nat) :
    is_bool_key K sc tag (sc', stack_clash_name K env) = false := by
  simp [is_bool_key, stack_clash_name, bool_name, cstr_stack_clash]

theorem bool_key_bool (K : Build) (sc tag sc' : Nat) (b : Bool) :
    is_bool_key K sc tag (sc', bool_name K tag b) = (sc' == sc) := by
  cases b <;> simp [is_bool_key]

theorem filter_target_function_bool (K : Build) (env : Env) (f : State) (sc tag : Nat)
    (h : ∀ b : Bool, fmt_c (if b then K.GNU_BUILD_ATTRIBUTE_TYPE_BOOL_TRUE
        else K.GNU_BUILD_ATTRIBUTE_TYPE_BOOL_FALSE) ≠ fmt_c K.GNU_BUILD_ATTRIBUTE_TYPE_NUMERIC) :
    (target_function_keys K env f).filter (is_bool_key K sc tag) = [] := by
  unfold target_function_keys
  split <;> (try split) <;> simp [bool_key_numeric K _ _ _ _ _ h]

/-- Among the notes of a function, the bool note of function scope for the size
of enumerations is the one written by the block for it. -/
theorem filter_short_enums (K : Build) (env : Env) (f : State) (hwf : K.wf) :
    (function_keys K env f).filter
        (is_bool_key K K.NT_GNU_BUILD_ATTRIBUTE_FUNC K.GNU_BUILD_ATTRIBUTE_SHORT_ENUM)
      = short_enums_keys K env f := by
  have hb := wf_bool_ne_numeric K hwf
  unfold function_keys
  simp only [List.filter_append]
  rw [filter_target_function_bool K env f _ _ hb]
  unfold stack_prot_keys stack_clash_keys pic_keys GOW_keys short_enums_keys stack_size_keys
  simp only [filter_ite_single, bool_key_numeric K _ _ _ _ _ hb, bool_key_GOW K _ _ _ _ hb,
    bool_key_stack_clash, bool_key_bool]
  simp

theorem wf_nonzero (K : Build) (hwf : K.wf) :
    fmt_c K.GNU_BUILD_ATTRIBUTE_TYPE_BOOL_TRUE ≠ 0 ∧
    fmt_c K.GNU_BUILD_ATTRIBUTE_TYPE_BOOL_FALSE ≠ 0 ∧
    fmt_c K.GNU_BUILD_ATTRIBUTE_SHORT_ENUM ≠ 0 := by
  obtain ⟨⟨eN, eS, eT, eF⟩, ⟨eSP, eSS, eABI, ePIC, eSE⟩, ⟨rN, rS, rT, rF⟩, _,
    ⟨rSP, rSS, rABI, rPIC, rSE⟩, _⟩ := wf_facts K hwf
  rw [eT, eF, eSE]
  omega

/-- One call of `annobin_create_function_notes`, attribute by attribute: the
notes of function scope for an attribute behind the call are those before
it and the one that the block for the attribute writes. -/
theorem function_notes_filters (K : Build) (env : Env) (st : State) (hwf : K.wf)
    (hstatic : st.annobin_enable_static_notes = true) (hsink : env.asm_out_file = true)
    (hname : env.current_function_name.isSome = true ∨ env.function_asm_name.isSome = true) :
    (annobin_create_function_notes K env st).keys.filter
        (is_numeric_key K K.NT_GNU_BUILD_ATTRIBUTE_FUNC K.GNU_BUILD_ATTRIBUTE_STACK_PROT)
      = st.keys.filter
          (is_numeric_key K K.NT_GNU_BUILD_ATTRIBUTE_FUNC K.GNU_BUILD_ATTRIBUTE_STACK_PROT)
        ++ stack_prot_keys K env st.frame ∧
    (annobin_create_function_notes K env st).keys.filter
        (is_numeric_key K K.NT_GNU_BUILD_ATTRIBUTE_FUNC K.GNU_BUILD_ATTRIBUTE_PIC)
      = st.keys.filter
          (is_numeric_key K K.NT_GNU_BUILD_ATTRIBUTE_FUNC K.GNU_BUILD_ATTRIBUTE_PIC)
        ++ pic_keys K env st.frame ∧
    (annobin_create_function_notes K env st).keys.filter
        (is_GOW_key K K.NT_GNU_BUILD_ATTRIBUTE_FUNC)
      = st.keys.filter (is_GOW_key K K.NT_GNU_BUILD_ATTRIBUTE_FUNC)
        ++ GOW_keys K env st.frame ∧
    (annobin_create_function_notes K env st).keys.filter
        (is_bool_key K K.NT_GNU_BUILD_ATTRIBUTE_FUNC K.GNU_BUILD_ATTRIBUTE_SHORT_ENUM)
      = st.keys.filter
          (is_bool_key K K.NT_GNU_BUILD_ATTRIBUTE_FUNC K.GNU_BUILD_ATTRIBUTE_SHORT_ENUM)
        ++ short_enums_keys K env st.frame ∧
    (annobin_create_function_notes K env st).keys.filter
        (is_numeric_key K K.NT_GNU_BUILD_ATTRIBUTE_FUNC K.GNU_BUILD_ATTRIBUTE_STACK_SIZE)
      = st.keys.filter
          (is_numeric_key K K.NT_GNU_BUILD_ATTRIBUTE_FUNC K.GNU_BUILD_ATTRIBUTE_STACK_SIZE)
        ++ stack_size_keys K env st.frame := by
  obtain ⟨hT, hF, hSE⟩ := wf_nonzero K hwf
  have h := (function_notes_spec K env st hstatic hsink hname hT hF hSE).2
  obtain ⟨n1, n2, n3⟩ := filter_numeric K env st.frame hwf
  rw [h]
  refine ⟨?_, ?_, ?_, ?_, ?_⟩ <;>
    simp only [List.filter_append, n1, n2, n3, filter_GOW K env st.frame hwf,
      filter_short_enums K env st.frame hwf]

/-- A state agrees with its frame on the values saved at the start of the unit
and on the switches of the plugin. -/
theorem frame_fields {s g : State} (h : s.frame = g) :
    s.global_stack_prot_option = g.global_stack_prot_option ∧
    s.global_pic_option = g.global_pic_option ∧
    s.global_short_enums = g.global_short_enums ∧
    s.global_GOWall_options = g.global_GOWall_options ∧
    s.annobin_enable_static_notes = g.annobin_enable_static_notes ∧
    s.annobin_enable_stack_size_notes = g.annobin_enable_stack_size_notes ∧
    s.flag_stack_usage_info = g.flag_stack_usage_info ∧
    s.stack_threshold = g.stack_threshold := by
  have a1 := congrArg State.global_stack_prot_option h
  have a2 := congrArg State.global_pic_option h
  have a3 := congrArg State.global_short_enums h
  have a4 := congrArg State.global_GOWall_options h
  have a5 := congrArg State.annobin_enable_static_notes h
  have a6 := congrArg State.annobin_enable_stack_size_notes h
  have a7 := congrArg State.flag_stack_usage_info h
  have a8 := congrArg State.stack_threshold h
  exact ⟨a1, a2, a3, a4, a5, a6, a7, a8⟩

/-- The values saved at the start of the unit and the switches of the plugin
are the same behind `annobin_create_function_notes`. -/
theorem function_notes_keeps (K : Build) (env : Env) (st : State) :
    (annobin_create_function_notes K env st).global_stack_prot_option
      = st.global_stack_prot_option ∧
    (annobin_create_function_notes K env st).global_pic_option = st.global_pic_option ∧
    (annobin_create_function_notes K env st).global_short_enums = st.global_short_enums ∧
    (annobin_create_function_notes K env st).global_GOWall_options
      = st.global_GOWall_options ∧
    (annobin_create_function_notes K env st).annobin_enable_static_notes
      = st.annobin_enable_static_notes ∧
    (annobin_create_function_notes K env st).annobin_enable_stack_size_notes
      = st.annobin_enable_stack_size_notes ∧
    (annobin_create_function_notes K env st).flag_stack_usage_info
      = st.flag_stack_usage_info ∧
    (annobin_create_function_notes K env st).stack_threshold = st.stack_threshold := by
  have h := function_notes_frame K env st
  have hu : (stack_update env st.frame).global_stack_prot_option = st.global_stack_prot_option ∧
      (stack_update env st.frame).global_pic_option = st.global_pic_option ∧
      (stack_update env st.frame).global_short_enums = st.global_short_enums ∧
      (stack_update env st.frame).global_GOWall_options = st.global_GOWall_options ∧
      (stack_update env st.frame).annobin_enable_static_notes
        = st.annobin_enable_static_notes ∧
      (stack_update env st.frame).annobin_enable_stack_size_notes
        = st.annobin_enable_stack_size_notes ∧
      (stack_update env st.frame).flag_stack_usage_info = st.flag_stack_usage_info ∧
      (stack_update env st.frame).stack_threshold = st.stack_threshold := by
    unfold stack_update
    split <;> exact ⟨rfl, rfl, rfl, rfl, rfl, rfl, rfl, rfl⟩
  split at h
  · obtain ⟨a1, a2, a3, a4, a5, a6, a7, a8⟩ := frame_fields h
    obtain ⟨b1, b2, b3, b4, b5, b6, b7, b8⟩ := hu
    exact ⟨a1.trans b1, a2.trans b2, a3.trans b3, a4.trans b4, a5.trans b5, a6.trans b6,
      a7.trans b7, a8.trans b8⟩
  · obtain ⟨a1, a2, a3, a4, a5, a6, a7, a8⟩ := frame_fields h
    exact ⟨a1, a2, a3, a4, a5, a6, a7, a8⟩

/-- The function loop, for an attribute with the per-function value `val` and
the value `g` saved at the start of the unit: if one call writes a note iff
the two differ and keeps `g`, the loop writes a note for exactly the
functions whose value differs from `g`. -/
theorem run_functions_generic {α : Type} [DecidableEq α] (K : Build)
    (p : Nat × List Nat → Bool) (val : Env → α) (g : State → α) (mk : α → Nat × List Nat)
    (hstep : ∀ (env : Env) (st : State), st.annobin_enable_static_notes = true →
      env.asm_out_file = true →
      (env.current_function_name.isSome = true ∨ env.function_asm_name.isSome = true) →
      (annobin_create_function_notes K env st).keys.filter p
        = st.keys.filter p ++ (if val env ≠ g st then [mk (val env)] else []))
    (hg : ∀ (env : Env) (st : State), g (annobin_create_function_notes K env st) = g st) :
    ∀ (envs : List Env) (st : State), st.annobin_enable_static_notes = true →
      (∀ e ∈ envs, e.asm_out_file = true ∧
        (e.current_function_name.isSome = true ∨ e.function_asm_name.isSome = true)) →
      (run_functions K envs st).keys.filter p
        = st.keys.filter p
          ++ ((envs.map val).filter (fun a => decide (a ≠ g st))).map mk := by
  intro envs
  induction envs with
  | nil => intro st _ _; simp [run_functions]
  | cons e es ih =>
    intro st hstatic henvs
    have he := henvs e (List.mem_cons_self _ _)
    have hes : ∀ e' ∈ es, e'.asm_out_file = true ∧
        (e'.current_function_name.isSome = true ∨ e'.function_asm_name.isSome = true) :=
      fun e' h' => henvs e' (List.mem_cons_of_mem _ h')
    have hst' : (annobin_create_function_notes K e st).annobin_enable_static_notes = true := by
      rw [(function_notes_keeps K e st).2.2.2.2.1]; exact hstatic
    have := ih (annobin_create_function_notes K e st) hst' hes
    rw [hg, hstep e st hstatic he.1 he.2] at this
    show (run_functions K es (annobin_create_function_notes K e st)).keys.filter p = _
    rw [this]
    by_cases hc : val e = g st
    · simp [hc]
    · simp [hc]

/-- Every note of a function has function scope. -/
theorem function_keys_scope (K : Build) (env : Env) (f : State) :
    ∀ k ∈ function_keys K env f, k.1 = K.NT_GNU_BUILD_ATTRIBUTE_FUNC := by
  intro k hk
  unfold function_keys at hk
  simp only [List.mem_append] at hk
  rcases hk with (((((hk | hk) | hk) | hk) | hk) | hk) | hk
  · unfold target_function_keys at hk
    split at hk <;> (try split at hk) <;> simp at hk <;> rw [hk]
  · unfold stack_prot_keys at hk
    split at hk <;> simp at hk; rw [hk]
  · unfold stack_clash_keys at hk
    split at hk <;> simp at hk; rw [hk]
  · unfold pic_keys at hk
    split at hk <;> simp at hk; rw [hk]
  · unfold GOW_keys at hk
    split at hk <;> simp at hk; rw [hk]
  · unfold short_enums_keys at hk
    split at hk <;> simp at hk; rw [hk]
  · unfold stack_size_keys at hk
    split at hk <;> simp at hk; rw [hk]

/-- Every note written at the start of a unit has open scope. -/
theorem unit_start_keys_scope (K : Build) (env : Env) (k1 k2 : Nat × List Nat)
    (L : List (Nat × List Nat)) (h1 : is_string_key K K.NT_GNU_BUILD_ATTRIBUTE_OPEN k1)
    (h2 : is_string_key K K.NT_GNU_BUILD_ATTRIBUTE_OPEN k2)
    (hL : ∀ k ∈ L, is_fortify_key K k) :
    ∀ k ∈ unit_start_keys K env k1 k2 L, k.1 = K.NT_GNU_BUILD_ATTRIBUTE_OPEN := by
  intro k hk
  unfold unit_start_keys at hk
  simp only [List.mem_append, List.mem_cons, List.mem_singleton, List.not_mem_nil,
    or_false] at hk
  rcases hk with ((((hk | hk | hk | hk) | hk) | hk) | (hk | hk)) | hk
  · rw [hk]; exact h1.1
  · rw [hk]; exact h2.1
  · rw [hk]
  · rw [hk]
  · split at hk <;> simp at hk; rw [hk]
  · exact (hL k hk).1
  · rw [hk]
  · rw [hk]
  · unfold target_global_keys at hk
    split at hk <;> simp at hk <;> rw [hk]

theorem filter_scope_nil (l : List (Nat × List Nat)) (p : Nat × List Nat → Bool) (sc sc' : Nat)
    (hl : ∀ k ∈ l, k.1 = sc') (hp : ∀ k, p k = true → k.1 = sc) (hne : sc' ≠ sc) :
    l.filter p = [] := by
  rw [List.filter_eq_nil_iff]
  intro k hk hpk
  exact hne ((hl k hk).symm.trans (hp k hpk))

theorem numeric_key_scope (K : Build) (sc tag : Nat) (k : Nat × List Nat)
    (h : is_numeric_key K sc tag k = true) : k.1 = sc := by
  simp only [is_numeric_key, Bool.and_eq_true, beq_iff_eq] at h
  exact h.1

theorem numeric_key_string (K : Build) (sc sc' tag : Nat) (k : Nat × List Nat)
    (hk : is_string_key K sc' k)
    (hne : fmt_c K.GNU_BUILD_ATTRIBUTE_TYPE_NUMERIC ≠ fmt_c K.GNU_BUILD_ATTRIBUTE_TYPE_STRING) :
    is_numeric_key K sc tag k = false := by
  rw [Bool.eq_false_iff]
  intro h
  simp only [is_numeric_key, Bool.and_eq_true, beq_iff_eq] at h
  exact hne (hk.2 _ _ _ _ h.2)

theorem numeric_key_fortify (K : Build) (sc tag : Nat) (k : Nat × List Nat)
    (hk : is_fortify_key K k) (htag : fmt_c tag ≠ 70)
    (hb : ∀ b : Bool, fmt_c (if b then K.GNU_BUILD_ATTRIBUTE_TYPE_BOOL_TRUE
        else K.GNU_BUILD_ATTRIBUTE_TYPE_BOOL_FALSE) ≠ fmt_c K.GNU_BUILD_ATTRIBUTE_TYPE_NUMERIC) :
    is_numeric_key K sc tag k = false := by
  obtain ⟨_, ⟨lvl, h⟩ | ⟨b, h⟩⟩ := hk
  · simp [is_numeric_key, h, fortify_name, cstr_FORTIFY, Ne.symm htag]
  · have := hb b
    simp [is_numeric_key, h, glibcxx_name, cstr_GLIBCXX, this]

/-- Among the notes written at the start of a unit, the numeric PIC note of
open scope is the one note written for the PIC status. -/
theorem filter_unit_start_pic (K : Build) (env : Env) (k1 k2 : Nat × List Nat)
    (L : List (Nat × List Nat)) (hwf : K.wf)
    (h1 : is_string_key K K.NT_GNU_BUILD_ATTRIBUTE_OPEN k1)
    (h2 : is_string_key K K.NT_GNU_BUILD_ATTRIBUTE_OPEN k2)
    (hL : ∀ k ∈ L, is_fortify_key K k) :
    (unit_start_keys K env k1 k2 L).filter
        (is_numeric_key K K.NT_GNU_BUILD_ATTRIBUTE_OPEN K.GNU_BUILD_ATTRIBUTE_PIC)
      = [(K.NT_GNU_BUILD_ATTRIBUTE_OPEN,
          numeric_name K K.GNU_BUILD_ATTRIBUTE_PIC (toULong (compute_pic_option env)))] := by
  obtain ⟨⟨eN, eS, eT, eF⟩, ⟨eSP, eSS, eABI, ePIC, eSE⟩, ⟨rN, rS, rT, rF⟩,
    ⟨dNS, dNT, dNF, dTF⟩, ⟨rSP, rSS, rABI, rPIC, rSE⟩,
    ⟨d1, d2, d3, d4, d5, d6⟩, hsc⟩ := wf_facts K hwf
  have hb := wf_bool_ne_numeric K hwf
  have hNS : fmt_c K.GNU_BUILD_ATTRIBUTE_TYPE_NUMERIC ≠ fmt_c K.GNU_BUILD_ATTRIBUTE_TYPE_STRING := by
    rw [eN, eS]; exact dNS
  have hLn : L.filter
      (is_numeric_key K K.NT_GNU_BUILD_ATTRIBUTE_OPEN K.GNU_BUILD_ATTRIBUTE_PIC) = [] := by
    rw [List.filter_eq_nil_iff]
    intro k hk
    rw [numeric_key_fortify K _ _ k (hL k hk) (by rw [ePIC]; omega) hb]
    simp
  have hT : (target_global_keys K env).filter
      (is_numeric_key K K.NT_GNU_BUILD_ATTRIBUTE_OPEN K.GNU_BUILD_ATTRIBUTE_PIC) = [] := by
    unfold target_global_keys
    split <;> simp [numeric_key_numeric, eABI, ePIC, d6]
  have hC : (if K.stack_clash_defined = true then
      [(K.NT_GNU_BUILD_ATTRIBUTE_OPEN, stack_clash_name K env)] else []).filter
      (is_numeric_key K K.NT_GNU_BUILD_ATTRIBUTE_OPEN K.GNU_BUILD_ATTRIBUTE_PIC) = [] := by
    split <;> simp [numeric_key_stack_clash K env _ _ _ hb]
  unfold unit_start_keys
  simp only [List.filter_append, hLn, hT, hC, List.append_nil, List.nil_append]
  simp [List.filter_cons, numeric_key_string K _ _ _ k1 h1 hNS,
    numeric_key_string K _ _ _ k2 h2 hNS, numeric_key_numeric, numeric_key_GOW,
    numeric_key_bool K _ _ _ _ _ (hb _), eSP, ePIC, d3]
  omega

/-- The value read from the name of a numeric note is the value it was
written for. -/
theorem key_value_numeric (K : Build) (sc tag v : Nat) :
    key_value (sc, numeric_name K tag v) = v := by
  unfold key_value numeric_name
  by_cases h0 : v = 0
  · subst h0; simp [decode_le]
  · simp only [h0, if_false]
    rw [value_bytes_eq_digits]
    simp [List.dropLast_append_of_ne_nil, decode_le_digits]

theorem GOW_key_value_GOW (K : Build) (sc g : Nat) :
    GOW_key_value (sc, GOW_name K g) = g := by
  unfold GOW_key_value GOW_name
  rw [value_bytes_eq_digits]
  simp [List.dropLast_append_of_ne_nil, decode_le_digits]

/-- C6 (amended): for any sequence of per-function values of a tracked attribute
(stack-protector level, PIC level, packed word, short-enum flag) seen by
successive calls of `annobin_create_function_notes` within one unit, a
function-scoped note for the attribute is written for the function at index
`i` iff its value differs from the value saved at the start of the unit,
whatever the value of the function before it; the notes written are, in
order, those of the functions whose value differs, and their number is the
number of such functions. -/
theorem function_notes_against_unit_value (K : Build) (envs : List Env) (st : State)
    (hwf : K.wf) (hstatic : st.annobin_enable_static_notes = true)
    (henvs : ∀ e ∈ envs, e.asm_out_file = true ∧
      (e.current_function_name.isSome = true ∨ e.function_asm_name.isSome = true)) :
    ((run_functions K envs st).keys.filter
        (is_numeric_key K K.NT_GNU_BUILD_ATTRIBUTE_FUNC K.GNU_BUILD_ATTRIBUTE_STACK_PROT)
      = st.keys.filter
          (is_numeric_key K K.NT_GNU_BUILD_ATTRIBUTE_FUNC K.GNU_BUILD_ATTRIBUTE_STACK_PROT)
        ++ ((envs.map (fun e => e.flag_stack_protect)).filter
              (fun a => decide (a ≠ st.global_stack_prot_option))).map
            (fun a => (K.NT_GNU_BUILD_ATTRIBUTE_FUNC,
              numeric_name K K.GNU_BUILD_ATTRIBUTE_STACK_PROT (toULong a)))) ∧
    ((run_functions K envs st).keys.filter
        (is_numeric_key K K.NT_GNU_BUILD_ATTRIBUTE_FUNC K.GNU_BUILD_ATTRIBUTE_PIC)
      = st.keys.filter
          (is_numeric_key K K.NT_GNU_BUILD_ATTRIBUTE_FUNC K.GNU_BUILD_ATTRIBUTE_PIC)
        ++ ((envs.map compute_pic_option).filter
              (fun a => decide (a ≠ st.global_pic_option))).map
            (fun a => (K.NT_GNU_BUILD_ATTRIBUTE_FUNC,
              numeric_name K K.GNU_BUILD_ATTRIBUTE_PIC (toULong a)))) ∧
    ((run_functions K envs st).keys.filter (is_GOW_key K K.NT_GNU_BUILD_ATTRIBUTE_FUNC)
      = st.keys.filter (is_GOW_key K K.NT_GNU_BUILD_ATTRIBUTE_FUNC)
        ++ ((envs.map (GOWall_value K)).filter
              (fun a => decide (a ≠ st.global_GOWall_options))).map
            (fun a => (K.NT_GNU_BUILD_ATTRIBUTE_FUNC, GOW_name K a))) ∧
    ((run_functions K envs st).keys.filter
        (is_bool_key K K.NT_GNU_BUILD_ATTRIBUTE_FUNC K.GNU_BUILD_ATTRIBUTE_SHORT_ENUM)
      = st.keys.filter
          (is_bool_key K K.NT_GNU_BUILD_ATTRIBUTE_FUNC K.GNU_BUILD_ATTRIBUTE_SHORT_ENUM)
        ++ ((envs.map (fun e => e.flag_short_enums)).filter
              (fun a => decide (a ≠ st.global_short_enums))).map
            (fun a => (K.NT_GNU_BUILD_ATTRIBUTE_FUNC,
              bool_name K K.GNU_BUILD_ATTRIBUTE_SHORT_ENUM (decide (a ≠ 0))))) ∧
    ((run_functions K envs st).keys.filter
        (is_numeric_key K K.NT_GNU_BUILD_ATTRIBUTE_FUNC
          K.GNU_BUILD_ATTRIBUTE_STACK_PROT)).length
      = (st.keys.filter
          (is_numeric_key K K.NT_GNU_BUILD_ATTRIBUTE_FUNC
            K.GNU_BUILD_ATTRIBUTE_STACK_PROT)).length
        + (envs.map (fun e => e.flag_stack_protect)).countP
            (fun a => decide (a ≠ st.global_stack_prot_option)) ∧
    ((run_functions K envs st).keys.filter
        (is_numeric_key K K.NT_GNU_BUILD_ATTRIBUTE_FUNC K.GNU_BUILD_ATTRIBUTE_PIC)).length
      = (st.keys.filter
          (is_numeric_key K K.NT_GNU_BUILD_ATTRIBUTE_FUNC K.GNU_BUILD_ATTRIBUTE_PIC)).length
        + (envs.map compute_pic_option).countP
            (fun a => decide (a ≠ st.global_pic_option)) ∧
    ((run_functions K envs st).keys.filter
        (is_GOW_key K K.NT_GNU_BUILD_ATTRIBUTE_FUNC)).length
      = (st.keys.filter (is_GOW_key K K.NT_GNU_BUILD_ATTRIBUTE_FUNC)).length
        + (envs.map (GOWall_value K)).countP
            (fun a => decide (a ≠ st.global_GOWall_options)) ∧
    ((run_functions K envs st).keys.filter
        (is_bool_key K K.NT_GNU_BUILD_ATTRIBUTE_FUNC
          K.GNU_BUILD_ATTRIBUTE_SHORT_ENUM)).length
      = (st.keys.filter
          (is_bool_key K K.NT_GNU_BUILD_ATTRIBUTE_FUNC
            K.GNU_BUILD_ATTRIBUTE_SHORT_ENUM)).length
        + (envs.map (fun e => e.flag_short_enums)).countP
            (fun a => decide (a ≠ st.global_short_enums)) := by
  have h1 := run_functions_generic K
    (is_numeric_key K K.NT_GNU_BUILD_ATTRIBUTE_FUNC K.GNU_BUILD_ATTRIBUTE_STACK_PROT)
    (fun e => e.flag_stack_protect) (fun s => s.global_stack_prot_option)
    (fun a => (K.NT_GNU_BUILD_ATTRIBUTE_FUNC,
      numeric_name K K.GNU_BUILD_ATTRIBUTE_STACK_PROT (toULong a)))
    (by
      intro env s hs hsink hname
      rw [(function_notes_filters K env s hwf hs hsink hname).1]
      unfold stack_prot_keys
      have : s.frame.global_stack_prot_option = s.global_stack_prot_option := rfl
      rw [this]
      by_cases hc : env.flag_stack_protect = s.global_stack_prot_option
      · simp [hc]
      · simp [hc, Ne.symm hc])
    (fun env s => (function_notes_keeps K env s).1) envs st hstatic henvs
  have h2 := run_functions_generic K
    (is_numeric_key K K.NT_GNU_BUILD_ATTRIBUTE_FUNC K.GNU_BUILD_ATTRIBUTE_PIC)
    compute_pic_option (fun s => s.global_pic_option)
    (fun a => (K.NT_GNU_BUILD_ATTRIBUTE_FUNC,
      numeric_name K K.GNU_BUILD_ATTRIBUTE_PIC (toULong a)))
    (by
      intro env s hs hsink hname
      rw [(function_notes_filters K env s hwf hs hsink hname).2.1]
      unfold pic_keys
      have : s.frame.global_pic_option = s.global_pic_option := rfl
      rw [this]
      by_cases hc : compute_pic_option env = s.global_pic_option
      · simp [hc]
      · simp [hc, Ne.symm hc])
    (fun env s => (function_notes_keeps K env s).2.1) envs st hstatic henvs
  have h3 := run_functions_generic K (is_GOW_key K K.NT_GNU_BUILD_ATTRIBUTE_FUNC)
    (GOWall_value K) (fun s => s.global_GOWall_options)
    (fun a => (K.NT_GNU_BUILD_ATTRIBUTE_FUNC, GOW_name K a))
    (by
      intro env s hs hsink hname
      rw [(function_notes_filters K env s hwf hs hsink hname).2.2.1]
      unfold GOW_keys
      have : s.frame.global_GOWall_options = s.global_GOWall_options := rfl
      rw [this]
      by_cases hc : GOWall_value K env = s.global_GOWall_options
      · simp [hc]
      · simp [hc, Ne.symm hc])
    (fun env s => (function_notes_keeps K env s).2.2.2.1) envs st hstatic henvs
  have h4 := run_functions_generic K
    (is_bool_key K K.NT_GNU_BUILD_ATTRIBUTE_FUNC K.GNU_BUILD_ATTRIBUTE_SHORT_ENUM)
    (fun e => e.flag_short_enums) (fun s => s.global_short_enums)
    (fun a => (K.NT_GNU_BUILD_ATTRIBUTE_FUNC,
      bool_name K K.GNU_BUILD_ATTRIBUTE_SHORT_ENUM (decide (a ≠ 0))))
    (by
      intro env s hs hsink hname
      rw [(function_notes_filters K env s hwf hs hsink hname).2.2.2.1]
      unfold short_enums_keys
      have : s.frame.global_short_enums = s.global_short_enums := rfl
      rw [this]
      by_cases hc : env.flag_short_enums = s.global_short_enums
      · simp [hc]
      · simp [hc, Ne.symm hc])
    (fun env s => (function_notes_keeps K env s).2.2.1) envs st hstatic henvs
  refine ⟨h1, h2, h3, h4, ?_, ?_, ?_, ?_⟩
  · rw [h1, List.length_append, List.length_map, List.countP_eq_length_filter]
  · rw [h2, List.length_append, List.length_map, List.countP_eq_length_filter]
  · rw [h3, List.length_append, List.length_map, List.countP_eq_length_filter]
  · rw [h4, List.length_append, List.length_map, List.countP_eq_length_filter]

/-- What `annobin_create_global_notes` saves when static notes are enabled and
the output file is open. -/
theorem global_notes_fields (K : Build) (env : Env) (st : State) (hwf : K.wf)
    (hstatic : st.annobin_enable_static_notes = true) (hsink : env.asm_out_file = true) :
    (annobin_create_global_notes K env st).global_stack_prot_option = env.flag_stack_protect ∧
    (annobin_create_global_notes K env st).global_pic_option = compute_pic_option env ∧
    (annobin_create_global_notes K env st).global_short_enums = env.flag_short_enums ∧
    (annobin_create_global_notes K env st).global_GOWall_options = GOWall_value K env ∧
    (annobin_create_global_notes K env st).annobin_enable_static_notes = true := by
  obtain ⟨hT, hF, hSE⟩ := wf_nonzero K hwf
  have h := (global_notes_spec K env st hstatic hsink hT hF hSE).1
  obtain ⟨a1, a2, a3, a4, a5, _⟩ := frame_fields h
  have hs : st.frame.annobin_enable_static_notes = true := hstatic
  rw [a1, a2, a3, a4, a5]
  unfold unit_start_frame target_global_frame
  split <;> exact ⟨rfl, rfl, rfl, rfl, hs⟩

/-- The notes of function scope are not touched by
`annobin_create_global_notes`, and it writes exactly one numeric PIC note of
open scope. -/
theorem global_notes_filters (K : Build) (env : Env) (st : State) (hwf : K.wf)
    (hstatic : st.annobin_enable_static_notes = true) (hsink : env.asm_out_file = true) :
    (∀ tag : Nat, (annobin_create_global_notes K env st).keys.filter
        (is_numeric_key K K.NT_GNU_BUILD_ATTRIBUTE_FUNC tag)
      = st.keys.filter (is_numeric_key K K.NT_GNU_BUILD_ATTRIBUTE_FUNC tag)) ∧
    (annobin_create_global_notes K env st).keys.filter
        (is_numeric_key K K.NT_GNU_BUILD_ATTRIBUTE_OPEN K.GNU_BUILD_ATTRIBUTE_PIC)
      = st.keys.filter
          (is_numeric_key K K.NT_GNU_BUILD_ATTRIBUTE_OPEN K.GNU_BUILD_ATTRIBUTE_PIC)
        ++ [(K.NT_GNU_BUILD_ATTRIBUTE_OPEN,
            numeric_name K K.GNU_BUILD_ATTRIBUTE_PIC (toULong (compute_pic_option env)))] := by
  obtain ⟨hT, hF, hSE⟩ := wf_nonzero K hwf
  obtain ⟨_, k1, k2, L, hk, h1, h2, hL⟩ := global_notes_spec K env st hstatic hsink hT hF hSE
  have hsc : K.NT_GNU_BUILD_ATTRIBUTE_OPEN ≠ K.NT_GNU_BUILD_ATTRIBUTE_FUNC := hwf.2.2.2.2
  rw [hk]
  constructor
  · intro tag
    rw [List.filter_append, filter_scope_nil _ _ K.NT_GNU_BUILD_ATTRIBUTE_FUNC
      K.NT_GNU_BUILD_ATTRIBUTE_OPEN (unit_start_keys_scope K env k1 k2 L h1 h2 hL)
      (numeric_key_scope K _ tag) hsc, List.append_nil]
  · rw [List.filter_append, filter_unit_start_pic K env k1 k2 L hwf h1 h2 hL]

/-- The numeric notes of open scope are not touched by
`annobin_create_function_notes`. -/
theorem function_notes_open (K : Build) (env : Env) (st : State) (hwf : K.wf)
    (hstatic : st.annobin_enable_static_notes = true) (hsink : env.asm_out_file = true)
    (hname : env.current_function_name.isSome = true ∨ env.function_asm_name.isSome = true)
    (tag : Nat) :
    (annobin_create_function_notes K env st).keys.filter
        (is_numeric_key K K.NT_GNU_BUILD_ATTRIBUTE_OPEN tag)
      = st.keys.filter (is_numeric_key K K.NT_GNU_BUILD_ATTRIBUTE_OPEN tag) := by
  obtain ⟨hT, hF, hSE⟩ := wf_nonzero K hwf
  have hsc : K.NT_GNU_BUILD_ATTRIBUTE_OPEN ≠ K.NT_GNU_BUILD_ATTRIBUTE_FUNC := hwf.2.2.2.2
  rw [(function_notes_spec K env st hstatic hsink hname hT hF hSE).2, List.filter_append,
    filter_scope_nil _ _ K.NT_GNU_BUILD_ATTRIBUTE_OPEN K.NT_GNU_BUILD_ATTRIBUTE_FUNC
      (function_keys_scope K env st.frame) (numeric_key_scope K _ tag) (Ne.symm hsc),
    List.append_nil]

/-- C7 (amended): in a unit whose stack-protector level is 0 at the start of the
unit, 2 while the function `f` is processed and 0 again while the next
function `g` is processed, exactly one function-scoped stack-protector note
is written: at `f`, with the value 2; at `g`, whose level is the level of the
unit, none is written. -/
theorem stack_protector_scenario (K : Build) (env0 envf envg : Env) (st0 : State)
    (hwf : K.wf) (hstatic : st0.annobin_enable_static_notes = true)
    (hsink0 : env0.asm_out_file = true) (hsinkf : envf.asm_out_file = true)
    (hsinkg : envg.asm_out_file = true)
    (hnamef : envf.current_function_name.isSome = true ∨ envf.function_asm_name.isSome = true)
    (hnameg : envg.current_function_name.isSome = true ∨ envg.function_asm_name.isSome = true)
    (h0 : env0.flag_stack_protect = 0) (hf : envf.flag_stack_protect = 2)
    (hg : envg.flag_stack_protect = 0) :
    (annobin_create_global_notes K env0 st0).keys.filter
        (is_numeric_key K K.NT_GNU_BUILD_ATTRIBUTE_FUNC K.GNU_BUILD_ATTRIBUTE_STACK_PROT)
      = st0.keys.filter
          (is_numeric_key K K.NT_GNU_BUILD_ATTRIBUTE_FUNC K.GNU_BUILD_ATTRIBUTE_STACK_PROT) ∧
    (run_functions K [envf] (annobin_create_global_notes K env0 st0)).keys.filter
        (is_numeric_key K K.NT_GNU_BUILD_ATTRIBUTE_FUNC K.GNU_BUILD_ATTRIBUTE_STACK_PROT)
      = st0.keys.filter
          (is_numeric_key K K.NT_GNU_BUILD_ATTRIBUTE_FUNC K.GNU_BUILD_ATTRIBUTE_STACK_PROT)
        ++ [(K.NT_GNU_BUILD_ATTRIBUTE_FUNC,
            numeric_name K K.GNU_BUILD_ATTRIBUTE_STACK_PROT 2)] ∧
    (run_functions K [envf, envg] (annobin_create_global_notes K env0 st0)).keys.filter
        (is_numeric_key K K.NT_GNU_BUILD_ATTRIBUTE_FUNC K.GNU_BUILD_ATTRIBUTE_STACK_PROT)
      = st0.keys.filter
          (is_numeric_key K K.NT_GNU_BUILD_ATTRIBUTE_FUNC K.GNU_BUILD_ATTRIBUTE_STACK_PROT)
        ++ [(K.NT_GNU_BUILD_ATTRIBUTE_FUNC,
            numeric_name K K.GNU_BUILD_ATTRIBUTE_STACK_PROT 2)] ∧
    key_value (K.NT_GNU_BUILD_ATTRIBUTE_FUNC,
        numeric_name K K.GNU_BUILD_ATTRIBUTE_STACK_PROT 2) = 2 := by
  obtain ⟨g1, _, _, _, g5⟩ := global_notes_fields K env0 st0 hwf hstatic hsink0
  have hG := (global_notes_filters K env0 st0 hwf hstatic hsink0).1
    K.GNU_BUILD_ATTRIBUTE_STACK_PROT
  have hF := (function_notes_filters K envf _ hwf g5 hsinkf hnamef).1
  obtain ⟨k1, _, _, _, k5, _⟩ := function_notes_keeps K envf
    (annobin_create_global_notes K env0 st0)
  have hGf := (function_notes_filters K envg _ hwf (k5.trans g5) hsinkg hnameg).1
  have e1 : stack_prot_keys K envf (annobin_create_global_notes K env0 st0).frame
      = [(K.NT_GNU_BUILD_ATTRIBUTE_FUNC,
          numeric_name K K.GNU_BUILD_ATTRIBUTE_STACK_PROT 2)] := by
    unfold stack_prot_keys
    have : (annobin_create_global_notes K env0 st0).frame.global_stack_prot_option = 0 :=
      g1.trans h0
    rw [this, hf]
    simp [toULong]
  have e2 : stack_prot_keys K envg
      (annobin_create_function_notes K envf (annobin_create_global_notes K env0 st0)).frame
      = [] := by
    unfold stack_prot_keys
    have : (annobin_create_function_notes K envf
        (annobin_create_global_notes K env0 st0)).frame.global_stack_prot_option = 0 :=
      k1.trans (g1.trans h0)
    rw [this, hg]
    simp
  rw [e1, hG] at hF
  rw [e2, hF, List.append_nil] at hGf
  exact ⟨hG, hF, hGf, key_value_numeric K _ _ 2⟩

theorem standard_wf : Build.standard.wf := by
  unfold Build.wf
  decide

/-- Witness of `function_notes_against_unit_value`: two functions compiled with
stack-protector level 2 in a plugin that has not saved any value yet. -/
theorem function_notes_against_unit_value_witness :
    (Build.standard.wf ∧ (State.initial none).annobin_enable_static_notes = true) ∧
    (run_functions Build.standard [Env.with_stack_protect 2, Env.with_stack_protect 2]
        (State.initial none)).keys.filter
        (is_numeric_key Build.standard Build.standard.NT_GNU_BUILD_ATTRIBUTE_FUNC
          Build.standard.GNU_BUILD_ATTRIBUTE_STACK_PROT)
      = (State.initial none).keys.filter
          (is_numeric_key Build.standard Build.standard.NT_GNU_BUILD_ATTRIBUTE_FUNC
            Build.standard.GNU_BUILD_ATTRIBUTE_STACK_PROT)
        ++ (([Env.with_stack_protect 2, Env.with_stack_protect 2].map
              (fun e => e.flag_stack_protect)).filter
              (fun a => decide (a ≠ (State.initial none).global_stack_prot_option))).map
            (fun a => (Build.standard.NT_GNU_BUILD_ATTRIBUTE_FUNC,
              numeric_name Build.standard Build.standard.GNU_BUILD_ATTRIBUTE_STACK_PROT
                (toULong a))) :=
  ⟨⟨standard_wf, rfl⟩,
    (function_notes_against_unit_value Build.standard
      [Env.with_stack_protect 2, Env.with_stack_protect 2] (State.initial none)
      standard_wf rfl (by decide)).1⟩

/-- C6, counterexample: in a unit whose stack-protector level is 0, two
successive functions are compiled with level 2. The second function has the
value of the first, yet a function-scoped note is written for it as well: two
notes are written, although the value changes once. -/
theorem note_for_unchanged_value :
    (annobin_create_global_notes Build.standard Env.plain
        (State.initial none)).global_stack_prot_option = 0 ∧
    [Env.with_stack_protect 2, Env.with_stack_protect 2].map (fun e => e.flag_stack_protect)
      = [2, 2] ∧
    (run_functions Build.standard [Env.with_stack_protect 2]
        (annobin_create_global_notes Build.standard Env.plain (State.initial none))).keys.filter
        (is_numeric_key Build.standard 257 2)
      = [(257, [71, 65, 42, 2, 2, 0])] ∧
    (run_functions Build.standard [Env.with_stack_protect 2, Env.with_stack_protect 2]
        (annobin_create_global_notes Build.standard Env.plain (State.initial none))).keys.filter
        (is_numeric_key Build.standard 257 2)
      = [(257, [71, 65, 42, 2, 2, 0]), (257, [71, 65, 42, 2, 2, 0])] := by
  decide

/-- Witness of `stack_protector_scenario`. -/
theorem stack_protector_scenario_witness :
    (Build.standard.wf ∧ Env.plain.flag_stack_protect = 0 ∧
      (Env.with_stack_protect 2).flag_stack_protect = 2) ∧
    (run_functions Build.standard [Env.with_stack_protect 2, Env.plain]
        (annobin_create_global_notes Build.standard Env.plain (State.initial none))).keys.filter
        (is_numeric_key Build.standard Build.standard.NT_GNU_BUILD_ATTRIBUTE_FUNC
          Build.standard.GNU_BUILD_ATTRIBUTE_STACK_PROT)
      = (State.initial none).keys.filter
          (is_numeric_key Build.standard Build.standard.NT_GNU_BUILD_ATTRIBUTE_FUNC
            Build.standard.GNU_BUILD_ATTRIBUTE_STACK_PROT)
        ++ [(Build.standard.NT_GNU_BUILD_ATTRIBUTE_FUNC,
            numeric_name Build.standard Build.standard.GNU_BUILD_ATTRIBUTE_STACK_PROT 2)] :=
  ⟨⟨standard_wf, rfl, rfl⟩,
    (stack_protector_scenario Build.standard Env.plain (Env.with_stack_protect 2) Env.plain
      (State.initial none) standard_wf rfl rfl rfl rfl (by decide) (by decide) rfl rfl
      rfl).2.2.1⟩

/-- C7, counterexample: in the unit of the scenario (level 0 at the start of the
unit, 2 in the first function, 0 in the second one) one function-scoped
stack-protector note is written, not two: the note of the first function,
with the value 2. -/
theorem stack_protector_one_note :
    (run_functions Build.standard [Env.with_stack_protect 2, Env.with_stack_protect 0]
        (annobin_create_global_notes Build.standard (Env.with_stack_protect 0)
          (State.initial none))).keys.filter
        (is_numeric_key Build.standard 257 2)
      = [(257, [71, 65, 42, 2, 2, 0])] ∧
    (run_functions Build.standard [Env.with_stack_protect 2]
        (annobin_create_global_notes Build.standard (Env.with_stack_protect 0)
          (State.initial none))).keys.filter
        (is_numeric_key Build.standard 257 2)
      = [(257, [71, 65, 42, 2, 2, 0])] := by
  decide

/-- Witness of `descsz_requested`: a note with both symbols on a 32-bit
target. -/
theorem descsz_requested_witness :
    Env.plain.asm_out_file = true ∧
    ∃ a text,
      (annobin_output_numeric_note Build.standard Env.plain (State.initial none) 7 3
          "numeric: pic type" (some [102]) (some [102, 95, 101, 110, 100]) 257).asm_out
        = (State.initial none).asm_out ++ [Chunk.note a text] ∧
      a.desc1 = some [102] ∧ a.desc2 = some [102, 95, 101, 110, 100] ∧
      a.desc_is_string = true ∧
      a.descsz = symbols_descsz (State.initial none).annobin_is_64bit (some [102])
        (some [102, 95, 101, 110, 100]) :=
  ⟨rfl, (descsz_requested Build.standard Env.plain (State.initial none) 7 3 true []
    "numeric: pic type" (some [102]) (some [102, 95, 101, 110, 100]) 257 rfl).1⟩

/-- C8: `annobin_create_function_notes` never modifies the four attribute values
captured at the start of the unit; with static notes enabled, the output file
open and the function named, it writes a function-scoped note for each of
the four attributes iff the value of the function differs from the captured
value; and a unit in which the PIC level is 3 throughout and both of two
functions use the stack-protector level of the unit gets exactly one
open-scope PIC note and no function-scoped PIC or stack-protector note. -/
theorem function_notes_keep_unit_values (K : Build) (env env0 env1 env2 : Env)
    (st st0 : State) (hwf : K.wf)
    (hstatic : st.annobin_enable_static_notes = true) (hsink : env.asm_out_file = true)
    (hname : env.current_function_name.isSome = true ∨ env.function_asm_name.isSome = true)
    (hstatic0 : st0.annobin_enable_static_notes = true)
    (hsink0 : env0.asm_out_file = true) (hsink1 : env1.asm_out_file = true)
    (hsink2 : env2.asm_out_file = true)
    (hname1 : env1.current_function_name.isSome = true ∨ env1.function_asm_name.isSome = true)
    (hname2 : env2.current_function_name.isSome = true ∨ env2.function_asm_name.isSome = true)
    (hp0 : compute_pic_option env0 = 3) (hp1 : compute_pic_option env1 = 3)
    (hp2 : compute_pic_option env2 = 3)
    (hs1 : env1.flag_stack_protect = env0.flag_stack_protect)
    (hs2 : env2.flag_stack_protect = env0.flag_stack_protect) :
    (∀ (e : Env) (s : State),
      (annobin_create_function_notes K e s).global_stack_prot_option
        = s.global_stack_prot_option ∧
      (annobin_create_function_notes K e s).global_pic_option = s.global_pic_option ∧
      (annobin_create_function_notes K e s).global_short_enums = s.global_short_enums ∧
      (annobin_create_function_notes K e s).global_GOWall_options
        = s.global_GOWall_options) ∧
    ((annobin_create_function_notes K env st).keys.filter
        (is_numeric_key K K.NT_GNU_BUILD_ATTRIBUTE_FUNC K.GNU_BUILD_ATTRIBUTE_STACK_PROT)
      = st.keys.filter
          (is_numeric_key K K.NT_GNU_BUILD_ATTRIBUTE_FUNC K.GNU_BUILD_ATTRIBUTE_STACK_PROT)
        ++ (if st.global_stack_prot_option ≠ env.flag_stack_protect then
              [(K.NT_GNU_BUILD_ATTRIBUTE_FUNC,
                numeric_name K K.GNU_BUILD_ATTRIBUTE_STACK_PROT
                  (toULong env.flag_stack_protect))]
            else []) ∧
    (annobin_create_function_notes K env st).keys.filter
        (is_numeric_key K K.NT_GNU_BUILD_ATTRIBUTE_FUNC K.GNU_BUILD_ATTRIBUTE_PIC)
      = st.keys.filter
          (is_numeric_key K K.NT_GNU_BUILD_ATTRIBUTE_FUNC K.GNU_BUILD_ATTRIBUTE_PIC)
        ++ (if st.global_pic_option ≠ compute_pic_option env then
              [(K.NT_GNU_BUILD_ATTRIBUTE_FUNC,
                numeric_name K K.GNU_BUILD_ATTRIBUTE_PIC (toULong (compute_pic_option env)))]
            else []) ∧
    (annobin_create_function_notes K env st).keys.filter
        (is_GOW_key K K.NT_GNU_BUILD_ATTRIBUTE_FUNC)
      = st.keys.filter (is_GOW_key K K.NT_GNU_BUILD_ATTRIBUTE_FUNC)
        ++ (if st.global_GOWall_options ≠ GOWall_value K env then
              [(K.NT_GNU_BUILD_ATTRIBUTE_FUNC, GOW_name K (GOWall_value K env))]
            else []) ∧
    (annobin_create_function_notes K env st).keys.filter
        (is_bool_key K K.NT_GNU_BUILD_ATTRIBUTE_FUNC K.GNU_BUILD_ATTRIBUTE_SHORT_ENUM)
      = st.keys.filter
          (is_bool_key K K.NT_GNU_BUILD_ATTRIBUTE_FUNC K.GNU_BUILD_ATTRIBUTE_SHORT_ENUM)
        ++ (if st.global_short_enums ≠ env.flag_short_enums then
              [(K.NT_GNU_BUILD_ATTRIBUTE_FUNC,
                bool_name K K.GNU_BUILD_ATTRIBUTE_SHORT_ENUM
                  (decide (env.flag_short_enums ≠ 0)))]
            else [])) ∧
    ((run_functions K [env1, env2] (annobin_create_global_notes K env0 st0)).keys.filter
        (is_numeric_key K K.NT_GNU_BUILD_ATTRIBUTE_OPEN K.GNU_BUILD_ATTRIBUTE_PIC)
      = st0.keys.filter
          (is_numeric_key K K.NT_GNU_BUILD_ATTRIBUTE_OPEN K.GNU_BUILD_ATTRIBUTE_PIC)
        ++ [(K.NT_GNU_BUILD_ATTRIBUTE_OPEN, numeric_name K K.GNU_BUILD_ATTRIBUTE_PIC 3)] ∧
    (run_functions K [env1, env2] (annobin_create_global_notes K env0 st0)).keys.filter
        (is_numeric_key K K.NT_GNU_BUILD_ATTRIBUTE_FUNC K.GNU_BUILD_ATTRIBUTE_PIC)
      = st0.keys.filter
          (is_numeric_key K K.NT_GNU_BUILD_ATTRIBUTE_FUNC K.GNU_BUILD_ATTRIBUTE_PIC) ∧
    (run_functions K [env1, env2] (annobin_create_global_notes K env0 st0)).keys.filter
        (is_numeric_key K K.NT_GNU_BUILD_ATTRIBUTE_FUNC K.GNU_BUILD_ATTRIBUTE_STACK_PROT)
      = st0.keys.filter
          (is_numeric_key K K.NT_GNU_BUILD_ATTRIBUTE_FUNC
            K.GNU_BUILD_ATTRIBUTE_STACK_PROT)) := by
  refine ⟨?_, ?_, ?_⟩
  · intro e s
    obtain ⟨a1, a2, a3, a4, _⟩ := function_notes_keeps K e s
    exact ⟨a1, a2, a3, a4⟩
  · obtain ⟨f1, f2, f3, f4, _⟩ := function_notes_filters K env st hwf hstatic hsink hname
    exact ⟨f1, f2, f3, f4⟩
  · obtain ⟨g1, g2, _, _, g5⟩ := global_notes_fields K env0 st0 hwf hstatic0 hsink0
    obtain ⟨hGF, hGO⟩ := global_notes_filters K env0 st0 hwf hstatic0 hsink0
    obtain ⟨k1, k2, _, _, k5, _⟩ := function_notes_keeps K env1
      (annobin_create_global_notes K env0 st0)
    obtain ⟨a1, a2, _⟩ := function_notes_filters K env1 _ hwf g5 hsink1 hname1
    obtain ⟨b1, b2, _⟩ := function_notes_filters K env2 _ hwf (k5.trans g5) hsink2 hname2
    have o1 := function_notes_open K env1 _ hwf g5 hsink1 hname1 K.GNU_BUILD_ATTRIBUTE_PIC
    have o2 := function_notes_open K env2 _ hwf (k5.trans g5) hsink2 hname2
      K.GNU_BUILD_ATTRIBUTE_PIC
    have e1 : stack_prot_keys K env1 (annobin_create_global_notes K env0 st0).frame = [] := by
      unfold stack_prot_keys
      have : (annobin_create_global_notes K env0 st0).frame.global_stack_prot_option
          = env0.flag_stack_protect := g1
      rw [this, hs1]
      simp
    have e2 : stack_prot_keys K env2
        (annobin_create_function_notes K env1 (annobin_create_global_notes K env0 st0)).frame
        = [] := by
      unfold stack_prot_keys
      have : (annobin_create_function_notes K env1
          (annobin_create_global_notes K env0 st0)).frame.global_stack_prot_option
          = env0.flag_stack_protect := k1.trans g1
      rw [this, hs2]
      simp
    have p1 : pic_keys K env1 (annobin_create_global_notes K env0 st0).frame = [] := by
      unfold pic_keys
      have : (annobin_create_global_notes K env0 st0).frame.global_pic_option = 3 :=
        g2.trans hp0
      rw [this, hp1]
      simp
    have p2 : pic_keys K env2
        (annobin_create_function_notes K env1 (annobin_create_global_notes K env0 st0)).frame
        = [] := by
      unfold pic_keys
      have : (annobin_create_function_notes K env1
          (annobin_create_global_notes K env0 st0)).frame.global_pic_option = 3 :=
        k2.trans (g2.trans hp0)
      rw [this, hp2]
      simp
    have h3 : toULong 3 = 3 := by decide
    rw [hp0, h3] at hGO
    rw [e1, List.append_nil, hGF] at a1
    rw [e2, List.append_nil, a1] at b1
    rw [p1, List.append_nil, hGF] at a2
    rw [p2, List.append_nil, a2] at b2
    rw [o1, hGO] at o2
    exact ⟨o2, b2, b1⟩

/-- Witness of `function_notes_keep_unit_values`: a unit compiled with `-fpie`
and two functions. -/
theorem function_notes_keep_unit_values_witness :
    (Build.standard.wf ∧ compute_pic_option Env.with_pie = 3) ∧
    (run_functions Build.standard [Env.with_pie, Env.with_pie]
        (annobin_create_global_notes Build.standard Env.with_pie
          (State.initial none))).keys.filter
        (is_numeric_key Build.standard Build.standard.NT_GNU_BUILD_ATTRIBUTE_OPEN
          Build.standard.GNU_BUILD_ATTRIBUTE_PIC)
      = (State.initial none).keys.filter
          (is_numeric_key Build.standard Build.standard.NT_GNU_BUILD_ATTRIBUTE_OPEN
            Build.standard.GNU_BUILD_ATTRIBUTE_PIC)
        ++ [(Build.standard.NT_GNU_BUILD_ATTRIBUTE_OPEN,
            numeric_name Build.standard Build.standard.GNU_BUILD_ATTRIBUTE_PIC 3)] :=
  ⟨⟨standard_wf, by decide⟩,
    (function_notes_keep_unit_values Build.standard Env.with_pie Env.with_pie Env.with_pie
      Env.with_pie (State.initial none) (State.initial none) standard_wf rfl rfl
      (by decide) rfl rfl rfl rfl (by decide) (by decide) (by decide) (by decide) (by decide)
      rfl rfl).2.2.1⟩

/-- C11: `compute_pic_option` returns a value between 0 and 4 for all values of
the flags: 4 exactly if `flag_pie > 1`, 3 exactly if `flag_pie` is another
non-zero value, 2 exactly if `flag_pie` is 0 and `flag_pic > 1`, 1 exactly if
`flag_pie` is 0 and `flag_pic` is another non-zero value, 0 exactly if both
are 0; so a non-zero PIE setting gives 3 or 4 whatever the PIC setting is. -/
theorem compute_pic_option_values (env : Env) :
    (0 ≤ compute_pic_option env ∧ compute_pic_option env ≤ 4) ∧
    (compute_pic_option env = 4 ↔ env.flag_pie > 1) ∧
    (compute_pic_option env = 3 ↔ env.flag_pie ≠ 0 ∧ ¬ env.flag_pie > 1) ∧
    (compute_pic_option env = 2 ↔ env.flag_pie = 0 ∧ env.flag_pic > 1) ∧
    (compute_pic_option env = 1 ↔ env.flag_pie = 0 ∧ env.flag_pic ≠ 0 ∧ ¬ env.flag_pic > 1) ∧
    (compute_pic_option env = 0 ↔ env.flag_pie = 0 ∧ env.flag_pic = 0) ∧
    (3 ≤ compute_pic_option env ↔ env.flag_pie ≠ 0) := by
  unfold compute_pic_option
  split_ifs <;> omega

theorem or_shift (v k i : Nat) (hv : v < 2 ^ i) : v ||| (k <<< i) = v + 2 ^ i * k := by
  rw [Nat.or_comm, Nat.shiftLeft_eq, Nat.mul_comm, ← Nat.mul_add_lt_is_or hv, Nat.add_comm]

theorem or_flag (c : Prop) [Decidable c] (v i : Nat) :
    (if c then v ||| (1 <<< i) else v) = v ||| (flag_bit c <<< i) := by
  unfold flag_bit
  split <;> simp

theorem wall_loop_iff (os : List DecodedOption) :
    wall_loop os = true ↔ ∃ o ∈ os, o.opt_index = OptIndex.OPT_Wall := by
  induction os with
  | nil => simp [wall_loop]
  | cons o os ih =>
    unfold wall_loop
    split
    · simp [*]
    · simp [*]

/-- The packed word as the chain of ORs of its fields, for inputs that the
tests of `compute_GOWall_options` accept. -/
theorem GOWall_value_fields (K : Build) (env : Env)
    (hd : env.write_symbols ≤ K.VMS_AND_DWARF2_DEBUG) (hd7 : env.write_symbols ≤ 7)
    (hl : env.debug_info_level ≤ K.DINFO_LEVEL_VERBOSE) (hl3 : env.debug_info_level ≤ 3)
    (hw0 : 0 ≤ env.dwarf_version) (hw7 : env.dwarf_version ≤ 7) (ho : 0 ≤ env.optimize) :
    GOWall_value K env
      = env.write_symbols ||| (flag_bit (env.use_gnu_debug_info_extensions = true) <<< 3)
        ||| (env.debug_info_level <<< 4) ||| (env.dwarf_version.toNat <<< 6)
        ||| (min env.optimize.toNat 3 <<< 9)
        ||| (flag_bit (env.optimize_size ≠ 0) <<< 11)
        ||| (flag_bit (env.optimize_fast ≠ 0) <<< 12)
        ||| (flag_bit (env.optimize_debug ≠ 0) <<< 13)
        ||| (flag_bit (∃ o ∈ env.save_decoded_options, o.opt_index = OptIndex.OPT_Wall)
              <<< 14) := by
  have e1 : (if env.write_symbols > K.VMS_AND_DWARF2_DEBUG then 0
      else env.write_symbols % 4294967296) = env.write_symbols := by
    rw [if_neg (by omega), Nat.mod_eq_of_lt (by omega)]
  have e3 : toUInt ((env.debug_info_level : Int) * 16) = env.debug_info_level <<< 4 := by
    unfold toUInt
    rw [Nat.shiftLeft_eq]
    omega
  have e4 : toUInt (env.dwarf_version * 64) = env.dwarf_version.toNat <<< 6 := by
    unfold toUInt
    rw [Nat.shiftLeft_eq]
    omega
  have e5 : ∀ v : Nat, (if env.optimize > 3 then v ||| (3 <<< 9)
      else v ||| toUInt (env.optimize * 512)) = v ||| (min env.optimize.toNat 3 <<< 9) := by
    intro v
    split
    · rw [show min env.optimize.toNat 3 = 3 by omega]
    · rw [show min env.optimize.toNat 3 = env.optimize.toNat by omega]
      congr 1
      unfold toUInt
      rw [Nat.shiftLeft_eq]
      omega
  have e9 : flag_bit (wall_loop env.save_decoded_options = true)
      = flag_bit (∃ o ∈ env.save_decoded_options, o.opt_index = OptIndex.OPT_Wall) := by
    unfold flag_bit
    simp only [wall_loop_iff]
  unfold GOWall_value
  simp only [e1, or_flag, e5, ← e9]
  rw [if_neg (by omega), if_neg (by omega), e3, e4]

/-- C12 (amended): for inputs within the ranges that `compute_GOWall_options`
accepts (debug type at most `VMS_AND_DWARF2_DEBUG` and at most 7, debug level
at most `DINFO_LEVEL_VERBOSE` and at most 3, DWARF version from 0 to 7,
optimisation level not negative) the function returns
`d | e<<3 | l<<4 | w<<6 | min(o,3)<<9 | Os<<11 | Ofast<<12 | Og<<13 | Wall<<14`;
the fields lie in disjoint bit ranges, so the word is also the sum of the
shifted fields, each field (the optimisation level clamped to 3) is recovered
by shifting and masking, and the word is below 2^15. The Wall bit is set iff
one of the saved options is `-Wall`. -/
theorem GOWall_options_layout (K : Build) (env : Env) (st : State)
    (hd : env.write_symbols ≤ K.VMS_AND_DWARF2_DEBUG) (hd7 : env.write_symbols ≤ 7)
    (hl : env.debug_info_level ≤ K.DINFO_LEVEL_VERBOSE) (hl3 : env.debug_info_level ≤ 3)
    (hw0 : 0 ≤ env.dwarf_version) (hw7 : env.dwarf_version ≤ 7) (ho : 0 ≤ env.optimize) :
    (compute_GOWall_options K env st).1
      = env.write_symbols ||| (flag_bit (env.use_gnu_debug_info_extensions = true) <<< 3)
        ||| (env.debug_info_level <<< 4) ||| (env.dwarf_version.toNat <<< 6)
        ||| (min env.optimize.toNat 3 <<< 9)
        ||| (flag_bit (env.optimize_size ≠ 0) <<< 11)
        ||| (flag_bit (env.optimize_fast ≠ 0) <<< 12)
        ||| (flag_bit (env.optimize_debug ≠ 0) <<< 13)
        ||| (flag_bit (∃ o ∈ env.save_decoded_options, o.opt_index = OptIndex.OPT_Wall)
              <<< 14) ∧
    (compute_GOWall_options K env st).1
      = env.write_symbols + 8 * flag_bit (env.use_gnu_debug_info_extensions = true)
        + 16 * env.debug_info_level + 64 * env.dwarf_version.toNat
        + 512 * min env.optimize.toNat 3
        + 2048 * flag_bit (env.optimize_size ≠ 0)
        + 4096 * flag_bit (env.optimize_fast ≠ 0)
        + 8192 * flag_bit (env.optimize_debug ≠ 0)
        + 16384 * flag_bit (∃ o ∈ env.save_decoded_options, o.opt_index = OptIndex.OPT_Wall) ∧
    (compute_GOWall_options K env st).1 % 8 = env.write_symbols ∧
    ((compute_GOWall_options K env st).1 >>> 3) % 2
      = flag_bit (env.use_gnu_debug_info_extensions = true) ∧
    ((compute_GOWall_options K env st).1 >>> 4) % 4 = env.debug_info_level ∧
    ((compute_GOWall_options K env st).1 >>> 6) % 8 = env.dwarf_version.toNat ∧
    ((compute_GOWall_options K env st).1 >>> 9) % 4 = min env.optimize.toNat 3 ∧
    ((compute_GOWall_options K env st).1 >>> 11) % 2 = flag_bit (env.optimize_size ≠ 0) ∧
    ((compute_GOWall_options K env st).1 >>> 12) % 2 = flag_bit (env.optimize_fast ≠ 0) ∧
    ((compute_GOWall_options K env st).1 >>> 13) % 2 = flag_bit (env.optimize_debug ≠ 0) ∧
    (((compute_GOWall_options K env st).1 >>> 14) % 2 = 1
      ↔ ∃ o ∈ env.save_decoded_options, o.opt_index = OptIndex.OPT_Wall) ∧
    (compute_GOWall_options K env st).1 < 2 ^ 15 := by
  have hf := GOWall_value_fields K env hd hd7 hl hl3 hw0 hw7 ho
  have hv : (compute_GOWall_options K env st).1 = GOWall_value K env := rfl
  rw [hv]
  have b : ∀ (c : Prop) [Decidable c], flag_bit c ≤ 1 := by
    intro c _
    unfold flag_bit
    split <;> omega
  have b1 := b (env.use_gnu_debug_info_extensions = true)
  have b2 := b (env.optimize_size ≠ 0)
  have b3 := b (env.optimize_fast ≠ 0)
  have b4 := b (env.optimize_debug ≠ 0)
  have b5 := b (∃ o ∈ env.save_decoded_options, o.opt_index = OptIndex.OPT_Wall)
  have hW : flag_bit (∃ o ∈ env.save_decoded_options, o.opt_index = OptIndex.OPT_Wall) = 1
      ↔ ∃ o ∈ env.save_decoded_options, o.opt_index = OptIndex.OPT_Wall := by
    unfold flag_bit
    split <;> simp [*]
  generalize flag_bit (env.use_gnu_debug_info_extensions = true) = e at hf b1 ⊢
  generalize flag_bit (env.optimize_size ≠ 0) = os at hf b2 ⊢
  generalize flag_bit (env.optimize_fast ≠ 0) = ofast at hf b3 ⊢
  generalize flag_bit (env.optimize_debug ≠ 0) = og at hf b4 ⊢
  generalize flag_bit (∃ o ∈ env.save_decoded_options, o.opt_index = OptIndex.OPT_Wall) = wl
    at hf b5 hW ⊢
  have hw : env.dwarf_version.toNat ≤ 7 := by omega
  have hm : min env.optimize.toNat 3 ≤ 3 := Nat.min_le_right _ _
  generalize env.dwarf_version.toNat = w at hf hw ⊢
  generalize min env.optimize.toNat 3 = o at hf hm ⊢
  generalize env.write_symbols = d at hf hd7 ⊢
  generalize env.debug_info_level = l at hf hl3 ⊢
  have hs : GOWall_value K env
      = d + 8 * e + 16 * l + 64 * w + 512 * o + 2048 * os + 4096 * ofast + 8192 * og
        + 16384 * wl := by
    rw [hf, or_shift d e 3 (by omega), or_shift _ l 4 (by omega), or_shift _ w 6 (by omega),
      or_shift _ o 9 (by omega), or_shift _ os 11 (by omega), or_shift _ ofast 12 (by omega),
      or_shift _ og 13 (by omega), or_shift _ wl 14 (by omega)]
    norm_num
  refine ⟨hf, hs, ?_, ?_, ?_, ?_, ?_, ?_, ?_, ?_, ?_, ?_⟩
  all_goals first
    | omega
    | (simp only [Nat.shiftRight_eq_div_pow]; omega)
    | (simp only [Nat.shiftRight_eq_div_pow]; rw [← hW]; omega)

/-- Witness of `GOWall_options_layout`: a compilation with `-g -O2 -Wall`. -/
theorem GOWall_options_layout_witness :
    (compute_GOWall_options Build.standard Env.with_g_O2_Wall (State.initial none)).1 % 8
      = 3 ∧
    (compute_GOWall_options Build.standard Env.with_g_O2_Wall (State.initial none)).1
      = 17707 :=
  ⟨(GOWall_options_layout Build.standard Env.with_g_O2_Wall (State.initial none)
      (by decide) (by decide) (by decide) (by decide) (by decide) (by decide)
      (by decide)).2.2.1, by decide⟩

/-- The lines of a note, in the order in which they are printed. -/
theorem note_text_parts (K : Build) (is64 : Bool) (a : NoteArgs) :
    ∃ c1 c2 c3 : String,
      note_text K is64 a
        = (if a.type = K.NT_GNU_BUILD_ATTRIBUTE_FUNC ∨ a.type = K.NT_GNU_BUILD_ATTRIBUTE_OPEN
            then [Asm.pushsection K.GNU_BUILD_ATTRS_SECTION_NAME ""] else [])
          ++ [Asm.dc_l (if a.name.isSome then a.namesz else 0) c1,
              Asm.dc_l (if a.desc1.isSome then a.descsz else 0) c2,
              Asm.dc_l a.type c3]
          ++ (match a.name with
              | none => []
              | some name =>
                (if a.name_is_string then Asm.asciz (fmt_s name) a.name_description
                 else Asm.dc_b (name.take a.namesz) a.name_description)
                :: padding a.namesz)
          ++ (match a.desc1 with
              | none => []
              | some desc1 =>
                if a.desc_is_string then
                  sym_ref is64 desc1 :: (a.desc2.map (sym_ref is64)).toList
                else raw_desc_lines a.descsz (desc1.take a.descsz) ++ padding a.descsz)
          ++ (if a.type = K.NT_GNU_BUILD_ATTRIBUTE_FUNC ∨ a.type = K.NT_GNU_BUILD_ATTRIBUTE_OPEN
              then [Asm.popsection] else [])
          ++ [Asm.blank] := by
  refine ⟨(match a.name with
      | none => "no name"
      | some _ => if a.name_is_string then "namesz = strlen (name)" else "size of name"),
    (match a.desc1 with
      | none => "no description"
      | some _ =>
        if a.desc_is_string then
          (if a.desc2.isNone then "descsz = sizeof (address)"
           else "descsz = sizeof (addresses)")
        else "size of description"),
    (if a.type == K.NT_GNU_BUILD_ATTRIBUTE_OPEN then "type = OPEN"
     else if a.type == K.NT_GNU_BUILD_ATTRIBUTE_FUNC then "type = FUNC"
     else if a.type == K.NT_GNU_PROPERTY_TYPE_0 then "type = PROPERTY_TYPE_0"
     else "type = *UNKNOWN*"), ?_⟩
  unfold note_text
  simp only [Bool.or_eq_true, beq_iff_eq, fmt_s]
  cases hn : a.name <;> cases hd : a.desc1 <;> cases hs : a.name_is_string <;>
    cases hds : a.desc_is_string <;> cases hd2 : a.desc2 <;>
    simp only [Option.isSome_none, Option.isSome_some, Bool.false_eq_true, if_false, if_true,
      Option.map_none', Option.map_some', Option.toList_none, Option.toList_some,
      List.append_assoc, List.cons_append, List.nil_append, List.singleton_append]

/-- C16: every record written by `annobin_output_note` consists of, in this
order: the word with the size of the name, the word with the size of the
descriptor, the word with the type, then the name bytes with their padding,
then the descriptor with its padding (only a line that switches to the notes
section stands before them, and only the line that leaves it and a blank line
behind them). -/
theorem note_record_order (K : Build) (env : Env) (st : State) (a : NoteArgs)
    (hsink : env.asm_out_file = true) :
    ∃ (text : List Asm) (c1 c2 c3 : String),
      (annobin_output_note K env st a).asm_out = st.asm_out ++ [Chunk.note a text] ∧
      text
        = (if a.type = K.NT_GNU_BUILD_ATTRIBUTE_FUNC ∨ a.type = K.NT_GNU_BUILD_ATTRIBUTE_OPEN
            then [Asm.pushsection K.GNU_BUILD_ATTRS_SECTION_NAME ""] else [])
          ++ [Asm.dc_l (if a.name.isSome then a.namesz else 0) c1,
              Asm.dc_l (if a.desc1.isSome then a.descsz else 0) c2,
              Asm.dc_l a.type c3]
          ++ (match a.name with
              | none => []
              | some name =>
                (if a.name_is_string then Asm.asciz (fmt_s name) a.name_description
                 else Asm.dc_b (name.take a.namesz) a.name_description)
                :: padding a.namesz)
          ++ (match a.desc1 with
              | none => []
              | some desc1 =>
                if a.desc_is_string then
                  sym_ref st.annobin_is_64bit desc1
                    :: (a.desc2.map (sym_ref st.annobin_is_64bit)).toList
                else raw_desc_lines a.descsz (desc1.take a.descsz) ++ padding a.descsz)
          ++ (if a.type = K.NT_GNU_BUILD_ATTRIBUTE_FUNC ∨ a.type = K.NT_GNU_BUILD_ATTRIBUTE_OPEN
              then [Asm.popsection] else [])
          ++ [Asm.blank] := by
  obtain ⟨c1, c2, c3, h⟩ := note_text_parts K st.annobin_is_64bit a
  exact ⟨_, c1, c2, c3, output_note_asm_out K env st a hsink, h⟩

/-- C17 (amended): `annobin_output_note` writes the word with the size of the
name first, then the word with the size of the descriptor, then the word with
the type, and only then the name bytes: the name bytes are written behind the
descriptor-size and type fields, not before them. -/
theorem name_behind_type_word (K : Build) (env : Env) (st : State) (a : NoteArgs)
    (name : List Nat) (hsink : env.asm_out_file = true) (hname : a.name = some name) :
    ∃ (text : List Asm) (k : Nat) (c1 c2 c3 : String),
      (annobin_output_note K env st a).asm_out = st.asm_out ++ [Chunk.note a text] ∧
      k = (if a.type = K.NT_GNU_BUILD_ATTRIBUTE_FUNC ∨ a.type = K.NT_GNU_BUILD_ATTRIBUTE_OPEN
            then 1 else 0) ∧
      text[k]? = some (Asm.dc_l a.namesz c1) ∧
      text[k + 1]? = some (Asm.dc_l (if a.desc1.isSome then a.descsz else 0) c2) ∧
      text[k + 2]? = some (Asm.dc_l a.type c3) ∧
      text[k + 3]?
        = some (if a.name_is_string then Asm.asciz (fmt_s name) a.name_description
                else Asm.dc_b (name.take a.namesz) a.name_description) := by
  obtain ⟨c1, c2, c3, h⟩ := note_text_parts K st.annobin_is_64bit a
  refine ⟨_, _, c1, c2, c3, output_note_asm_out K env st a hsink, rfl, ?_⟩
  rw [h, hname]
  split <;> simp

/-- Witness of `name_behind_type_word`: the sample note. -/
theorem name_behind_type_word_witness :
    ∃ (text : List Asm) (k : Nat) (c1 c2 c3 : String),
      (annobin_output_note Build.standard Env.plain (State.initial none)
          NoteArgs.sample).asm_out
        = (State.initial none).asm_out ++ [Chunk.note NoteArgs.sample text] ∧
      k = (if NoteArgs.sample.type = Build.standard.NT_GNU_BUILD_ATTRIBUTE_FUNC ∨
              NoteArgs.sample.type = Build.standard.NT_GNU_BUILD_ATTRIBUTE_OPEN
            then 1 else 0) ∧
      text[k]? = some (Asm.dc_l NoteArgs.sample.namesz c1) ∧
      text[k + 1]?
        = some (Asm.dc_l (if NoteArgs.sample.desc1.isSome then NoteArgs.sample.descsz else 0)
            c2) ∧
      text[k + 2]? = some (Asm.dc_l NoteArgs.sample.type c3) ∧
      text[k + 3]?
        = some (if NoteArgs.sample.name_is_string then
                  Asm.asciz (fmt_s [71, 65, 43, 8, 0]) NoteArgs.sample.name_description
                else Asm.dc_b ([71, 65, 43, 8, 0].take NoteArgs.sample.namesz)
                  NoteArgs.sample.name_description) :=
  name_behind_type_word Build.standard Env.plain (State.initial none) NoteArgs.sample
    [71, 65, 43, 8, 0] rfl rfl

/-- C17, counterexample: the lines printed for the sample note. The word with
the size of the name (5) is followed by the word with the size of the
descriptor (8) and the word with the type (257); the name bytes come fourth,
not second. -/
theorem name_not_second :
    (annobin_output_note Build.standard Env.plain (State.initial none)
        NoteArgs.sample).asm_out
      = [Chunk.note NoteArgs.sample
          [Asm.pushsection ".gnu.build.attributes" "",
           Asm.dc_l 5 "size of name",
           Asm.dc_l 8 "descsz = sizeof (addresses)",
           Asm.dc_l 257 "type = FUNC",
           Asm.dc_b [71, 65, 43, 8, 0] "bool: short-enums: on",
           Asm.dc_b [0, 0, 0] "Padding",
           Asm.dc_l_sym [102],
           Asm.dc_l_sym [102, 95, 101, 110, 100],
           Asm.popsection,
           Asm.blank]] := by
  decide

/-- The padding loop needs at most three rounds: with three rounds of fuel or
more it stops by itself, having printed the zero bytes that bring the size up
to a multiple of 4. -/
theorem padding_loop_spec (fuel n : Nat) (hfuel : 3 ≤ fuel) :
    padding_loop fuel n = List.replicate ((4 - n % 4) % 4) 0 := by
  obtain ⟨f, rfl⟩ : ∃ f, fuel = f + 3 := ⟨fuel - 3, by omega⟩
  have h : n % 4 = 0 ∨ n % 4 = 1 ∨ n % 4 = 2 ∨ n % 4 = 3 := by omega
  rcases h with h | h | h | h
  · simp [padding_loop, h]
  · have h1 : (n + 1) % 4 = 2 := by omega
    have h2 : (n + 1 + 1) % 4 = 3 := by omega
    have h3 : (n + 1 + 1 + 1) % 4 = 0 := by omega
    cases f <;> simp [padding_loop, h, h1, h2, h3, List.replicate]
  · have h1 : (n + 1) % 4 = 3 := by omega
    have h2 : (n + 1 + 1) % 4 = 0 := by omega
    simp [padding_loop, h, h1, h2, List.replicate]
  · have h1 : (n + 1) % 4 = 0 := by omega
    simp [padding_loop, h, h1, List.replicate]

theorem padding_data (n : Nat) :
    (padding n).flatMap Asm.data = List.replicate ((4 - n % 4) % 4) 0 := by
  unfold padding
  split
  · simp [Asm.data, padding_loop_spec 4 n (by omega)]
  · rename_i h
    have : n % 4 = 0 := by omega
    simp [this]

theorem raw_desc_data : ∀ (fuel : Nat) (bytes : List Nat), bytes.length ≤ fuel →
    (raw_desc_lines fuel bytes).flatMap Asm.data = bytes := by
  intro fuel
  induction fuel with
  | zero =>
    intro bytes h
    have : bytes = [] := List.length_eq_zero.mp (by omega)
    subst this
    simp [raw_desc_lines, Asm.data]
  | succ fuel ih =>
    intro bytes h
    unfold raw_desc_lines
    split
    · simp [Asm.data]
    · rw [List.flatMap_cons, ih _ (by rw [List.length_drop]; omega)]
      simp [Asm.data]

/-- C18: for every note with a name of the declared size `a.namesz`,
`annobin_output_note` prints the padding directly behind the name bytes, and
the padding consists of exactly `(4 - namesz mod 4) mod 4` zero bytes, so that
name and padding together take the least multiple of 4 that is not below the
size; likewise for a descriptor that is not a symbol, with the size
`b.descsz`: its bytes are followed directly by `(4 - descsz mod 4) mod 4` zero
bytes. The padding loop stops by itself for every size: three rounds are all
it can use. -/
theorem name_and_descriptor_padding (K : Build) (env : Env) (st : State) (a b : NoteArgs)
    (name desc : List Nat) (n fuel : Nat) (hsink : env.asm_out_file = true)
    (hname : a.name = some name) (hdesc : b.desc1 = some desc)
    (hraw : b.desc_is_string = false) (hfuel : 3 ≤ fuel) :
    (padding_loop fuel n = List.replicate ((4 - n % 4) % 4) 0 ∧
      (n + (4 - n % 4) % 4) % 4 = 0 ∧
      ∀ m : Nat, n ≤ m → m % 4 = 0 → n + (4 - n % 4) % 4 ≤ m) ∧
    (∃ (text pre post : List Asm),
      (annobin_output_note K env st a).asm_out = st.asm_out ++ [Chunk.note a text] ∧
      text
        = pre
          ++ (if a.name_is_string then Asm.asciz (fmt_s name) a.name_description
              else Asm.dc_b (name.take a.namesz) a.name_description)
            :: padding a.namesz
          ++ post ∧
      (padding a.namesz).flatMap Asm.data = List.replicate ((4 - a.namesz % 4) % 4) 0) ∧
    (∃ (text pre post : List Asm),
      (annobin_output_note K env st b).asm_out = st.asm_out ++ [Chunk.note b text] ∧
      text = pre ++ raw_desc_lines b.descsz (desc.take b.descsz) ++ padding b.descsz ++ post ∧
      (raw_desc_lines b.descsz (desc.take b.descsz)).flatMap Asm.data = desc.take b.descsz ∧
      (padding b.descsz).flatMap Asm.data = List.replicate ((4 - b.descsz % 4) % 4) 0) := by
  refine ⟨⟨padding_loop_spec fuel n hfuel, by omega, fun m h1 h2 => by omega⟩, ?_, ?_⟩
  · obtain ⟨c1, c2, c3, h⟩ := note_text_parts K st.annobin_is_64bit a
    rw [hname] at h
    refine ⟨_,
      (if a.type = K.NT_GNU_BUILD_ATTRIBUTE_FUNC ∨ a.type = K.NT_GNU_BUILD_ATTRIBUTE_OPEN
        then [Asm.pushsection K.GNU_BUILD_ATTRS_SECTION_NAME ""] else [])
      ++ [Asm.dc_l (if (some name).isSome then a.namesz else 0) c1,
          Asm.dc_l (if a.desc1.isSome then a.descsz else 0) c2,
          Asm.dc_l a.type c3],
      (match a.desc1 with
        | none => []
        | some desc1 =>
          if a.desc_is_string then
            sym_ref st.annobin_is_64bit desc1
              :: (a.desc2.map (sym_ref st.annobin_is_64bit)).toList
          else raw_desc_lines a.descsz (desc1.take a.descsz) ++ padding a.descsz)
      ++ (if a.type = K.NT_GNU_BUILD_ATTRIBUTE_FUNC ∨ a.type = K.NT_GNU_BUILD_ATTRIBUTE_OPEN
          then [Asm.popsection] else [])
      ++ [Asm.blank],
      output_note_asm_out K env st a hsink, ?_, padding_data _⟩
    rw [h]
    simp only [List.append_assoc, List.cons_append]
  · obtain ⟨c1, c2, c3, h⟩ := note_text_parts K st.annobin_is_64bit b
    rw [hdesc, hraw] at h
    refine ⟨_,
      (if b.type = K.NT_GNU_BUILD_ATTRIBUTE_FUNC ∨ b.type = K.NT_GNU_BUILD_ATTRIBUTE_OPEN
        then [Asm.pushsection K.GNU_BUILD_ATTRS_SECTION_NAME ""] else [])
      ++ [Asm.dc_l (if b.name.isSome then b.namesz else 0) c1,
          Asm.dc_l (if (some desc).isSome then b.descsz else 0) c2,
          Asm.dc_l b.type c3]
      ++ (match b.name with
          | none => []
          | some name =>
            (if b.name_is_string then Asm.asciz (fmt_s name) b.name_description
             else Asm.dc_b (name.take b.namesz) b.name_description)
            :: padding b.namesz),
      (if b.type = K.NT_GNU_BUILD_ATTRIBUTE_FUNC ∨ b.type = K.NT_GNU_BUILD_ATTRIBUTE_OPEN
        then [Asm.popsection] else [])
      ++ [Asm.blank],
      output_note_asm_out K env st b hsink, ?_,
      raw_desc_data _ _ (by rw [List.length_take]; omega), padding_data _⟩
    rw [h]
    simp only [Bool.false_eq_true, if_false, List.append_assoc]

/-- Witness of `name_and_descriptor_padding`: the two sample notes; the name of
5 bytes gets 3 zero bytes, the descriptor of 9 bytes gets 3 zero bytes. -/
theorem name_and_descriptor_padding_witness :
    (padding 5).flatMap Asm.data = [0, 0, 0] ∧
    (raw_desc_lines 9 [1, 0, 0, 0, 8, 0, 0, 0, 7]).flatMap Asm.data
      = [1, 0, 0, 0, 8, 0, 0, 0, 7] ∧
    (padding 9).flatMap Asm.data = [0, 0, 0] := by
  obtain ⟨_, ⟨_, _, _, _, _, h1⟩, ⟨_, _, _, _, _, h2, h3⟩⟩ :=
    name_and_descriptor_padding Build.standard Env.plain (State.initial none)
      NoteArgs.sample NoteArgs.sample_raw [71, 65, 43, 8, 0] [1, 0, 0, 0, 8, 0, 0, 0, 7] 5 3
      rfl rfl rfl rfl (by decide)
  exact ⟨h1, h2, h3⟩

/-- C19: each call of `annobin_output_note` with an output file appends exactly
one note record and increases `annobin_note_count` by exactly 1 (as an
`unsigned int`, so the counter is taken to be below its greatest value),
whatever the arguments are and whichever messages are reported for them; a
call without an output file returns the state unchanged: nothing is written
and the counter is kept. -/
theorem note_count_step (K : Build) (env env0 : Env) (st : State) (a : NoteArgs)
    (hsink : env.asm_out_file = true) (hnosink : env0.asm_out_file = false)
    (hcount : st.annobin_note_count + 1 < 2 ^ 32) :
    (annobin_output_note K env st a).annobin_note_count = st.annobin_note_count + 1 ∧
    (∃ text : List Asm,
      (annobin_output_note K env st a).asm_out = st.asm_out ++ [Chunk.note a text]) ∧
    notes_of (annobin_output_note K env st a).asm_out = notes_of st.asm_out ++ [a] ∧
    annobin_output_note K env0 st a = st := by
  refine ⟨?_, ⟨_, output_note_asm_out K env st a hsink⟩, ?_, ?_⟩
  · have h := core_note_count (note_checks_core env st a)
    simp only [annobin_output_note, hsink, Bool.not_true, Bool.false_eq_true, if_false, h]
    exact Nat.mod_eq_of_lt hcount
  · rw [output_note_asm_out K env st a hsink, notes_of_append]
    rfl
  · simp [annobin_output_note, hnosink]

/-- Witness of `note_count_step`: a note for which the message about the size
of the descriptor is reported; the count goes from 0 to 1 all the same. -/
theorem note_count_step_witness :
    (annobin_output_note Build.standard Env.plain (State.initial none)
        NoteArgs.sample_short).formats = ["ICE: descz too small"] ∧
    (annobin_output_note Build.standard Env.plain (State.initial none)
        NoteArgs.sample_short).annobin_note_count = 0 + 1 ∧
    annobin_output_note Build.standard Env.without_output (State.initial none)
        NoteArgs.sample_short = State.initial none :=
  ⟨by decide,
    (note_count_step Build.standard Env.plain Env.without_output (State.initial none)
      NoteArgs.sample_short rfl rfl (by decide)).1,
    (note_count_step Build.standard Env.plain Env.without_output (State.initial none)
      NoteArgs.sample_short rfl rfl (by decide)).2.2.2⟩

theorem sanitize_from_getElem : ∀ (l : List Nat) (i j : Nat),
    (sanitize_from i l)[j]? = (l[j]?).map (sanitize_char (i + j)) := by
  intro l
  induction l with
  | nil => intro i j; simp [sanitize_from]
  | cons c cs ih =>
    intro i j
    cases j with
    | zero => simp [sanitize_from]
    | succ j =>
      simp only [sanitize_from, List.getElem?_cons_succ, ih]
      rw [show i + 1 + j = i + (j + 1) by omega]

theorem sanitize_from_length : ∀ (l : List Nat) (i : Nat),
    (sanitize_from i l).length = l.length := by
  intro l
  induction l with
  | nil => intro i; rfl
  | cons c cs ih => intro i; simp [sanitize_from, ih]

/-- The loop body on one character: what it yields. -/
theorem sanitize_char_eq (i c : Nat) :
    sanitize_char i c
      = if symbol_char c = true ∧ ¬ (i = 0 ∧ ISDIGIT c = true) then c else 95 := by
  unfold sanitize_char symbol_char
  generalize ISALNUM c = A
  generalize ISDIGIT c = D
  by_cases h2 : c = 95 <;> by_cases h3 : c = 46 <;> by_cases h4 : c = 36 <;>
    by_cases h5 : i = 0 <;> cases A <;> cases D <;> simp [h2, h3, h4, h5]

theorem symbol_char_sanitize (i c : Nat) : symbol_char (sanitize_char i c) = true := by
  rw [sanitize_char_eq]
  split
  · rename_i h; exact h.1
  · decide

theorem sanitize_char_no_digit (c : Nat) : ISDIGIT (sanitize_char 0 c) = false := by
  rw [sanitize_char_eq]
  split
  · rename_i h
    simpa using h.2
  · decide

theorem sanitize_char_idem (i c : Nat) :
    sanitize_char i (sanitize_char i c) = sanitize_char i c := by
  rw [sanitize_char_eq i (sanitize_char i c), if_pos]
  refine ⟨symbol_char_sanitize i c, ?_⟩
  rintro ⟨rfl, h⟩
  rw [sanitize_char_no_digit] at h
  exact absurd h (by decide)

theorem sanitize_from_idem (l : List Nat) :
    sanitize_from 0 (sanitize_from 0 l) = sanitize_from 0 l := by
  apply List.ext_getElem?
  intro j
  rw [sanitize_from_getElem, sanitize_from_getElem]
  cases l[j]? with
  | none => rfl
  | some c => simp [sanitize_char_idem]

theorem init_filename_eq (env : Env) (st : State) (file : List Nat)
    (hnone : st.annobin_current_filename = none) (hfile : env.main_input_filename = some file)
    (hglobal : st.global_file_name_symbols = false) :
    (init_annobin_current_filename env st).annobin_current_filename
      = some (sanitize_from 0 (base_name file)) ∧
    (init_annobin_current_filename env st).annobin_current_endname
      = some (sanitize_from 0 (base_name file) ++ cstr "_end") := by
  unfold init_annobin_current_filename base_name
  simp [hnone, hfile, hglobal]

/-- C20: with global file symbols off, for every name of the input file the
symbol that `init_annobin_current_filename` derives is the sanitised base name
(the base name being `piped_input` when the file name has an empty one): it is
not empty, has the length of the base name, holds only letters, digits, `_`,
`.` and `$`, does not start with a digit, agrees with the base name wherever
the character was allowed already (a leading digit apart), and has `_` at
every other place. Sanitising a sanitised name changes nothing. -/
theorem file_symbol_sanitized (env : Env) (st : State) (file : List Nat)
    (hnone : st.annobin_current_filename = none) (hfile : env.main_input_filename = some file)
    (hglobal : st.global_file_name_symbols = false) :
    ∃ sym : List Nat,
      (init_annobin_current_filename env st).annobin_current_filename = some sym ∧
      (init_annobin_current_filename env st).annobin_current_endname
        = some (sym ++ cstr "_end") ∧
      sym ≠ [] ∧
      (lbasename file = [] → sym = cstr "piped_input") ∧
      sym.length = (base_name file).length ∧
      (∀ c ∈ sym, symbol_char c = true) ∧
      (∀ c : Nat, sym.head? = some c → ISDIGIT c = false) ∧
      (∀ (i c : Nat), (base_name file)[i]? = some c →
        sym[i]? = some (if symbol_char c = true ∧ ¬ (i = 0 ∧ ISDIGIT c = true) then c
                        else 95)) ∧
      sanitize_from 0 sym = sym := by
  obtain ⟨h1, h2⟩ := init_filename_eq env st file hnone hfile hglobal
  have hb : base_name file ≠ [] := by
    unfold base_name
    split
    · decide
    · rename_i h
      intro h0
      rw [h0] at h
      exact h rfl
  refine ⟨_, h1, h2, ?_, ?_, sanitize_from_length _ _, ?_, ?_, ?_, sanitize_from_idem _⟩
  · intro h0
    have := congrArg List.length h0
    rw [sanitize_from_length] at this
    exact hb (List.length_eq_zero.mp this)
  · intro h0
    unfold base_name
    rw [h0]
    decide
  · intro c hc
    obtain ⟨j, hj⟩ := List.getElem?_of_mem hc
    rw [sanitize_from_getElem] at hj
    cases hb : (base_name file)[j]? with
    | none => rw [hb] at hj; simp at hj
    | some b =>
      rw [hb] at hj
      simp only [Option.map_some', Option.some.injEq] at hj
      rw [← hj]
      exact symbol_char_sanitize _ _
  · intro c hc
    rw [List.head?_eq_getElem?, sanitize_from_getElem] at hc
    cases hb : (base_name file)[0]? with
    | none => rw [hb] at hc; simp at hc
    | some b =>
      rw [hb] at hc
      simp only [Option.map_some', Option.some.injEq] at hc
      rw [← hc]
      exact sanitize_char_no_digit b
  · intro i c hc
    rw [sanitize_from_getElem, hc, Option.map_some', Nat.zero_add, sanitize_char_eq]

/-- Witness of `file_symbol_sanitized`: the input file `src/9-to-5.c` gives the
symbol `__to_5.c`. -/
theorem file_symbol_sanitized_witness :
    (init_annobin_current_filename Env.with_input_file
        (State.initial none)).annobin_current_filename
      = some [95, 95, 116, 111, 95, 53, 46, 99] ∧
    ∃ sym : List Nat,
      (init_annobin_current_filename Env.with_input_file
          (State.initial none)).annobin_current_filename = some sym ∧
      sanitize_from 0 sym = sym := by
  obtain ⟨sym, h1, _, _, _, _, _, _, _, h9⟩ :=
    file_symbol_sanitized Env.with_input_file (State.initial none)
      [115, 114, 99, 47, 57, 45, 116, 111, 45, 53, 46, 99] rfl rfl rfl
  exact ⟨by decide, sym, h1, h9⟩

theorem step_refl (s : State) : s.step s [] :=
  ⟨by simp, ⟨[], by simp⟩, fun _ => ⟨rfl, rfl⟩⟩

theorem step_trans {s t u : State} {N N' : List NoteArgs} (h1 : s.step t N)
    (h2 : t.step u N') : s.step u (N ++ N') := by
  obtain ⟨a1, ⟨M1, b1⟩, c1⟩ := h1
  obtain ⟨a2, ⟨M2, b2⟩, c2⟩ := h2
  refine ⟨by rw [a2, a1, List.append_assoc], ⟨M1 ++ M2, by rw [b2, b1, List.append_assoc]⟩,
    ?_⟩
  intro h
  obtain ⟨e1, e2⟩ := c1 h
  obtain ⟨e3, e4⟩ := c2 (by rw [e1]; exact h)
  exact ⟨e3.trans e1, e4.trans e2⟩

theorem step_of_eq {s t : State} {N N' : List NoteArgs} (h : s.step t N) (e : N = N') :
    s.step t N' := e ▸ h

theorem init_step (env : Env) (s : State) : s.step (init_annobin_current_filename env s) [] := by
  unfold init_annobin_current_filename
  split
  · exact step_refl s
  · rename_i h
    refine ⟨by simp [State.notes], ⟨[], by simp [State.formats]⟩, ?_⟩
    intro h1
    simp [h1] at h

theorem inform_step (env : Env) (s : State) (level : Nat) (format : String) :
    s.step (annobin_inform env s level format) [] := by
  unfold annobin_inform
  split
  · exact step_refl s
  · have h1 : s.step (if s.annobin_current_filename.isNone then
        init_annobin_current_filename env s else s) [] := by
      split
      · exact init_step env s
      · exact step_refl s
    generalize (if s.annobin_current_filename.isNone then
        init_annobin_current_filename env s else s) = t at h1 ⊢
    refine step_trans h1 ⟨by simp [State.notes], ⟨[format], by simp [State.formats]⟩,
      fun _ => ⟨rfl, rfl⟩⟩

theorem inform_if_step (c : Bool) (env : Env) (s : State) (format : String) :
    s.step (inform_if c env s format) [] := by
  unfold inform_if
  split
  · exact inform_step ..
  · exact step_refl s

theorem check_descsz_step (env : Env) (s : State) (a : NoteArgs) :
    s.step (check_descsz env s a) [] := by
  unfold check_descsz
  repeat' split
  all_goals first
    | exact inform_step ..
    | exact inform_if_step ..
    | exact step_trans (inform_if_step ..) (inform_if_step ..)

theorem note_checks_step (env : Env) (s : State) (a : NoteArgs) :
    s.step (note_checks env s a) [] := by
  have h1 : s.step (match a.name with
      | none => inform_if (a.namesz != 0) env s "ICE: null name with non-zero size"
      | some name =>
        if a.name_is_string then
          inform_if (strlen name != (a.namesz + 4294967295) % 4294967296) env s
            "ICE: name string '%s' does not match name size %d"
        else s) [] := by
    split
    · exact inform_if_step ..
    · split
      · exact inform_if_step ..
      · exact step_refl s
  have h2 : ∀ t : State, t.step (match a.desc1 with
      | none =>
        inform_if a.desc2.isSome env
          (inform_if (a.descsz != 0) env t "ICE: null desc1 with non-zero size")
          "ICE: non-null desc2 with null desc1"
      | some _ =>
        if a.desc_is_string then check_descsz env t a
        else inform_if a.desc2.isSome env t
          "ICE: second description not empty for non-string description") [] := by
    intro t
    split
    · exact step_trans (inform_if_step ..) (inform_if_step ..)
    · split
      · exact check_descsz_step ..
      · exact inform_if_step ..
  exact step_trans h1 (h2 _)

theorem output_note_step (K : Build) (env : Env) (s : State) (a : NoteArgs)
    (hsink : env.asm_out_file = true) : s.step (annobin_output_note K env s a) [a] := by
  unfold annobin_output_note
  simp only [hsink, Bool.not_true, Bool.false_eq_true, if_false]
  have h := note_checks_step env s a
  generalize note_checks env s a = t at h ⊢
  refine step_of_eq (step_trans h ⟨?_, ⟨[], by simp [State.formats]⟩,
    fun _ => ⟨rfl, rfl⟩⟩) (List.nil_append _)
  simp [State.notes, notes_of_append, notes_of]

theorem step_update {s t : State} (hn : t.asm_out = s.asm_out) (hf : t.stderr = s.stderr)
    (h1 : t.annobin_current_filename = s.annobin_current_filename)
    (h2 : t.annobin_current_endname = s.annobin_current_endname) : s.step t [] :=
  ⟨by simp [State.notes, hn], ⟨[], by simp [State.formats, hf]⟩, fun _ => ⟨h1, h2⟩⟩

theorem numeric_note_step (K : Build) (env : Env) (s : State) (numeric_type v : Nat)
    (name_description : String) (start end_ : Option (List Nat)) (note_type : Nat)
    (hsink : env.asm_out_file = true) :
    s.step (annobin_output_numeric_note K env s numeric_type v name_description start end_
        note_type)
      [numeric_note_args K env s.annobin_is_64bit numeric_type v name_description start end_
        note_type] := by
  unfold annobin_output_numeric_note
  simp only []
  have e : (inform_if ((numeric_note_encode K env numeric_type v).2.2 != 0) env
      (inform_if (decide ((numeric_note_encode K env numeric_type v).2.1 > 12)) env s
        "ICE: Numeric value for %s too big to fit into 8 bytes\n")
      "ICE: Unable to record numeric value in note %s\n").annobin_is_64bit
      = s.annobin_is_64bit :=
    core_is_64bit (by rw [inform_if_core, inform_if_core])
  rw [e]
  exact step_of_eq (step_trans (step_trans (inform_if_step ..) (inform_if_step ..))
    (output_note_step K env _ _ hsink)) (List.nil_append _)

theorem bool_note_step (K : Build) (env : Env) (s : State) (bool_type : Nat) (b : Bool)
    (name_description : String) (start end_ : Option (List Nat)) (note_type : Nat)
    (hsink : env.asm_out_file = true) :
    s.step (annobin_output_bool_note K env s bool_type b name_description start end_
        note_type)
      [bool_note_args K env s.annobin_is_64bit bool_type b name_description start end_
        note_type] :=
  output_note_step K env s _ hsink

theorem string_note_step (K : Build) (env : Env) (s : State) (string_type : Nat)
    (str : List Nat) (name_description : String) (start end_ : Option (List Nat))
    (note_type : Nat) (hsink : env.asm_out_file = true) :
    s.step (annobin_output_string_note K env s string_type str name_description start end_
        note_type)
      [string_note_args K env s.annobin_is_64bit string_type str name_description start end_
        note_type] :=
  output_note_step K env s _ hsink

theorem record_GOW_step (K : Build) (env : Env) (s : State) (gow : Nat) (is_local : Bool)
    (aname aname_end : Option (List Nat)) (hsink : env.asm_out_file = true) :
    s.step (record_GOW_settings K env s gow is_local aname aname_end)
      [GOW_note_args K env s.annobin_is_64bit gow is_local aname aname_end] := by
  unfold record_GOW_settings
  simp only []
  rw [core_is_64bit (inform_core env s 1 _)]
  exact step_of_eq (step_trans (inform_step ..) (output_note_step K env _ _ hsink))
    (List.nil_append _)

theorem stack_clash_note_step (K : Build) (env : Env) (s : State)
    (start end_ : Option (List Nat)) (type : Nat) (hsink : env.asm_out_file = true) :
    s.step (record_stack_clash_note K env s start end_ type)
      [stack_clash_note_args K env s.annobin_is_64bit start end_ type] := by
  have e : record_stack_clash_note K env s start end_ type
      = annobin_output_note K env s
          (stack_clash_note_args K env s.annobin_is_64bit start end_ type) := by
    unfold record_stack_clash_note stack_clash_note_args
    simp [cstr]
  rw [e]
  exact output_note_step K env s _ hsink

theorem fortify_level_step (K : Build) (env : Env) (s : State) (level : Int)
    (hsink : env.asm_out_file = true) :
    s.step (record_fortify_level K env s level) [fortify_note_args K env level] := by
  have e : record_fortify_level K env s level
      = annobin_inform env (annobin_output_note K env s (fortify_note_args K env level)) 1
          "Record a FORTIFY SOURCE level of %d" := by
    unfold record_fortify_level fortify_note_args
    simp [cstr]
  rw [e]
  exact step_of_eq (step_trans (output_note_step K env s _ hsink) (inform_step ..))
    (List.append_nil _)

theorem glibcxx_step (K : Build) (env : Env) (s : State) (is_on : Bool)
    (hsink : env.asm_out_file = true) :
    s.step (record_glibcxx_assertions K env s is_on) [glibcxx_note_args K env is_on] := by
  have e : record_glibcxx_assertions K env s is_on
      = annobin_inform env (annobin_output_note K env s (glibcxx_note_args K env is_on)) 1
          "Record a _GLIBCXX_ASSERTIONS as %s" := by
    unfold record_glibcxx_assertions glibcxx_note_args
    simp [cstr]
  rw [e]
  exact step_of_eq (step_trans (output_note_step K env s _ hsink) (inform_step ..))
    (List.append_nil _)

/-- The loop over the saved options writes the notes listed by `scan_notes` and
leaves the flags that `scan_notes` gives. -/
theorem scan_step (K : Build) (env : Env) (hsink : env.asm_out_file = true) :
    ∀ (os : List DecodedOption) (sc : Scan),
      sc.st.step (scan_options K env os sc).st
        (scan_notes K env os sc.fortify_level_recorded sc.glibcxx_assertions_recorded).1 ∧
      (scan_options K env os sc).fortify_level_recorded
        = (scan_notes K env os sc.fortify_level_recorded
            sc.glibcxx_assertions_recorded).2.1 ∧
      (scan_options K env os sc).glibcxx_assertions_recorded
        = (scan_notes K env os sc.fortify_level_recorded
            sc.glibcxx_assertions_recorded).2.2 := by
  intro os
  induction os with
  | nil =>
    intro sc
    exact ⟨step_refl _, rfl, rfl⟩
  | cons o os ih =>
    intro sc
    rw [scan_options, scan_notes]
    by_cases hD : o.opt_index = OptIndex.OPT_D
    · simp only [hD, if_true]
      cases harg : o.arg with
      | none => exact ih sc
      | some arg =>
        simp only []
        by_cases hF : arg.take 16 = cstr "_FORTIFY_SOURCE="
        · simp only [hF, if_true]
          cases hfr : sc.fortify_level_recorded
          · simp only [Bool.not_false, if_true]
            obtain ⟨h1, h2, h3⟩ := ih { sc with
              st := record_fortify_level K env
                (inform_if (decide (atoi (arg.drop 16) < 0 ∨ atoi (arg.drop 16) > 3)) env
                  sc.st "Unexpected value for FORIFY SOURCE: %s")
                (if (decide (atoi (arg.drop 16) < 0 ∨ atoi (arg.drop 16) > 3)) = true
                  then 0 else atoi (arg.drop 16))
              fortify_level_recorded := true }
            refine ⟨?_, h2, h3⟩
            refine step_of_eq (step_trans (step_trans (inform_if_step ..)
              (fortify_level_step K env _ _ hsink)) h1) ?_
            simp
          · simp only [Bool.not_true, Bool.false_eq_true, if_false]
            obtain ⟨h1, h2, h3⟩ := ih { sc with
              st := inform_if (decide (atoi (arg.drop 16) < 0 ∨ atoi (arg.drop 16) > 3))
                env sc.st "Unexpected value for FORIFY SOURCE: %s" }
            simp only [hfr] at h1 h2 h3
            exact ⟨step_of_eq (step_trans (inform_if_step ..) h1) (List.nil_append _), h2, h3⟩
        · simp only [hF, if_false]
          by_cases hG : arg.take 19 = cstr "_GLIBCXX_ASSERTIONS"
          · simp only [hG, if_true]
            cases hgr : sc.glibcxx_assertions_recorded
            · simp only [Bool.not_false, if_true]
              obtain ⟨h1, h2, h3⟩ := ih { sc with
                st := record_glibcxx_assertions K env sc.st true
                glibcxx_assertions_recorded := true }
              exact ⟨step_trans (glibcxx_step K env _ _ hsink) h1, h2, h3⟩
            · simp only [Bool.not_true, Bool.false_eq_true, if_false]
              have h := ih sc
              rw [hgr] at h
              exact h
          · simp only [hG, if_false]
            exact ih sc
    · simp only [hD, if_false]
      by_cases hP : o.opt_index = OptIndex.OPT_fpreprocessed
      · simp only [hP, if_true]
        exact ⟨step_trans (fortify_level_step K env _ _ hsink) (glibcxx_step K env _ _ hsink),
          trivial, trivial⟩
      · simp only [hP, if_false]
        exact ih sc

theorem output_fortify_step (K : Build) (env : Env) (s : State)
    (hsink : env.asm_out_file = true) :
    s.step (output_fortify_notes K env s) (fortify_notes K env) := by
  unfold output_fortify_notes fortify_notes
  simp only []
  obtain ⟨h1, h2, h3⟩ := scan_step K env hsink env.save_decoded_options.reverse ⟨s, false, false⟩
  simp only [] at h1 h2 h3
  rw [h2, h3]
  generalize scan_options K env env.save_decoded_options.reverse ⟨s, false, false⟩ = sc
    at h1 ⊢
  generalize scan_notes K env env.save_decoded_options.reverse false false = r at h1 ⊢
  have h4 : sc.st.step (if (!r.2.1) = true then record_fortify_level K env sc.st 0 else sc.st)
      (if (!r.2.1) = true then [fortify_note_args K env 0] else []) := by
    split
    · exact fortify_level_step K env _ _ hsink
    · exact step_refl _
  have h5 : ∀ t : State, t.step (if (!r.2.2) = true then record_glibcxx_assertions K env t false
      else t) (if (!r.2.2) = true then [glibcxx_note_args K env false] else []) := by
    intro t
    split
    · exact glibcxx_step K env _ _ hsink
    · exact step_refl _
  exact step_of_eq (step_trans (step_trans h1 h4) (h5 _)) rfl

theorem select_word_size_step (env : Env) (s : State) : s.step (select_word_size env s) [] := by
  unfold select_word_size
  split
  · exact step_update rfl rfl rfl rfl
  · split
    · exact step_update rfl rfl rfl rfl
    · exact inform_step ..

theorem save_unit_values_step (K : Build) (env : Env) (s : State) :
    s.step (save_unit_values K env s) [] := by
  unfold save_unit_values compute_GOWall_options GOWall_checks
  simp only []
  refine @step_trans _ _ _ [] [] ?_ (step_update rfl rfl rfl rfl)
  refine @step_trans _ _ _ [] [] ?_
    (step_trans (inform_if_step ..) (step_trans (inform_if_step ..) (inform_if_step ..)))
  split <;> split <;> exact step_update rfl rfl rfl rfl

theorem set_x86_step (s : State) (isa : Nat) :
    s.step { s with min_x86_isa := isa, max_x86_isa := isa, global_x86_isa := isa } [] :=
  step_update rfl rfl rfl rfl

theorem set_tls_dialect_step (s : State) (v : Int) :
    s.step { s with saved_tls_dialect := v } [] :=
  step_update rfl rfl rfl rfl

theorem set_tls_size_step (s : State) (v : Int) :
    s.step { s with saved_tls_size := v } [] :=
  step_update rfl rfl rfl rfl

theorem target_global_step (K : Build) (env : Env) (s : State)
    (hsink : env.asm_out_file = true) :
    s.step (annobin_record_global_target_notes K env s)
      (target_global_notes K env s.annobin_is_64bit) := by
  unfold annobin_record_global_target_notes target_global_notes
  cases hT : K.target
  · exact step_refl s
  · have h := step_trans (step_trans (set_x86_step s (toULong env.ix86_isa_flags))
      (numeric_note_step K env _ K.GNU_BUILD_ATTRIBUTE_ABI (toULong env.ix86_isa_flags)
        "numeric: ABI" none none K.NT_GNU_BUILD_ATTRIBUTE_OPEN hsink))
      (inform_step env _ 1 "Record global isa of %lx")
    exact h
  · have e : (inform_if (!s.annobin_is_64bit) env s "ICE: Should be 64-bit target").annobin_is_64bit
        = s.annobin_is_64bit := core_is_64bit (inform_if_core ..)
    have h := step_trans (step_trans (step_trans
      (inform_if_step (!s.annobin_is_64bit) env s "ICE: Should be 64-bit target")
      (set_tls_dialect_step _ env.aarch64_tls_dialect))
      (numeric_note_step K env _ K.GNU_BUILD_ATTRIBUTE_ABI (toULong env.aarch64_tls_dialect)
        "numeric: ABI: TLS dialect" none none K.NT_GNU_BUILD_ATTRIBUTE_OPEN hsink))
      (inform_step env _ 1 "Recording global TLS dialect of %d")
    refine step_of_eq h ?_
    show [numeric_note_args K env
      (inform_if (!s.annobin_is_64bit) env s "ICE: Should be 64-bit target").annobin_is_64bit
      K.GNU_BUILD_ATTRIBUTE_ABI (toULong env.aarch64_tls_dialect)
      "numeric: ABI: TLS dialect" none none K.NT_GNU_BUILD_ATTRIBUTE_OPEN] = _
    rw [e]
  · have e : (inform_if (!s.annobin_is_64bit) env s "ICE: Should be 64-bit target").annobin_is_64bit
        = s.annobin_is_64bit := core_is_64bit (inform_if_core ..)
    have h := step_trans (step_trans (step_trans
      (inform_if_step (!s.annobin_is_64bit) env s "ICE: Should be 64-bit target")
      (set_tls_size_step _ env.rs6000_tls_size))
      (numeric_note_step K env _ K.GNU_BUILD_ATTRIBUTE_ABI (toULong env.rs6000_tls_size)
        "numeric: ABI: TLS size" none none K.NT_GNU_BUILD_ATTRIBUTE_OPEN hsink))
      (inform_step env _ 1 "Recording global TLS size of %d")
    refine step_of_eq h ?_
    show [numeric_note_args K env
      (inform_if (!s.annobin_is_64bit) env s "ICE: Should be 64-bit target").annobin_is_64bit
      K.GNU_BUILD_ATTRIBUTE_ABI (toULong env.rs6000_tls_size)
      "numeric: ABI: TLS size" none none K.NT_GNU_BUILD_ATTRIBUTE_OPEN] = _
    rw [e]

theorem init_sets (env : Env) (s : State) (hnone : s.annobin_current_filename = none)
    (hfile : env.main_input_filename.isSome = true) :
    (init_annobin_current_filename env s).annobin_current_filename.isSome = true ∧
    (init_annobin_current_filename env s).annobin_current_endname.isSome = true := by
  unfold init_annobin_current_filename
  have h : env.main_input_filename.isNone = false := by
    cases hm : env.main_input_filename with
    | none => rw [hm] at hfile; exact absurd hfile (by decide)
    | some f => rfl
  simp only [hnone, h, Option.isSome_none, Bool.or_self, Bool.false_eq_true, if_false]
  exact ⟨rfl, rfl⟩

/-- Printing lines that do not belong to a note. -/
theorem step_lines (s : State) (L : List Asm) :
    s.step { s with asm_out := s.asm_out ++ L.map Chunk.line } [] := by
  refine ⟨?_, ⟨[], by simp [State.formats]⟩, fun _ => ⟨rfl, rfl⟩⟩
  have : ∀ L : List Asm, notes_of (L.map Chunk.line) = [] := by
    intro L
    induction L with
    | nil => rfl
    | cons l L ih => simpa [notes_of] using ih
  simp [State.notes, notes_of_append, this]

theorem output_file_symbol_step (K : Build) (env : Env) (s : State) :
    s.step (output_file_symbol K env s) [] ∧
    (output_file_symbol K env s).annobin_current_filename.isSome = true := by
  have h1 : s.step (if s.annobin_current_filename.isNone then
      init_annobin_current_filename env s else s) [] := by
    split
    · exact init_step env s
    · exact step_refl s
  have h2 : ∀ t : State,
      t.step (if t.annobin_current_filename.isNone then
        { annobin_inform env t 0 "ICE: Could not find output filename" with
          annobin_current_filename := some (cstr "unknown_source") }
        else t) [] ∧
      (if t.annobin_current_filename.isNone then
        { annobin_inform env t 0 "ICE: Could not find output filename" with
          annobin_current_filename := some (cstr "unknown_source") }
        else t).annobin_current_filename.isSome = true := by
    intro t
    cases hn : t.annobin_current_filename with
    | none =>
      simp only [Option.isNone_none, if_true]
      obtain ⟨a, b, -⟩ := inform_step env t 0 "ICE: Could not find output filename"
      refine ⟨⟨a, b, ?_⟩, rfl⟩
      intro h
      rw [hn] at h
      exact absurd h (by decide)
    | some f =>
      simp only [Option.isNone_some, Bool.false_eq_true, if_false]
      exact ⟨step_refl t, by rw [hn]; rfl⟩
  unfold output_file_symbol
  simp only []
  generalize (if s.annobin_current_filename.isNone then
      init_annobin_current_filename env s else s) = t at h1 ⊢
  obtain ⟨h3, h4⟩ := h2 t
  generalize (if t.annobin_current_filename.isNone then
        { annobin_inform env t 0 "ICE: Could not find output filename" with
          annobin_current_filename := some (cstr "unknown_source") }
        else t) = u at h3 h4 ⊢
  refine ⟨?_, h4⟩
  refine step_of_eq (step_trans h1 (step_trans h3 ?_)) rfl
  have := step_lines u ((if u.global_file_name_symbols then
      [Asm.global (u.annobin_current_filename.getD [])] else [])
    ++ [Asm.type_object (u.annobin_current_filename.getD []),
        Asm.size (u.annobin_current_filename.getD [])
          (u.annobin_current_endname.getD (cstr "(null)")),
        Asm.label (u.annobin_current_filename.getD []),
        open_section_line K,
        Asm.balign 4])
  refine step_of_eq ?_ rfl
  convert this using 2
  split <;> simp

theorem frame_is_64bit {s t : State} (h : s.frame = t.frame) :
    s.annobin_is_64bit = t.annobin_is_64bit := by
  have := congrArg State.annobin_is_64bit h
  exact this

theorem frame_compiler_version {s t : State} (h : s.frame = t.frame) :
    s.compiler_version = t.compiler_version := by
  have := congrArg State.compiler_version h
  exact this

theorem output_fortify_frame (K : Build) (env : Env) (s : State)
    (hsink : env.asm_out_file = true) : (output_fortify_notes K env s).frame = s.frame :=
  (output_fortify_notes_spec K env s hsink).1

/-- The notes of `annobin_create_global_notes`, for static notes enabled and an
open output file: up to `output_file_symbol` no note is
written, and from there on the notes listed by `unit_start_notes`. -/
theorem global_notes_steps (K : Build) (env : Env) (st : State)
    (hstatic : st.annobin_enable_static_notes = true) (hsink : env.asm_out_file = true) :
    st.step (output_file_symbol K env (save_unit_values K env (select_word_size env st))) [] ∧
    (output_file_symbol K env (save_unit_values K env
      (select_word_size env st))).annobin_current_filename.isSome = true ∧
    (output_file_symbol K env (save_unit_values K env (select_word_size env st))).step
      (annobin_create_global_notes K env st)
      (unit_start_notes K env
        (output_file_symbol K env (save_unit_values K env
          (select_word_size env st))).annobin_is_64bit
        (output_file_symbol K env (save_unit_values K env
          (select_word_size env st))).annobin_current_filename
        (output_file_symbol K env (save_unit_values K env
          (select_word_size env st))).annobin_current_endname
        (st.compiler_version.getD [])) := by
  unfold annobin_create_global_notes
  simp only [hstatic, hsink, Bool.not_true, Bool.false_eq_true, if_false]
  obtain ⟨f1, -⟩ := select_word_size_spec env st
  have p1 := select_word_size_step env st
  generalize select_word_size env st = s1 at f1 p1 ⊢
  obtain ⟨f2, -⟩ := save_unit_values_spec K env s1
  have p2 := save_unit_values_step K env s1
  generalize save_unit_values K env s1 = s2 at f2 p2 ⊢
  obtain ⟨f3, -⟩ := output_file_symbol_spec K env s2
  obtain ⟨p3, n3⟩ := output_file_symbol_step K env s2
  generalize output_file_symbol K env s2 = s3 at f3 p3 n3 ⊢
  refine ⟨step_trans p1 (step_trans p2 p3), n3, ?_⟩
  have fr3 : s3.frame = unit_values_frame K env (word_size_frame env st.frame) := by
    rw [f3, f2, f1]
  have cv3 : ∀ u : State, u.frame = s3.frame →
      u.compiler_version = st.compiler_version := by
    intro u hu
    have := congrArg State.compiler_version (hu.trans fr3)
    exact this
  have g3 : ∀ u : State, u.frame = s3.frame →
      u.global_GOWall_options = GOWall_value K env := fun u hu =>
    congrArg State.global_GOWall_options (hu.trans fr3)
  have sp3 : ∀ u : State, u.frame = s3.frame →
      u.global_stack_prot_option = env.flag_stack_protect := fun u hu =>
    congrArg State.global_stack_prot_option (hu.trans fr3)
  have pic3 : ∀ u : State, u.frame = s3.frame →
      u.global_pic_option = compute_pic_option env := fun u hu =>
    congrArg State.global_pic_option (hu.trans fr3)
  have se3 : ∀ u : State, u.frame = s3.frame →
      u.global_short_enums = env.flag_short_enums := fun u hu =>
    congrArg State.global_short_enums (hu.trans fr3)
  have f4 := string_note_frame K env s3 K.GNU_BUILD_ATTRIBUTE_VERSION
    [48 + SPEC_VERSION, 112, 48 + annobin_version] "string: version"
    s3.annobin_current_filename s3.annobin_current_endname K.NT_GNU_BUILD_ATTRIBUTE_OPEN
  have p4 := string_note_step K env s3 K.GNU_BUILD_ATTRIBUTE_VERSION
    [48 + SPEC_VERSION, 112, 48 + annobin_version] "string: version"
    s3.annobin_current_filename s3.annobin_current_endname K.NT_GNU_BUILD_ATTRIBUTE_OPEN hsink
  generalize annobin_output_string_note K env s3 K.GNU_BUILD_ATTRIBUTE_VERSION
    [48 + SPEC_VERSION, 112, 48 + annobin_version] "string: version"
    s3.annobin_current_filename s3.annobin_current_endname
    K.NT_GNU_BUILD_ATTRIBUTE_OPEN = s4 at f4 p4 ⊢
  rw [cv3 s4 f4]
  have f5 := (string_note_frame K env s4 K.GNU_BUILD_ATTRIBUTE_TOOL
    (st.compiler_version.getD []) "string: build-tool" none none
    K.NT_GNU_BUILD_ATTRIBUTE_OPEN).trans f4
  have p5 := string_note_step K env s4 K.GNU_BUILD_ATTRIBUTE_TOOL
    (st.compiler_version.getD []) "string: build-tool" none none
    K.NT_GNU_BUILD_ATTRIBUTE_OPEN hsink
  rw [frame_is_64bit f4] at p5
  generalize annobin_output_string_note K env s4 K.GNU_BUILD_ATTRIBUTE_TOOL
    (st.compiler_version.getD []) "string: build-tool" none none
    K.NT_GNU_BUILD_ATTRIBUTE_OPEN = s5 at f5 p5 ⊢
  rw [g3 s5 f5]
  have f6 := (record_GOW_frame K env s5 (GOWall_value K env) false none none).trans f5
  have p6 := record_GOW_step K env s5 (GOWall_value K env) false none none hsink
  rw [frame_is_64bit f5] at p6
  generalize record_GOW_settings K env s5 (GOWall_value K env) false none none = s6
    at f6 p6 ⊢
  rw [sp3 s6 f6]
  have f7 := (numeric_note_frame K env s6 K.GNU_BUILD_ATTRIBUTE_STACK_PROT
    (toULong env.flag_stack_protect) "numeric: -fstack-protector status" none none
    K.NT_GNU_BUILD_ATTRIBUTE_OPEN).trans f6
  have p7 := numeric_note_step K env s6 K.GNU_BUILD_ATTRIBUTE_STACK_PROT
    (toULong env.flag_stack_protect) "numeric: -fstack-protector status" none none
    K.NT_GNU_BUILD_ATTRIBUTE_OPEN hsink
  rw [frame_is_64bit f6] at p7
  generalize annobin_output_numeric_note K env s6 K.GNU_BUILD_ATTRIBUTE_STACK_PROT
    (toULong env.flag_stack_protect) "numeric: -fstack-protector status" none none
    K.NT_GNU_BUILD_ATTRIBUTE_OPEN = s7 at f7 p7 ⊢
  have h8 : (if K.stack_clash_defined = true then
      record_stack_clash_note K env s7 none none K.NT_GNU_BUILD_ATTRIBUTE_OPEN else s7).frame
        = s3.frame ∧
      s7.step (if K.stack_clash_defined = true then
        record_stack_clash_note K env s7 none none K.NT_GNU_BUILD_ATTRIBUTE_OPEN else s7)
        (if K.stack_clash_defined then
          [stack_clash_note_args K env s3.annobin_is_64bit none none
            K.NT_GNU_BUILD_ATTRIBUTE_OPEN] else []) := by
    split
    · refine ⟨(stack_clash_note_frame ..).trans f7, ?_⟩
      rw [← frame_is_64bit f7]
      exact stack_clash_note_step K env s7 none none _ hsink
    · exact ⟨f7, step_refl s7⟩
  obtain ⟨f8, p8⟩ := h8
  generalize (if K.stack_clash_defined = true then
      record_stack_clash_note K env s7 none none K.NT_GNU_BUILD_ATTRIBUTE_OPEN else s7) = s8
    at f8 p8 ⊢
  have f9 := (output_fortify_frame K env s8 hsink).trans f8
  have p9 := output_fortify_step K env s8 hsink
  generalize output_fortify_notes K env s8 = s9 at f9 p9 ⊢
  rw [pic3 s9 f9]
  have f10 := (numeric_note_frame K env s9 K.GNU_BUILD_ATTRIBUTE_PIC
    (toULong (compute_pic_option env)) "numeric: PIC" none none
    K.NT_GNU_BUILD_ATTRIBUTE_OPEN).trans f9
  have p10 := numeric_note_step K env s9 K.GNU_BUILD_ATTRIBUTE_PIC
    (toULong (compute_pic_option env)) "numeric: PIC" none none
    K.NT_GNU_BUILD_ATTRIBUTE_OPEN hsink
  rw [frame_is_64bit f9] at p10
  generalize annobin_output_numeric_note K env s9 K.GNU_BUILD_ATTRIBUTE_PIC
    (toULong (compute_pic_option env)) "numeric: PIC" none none
    K.NT_GNU_BUILD_ATTRIBUTE_OPEN = s10 at f10 p10 ⊢
  rw [se3 s10 f10]
  have f11 := (bool_note_frame K env s10 K.GNU_BUILD_ATTRIBUTE_SHORT_ENUM
    (decide (env.flag_short_enums ≠ 0))
    (if env.flag_short_enums ≠ 0 then "bool: short-enums: on" else "bool: short-enums: off")
    none none K.NT_GNU_BUILD_ATTRIBUTE_OPEN).trans f10
  have p11 := bool_note_step K env s10 K.GNU_BUILD_ATTRIBUTE_SHORT_ENUM
    (decide (env.flag_short_enums ≠ 0))
    (if env.flag_short_enums ≠ 0 then "bool: short-enums: on" else "bool: short-enums: off")
    none none K.NT_GNU_BUILD_ATTRIBUTE_OPEN hsink
  rw [frame_is_64bit f10] at p11
  generalize annobin_output_bool_note K env s10 K.GNU_BUILD_ATTRIBUTE_SHORT_ENUM
    (decide (env.flag_short_enums ≠ 0))
    (if env.flag_short_enums ≠ 0 then "bool: short-enums: on" else "bool: short-enums: off")
    none none K.NT_GNU_BUILD_ATTRIBUTE_OPEN = s11 at f11 p11 ⊢
  have p12 := target_global_step K env s11 hsink
  rw [frame_is_64bit f11] at p12
  generalize annobin_record_global_target_notes K env s11 = s12 at p12 ⊢
  have p13 := step_lines s12 [Asm.popsection]
  refine step_of_eq (step_trans p4 (step_trans p5 (step_trans p6 (step_trans p7
    (step_trans p8 (step_trans p9 (step_trans p10 (step_trans p11
      (step_trans p12 p13))))))))) ?_
  unfold unit_start_notes
  simp only [List.append_assoc, List.cons_append, List.nil_append, List.append_nil]

theorem fortify_note_key (K : Build) (env : Env) (level : Int) :
    (fortify_note_args K env level).key
      = (K.NT_GNU_BUILD_ATTRIBUTE_OPEN, fortify_name K level) := by
  simp [fortify_note_args, NoteArgs.key, NoteArgs.name_bytes, fortify_name, sprintf, uninit,
    cstr_FORTIFY, List.replicate]

theorem glibcxx_note_key (K : Build) (env : Env) (b : Bool) :
    (glibcxx_note_args K env b).key
      = (K.NT_GNU_BUILD_ATTRIBUTE_OPEN, glibcxx_name K b) := by
  simp [glibcxx_note_args, NoteArgs.key, NoteArgs.name_bytes, glibcxx_name, sprintf, uninit,
    cstr_GLIBCXX]

theorem stack_clash_note_key (K : Build) (env : Env) (is64 : Bool)
    (start end_ : Option (List Nat)) (type : Nat) :
    (stack_clash_note_args K env is64 start end_ type).key = (type, stack_clash_name K env) := by
  simp [stack_clash_note_args, NoteArgs.key, NoteArgs.name_bytes, stack_clash_name, sprintf,
    cstr_stack_clash]

theorem numeric_note_key (K : Build) (env : Env) (is64 : Bool) (numeric_type v : Nat)
    (name_description : String) (start end_ : Option (List Nat)) (note_type : Nat)
    (hv : v < 2 ^ 64) :
    (numeric_note_args K env is64 numeric_type v name_description start end_ note_type).key
      = (note_type, numeric_name K numeric_type v) := by
  unfold NoteArgs.key
  rw [(numeric_note_name_bytes K env is64 numeric_type v name_description start end_
    note_type hv).1]
  rfl

theorem bool_note_key (K : Build) (env : Env) (is64 : Bool) (bool_type : Nat) (b : Bool)
    (name_description : String) (start end_ : Option (List Nat)) (note_type : Nat)
    (hT : fmt_c K.GNU_BUILD_ATTRIBUTE_TYPE_BOOL_TRUE ≠ 0)
    (hF : fmt_c K.GNU_BUILD_ATTRIBUTE_TYPE_BOOL_FALSE ≠ 0) (htag : fmt_c bool_type ≠ 0) :
    (bool_note_args K env is64 bool_type b name_description start end_ note_type).key
      = (note_type, bool_name K bool_type b) := by
  unfold NoteArgs.key
  rw [(bool_note_args_name K env is64 bool_type b name_description start end_ note_type
    hT hF htag).2]
  rfl

theorem target_global_notes_keys (K : Build) (env : Env) (is64 : Bool) :
    (target_global_notes K env is64).map NoteArgs.key = target_global_keys K env := by
  unfold target_global_notes target_global_keys
  split <;> simp [numeric_note_key _ _ _ _ _ _ _ _ _ (toULong_lt _)]

theorem FORTIFY_key_fortify (K : Build) (level : Int) :
    is_FORTIFY_key K (K.NT_GNU_BUILD_ATTRIBUTE_OPEN, fortify_name K level) = true := by
  simp [is_FORTIFY_key, fortify_name, cstr_FORTIFY]

theorem FORTIFY_key_glibcxx (K : Build) (b : Bool) :
    is_FORTIFY_key K (K.NT_GNU_BUILD_ATTRIBUTE_OPEN, glibcxx_name K b) = false := by
  simp [is_FORTIFY_key, glibcxx_name, cstr_FORTIFY, cstr_GLIBCXX]

theorem GLIBCXX_key_fortify (K : Build) (level : Int) :
    is_GLIBCXX_key K (K.NT_GNU_BUILD_ATTRIBUTE_OPEN, fortify_name K level) = false := by
  simp [is_GLIBCXX_key, fortify_name, glibcxx_name, cstr_FORTIFY, cstr_GLIBCXX]

theorem GLIBCXX_key_glibcxx (K : Build) (b : Bool) :
    is_GLIBCXX_key K (K.NT_GNU_BUILD_ATTRIBUTE_OPEN, glibcxx_name K b) = true := by
  cases b <;> simp [is_GLIBCXX_key]

theorem fortify_not_glibcxx (arg : List Nat) (h : arg.take 16 = cstr "_FORTIFY_SOURCE=") :
    arg.take 19 ≠ cstr "_GLIBCXX_ASSERTIONS" := by
  intro h2
  have a1 := congrArg (List.take 2) h
  have a2 := congrArg (List.take 2) h2
  rw [List.take_take] at a1 a2
  rw [show min 2 16 = 2 from rfl] at a1
  rw [show min 2 19 = 2 from rfl] at a2
  rw [a1] at a2
  exact absurd a2 (by decide)

/-- The notes for `_FORTIFY_SOURCE` that the loop over the saved options writes:
one for the first option met that defines it, unless a level has been
recorded or `-fpreprocessed` is met before, and one with the level -1 if
`-fpreprocessed` is met. -/
theorem scan_notes_FORTIFY (K : Build) (env : Env) :
    ∀ (os : List DecodedOption) (fr gr : Bool),
      ((scan_notes K env os fr gr).1.map NoteArgs.key).filter (is_FORTIFY_key K)
        = (if fr then []
           else ((os.takeWhile (fun o => !is_preprocessed_option o)).find?
              is_fortify_option).toList.map
             (fun o => (K.NT_GNU_BUILD_ATTRIBUTE_OPEN,
               fortify_name K (clamp_level (option_level o)))))
          ++ (if os.any is_preprocessed_option then
                [(K.NT_GNU_BUILD_ATTRIBUTE_OPEN, fortify_name K (-1))] else []) ∧
      (scan_notes K env os fr gr).2.1
        = (fr || ((os.takeWhile (fun o => !is_preprocessed_option o)).find?
            is_fortify_option).isSome || os.any is_preprocessed_option) := by
  intro os
  induction os with
  | nil => intro fr gr; cases fr <;> simp [scan_notes]
  | cons o os ih =>
    intro fr gr
    rw [scan_notes]
    by_cases hD : o.opt_index = OptIndex.OPT_D
    · have hp : is_preprocessed_option o = false := by simp [is_preprocessed_option, hD]
      simp only [hD, if_true]
      cases harg : o.arg with
      | none =>
        have hf : is_fortify_option o = false := by simp [is_fortify_option, hD, harg]
        simp only [List.takeWhile_cons, hp, Bool.not_false, if_true, List.find?_cons, hf,
          List.any_cons, Bool.false_or]
        exact ih fr gr
      | some arg =>
        simp only []
        by_cases hF : arg.take 16 = cstr "_FORTIFY_SOURCE="
        · have hf : is_fortify_option o = true := by simp [is_fortify_option, hD, harg, hF]
          have hl : option_level o = atoi (arg.drop 16) := by simp [option_level, harg]
          simp only [hF, if_true, List.takeWhile_cons, hp, Bool.not_false, List.find?_cons, hf,
            List.any_cons, Bool.false_or]
          cases fr
          · obtain ⟨h1, h2⟩ := ih true gr
            simp only [Bool.not_false, if_true, List.map_cons, List.filter_cons,
              fortify_note_key, FORTIFY_key_fortify, h1, h2, Bool.false_eq_true, if_false,
              Option.toList_some, List.map_nil, Option.isSome_some, Bool.true_or, Bool.or_true,
              hl, clamp_level]
            simp
          · obtain ⟨h1, h2⟩ := ih true gr
            simp only [Bool.not_true, Bool.false_eq_true, if_false, h1, h2, if_true,
              Bool.true_or]
            simp
        · have hf : is_fortify_option o = false := by simp [is_fortify_option, hD, harg, hF]
          simp only [hF, if_false, List.takeWhile_cons, hp, Bool.not_false, if_true,
            List.find?_cons, hf, List.any_cons, Bool.false_or]
          by_cases hG : arg.take 19 = cstr "_GLIBCXX_ASSERTIONS"
          · simp only [hG, if_true]
            cases gr
            · obtain ⟨h1, h2⟩ := ih fr true
              simp only [Bool.not_false, if_true, List.map_cons, List.filter_cons,
                glibcxx_note_key, FORTIFY_key_glibcxx, Bool.false_eq_true, if_false, h1, h2]
              simp
            · simp only [Bool.not_true, Bool.false_eq_true, if_false]
              exact ih fr true
          · simp only [hG, if_false]
            exact ih fr gr
    · have hf : is_fortify_option o = false := by
        unfold is_fortify_option
        split
        · rename_i h _; exact absurd h hD
        · rfl
      simp only [hD, if_false]
      by_cases hP : o.opt_index = OptIndex.OPT_fpreprocessed
      · have hp : is_preprocessed_option o = true := by simp [is_preprocessed_option, hP]
        simp only [hP, if_true, List.takeWhile_cons, hp, Bool.not_true, Bool.false_eq_true,
          if_false, List.find?_nil, List.any_cons, Bool.true_or, List.map_cons, List.map_nil,
          fortify_note_key, glibcxx_note_key, List.filter_cons, FORTIFY_key_fortify,
          FORTIFY_key_glibcxx, Option.toList_none, List.filter_nil, Option.isSome_none]
        cases fr <;> simp
      · have hp : is_preprocessed_option o = false := by simp [is_preprocessed_option, hP]
        simp only [hP, if_false, List.takeWhile_cons, hp, Bool.not_false, if_true,
          List.find?_cons, hf, List.any_cons, Bool.false_or]
        exact ih fr gr

/-- The notes for `_GLIBCXX_ASSERTIONS` that the loop over the saved options
writes: one with `true` if an option that defines it is met, unless one has
been recorded or `-fpreprocessed` is met before, and one with `false` if
`-fpreprocessed` is met. -/
theorem scan_notes_GLIBCXX (K : Build) (env : Env) :
    ∀ (os : List DecodedOption) (fr gr : Bool),
      ((scan_notes K env os fr gr).1.map NoteArgs.key).filter (is_GLIBCXX_key K)
        = (if gr = false ∧ (os.takeWhile (fun o => !is_preprocessed_option o)).any
              is_glibcxx_option = true
           then [(K.NT_GNU_BUILD_ATTRIBUTE_OPEN, glibcxx_name K true)] else [])
          ++ (if os.any is_preprocessed_option then
                [(K.NT_GNU_BUILD_ATTRIBUTE_OPEN, glibcxx_name K false)] else []) ∧
      (scan_notes K env os fr gr).2.2
        = (gr || (os.takeWhile (fun o => !is_preprocessed_option o)).any is_glibcxx_option
            || os.any is_preprocessed_option) := by
  intro os
  induction os with
  | nil => intro fr gr; cases gr <;> simp [scan_notes]
  | cons o os ih =>
    intro fr gr
    rw [scan_notes]
    by_cases hD : o.opt_index = OptIndex.OPT_D
    · have hp : is_preprocessed_option o = false := by simp [is_preprocessed_option, hD]
      simp only [hD, if_true]
      cases harg : o.arg with
      | none =>
        have hg : is_glibcxx_option o = false := by simp [is_glibcxx_option, hD, harg]
        simp only [List.takeWhile_cons, hp, Bool.not_false, if_true, hg,
          List.any_cons, Bool.false_or]
        exact ih fr gr
      | some arg =>
        simp only []
        by_cases hF : arg.take 16 = cstr "_FORTIFY_SOURCE="
        · have hg : is_glibcxx_option o = false := by
            simp [is_glibcxx_option, hD, harg, fortify_not_glibcxx arg hF]
          simp only [hF, if_true, List.takeWhile_cons, hp, Bool.not_false, hg,
            List.any_cons, Bool.false_or]
          cases fr
          · obtain ⟨h1, h2⟩ := ih true gr
            simp only [Bool.not_false, if_true, List.map_cons, List.filter_cons,
              fortify_note_key, GLIBCXX_key_fortify, h1, h2, Bool.false_eq_true, if_false]
            simp
          · simp only [Bool.not_true, Bool.false_eq_true, if_false]
            exact ih true gr
        · simp only [hF, if_false, List.takeWhile_cons, hp, Bool.not_false, if_true,
            List.any_cons]
          by_cases hG : arg.take 19 = cstr "_GLIBCXX_ASSERTIONS"
          · have hg : is_glibcxx_option o = true := by simp [is_glibcxx_option, hD, harg, hG]
            simp only [hG, if_true, hg, Bool.true_or]
            cases gr
            · obtain ⟨h1, h2⟩ := ih fr true
              simp only [Bool.not_false, if_true, List.map_cons, List.filter_cons,
                glibcxx_note_key, GLIBCXX_key_glibcxx, h1, h2]
              simp
            · obtain ⟨h1, h2⟩ := ih fr true
              simp only [Bool.not_true, Bool.false_eq_true, if_false, h1, h2]
              simp
          · have hg : is_glibcxx_option o = false := by simp [is_glibcxx_option, hD, harg, hG]
            simp only [hG, if_false, hg, Bool.false_or]
            exact ih fr gr
    · have hg : is_glibcxx_option o = false := by
        unfold is_glibcxx_option
        split
        · rename_i h _; exact absurd h hD
        · rfl
      simp only [hD, if_false]
      by_cases hP : o.opt_index = OptIndex.OPT_fpreprocessed
      · have hp : is_preprocessed_option o = true := by simp [is_preprocessed_option, hP]
        simp only [hP, if_true, List.takeWhile_cons, hp, Bool.not_true, Bool.false_eq_true,
          if_false, List.any_nil, List.any_cons, Bool.true_or, List.map_cons, List.map_nil,
          fortify_note_key, glibcxx_note_key, List.filter_cons, GLIBCXX_key_fortify,
          GLIBCXX_key_glibcxx, List.filter_nil]
        cases gr <;> simp
      · have hp : is_preprocessed_option o = false := by simp [is_preprocessed_option, hP]
        simp only [hP, if_false, List.takeWhile_cons, hp, Bool.not_false, if_true, hg,
          List.any_cons, Bool.false_or]
        exact ih fr gr

theorem FORTIFY_key_false (K : Build) (k : Nat × List Nat)
    (h : is_numeric_key K K.NT_GNU_BUILD_ATTRIBUTE_OPEN 70 k = false) :
    is_FORTIFY_key K k = false := by
  rw [Bool.eq_false_iff] at h ⊢
  intro hF
  apply h
  simp only [is_FORTIFY_key, Bool.and_eq_true, beq_iff_eq, cstr_FORTIFY] at hF
  have h4 := congrArg (List.take 4) hF.2
  rw [List.take_take] at h4
  simp only [is_numeric_key, Bool.and_eq_true, beq_iff_eq]
  refine ⟨hF.1, ?_⟩
  rw [show min 4 11 = 4 from rfl] at h4
  rw [h4]
  rfl

/-- The string type byte differs from the two bool type bytes. -/
theorem wf_string_ne_bool (K : Build) (hwf : K.wf) (b : Bool) :
    fmt_c (if b then K.GNU_BUILD_ATTRIBUTE_TYPE_BOOL_TRUE
        else K.GNU_BUILD_ATTRIBUTE_TYPE_BOOL_FALSE) ≠ fmt_c K.GNU_BUILD_ATTRIBUTE_TYPE_STRING := by
  obtain ⟨⟨_, eS, eT, eF⟩, _⟩ := wf_facts K hwf
  obtain ⟨_, htyd, _⟩ := hwf
  simp only [List.nodup_cons, List.mem_cons, List.mem_singleton, List.not_mem_nil, or_false,
    not_or, List.nodup_nil, and_true, not_false_eq_true] at htyd
  obtain ⟨_, ⟨a4, a5⟩, _⟩ := htyd
  cases b
  · simp only [Bool.false_eq_true, if_false, eS, eF]; exact Ne.symm a5
  · simp only [if_true, eS, eT]; exact Ne.symm a4

theorem GLIBCXX_key_string (K : Build) (sc : Nat) (k : Nat × List Nat)
    (hk : is_string_key K sc k)
    (hne : ∀ b : Bool, fmt_c (if b then K.GNU_BUILD_ATTRIBUTE_TYPE_BOOL_TRUE
        else K.GNU_BUILD_ATTRIBUTE_TYPE_BOOL_FALSE) ≠ fmt_c K.GNU_BUILD_ATTRIBUTE_TYPE_STRING) :
    is_GLIBCXX_key K k = false := by
  rw [Bool.eq_false_iff]
  intro h
  simp only [is_GLIBCXX_key, Bool.and_eq_true, Bool.or_eq_true, beq_iff_eq] at h
  rcases h.2 with h2 | h2
  · have h4 : k.2.take 4 = [71, 65, fmt_c K.GNU_BUILD_ATTRIBUTE_TYPE_BOOL_TRUE, 71] := by
      rw [h2]; simp [glibcxx_name, cstr_GLIBCXX]
    have := hne true
    simp only [if_true] at this
    exact this (hk.2 _ _ _ _ h4)
  · have h4 : k.2.take 4 = [71, 65, fmt_c K.GNU_BUILD_ATTRIBUTE_TYPE_BOOL_FALSE, 71] := by
      rw [h2]; simp [glibcxx_name, cstr_GLIBCXX]
    have := hne false
    simp only [Bool.false_eq_true, if_false] at this
    exact this (hk.2 _ _ _ _ h4)

theorem GLIBCXX_key_numeric (K : Build) (sc tag v : Nat)
    (h : ∀ b : Bool, fmt_c (if b then K.GNU_BUILD_ATTRIBUTE_TYPE_BOOL_TRUE
        else K.GNU_BUILD_ATTRIBUTE_TYPE_BOOL_FALSE) ≠ fmt_c K.GNU_BUILD_ATTRIBUTE_TYPE_NUMERIC) :
    is_GLIBCXX_key K (sc, numeric_name K tag v) = false := by
  have h1 := h true
  have h2 := h false
  simp only [if_true, if_false, Bool.false_eq_true] at h1 h2
  simp [is_GLIBCXX_key, numeric_name, glibcxx_name, Ne.symm h1, Ne.symm h2]

theorem GLIBCXX_key_GOW (K : Build) (sc g : Nat)
    (h : ∀ b : Bool, fmt_c (if b then K.GNU_BUILD_ATTRIBUTE_TYPE_BOOL_TRUE
        else K.GNU_BUILD_ATTRIBUTE_TYPE_BOOL_FALSE) ≠ fmt_c K.GNU_BUILD_ATTRIBUTE_TYPE_NUMERIC) :
    is_GLIBCXX_key K (sc, GOW_name K g) = false := by
  have h1 := h true
  have h2 := h false
  simp only [if_true, if_false, Bool.false_eq_true] at h1 h2
  simp [is_GLIBCXX_key, GOW_name, glibcxx_name, Ne.symm h1, Ne.symm h2]

theorem GLIBCXX_key_stack_clash (K : Build) (env : Env) (sc : Nat) :
    is_GLIBCXX_key K (sc, stack_clash_name K env) = false := by
  simp [is_GLIBCXX_key, stack_clash_name, glibcxx_name, cstr_stack_clash, cstr_GLIBCXX]

theorem GLIBCXX_key_bool (K : Build) (sc tag : Nat) (b : Bool) :
    is_GLIBCXX_key K (sc, bool_name K tag b) = false := by
  simp [is_GLIBCXX_key, bool_name, glibcxx_name, cstr_GLIBCXX]

/-- Among the notes written at the start of a unit, only those of the loop over
the saved options and of its defaults can be notes for `_FORTIFY_SOURCE` or
`_GLIBCXX_ASSERTIONS`. -/
theorem filter_unit_start_fortify (K : Build) (env : Env) (k1 k2 : Nat × List Nat)
    (L : List (Nat × List Nat)) (hwf : K.wf)
    (h1 : is_string_key K K.NT_GNU_BUILD_ATTRIBUTE_OPEN k1)
    (h2 : is_string_key K K.NT_GNU_BUILD_ATTRIBUTE_OPEN k2) :
    (unit_start_keys K env k1 k2 L).filter (is_FORTIFY_key K) = L.filter (is_FORTIFY_key K) ∧
    (unit_start_keys K env k1 k2 L).filter (is_GLIBCXX_key K)
      = L.filter (is_GLIBCXX_key K) := by
  obtain ⟨⟨eN, eS, eT, eF⟩, ⟨eSP, eSS, eABI, ePIC, eSE⟩, ⟨rN, rS, rT, rF⟩,
    ⟨dNS, dNT, dNF, dTF⟩, ⟨rSP, rSS, rABI, rPIC, rSE⟩,
    ⟨d1, d2, d3, d4, d5, d6⟩, hsc⟩ := wf_facts K hwf
  have hb := wf_bool_ne_numeric K hwf
  have hs := wf_string_ne_bool K hwf
  have hNS : fmt_c K.GNU_BUILD_ATTRIBUTE_TYPE_NUMERIC ≠ fmt_c K.GNU_BUILD_ATTRIBUTE_TYPE_STRING := by
    rw [eN, eS]; exact dNS
  have n70 : ∀ tag : Nat, tag < 32 → ∀ (sc v : Nat),
      is_FORTIFY_key K (sc, numeric_name K tag v) = false := by
    intro tag ht sc v
    apply FORTIFY_key_false
    rw [numeric_key_numeric]
    have : fmt_c tag ≠ fmt_c 70 := by
      unfold fmt_c
      omega
    simp [this]
  have hT : (target_global_keys K env).filter (is_FORTIFY_key K) = [] ∧
      (target_global_keys K env).filter (is_GLIBCXX_key K) = [] := by
    unfold target_global_keys
    split <;> simp [n70 _ rABI.2, GLIBCXX_key_numeric K _ _ _ hb]
  have hC : (if K.stack_clash_defined = true then
      [(K.NT_GNU_BUILD_ATTRIBUTE_OPEN, stack_clash_name K env)] else []).filter
        (is_FORTIFY_key K) = [] ∧
      (if K.stack_clash_defined = true then
      [(K.NT_GNU_BUILD_ATTRIBUTE_OPEN, stack_clash_name K env)] else []).filter
        (is_GLIBCXX_key K) = [] := by
    split <;> simp [GLIBCXX_key_stack_clash,
      FORTIFY_key_false K _ (numeric_key_stack_clash K env _ _ _ hb)]
  unfold unit_start_keys
  simp only [List.filter_append, hT.1, hT.2, hC.1, hC.2, List.append_nil, List.nil_append]
  constructor
  · simp [List.filter_cons, FORTIFY_key_false K _ (numeric_key_string K _ _ _ k1 h1 hNS),
      FORTIFY_key_false K _ (numeric_key_string K _ _ _ k2 h2 hNS),
      FORTIFY_key_false K _ (numeric_key_bool K _ _ _ _ _ (hb _)), n70 _ rSP.2, n70 _ rPIC.2,
      FORTIFY_key_false K (K.NT_GNU_BUILD_ATTRIBUTE_OPEN, GOW_name K (GOWall_value K env))
        (by rw [numeric_key_GOW]; simp [fmt_c])]
  · simp [List.filter_cons, GLIBCXX_key_string K _ k1 h1 hs, GLIBCXX_key_string K _ k2 h2 hs,
      GLIBCXX_key_numeric K _ _ _ hb, GLIBCXX_key_GOW K _ _ hb, GLIBCXX_key_bool]

/-- The types and names of the notes of `unit_start_notes`. -/
theorem unit_start_notes_keys (K : Build) (env : Env) (is64 : Bool)
    (filename endname : Option (List Nat)) (version : List Nat) (hwf : K.wf) :
    (unit_start_notes K env is64 filename endname version).map NoteArgs.key
      = unit_start_keys K env
          (string_note_args K env is64 K.GNU_BUILD_ATTRIBUTE_VERSION
            [48 + SPEC_VERSION, 112, 48 + annobin_version] "string: version" filename endname
            K.NT_GNU_BUILD_ATTRIBUTE_OPEN).key
          (string_note_args K env is64 K.GNU_BUILD_ATTRIBUTE_TOOL version "string: build-tool"
            none none K.NT_GNU_BUILD_ATTRIBUTE_OPEN).key
          ((fortify_notes K env).map NoteArgs.key) := by
  obtain ⟨hT, hF, hSE⟩ := wf_nonzero K hwf
  unfold unit_start_notes unit_start_keys
  simp only [List.map_append, List.map_cons, List.map_nil, target_global_notes_keys,
    GOW_note_args_key _ _ _ _ _ _ _ (GOWall_value_lt K env),
    numeric_note_key _ _ _ _ _ _ _ _ _ (toULong_lt _),
    bool_note_key _ _ _ _ _ _ _ _ _ hT hF hSE, Bool.false_eq_true, if_false]
  congr 3
  split <;> simp [stack_clash_note_key]

theorem keys_eq_notes (s : State) : s.keys = s.notes.map NoteArgs.key := rfl

/-- The types and names of the notes that `annobin_create_global_notes` writes,
with the notes of the loop over the saved options made explicit. -/
theorem global_notes_keys (K : Build) (env : Env) (st : State) (hwf : K.wf)
    (hstatic : st.annobin_enable_static_notes = true) (hsink : env.asm_out_file = true) :
    ∃ k1 k2 : Nat × List Nat,
      (annobin_create_global_notes K env st).keys
        = st.keys ++ unit_start_keys K env k1 k2 ((fortify_notes K env).map NoteArgs.key) ∧
      is_string_key K K.NT_GNU_BUILD_ATTRIBUTE_OPEN k1 ∧
      is_string_key K K.NT_GNU_BUILD_ATTRIBUTE_OPEN k2 := by
  obtain ⟨p1, -, p2⟩ := global_notes_steps K env st hstatic hsink
  have h := (step_trans p1 p2).1
  rw [List.nil_append] at h
  have hk := congrArg (List.map NoteArgs.key) h
  rw [List.map_append, unit_start_notes_keys _ _ _ _ _ _ hwf] at hk
  exact ⟨_, _, hk, string_note_key .., string_note_key ..⟩

/-- The notes for `_FORTIFY_SOURCE` and for `_GLIBCXX_ASSERTIONS` among the
notes that `annobin_create_global_notes` writes. -/
theorem global_notes_fortify (K : Build) (env : Env) (st : State) (hwf : K.wf)
    (hstatic : st.annobin_enable_static_notes = true) (hsink : env.asm_out_file = true) :
    (annobin_create_global_notes K env st).keys.filter (is_FORTIFY_key K)
      = st.keys.filter (is_FORTIFY_key K)
        ++ ((fortify_notes K env).map NoteArgs.key).filter (is_FORTIFY_key K) ∧
    (annobin_create_global_notes K env st).keys.filter (is_GLIBCXX_key K)
      = st.keys.filter (is_GLIBCXX_key K)
        ++ ((fortify_notes K env).map NoteArgs.key).filter (is_GLIBCXX_key K) := by
  obtain ⟨k1, k2, h, h1, h2⟩ := global_notes_keys K env st hwf hstatic hsink
  obtain ⟨a, b⟩ := filter_unit_start_fortify K env k1 k2
    ((fortify_notes K env).map NoteArgs.key) hwf h1 h2
  rw [h, List.filter_append, List.filter_append, a, b]
  exact ⟨rfl, rfl⟩

/-- The notes for `_FORTIFY_SOURCE` that the loop and its default write. -/
theorem fortify_notes_FORTIFY (K : Build) (env : Env) :
    ((fortify_notes K env).map NoteArgs.key).filter (is_FORTIFY_key K)
      = if env.save_decoded_options.reverse.any is_preprocessed_option then
          ((options_behind_preprocessed env.save_decoded_options).find?
              is_fortify_option).toList.map
            (fun o => (K.NT_GNU_BUILD_ATTRIBUTE_OPEN,
              fortify_name K (clamp_level (option_level o))))
          ++ [(K.NT_GNU_BUILD_ATTRIBUTE_OPEN, fortify_name K (-1))]
        else
          [(K.NT_GNU_BUILD_ATTRIBUTE_OPEN,
            fortify_name K
              (match (options_behind_preprocessed env.save_decoded_options).find?
                  is_fortify_option with
               | none => 0
               | some o => clamp_level (option_level o)))] := by
  obtain ⟨h1, h2⟩ := scan_notes_FORTIFY K env env.save_decoded_options.reverse false false
  obtain ⟨-, h3⟩ := scan_notes_GLIBCXX K env env.save_decoded_options.reverse false false
  unfold fortify_notes options_behind_preprocessed
  simp only [List.map_append, List.filter_append, h1, h2, h3, Bool.false_eq_true, if_false,
    Bool.false_or]
  cases hp : env.save_decoded_options.reverse.any is_preprocessed_option
  · cases hf : (env.save_decoded_options.reverse.takeWhile
        (fun o => !is_preprocessed_option o)).find? is_fortify_option <;>
      cases hg : (env.save_decoded_options.reverse.takeWhile
        (fun o => !is_preprocessed_option o)).any is_glibcxx_option <;>
      simp [fortify_note_key, glibcxx_note_key, FORTIFY_key_fortify, FORTIFY_key_glibcxx]
  · simp

/-- The notes for `_GLIBCXX_ASSERTIONS` that the loop and its default write. -/
theorem fortify_notes_GLIBCXX (K : Build) (env : Env) :
    ((fortify_notes K env).map NoteArgs.key).filter (is_GLIBCXX_key K)
      = (if (options_behind_preprocessed env.save_decoded_options).any is_glibcxx_option
          then [(K.NT_GNU_BUILD_ATTRIBUTE_OPEN, glibcxx_name K true)] else [])
        ++ (if env.save_decoded_options.reverse.any is_preprocessed_option = true ∨
              (options_behind_preprocessed env.save_decoded_options).any is_glibcxx_option
                = false
            then [(K.NT_GNU_BUILD_ATTRIBUTE_OPEN, glibcxx_name K false)] else []) := by
  obtain ⟨-, h2⟩ := scan_notes_FORTIFY K env env.save_decoded_options.reverse false false
  obtain ⟨h1, h3⟩ := scan_notes_GLIBCXX K env env.save_decoded_options.reverse false false
  unfold fortify_notes options_behind_preprocessed
  simp only [List.map_append, List.filter_append, h1, h2, h3, Bool.false_eq_true, if_false,
    Bool.false_or]
  cases hp : env.save_decoded_options.reverse.any is_preprocessed_option <;>
    cases hf : (env.save_decoded_options.reverse.takeWhile
        (fun o => !is_preprocessed_option o)).find? is_fortify_option <;>
    cases hg : (env.save_decoded_options.reverse.takeWhile
        (fun o => !is_preprocessed_option o)).any is_glibcxx_option <;>
    simp [fortify_note_key, glibcxx_note_key, GLIBCXX_key_fortify, GLIBCXX_key_glibcxx]

theorem step_mem {s t : State} {N : List NoteArgs} (h : s.step t N) {m : String}
    (hm : m ∈ s.formats) : m ∈ t.formats := by
  obtain ⟨-, ⟨M, hM⟩, -⟩ := h
  rw [hM]
  exact List.mem_append_left _ hm

/-- The notes for `_FORTIFY_SOURCE` and `_GLIBCXX_ASSERTIONS` of a unit whose
saved options hold `-fpreprocessed`: `annobin_create_global_notes` writes a
note with the value -1 (the byte `0xFF`) and a note with `false` as the last
of their kind, and the options before the last `-fpreprocessed` have no
effect. An option `-D_FORTIFY_SOURCE=<n>` or `-D_GLIBCXX_ASSERTIONS` that
stands behind the last `-fpreprocessed` is reached first by the backward scan
and gets a note of its own before these, since the branch for
`-fpreprocessed` does not test the two flags. -/
theorem preprocessed_fortify_notes (K : Build) (env : Env) (st : State) (hwf : K.wf)
    (hstatic : st.annobin_enable_static_notes = true) (hsink : env.asm_out_file = true)
    (hpp : ∃ o ∈ env.save_decoded_options, o.opt_index = OptIndex.OPT_fpreprocessed) :
    (annobin_create_global_notes K env st).keys.filter (is_FORTIFY_key K)
      = st.keys.filter (is_FORTIFY_key K)
        ++ ((options_behind_preprocessed env.save_decoded_options).find?
              is_fortify_option).toList.map
            (fun o => (K.NT_GNU_BUILD_ATTRIBUTE_OPEN,
              fortify_name K (clamp_level (option_level o))))
        ++ [(K.NT_GNU_BUILD_ATTRIBUTE_OPEN, fortify_name K (-1))] ∧
    (annobin_create_global_notes K env st).keys.filter (is_GLIBCXX_key K)
      = st.keys.filter (is_GLIBCXX_key K)
        ++ (if (options_behind_preprocessed env.save_decoded_options).any is_glibcxx_option
            then [(K.NT_GNU_BUILD_ATTRIBUTE_OPEN, glibcxx_name K true)] else [])
        ++ [(K.NT_GNU_BUILD_ATTRIBUTE_OPEN, glibcxx_name K false)] ∧
    fortify_name K (-1)
      = [71, 65, fmt_c K.GNU_BUILD_ATTRIBUTE_TYPE_NUMERIC] ++ cstr "FORTIFY" ++ [0, 255, 0] ∧
    glibcxx_name K false
      = [71, 65, fmt_c K.GNU_BUILD_ATTRIBUTE_TYPE_BOOL_FALSE] ++ cstr "GLIBCXX_ASSERTIONS"
        ++ [0] := by
  have h : env.save_decoded_options.reverse.any is_preprocessed_option = true := by
    obtain ⟨o, ho, h⟩ := hpp
    exact List.any_eq_true.mpr ⟨o, List.mem_reverse.mpr ho, by simp [is_preprocessed_option, h]⟩
  obtain ⟨a, b⟩ := global_notes_fortify K env st hwf hstatic hsink
  refine ⟨?_, ?_, rfl, rfl⟩
  · rw [a, fortify_notes_FORTIFY, h, if_pos rfl, List.append_assoc]
  · rw [b, fortify_notes_GLIBCXX, h, List.append_assoc]
    simp

/-- The notes for `_GLIBCXX_ASSERTIONS` of the sample compilation with
`-fpreprocessed -D_FORTIFY_SOURCE=2`. -/
theorem preprocessed_fortify_notes_witness :
    (annobin_create_global_notes Build.standard Env.with_preprocessed
        (State.initial none)).keys.filter (is_GLIBCXX_key Build.standard)
      = (State.initial none).keys.filter (is_GLIBCXX_key Build.standard)
        ++ (if (options_behind_preprocessed Env.with_preprocessed.save_decoded_options).any
              is_glibcxx_option
            then [(Build.standard.NT_GNU_BUILD_ATTRIBUTE_OPEN, glibcxx_name Build.standard true)]
            else [])
        ++ [(Build.standard.NT_GNU_BUILD_ATTRIBUTE_OPEN, glibcxx_name Build.standard false)] :=
  (preprocessed_fortify_notes Build.standard Env.with_preprocessed (State.initial none)
    standard_wf rfl rfl ⟨⟨OptIndex.OPT_fpreprocessed, none⟩, by decide, rfl⟩).2.1

/-- C14: at the saved options `-fpreprocessed -D_FORTIFY_SOURCE=2` (static
notes enabled, output file open) `annobin_create_global_notes` writes two
notes for `_FORTIFY_SOURCE`, the first with the value 2, the second with the
value -1 (the byte 255), where a single note with the value -1 is due. -/
theorem fortify_note_beside_preprocessed :
    (annobin_create_global_notes Build.standard Env.with_preprocessed
        (State.initial none)).keys.filter (is_FORTIFY_key Build.standard)
      = [(256, [71, 65, 42, 70, 79, 82, 84, 73, 70, 89, 0, 2, 0]),
         (256, [71, 65, 42, 70, 79, 82, 84, 73, 70, 89, 0, 255, 0])] := by
  decide

theorem init_symbols_ok (env : Env) (s : State) (h : s.symbols_ok) :
    (init_annobin_current_filename env s).symbols_ok := by
  unfold init_annobin_current_filename
  split
  · exact h
  · intro _
    rfl

theorem inform_symbols_ok (env : Env) (s : State) (level : Nat) (format : String)
    (h : s.symbols_ok) : (annobin_inform env s level format).symbols_ok := by
  unfold annobin_inform
  split
  · exact h
  · have h1 : (if s.annobin_current_filename.isNone then
        init_annobin_current_filename env s else s).symbols_ok := by
      split
      · exact init_symbols_ok env s h
      · exact h
    exact h1

theorem inform_if_symbols_ok (c : Bool) (env : Env) (s : State) (format : String)
    (h : s.symbols_ok) : (inform_if c env s format).symbols_ok := by
  unfold inform_if
  split
  · exact inform_symbols_ok env s 0 format h
  · exact h

theorem select_word_size_symbols_ok (env : Env) (s : State) (h : s.symbols_ok) :
    (select_word_size env s).symbols_ok := by
  unfold select_word_size
  split
  · exact h
  · split
    · exact h
    · exact inform_symbols_ok _ _ _ _ h

theorem save_unit_values_symbols_ok (K : Build) (env : Env) (s : State) (h : s.symbols_ok) :
    (save_unit_values K env s).symbols_ok := by
  unfold save_unit_values compute_GOWall_options GOWall_checks
  simp only []
  have h0 : ∀ t : State, t.symbols_ok →
      ({ t with global_GOWall_options := GOWall_value K env } : State).symbols_ok :=
    fun t ht => ht
  apply h0
  apply inform_if_symbols_ok
  apply inform_if_symbols_ok
  apply inform_if_symbols_ok
  split <;> split <;> exact h

/-- With a known input file, `output_file_symbol` leaves both the start symbol and
the end symbol of the unit derived. -/
theorem output_file_symbol_names (K : Build) (env : Env) (s : State)
    (hfile : env.main_input_filename.isSome = true) (hok : s.symbols_ok) :
    (output_file_symbol K env s).annobin_current_filename.isSome = true ∧
    (output_file_symbol K env s).annobin_current_endname.isSome = true := by
  have h1 : (if s.annobin_current_filename.isNone then
      init_annobin_current_filename env s else s).annobin_current_filename.isSome = true ∧
      (if s.annobin_current_filename.isNone then
        init_annobin_current_filename env s else s).annobin_current_endname.isSome = true := by
    cases hn : s.annobin_current_filename with
    | none =>
      simp only [Option.isNone_none, if_true]
      exact init_sets env s hn hfile
    | some f =>
      simp only [Option.isNone_some, Bool.false_eq_true, if_false]
      have : s.annobin_current_filename.isSome = true := by rw [hn]; rfl
      exact ⟨this, hok this⟩
  unfold output_file_symbol
  simp only []
  generalize (if s.annobin_current_filename.isNone then
      init_annobin_current_filename env s else s) = t at h1 ⊢
  obtain ⟨h1, h2⟩ := h1
  have h3 : t.annobin_current_filename.isNone = false := by
    cases hx : t.annobin_current_filename with
    | none => rw [hx] at h1; exact absurd h1 (by decide)
    | some f => rfl
  simp only [h3, Bool.false_eq_true, if_false]
  exact ⟨h1, h2⟩

theorem scan_notes_mem (K : Build) (env : Env) :
    ∀ (os : List DecodedOption) (fr gr : Bool), ∀ a ∈ (scan_notes K env os fr gr).1,
      (∃ level : Int, a = fortify_note_args K env level) ∨
      (∃ b : Bool, a = glibcxx_note_args K env b) := by
  intro os
  induction os with
  | nil => intro fr gr a ha; simp [scan_notes] at ha
  | cons o os ih =>
    intro fr gr a ha
    rw [scan_notes] at ha
    split at ha
    · split at ha
      · exact ih _ _ a ha
      · split at ha
        · split at ha
          · simp only [List.mem_cons] at ha
            rcases ha with rfl | ha
            · exact Or.inl ⟨_, rfl⟩
            · exact ih _ _ a ha
          · exact ih _ _ a ha
        · split at ha
          · split at ha
            · simp only [List.mem_cons] at ha
              rcases ha with rfl | ha
              · exact Or.inr ⟨_, rfl⟩
              · exact ih _ _ a ha
            · exact ih _ _ a ha
          · exact ih _ _ a ha
    · split at ha
      · simp only [List.mem_cons, List.mem_singleton, List.not_mem_nil, or_false] at ha
        rcases ha with rfl | rfl
        · exact Or.inl ⟨_, rfl⟩
        · exact Or.inr ⟨_, rfl⟩
      · exact ih _ _ a ha

/-- Every note of the loop over the saved options and of its defaults is a note
for `_FORTIFY_SOURCE` or for `_GLIBCXX_ASSERTIONS`. -/
theorem fortify_notes_mem (K : Build) (env : Env) : ∀ a ∈ fortify_notes K env,
    (∃ level : Int, a = fortify_note_args K env level) ∨
    (∃ b : Bool, a = glibcxx_note_args K env b) := by
  intro a ha
  unfold fortify_notes at ha
  simp only [List.mem_append] at ha
  rcases ha with (ha | ha) | ha
  · exact scan_notes_mem K env _ _ _ a ha
  · split at ha
    · rw [List.mem_singleton.mp ha]; exact Or.inl ⟨_, rfl⟩
    · simp at ha
  · split at ha
    · rw [List.mem_singleton.mp ha]; exact Or.inr ⟨_, rfl⟩
    · simp at ha

/-- The descriptors of the notes of `unit_start_notes`: the first note, for the
version, has the file name symbols as its descriptor; all others have none. -/
theorem unit_start_notes_descriptors (K : Build) (env : Env) (is64 : Bool)
    (filename endname : Option (List Nat)) (version : List Nat) :
    (unit_start_notes K env is64 filename endname version).head?
      = some (string_note_args K env is64 K.GNU_BUILD_ATTRIBUTE_VERSION
          [48 + SPEC_VERSION, 112, 48 + annobin_version] "string: version" filename endname
          K.NT_GNU_BUILD_ATTRIBUTE_OPEN) ∧
    ∀ a ∈ (unit_start_notes K env is64 filename endname version).tail,
      a.desc1 = none ∧ a.desc2 = none ∧ a.descsz = 0 := by
  refine ⟨rfl, ?_⟩
  intro a ha
  have hF : ∀ a ∈ fortify_notes K env, a.desc1 = none ∧ a.desc2 = none ∧ a.descsz = 0 := by
    intro a ha
    rcases fortify_notes_mem K env a ha with ⟨l, rfl⟩ | ⟨b, rfl⟩
    · exact ⟨rfl, rfl, rfl⟩
    · exact ⟨rfl, rfl, rfl⟩
  have hT : ∀ a ∈ target_global_notes K env is64,
      a.desc1 = none ∧ a.desc2 = none ∧ a.descsz = 0 := by
    intro a ha
    unfold target_global_notes at ha
    split at ha
    · simp at ha
    · rw [List.mem_singleton.mp ha]; exact ⟨rfl, rfl, rfl⟩
    · rw [List.mem_singleton.mp ha]; exact ⟨rfl, rfl, rfl⟩
    · rw [List.mem_singleton.mp ha]; exact ⟨rfl, rfl, rfl⟩
  unfold unit_start_notes at ha
  simp only [List.cons_append, List.tail_cons, List.mem_cons, List.mem_append,
    List.nil_append, List.not_mem_nil, or_false] at ha
  rcases ha with rfl | rfl | rfl | ((ha | ha) | ha | ha) | ha
  · exact ⟨rfl, rfl, rfl⟩
  · exact ⟨rfl, rfl, rfl⟩
  · exact ⟨rfl, rfl, rfl⟩
  · split at ha
    · rw [List.mem_singleton.mp ha]; exact ⟨rfl, rfl, rfl⟩
    · simp at ha
  · exact hF a ha
  · rw [ha]; exact ⟨rfl, rfl, rfl⟩
  · rw [ha]; exact ⟨rfl, rfl, rfl⟩
  · exact hT a ha

theorem target_global_frame_is_64bit (K : Build) (env : Env) (f : State) :
    (target_global_frame K env f).annobin_is_64bit = f.annobin_is_64bit := by
  unfold target_global_frame
  split <;> rfl

/-- C15: for every list of saved options and every setting of the flags (static
notes enabled, the output file open, the input file known, the file name
symbol complete if it has been derived), the notes that
`annobin_create_global_notes` writes are, in this order: version, build tool,
packed word for the debug, optimisation and warning options, stack protector, stack clash protection where
the host supports it, the notes for `_FORTIFY_SOURCE` and
`_GLIBCXX_ASSERTIONS`, PIC, size of enumerations, and the note of the target.
The version note carries the start symbol and the end symbol of the unit as
its descriptor; every other note has no descriptor. -/
theorem global_notes_order (K : Build) (env : Env) (st : State) (hwf : K.wf)
    (hstatic : st.annobin_enable_static_notes = true) (hsink : env.asm_out_file = true)
    (hfile : env.main_input_filename.isSome = true) (hok : st.symbols_ok) :
    ∃ f e : List Nat,
      (annobin_create_global_notes K env st).annobin_current_filename = some f ∧
      (annobin_create_global_notes K env st).annobin_current_endname = some e ∧
      (annobin_create_global_notes K env st).notes
        = st.notes
          ++ unit_start_notes K env (annobin_create_global_notes K env st).annobin_is_64bit
              (some f) (some e) (st.compiler_version.getD []) ∧
      (annobin_create_global_notes K env st).keys
        = st.keys
          ++ unit_start_keys K env
              (string_note_args K env (annobin_create_global_notes K env st).annobin_is_64bit
                K.GNU_BUILD_ATTRIBUTE_VERSION [48 + SPEC_VERSION, 112, 48 + annobin_version]
                "string: version" (some f) (some e) K.NT_GNU_BUILD_ATTRIBUTE_OPEN).key
              (string_note_args K env (annobin_create_global_notes K env st).annobin_is_64bit
                K.GNU_BUILD_ATTRIBUTE_TOOL (st.compiler_version.getD []) "string: build-tool"
                none none K.NT_GNU_BUILD_ATTRIBUTE_OPEN).key
              ((fortify_notes K env).map NoteArgs.key) ∧
      (∀ a ∈ fortify_notes K env,
        is_FORTIFY_key K a.key = true ∨ is_GLIBCXX_key K a.key = true) ∧
      (unit_start_notes K env (annobin_create_global_notes K env st).annobin_is_64bit
          (some f) (some e) (st.compiler_version.getD [])).head?
        = some (string_note_args K env (annobin_create_global_notes K env st).annobin_is_64bit
            K.GNU_BUILD_ATTRIBUTE_VERSION [48 + SPEC_VERSION, 112, 48 + annobin_version]
            "string: version" (some f) (some e) K.NT_GNU_BUILD_ATTRIBUTE_OPEN) ∧
      (string_note_args K env (annobin_create_global_notes K env st).annobin_is_64bit
          K.GNU_BUILD_ATTRIBUTE_VERSION [48 + SPEC_VERSION, 112, 48 + annobin_version]
          "string: version" (some f) (some e) K.NT_GNU_BUILD_ATTRIBUTE_OPEN).desc1 = some f ∧
      (string_note_args K env (annobin_create_global_notes K env st).annobin_is_64bit
          K.GNU_BUILD_ATTRIBUTE_VERSION [48 + SPEC_VERSION, 112, 48 + annobin_version]
          "string: version" (some f) (some e) K.NT_GNU_BUILD_ATTRIBUTE_OPEN).desc2 = some e ∧
      (string_note_args K env (annobin_create_global_notes K env st).annobin_is_64bit
          K.GNU_BUILD_ATTRIBUTE_VERSION [48 + SPEC_VERSION, 112, 48 + annobin_version]
          "string: version" (some f) (some e) K.NT_GNU_BUILD_ATTRIBUTE_OPEN).descsz
        = 2 * word_size (annobin_create_global_notes K env st).annobin_is_64bit ∧
      ∀ a ∈ (unit_start_notes K env (annobin_create_global_notes K env st).annobin_is_64bit
          (some f) (some e) (st.compiler_version.getD [])).tail,
        a.desc1 = none ∧ a.desc2 = none ∧ a.descsz = 0 := by
  obtain ⟨hT, hF, hSE⟩ := wf_nonzero K hwf
  obtain ⟨p1, n3, p2⟩ := global_notes_steps K env st hstatic hsink
  have fr := (global_notes_spec K env st hstatic hsink hT hF hSE).1
  have f3 : (output_file_symbol K env (save_unit_values K env
      (select_word_size env st))).frame
      = unit_values_frame K env (word_size_frame env st.frame) := by
    rw [(output_file_symbol_spec K env _).1, (save_unit_values_spec K env _).1,
      (select_word_size_spec env st).1]
  have h64 : (annobin_create_global_notes K env st).annobin_is_64bit
      = (output_file_symbol K env (save_unit_values K env
          (select_word_size env st))).annobin_is_64bit := by
    have a := congrArg State.annobin_is_64bit fr
    have b := congrArg State.annobin_is_64bit f3
    have c := target_global_frame_is_64bit K env
      (unit_values_frame K env (word_size_frame env st.frame))
    exact a.trans (c.trans b.symm)
  obtain ⟨m1, m2⟩ := output_file_symbol_names K env _ hfile
    (save_unit_values_symbols_ok K env _ (select_word_size_symbols_ok env st hok))
  obtain ⟨q1, q2⟩ := p2.2.2 n3
  have hn := (step_trans p1 p2).1
  rw [List.nil_append] at hn
  generalize output_file_symbol K env (save_unit_values K env (select_word_size env st)) = s3
    at p2 n3 h64 m1 m2 q1 q2 hn
  obtain ⟨f, hf⟩ := Option.isSome_iff_exists.mp m1
  obtain ⟨e, he⟩ := Option.isSome_iff_exists.mp m2
  rw [hf] at q1 hn
  rw [he] at q2 hn
  rw [← h64] at hn
  have hk := congrArg (List.map NoteArgs.key) hn
  rw [List.map_append, unit_start_notes_keys _ _ _ _ _ _ hwf] at hk
  obtain ⟨d1, d2⟩ := unit_start_notes_descriptors K env
    (annobin_create_global_notes K env st).annobin_is_64bit (some f) (some e)
    (st.compiler_version.getD [])
  refine ⟨f, e, q1, q2, hn, hk, ?_, d1, rfl, rfl, ?_, d2⟩
  · intro a ha
    rcases fortify_notes_mem K env a ha with ⟨l, rfl⟩ | ⟨b, rfl⟩
    · rw [fortify_note_key]; exact Or.inl (FORTIFY_key_fortify K l)
    · rw [glibcxx_note_key]; exact Or.inr (GLIBCXX_key_glibcxx K b)
  · cases (annobin_create_global_notes K env st).annobin_is_64bit <;> rfl

/-- Witness of `global_notes_order`: the plain sample compilation of `hello.c`. -/
theorem global_notes_order_witness :
    ∃ f e : List Nat,
      (annobin_create_global_notes Build.standard Env.plain
        (State.initial none)).annobin_current_filename = some f ∧
      (annobin_create_global_notes Build.standard Env.plain
        (State.initial none)).annobin_current_endname = some e ∧
      (annobin_create_global_notes Build.standard Env.plain (State.initial none)).notes
        = (State.initial none).notes
          ++ unit_start_notes Build.standard Env.plain
              (annobin_create_global_notes Build.standard Env.plain
                (State.initial none)).annobin_is_64bit
              (some f) (some e) ((State.initial none).compiler_version.getD []) := by
  obtain ⟨f, e, h1, h2, h3, -⟩ := global_notes_order Build.standard Env.plain
    (State.initial none) standard_wf rfl rfl rfl (fun h => absurd h (by decide))
  exact ⟨f, e, h1, h2, h3⟩

/-- Witness of `note_record_order`: the record of the sample note. -/
theorem note_record_order_witness :
    ∃ (text : List Asm) (c1 c2 c3 : String),
      (annobin_output_note Build.standard Env.plain (State.initial none)
          NoteArgs.sample).asm_out
        = (State.initial none).asm_out ++ [Chunk.note NoteArgs.sample text] ∧
      text
        = (if NoteArgs.sample.type = Build.standard.NT_GNU_BUILD_ATTRIBUTE_FUNC ∨
              NoteArgs.sample.type = Build.standard.NT_GNU_BUILD_ATTRIBUTE_OPEN
            then [Asm.pushsection Build.standard.GNU_BUILD_ATTRS_SECTION_NAME ""] else [])
          ++ [Asm.dc_l (if NoteArgs.sample.name.isSome then NoteArgs.sample.namesz else 0) c1,
              Asm.dc_l (if NoteArgs.sample.desc1.isSome then NoteArgs.sample.descsz else 0) c2,
              Asm.dc_l NoteArgs.sample.type c3]
          ++ (match NoteArgs.sample.name with
              | none => []
              | some name =>
                (if NoteArgs.sample.name_is_string then
                  Asm.asciz (fmt_s name) NoteArgs.sample.name_description
                 else Asm.dc_b (name.take NoteArgs.sample.namesz)
                  NoteArgs.sample.name_description)
                :: padding NoteArgs.sample.namesz)
          ++ (match NoteArgs.sample.desc1 with
              | none => []
              | some desc1 =>
                if NoteArgs.sample.desc_is_string then
                  sym_ref (State.initial none).annobin_is_64bit desc1
                    :: (NoteArgs.sample.desc2.map
                        (sym_ref (State.initial none).annobin_is_64bit)).toList
                else raw_desc_lines NoteArgs.sample.descsz (desc1.take NoteArgs.sample.descsz)
                  ++ padding NoteArgs.sample.descsz)
          ++ (if NoteArgs.sample.type = Build.standard.NT_GNU_BUILD_ATTRIBUTE_FUNC ∨
                NoteArgs.sample.type = Build.standard.NT_GNU_BUILD_ATTRIBUTE_OPEN
              then [Asm.popsection] else [])
          ++ [Asm.blank] :=
  note_record_order Build.standard Env.plain (State.initial none) NoteArgs.sample rfl

/-- C12, counterexample: with the debug type 7 and the DWARF version 4 (every
other field 0, `VMS_AND_DWARF2_DEBUG` being 6) `compute_GOWall_options`
reports the message about an unknown debug type and returns 256, the DWARF
version alone: the bits 0 to 2 hold 0, not the debug type, and the word is
not the one that the formula gives (263). -/
theorem GOWall_unknown_debug_type :
    Env.with_debug_type_7.write_symbols = 7 ∧
    Env.with_debug_type_7.debug_info_level = 0 ∧
    Env.with_debug_type_7.dwarf_version = 4 ∧
    Env.with_debug_type_7.optimize = 0 ∧
    (compute_GOWall_options Build.standard Env.with_debug_type_7 (State.initial none)).1
      = 256 ∧
    (compute_GOWall_options Build.standard Env.with_debug_type_7 (State.initial none)).1 % 8
      ≠ Env.with_debug_type_7.write_symbols ∧
    (compute_GOWall_options Build.standard Env.with_debug_type_7 (State.initial none)).1
      ≠ Env.with_debug_type_7.write_symbols
        ||| (flag_bit (Env.with_debug_type_7.use_gnu_debug_info_extensions = true) <<< 3)
        ||| (Env.with_debug_type_7.debug_info_level <<< 4)
        ||| (Env.with_debug_type_7.dwarf_version.toNat <<< 6)
        ||| (min Env.with_debug_type_7.optimize.toNat 3 <<< 9)
        ||| (flag_bit (Env.with_debug_type_7.optimize_size ≠ 0) <<< 11)
        ||| (flag_bit (Env.with_debug_type_7.optimize_fast ≠ 0) <<< 12)
        ||| (flag_bit (Env.with_debug_type_7.optimize_debug ≠ 0) <<< 13)
        ||| (flag_bit (∃ o ∈ Env.with_debug_type_7.save_decoded_options,
              o.opt_index = OptIndex.OPT_Wall) <<< 14) ∧
    (compute_GOWall_options Build.standard Env.with_debug_type_7 (State.initial none)).2.formats
      = ["ICE: unknown debug info type %d\n"] := by
  decide

/-- The frame behind `annobin_create_global_notes` when it writes notes. -/
theorem global_notes_frame (K : Build) (env : Env) (st : State)
    (hstatic : st.annobin_enable_static_notes = true) (hsink : env.asm_out_file = true) :
    (annobin_create_global_notes K env st).frame = unit_start_frame K env st.frame := by
  have h : ∀ (s : State) (L : List Chunk), ({ s with asm_out := L } : State).frame = s.frame :=
    fun _ _ => rfl
  have hc : ∀ s : State,
      (if K.stack_clash_defined = true then
        record_stack_clash_note K env s none none K.NT_GNU_BUILD_ATTRIBUTE_OPEN
       else s).frame = s.frame := by
    intro s
    split
    · exact stack_clash_note_frame ..
    · rfl
  unfold annobin_create_global_notes unit_start_frame
  simp only [hstatic, hsink, Bool.not_true, Bool.false_eq_true, if_false]
  rw [h, (target_global_spec K env _ hsink).1, bool_note_frame, numeric_note_frame,
    output_fortify_frame _ _ _ hsink, hc, numeric_note_frame, record_GOW_frame,
    string_note_frame, string_note_frame, (output_file_symbol_spec K env _).1,
    (save_unit_values_spec K env _).1, (select_word_size_spec env st).1]

/-- C21: at the start of a unit `annobin_create_global_notes` (static notes
enabled, output file open) sets the word size from `POINTER_SIZE`: 16 or 32
bits give `annobin_is_64bit` false and the word of 4 bytes, 64 bits give true
and the word of 8 bytes; for any other width the message about the unknown
pointer size is reported and `annobin_is_64bit` keeps its value. In every case
the notes of the unit are written behind the earlier ones, the version note
first. -/
theorem word_size_selected (K : Build) (env : Env) (st : State)
    (hstatic : st.annobin_enable_static_notes = true) (hsink : env.asm_out_file = true) :
    (env.POINTER_SIZE = 16 ∨ env.POINTER_SIZE = 32 →
      (annobin_create_global_notes K env st).annobin_is_64bit = false ∧
      word_size (annobin_create_global_notes K env st).annobin_is_64bit = 4) ∧
    (env.POINTER_SIZE = 64 →
      (annobin_create_global_notes K env st).annobin_is_64bit = true ∧
      word_size (annobin_create_global_notes K env st).annobin_is_64bit = 8) ∧
    (env.POINTER_SIZE ≠ 16 → env.POINTER_SIZE ≠ 32 → env.POINTER_SIZE ≠ 64 →
      (annobin_create_global_notes K env st).annobin_is_64bit = st.annobin_is_64bit ∧
      "Unknown target pointer size: %d" ∈ (annobin_create_global_notes K env st).formats) ∧
    ∃ (f : List Nat) (e : Option (List Nat)),
      (annobin_create_global_notes K env st).notes
        = st.notes
          ++ unit_start_notes K env (annobin_create_global_notes K env st).annobin_is_64bit
              (some f) e (st.compiler_version.getD []) ∧
      (unit_start_notes K env (annobin_create_global_notes K env st).annobin_is_64bit
          (some f) e (st.compiler_version.getD [])).head?
        = some (string_note_args K env (annobin_create_global_notes K env st).annobin_is_64bit
            K.GNU_BUILD_ATTRIBUTE_VERSION [48 + SPEC_VERSION, 112, 48 + annobin_version]
            "string: version" (some f) e K.NT_GNU_BUILD_ATTRIBUTE_OPEN) := by
  have fr := global_notes_frame K env st hstatic hsink
  have h64 : (annobin_create_global_notes K env st).annobin_is_64bit
      = (if env.POINTER_SIZE = 16 ∨ env.POINTER_SIZE = 32 then false
         else if env.POINTER_SIZE = 64 then true else st.annobin_is_64bit) := by
    have a := congrArg State.annobin_is_64bit fr
    have b : (unit_start_frame K env st.frame).annobin_is_64bit
        = (word_size_frame env st.frame).annobin_is_64bit := target_global_frame_is_64bit ..
    exact a.trans b
  obtain ⟨p1, n3, p2⟩ := global_notes_steps K env st hstatic hsink
  have f3 : (output_file_symbol K env (save_unit_values K env
      (select_word_size env st))).frame
      = unit_values_frame K env (word_size_frame env st.frame) := by
    rw [(output_file_symbol_spec K env _).1, (save_unit_values_spec K env _).1,
      (select_word_size_spec env st).1]
  have e64 : (output_file_symbol K env (save_unit_values K env
      (select_word_size env st))).annobin_is_64bit
      = (annobin_create_global_notes K env st).annobin_is_64bit := by
    have a := congrArg State.annobin_is_64bit fr
    have b := congrArg State.annobin_is_64bit f3
    have c := target_global_frame_is_64bit K env
      (unit_values_frame K env (word_size_frame env st.frame))
    exact b.trans (c.symm.trans a.symm)
  refine ⟨?_, ?_, ?_, ?_⟩
  · intro h
    rw [h64, if_pos h]
    exact ⟨rfl, rfl⟩
  · intro h
    have h' : ¬ (env.POINTER_SIZE = 16 ∨ env.POINTER_SIZE = 32) := by omega
    rw [h64, if_neg h', if_pos h]
    exact ⟨rfl, rfl⟩
  · intro h1 h2 h3
    have h' : ¬ (env.POINTER_SIZE = 16 ∨ env.POINTER_SIZE = 32) := by omega
    refine ⟨by rw [h64, if_neg h', if_neg h3], ?_⟩
    have hm : "Unknown target pointer size: %d" ∈ (select_word_size env st).formats := by
      unfold select_word_size
      rw [if_neg h', if_neg h3, inform_formats]
      simp
    exact step_mem p2 (step_mem (output_file_symbol_step K env _).1
      (step_mem (save_unit_values_step K env _) hm))
  · have hn := (step_trans p1 p2).1
    rw [List.nil_append, e64] at hn
    obtain ⟨f, hf⟩ := Option.isSome_iff_exists.mp n3
    rw [hf] at hn
    exact ⟨f, _, hn, (unit_start_notes_descriptors ..).1⟩

/-- Witness of `word_size_selected`: a target with pointers of 48 bits; the flag
keeps its initial value, the message is reported and the notes are written. -/
theorem word_size_selected_witness :
    (annobin_create_global_notes Build.standard Env.with_pointer_size_48
        (State.initial none)).annobin_is_64bit = false ∧
    "Unknown target pointer size: %d"
      ∈ (annobin_create_global_notes Build.standard Env.with_pointer_size_48
          (State.initial none)).formats ∧
    (annobin_create_global_notes Build.standard Env.with_pointer_size_48
        (State.initial none)).notes.length = 8 :=
  ⟨((word_size_selected Build.standard Env.with_pointer_size_48 (State.initial none)
      rfl rfl).2.2.1 (by decide) (by decide) (by decide)).1,
   ((word_size_selected Build.standard Env.with_pointer_size_48 (State.initial none)
      rfl rfl).2.2.1 (by decide) (by decide) (by decide)).2,
   by decide⟩

/-- C22: without an output file (`asm_out_file` null) each of the three
callbacks writes nothing to the assembler output:
`annobin_create_function_notes` and `annobin_create_loader_notes` return at
once with the state as it was, and `annobin_create_global_notes` at most
reports, at verbosity 1, that the output file is not available (deriving the
file name symbol that is printed in front of the message). The values saved
for the unit, the word size flag, the note counter and the running total and
maximum of the stack usage are the ones from before the call. -/
theorem callbacks_without_output (K : Build) (big_endian : Bool) (env : Env) (st : State)
    (hnosink : env.asm_out_file = false) :
    (annobin_create_global_notes K env st).core = st.core ∧
    (annobin_create_global_notes K env st).asm_out = st.asm_out ∧
    (annobin_create_global_notes K env st).global_stack_prot_option
      = st.global_stack_prot_option ∧
    (annobin_create_global_notes K env st).global_stack_clash_option
      = st.global_stack_clash_option ∧
    (annobin_create_global_notes K env st).global_pic_option = st.global_pic_option ∧
    (annobin_create_global_notes K env st).global_GOWall_options = st.global_GOWall_options ∧
    (annobin_create_global_notes K env st).global_short_enums = st.global_short_enums ∧
    (annobin_create_global_notes K env st).annobin_is_64bit = st.annobin_is_64bit ∧
    (annobin_create_global_notes K env st).annobin_note_count = st.annobin_note_count ∧
    (annobin_create_global_notes K env st).annobin_total_static_stack_usage
      = st.annobin_total_static_stack_usage ∧
    (annobin_create_global_notes K env st).annobin_max_stack_size = st.annobin_max_stack_size ∧
    annobin_create_function_notes K env st = st ∧
    annobin_create_loader_notes K big_endian env st = st := by
  have hc : (annobin_create_global_notes K env st).core = st.core := by
    unfold annobin_create_global_notes
    rw [hnosink]
    split
    · rfl
    · exact inform_core ..
  refine ⟨hc, (by have h := congrArg State.asm_out hc; exact h), (by have h := congrArg State.global_stack_prot_option hc; exact h),
    (by have h := congrArg State.global_stack_clash_option hc; exact h), (by have h := congrArg State.global_pic_option hc; exact h),
    (by have h := congrArg State.global_GOWall_options hc; exact h), (by have h := congrArg State.global_short_enums hc; exact h),
    (by have h := congrArg State.annobin_is_64bit hc; exact h), (by have h := congrArg State.annobin_note_count hc; exact h),
    (by have h := congrArg State.annobin_total_static_stack_usage hc; exact h),
    (by have h := congrArg State.annobin_max_stack_size hc; exact h), ?_, ?_⟩
  · unfold annobin_create_function_notes
    rw [hnosink]
    split <;> rfl
  · unfold annobin_create_loader_notes
    rw [hnosink]
    rfl

/-- Witness of `callbacks_without_output`: the sample compilation without an
output file. -/
theorem callbacks_without_output_witness :
    (annobin_create_global_notes Build.standard Env.without_output (State.initial none)).asm_out
      = [] ∧
    annobin_create_function_notes Build.standard Env.without_output (State.initial none)
      = State.initial none ∧
    annobin_create_loader_notes Build.standard false Env.without_output (State.initial none)
      = State.initial none :=
  ⟨(callbacks_without_output Build.standard false Env.without_output (State.initial none)
      rfl).2.1,
   (callbacks_without_output Build.standard false Env.without_output (State.initial none)
      rfl).2.2.2.2.2.2.2.2.2.2.2.1,
   (callbacks_without_output Build.standard false Env.without_output (State.initial none)
      rfl).2.2.2.2.2.2.2.2.2.2.2.2⟩

/-- C29: for every level from -1 to 3 `record_fortify_level` (output file open)
writes one note of open scope without a descriptor whose name has exactly 13
bytes: `G`, `A`, the numeric type byte, `FORTIFY`, a NUL, one value byte that
is the level modulo 256 (255 for -1, a single zero byte for 0), and a final
NUL. -/
theorem fortify_note_bytes (K : Build) (env : Env) (st : State) (level : Int)
    (hsink : env.asm_out_file = true) (hlow : -1 ≤ level) (hhigh : level ≤ 3) :
    ∃ a : NoteArgs,
      (record_fortify_level K env st level).asm_out
        = st.asm_out ++ [Chunk.note a (note_text K st.annobin_is_64bit a)] ∧
      a.type = K.NT_GNU_BUILD_ATTRIBUTE_OPEN ∧
      a.desc1 = none ∧ a.desc2 = none ∧ a.descsz = 0 ∧
      a.namesz = 13 ∧
      a.name_bytes
        = [71, 65, fmt_c K.GNU_BUILD_ATTRIBUTE_TYPE_NUMERIC, 70, 79, 82, 84, 73, 70, 89,
           0, if level = -1 then 255 else level.toNat, 0] ∧
      a.name_bytes.length = 13 ∧
      a.name_bytes.drop 3 = cstr "FORTIFY" ++ [0, (level % 256).toNat, 0] := by
  have hb : (level % 256).toNat = if level = -1 then 255 else level.toNat := by
    split <;> omega
  have hk := fortify_note_key K env level
  have hn : (fortify_note_args K env level).name_bytes = fortify_name K level :=
    congrArg Prod.snd hk
  have hname : fortify_name K level
      = [71, 65, fmt_c K.GNU_BUILD_ATTRIBUTE_TYPE_NUMERIC, 70, 79, 82, 84, 73, 70, 89,
         0, if level = -1 then 255 else level.toNat, 0] := by
    unfold fortify_name
    rw [cstr_FORTIFY, hb]
    rfl
  refine ⟨fortify_note_args K env level, ?_, rfl, rfl, rfl, rfl, rfl, ?_, ?_, ?_⟩
  · have h1 : (record_fortify_level K env st level).asm_out
        = (annobin_output_note K env st (fortify_note_args K env level)).asm_out :=
      core_asm_out (inform_core ..)
    rw [h1, output_note_asm_out K env st _ hsink]
  · rw [hn, hname]
  · rw [hn, hname]
    rfl
  · rw [hn, hname, cstr_FORTIFY, hb]
    rfl

/-- Witness of `fortify_note_bytes`: the level -1 is written as the byte 255. -/
theorem fortify_note_bytes_witness :
    ∃ a : NoteArgs,
      (record_fortify_level Build.standard Env.plain (State.initial none) (-1)).asm_out
        = (State.initial none).asm_out
          ++ [Chunk.note a (note_text Build.standard (State.initial none).annobin_is_64bit a)] ∧
      a.name_bytes = [71, 65, 42, 70, 79, 82, 84, 73, 70, 89, 0, 255, 0] := by
  obtain ⟨a, h1, _, _, _, _, _, h2, _⟩ :=
    fortify_note_bytes Build.standard Env.plain (State.initial none) (-1) rfl
      (by decide) (by decide)
  exact ⟨a, h1, h2⟩

/-- The packed word is the one computed from the inputs with every field that
is out of range replaced by 0. -/
theorem GOWall_value_defaults (K : Build) (env : Env) :
    GOWall_value K env
      = GOWall_value K
          { env with
            write_symbols :=
              if env.write_symbols > K.VMS_AND_DWARF2_DEBUG then 0 else env.write_symbols
            debug_info_level :=
              if env.debug_info_level > K.DINFO_LEVEL_VERBOSE then 0 else env.debug_info_level
            dwarf_version :=
              if env.dwarf_version < 0 ∨ env.dwarf_version > 7 then 0 else env.dwarf_version } := by
  unfold GOWall_value
  by_cases h1 : env.write_symbols > K.VMS_AND_DWARF2_DEBUG <;>
    by_cases h2 : env.debug_info_level > K.DINFO_LEVEL_VERBOSE <;>
    by_cases h3 : env.dwarf_version < 0 ∨ env.dwarf_version > 7 <;>
    simp [h1, h2, h3, toUInt]

/-- The packed word as the sum of its shifted fields, for inputs that the tests
of `compute_GOWall_options` accept. -/
theorem GOWall_value_sum (K : Build) (env : Env)
    (hd : env.write_symbols ≤ K.VMS_AND_DWARF2_DEBUG) (hd7 : env.write_symbols ≤ 7)
    (hl : env.debug_info_level ≤ K.DINFO_LEVEL_VERBOSE) (hl3 : env.debug_info_level ≤ 3)
    (hw0 : 0 ≤ env.dwarf_version) (hw7 : env.dwarf_version ≤ 7) (ho : 0 ≤ env.optimize) :
    GOWall_value K env
      = env.write_symbols + 8 * flag_bit (env.use_gnu_debug_info_extensions = true)
        + 16 * env.debug_info_level + 64 * env.dwarf_version.toNat
        + 512 * min env.optimize.toNat 3
        + 2048 * flag_bit (env.optimize_size ≠ 0)
        + 4096 * flag_bit (env.optimize_fast ≠ 0)
        + 8192 * flag_bit (env.optimize_debug ≠ 0)
        + 16384 * flag_bit (∃ o ∈ env.save_decoded_options, o.opt_index = OptIndex.OPT_Wall) := by
  have hf := GOWall_value_fields K env hd hd7 hl hl3 hw0 hw7 ho
  have b : ∀ (c : Prop) [Decidable c], flag_bit c ≤ 1 := by
    intro c _
    unfold flag_bit
    split <;> omega
  have b1 := b (env.use_gnu_debug_info_extensions = true)
  have b2 := b (env.optimize_size ≠ 0)
  have b3 := b (env.optimize_fast ≠ 0)
  have b4 := b (env.optimize_debug ≠ 0)
  have b5 := b (∃ o ∈ env.save_decoded_options, o.opt_index = OptIndex.OPT_Wall)
  generalize flag_bit (env.use_gnu_debug_info_extensions = true) = e at hf b1 ⊢
  generalize flag_bit (env.optimize_size ≠ 0) = os at hf b2 ⊢
  generalize flag_bit (env.optimize_fast ≠ 0) = ofast at hf b3 ⊢
  generalize flag_bit (env.optimize_debug ≠ 0) = og at hf b4 ⊢
  generalize flag_bit (∃ o ∈ env.save_decoded_options, o.opt_index = OptIndex.OPT_Wall) = wl
    at hf b5 ⊢
  have hw : env.dwarf_version.toNat ≤ 7 := by omega
  have hm : min env.optimize.toNat 3 ≤ 3 := Nat.min_le_right _ _
  generalize env.dwarf_version.toNat = w at hf hw ⊢
  generalize min env.optimize.toNat 3 = o at hf hm ⊢
  generalize env.write_symbols = d at hf hd7 ⊢
  generalize env.debug_info_level = l at hf hl3 ⊢
  rw [hf, or_shift d e 3 (by omega), or_shift _ l 4 (by omega), or_shift _ w 6 (by omega),
    or_shift _ o 9 (by omega), or_shift _ os 11 (by omega), or_shift _ ofast 12 (by omega),
    or_shift _ og 13 (by omega), or_shift _ wl 14 (by omega)]
  norm_num

/-- The messages of `compute_GOWall_options`. -/
theorem GOWall_checks_formats (K : Build) (env : Env) (st : State) :
    (compute_GOWall_options K env st).2.formats
      = st.formats
        ++ (if env.write_symbols > K.VMS_AND_DWARF2_DEBUG then
              ["ICE: unknown debug info type %d\n"] else [])
        ++ (if env.debug_info_level > K.DINFO_LEVEL_VERBOSE then
              ["ICE: unknown debug info level %d\n"] else [])
        ++ (if env.dwarf_version < 0 ∨ env.dwarf_version > 7 then
              ["ICE: unknown dwarf version level %d\n"] else []) := by
  unfold compute_GOWall_options GOWall_checks
  simp only [inform_if_formats, decide_eq_true_eq]

/-- C28: `compute_GOWall_options` is a total function that replaces each input
that is out of range by 0, each on its own: a debug type above
`VMS_AND_DWARF2_DEBUG` leaves 0 in the bits 0 to 2, a debug level above
`DINFO_LEVEL_VERBOSE` leaves 0 in the bits 4 and 5, a DWARF version outside 0
to 7 leaves 0 in the bits 6 to 8, each with its message; in each case the word
is the one computed with that input replaced by 0, and every field holds its
input (or 0 if that is out of range) whatever the other inputs are. The two
header constants are taken to fit their fields, the optimisation level not to
be negative. -/
theorem GOWall_out_of_range (K : Build) (env : Env) (st : State)
    (hK7 : K.VMS_AND_DWARF2_DEBUG ≤ 7) (hK3 : K.DINFO_LEVEL_VERBOSE ≤ 3)
    (ho : 0 ≤ env.optimize) :
    (env.write_symbols > K.VMS_AND_DWARF2_DEBUG →
      (compute_GOWall_options K env st).1
        = (compute_GOWall_options K { env with write_symbols := 0 } st).1 ∧
      (compute_GOWall_options K env st).1 % 8 = 0 ∧
      "ICE: unknown debug info type %d\n" ∈ (compute_GOWall_options K env st).2.formats) ∧
    (env.debug_info_level > K.DINFO_LEVEL_VERBOSE →
      (compute_GOWall_options K env st).1
        = (compute_GOWall_options K { env with debug_info_level := 0 } st).1 ∧
      ((compute_GOWall_options K env st).1 >>> 4) % 4 = 0 ∧
      "ICE: unknown debug info level %d\n" ∈ (compute_GOWall_options K env st).2.formats) ∧
    (env.dwarf_version < 0 ∨ env.dwarf_version > 7 →
      (compute_GOWall_options K env st).1
        = (compute_GOWall_options K { env with dwarf_version := 0 } st).1 ∧
      ((compute_GOWall_options K env st).1 >>> 6) % 8 = 0 ∧
      "ICE: unknown dwarf version level %d\n" ∈ (compute_GOWall_options K env st).2.formats) ∧
    (compute_GOWall_options K env st).1 % 8
      = (if env.write_symbols > K.VMS_AND_DWARF2_DEBUG then 0 else env.write_symbols) ∧
    ((compute_GOWall_options K env st).1 >>> 3) % 2
      = flag_bit (env.use_gnu_debug_info_extensions = true) ∧
    ((compute_GOWall_options K env st).1 >>> 4) % 4
      = (if env.debug_info_level > K.DINFO_LEVEL_VERBOSE then 0 else env.debug_info_level) ∧
    ((compute_GOWall_options K env st).1 >>> 6) % 8
      = (if env.dwarf_version < 0 ∨ env.dwarf_version > 7 then 0
         else env.dwarf_version.toNat) ∧
    ((compute_GOWall_options K env st).1 >>> 9) % 4 = min env.optimize.toNat 3 ∧
    ((compute_GOWall_options K env st).1 >>> 11) % 2 = flag_bit (env.optimize_size ≠ 0) ∧
    ((compute_GOWall_options K env st).1 >>> 12) % 2 = flag_bit (env.optimize_fast ≠ 0) ∧
    ((compute_GOWall_options K env st).1 >>> 13) % 2 = flag_bit (env.optimize_debug ≠ 0) ∧
    ((compute_GOWall_options K env st).1 >>> 14) % 2
      = flag_bit (∃ o ∈ env.save_decoded_options, o.opt_index = OptIndex.OPT_Wall) := by
  have hv : ∀ e : Env, (compute_GOWall_options K e st).1 = GOWall_value K e := fun _ => rfl
  have hfm := GOWall_checks_formats K env st
  have hdef := GOWall_value_defaults K env
  have hs := GOWall_value_sum K
    { env with
      write_symbols :=
        if env.write_symbols > K.VMS_AND_DWARF2_DEBUG then 0 else env.write_symbols
      debug_info_level :=
        if env.debug_info_level > K.DINFO_LEVEL_VERBOSE then 0 else env.debug_info_level
      dwarf_version :=
        if env.dwarf_version < 0 ∨ env.dwarf_version > 7 then 0 else env.dwarf_version }
    (by show (if _ then _ else _) ≤ _; split <;> omega)
    (by show (if _ then _ else _) ≤ _; split <;> omega)
    (by show (if _ then _ else _) ≤ _; split <;> omega)
    (by show (if _ then _ else _) ≤ _; split <;> omega)
    (by show (0 : Int) ≤ (if _ then _ else _); split <;> omega)
    (by show (if _ then _ else _) ≤ (7 : Int); split <;> omega)
    ho
  rw [← hdef] at hs
  simp only [] at hs
  have b : ∀ (c : Prop) [Decidable c], flag_bit c ≤ 1 := by
    intro c _
    unfold flag_bit
    split <;> omega
  have b1 := b (env.use_gnu_debug_info_extensions = true)
  have b2 := b (env.optimize_size ≠ 0)
  have b3 := b (env.optimize_fast ≠ 0)
  have b4 := b (env.optimize_debug ≠ 0)
  have b5 := b (∃ o ∈ env.save_decoded_options, o.opt_index = OptIndex.OPT_Wall)
  have hm : min env.optimize.toNat 3 ≤ 3 := Nat.min_le_right _ _
  have hd' : (if env.write_symbols > K.VMS_AND_DWARF2_DEBUG then 0 else env.write_symbols)
      ≤ 7 := by split <;> omega
  have hl' : (if env.debug_info_level > K.DINFO_LEVEL_VERBOSE then 0
      else env.debug_info_level) ≤ 3 := by split <;> omega
  have hw' : (if env.dwarf_version < 0 ∨ env.dwarf_version > 7 then (0 : Int)
      else env.dwarf_version).toNat ≤ 7 := by split <;> omega
  have hw'' : (if env.dwarf_version < 0 ∨ env.dwarf_version > 7 then (0 : Int)
      else env.dwarf_version).toNat
      = (if env.dwarf_version < 0 ∨ env.dwarf_version > 7 then 0
         else env.dwarf_version.toNat) := by split <;> rfl
  have fields :
      GOWall_value K env % 8
        = (if env.write_symbols > K.VMS_AND_DWARF2_DEBUG then 0 else env.write_symbols) ∧
      (GOWall_value K env >>> 3) % 2 = flag_bit (env.use_gnu_debug_info_extensions = true) ∧
      (GOWall_value K env >>> 4) % 4
        = (if env.debug_info_level > K.DINFO_LEVEL_VERBOSE then 0
           else env.debug_info_level) ∧
      (GOWall_value K env >>> 6) % 8
        = (if env.dwarf_version < 0 ∨ env.dwarf_version > 7 then 0
           else env.dwarf_version.toNat) ∧
      (GOWall_value K env >>> 9) % 4 = min env.optimize.toNat 3 ∧
      (GOWall_value K env >>> 11) % 2 = flag_bit (env.optimize_size ≠ 0) ∧
      (GOWall_value K env >>> 12) % 2 = flag_bit (env.optimize_fast ≠ 0) ∧
      (GOWall_value K env >>> 13) % 2 = flag_bit (env.optimize_debug ≠ 0) ∧
      (GOWall_value K env >>> 14) % 2
        = flag_bit (∃ o ∈ env.save_decoded_options, o.opt_index = OptIndex.OPT_Wall) := by
    rw [← hw'']
    generalize flag_bit (env.use_gnu_debug_info_extensions = true) = e at hs b1 ⊢
    generalize flag_bit (env.optimize_size ≠ 0) = os at hs b2 ⊢
    generalize flag_bit (env.optimize_fast ≠ 0) = ofast at hs b3 ⊢
    generalize flag_bit (env.optimize_debug ≠ 0) = og at hs b4 ⊢
    generalize flag_bit (∃ o ∈ env.save_decoded_options, o.opt_index = OptIndex.OPT_Wall) = wl
      at hs b5 ⊢
    generalize min env.optimize.toNat 3 = o at hs hm ⊢
    generalize (if env.write_symbols > K.VMS_AND_DWARF2_DEBUG then 0
      else env.write_symbols) = d at hs hd' ⊢
    generalize (if env.debug_info_level > K.DINFO_LEVEL_VERBOSE then 0
      else env.debug_info_level) = l at hs hl' ⊢
    generalize (if env.dwarf_version < 0 ∨ env.dwarf_version > 7 then (0 : Int)
      else env.dwarf_version).toNat = w at hs hw' ⊢
    generalize GOWall_value K env = v at hs ⊢
    simp only [Nat.shiftRight_eq_div_pow]
    refine ⟨?_, ?_, ?_, ?_, ?_, ?_, ?_, ?_, ?_⟩ <;> omega
  obtain ⟨g1, g2, g3, g4, g5, g6, g7, g8, g9⟩ := fields
  simp only [hv]
  refine ⟨?_, ?_, ?_, g1, g2, g3, g4, g5, g6, g7, g8, g9⟩
  · intro h
    refine ⟨?_, by rw [g1, if_pos h], ?_⟩
    · rw [hdef, GOWall_value_defaults K { env with write_symbols := 0 }]
      simp [h]
    · rw [hfm, if_pos h]
      simp
  · intro h
    refine ⟨?_, by rw [g3, if_pos h], ?_⟩
    · rw [hdef, GOWall_value_defaults K { env with debug_info_level := 0 }]
      simp [h]
    · rw [hfm, if_pos h]
      simp
  · intro h
    refine ⟨?_, by rw [g4, if_pos h], ?_⟩
    · rw [hdef, GOWall_value_defaults K { env with dwarf_version := 0 }]
      simp [h]
    · rw [hfm, if_pos h]
      simp

/-- Witness of `GOWall_out_of_range`: with `-O2 -Wall` and the three debug
inputs out of range the word holds the optimisation level and the Wall bit
alone. -/
theorem GOWall_out_of_range_witness :
    (compute_GOWall_options Build.standard Env.with_unknown_debug (State.initial none)).1
      = 17408 ∧
    (compute_GOWall_options Build.standard Env.with_unknown_debug (State.initial none)).1 % 8
      = 0 ∧
    "ICE: unknown debug info type %d\n"
      ∈ (compute_GOWall_options Build.standard Env.with_unknown_debug
          (State.initial none)).2.formats :=
  ⟨by decide,
   ((GOWall_out_of_range Build.standard Env.with_unknown_debug (State.initial none)
      (by decide) (by decide) (by decide)).1 (by decide)).2.1,
   ((GOWall_out_of_range Build.standard Env.with_unknown_debug (State.initial none)
      (by decide) (by decide) (by decide)).1 (by decide)).2.2⟩

/-- Where the loop of `annobin_output_numeric_note` stops, for any value: it
uses one round for each base-256 digit of the value, as far as the fuel
reaches, and leaves what remains of the value. -/
theorem numeric_loop_exit (fuel : Nat) : ∀ (buffer : List Nat) (i v : Nat),
    (numeric_loop fuel buffer i v).2
      = (i + min (Nat.digits 256 v).length fuel,
         v / 256 ^ min (Nat.digits 256 v).length fuel) := by
  induction fuel with
  | zero =>
    intro buffer i v
    simp [numeric_loop]
  | succ fuel ih =>
    intro buffer i v
    by_cases hv : v = 0
    · subst hv
      simp [numeric_loop]
    · have hd : Nat.digits 256 v = v % 256 :: Nat.digits 256 (v / 256) :=
        Nat.digits_def' (by norm_num) (Nat.pos_of_ne_zero hv)
      simp only [numeric_loop, hv, if_false]
      rw [ih, hd, List.length_cons, Nat.succ_min_succ, pow_succ, Nat.mul_comm,
        Nat.div_div_eq_div_mul]
      congr 1
      omega

/-- The remainder of a value behind `k` base-256 digits is 0 iff the value has at
most `k` digits. -/
theorem div_pow_eq_zero_iff_digits (v k : Nat) :
    v / 256 ^ k = 0 ↔ (Nat.digits 256 v).length ≤ k := by
  rw [Nat.div_eq_zero_iff (by positivity)]
  constructor
  · intro h
    by_cases hv : v = 0
    · subst hv; simp
    · rw [Nat.digits_len 256 v (by norm_num) hv]
      exact Nat.log_lt_of_lt_pow hv h
  · intro h
    exact lt_of_lt_of_le (Nat.lt_base_pow_length_digits (by norm_num))
      (Nat.pow_le_pow_right (by norm_num) h)

theorem inform_if_is_64bit (c : Bool) (env : Env) (st : State) (format : String) :
    (inform_if c env st format).annobin_is_64bit = st.annobin_is_64bit :=
  core_is_64bit (inform_if_core ..)

theorem inform_zero_formats (env : Env) (st : State) (format : String) :
    (annobin_inform env st 0 format).formats = st.formats ++ [format] := by
  rw [inform_formats]
  simp

theorem check_descsz_formats (env : Env) (st : State) (a : NoteArgs) :
    (check_descsz env st a).formats
      = st.formats ++ descsz_check_messages st.annobin_is_64bit a := by
  unfold check_descsz descsz_check_messages
  by_cases h0 : a.descsz = 0
  · rw [if_pos h0, if_pos h0, inform_zero_formats]
  · rw [if_neg h0, if_neg h0]
    by_cases h4 : a.descsz = 4
    · rw [if_pos h4, if_pos h4]
      simp only [inform_if_formats, inform_if_is_64bit, List.append_assoc]
    · rw [if_neg h4, if_neg h4]
      by_cases h8 : a.descsz = 8
      · rw [if_pos h8, if_pos h8]
        split <;> simp only [inform_if_formats]
      · rw [if_neg h8, if_neg h8]
        by_cases h16 : a.descsz = 16
        · rw [if_pos h16, if_pos h16]
          simp only [inform_if_formats]
        · rw [if_neg h16, if_neg h16, inform_zero_formats]

/-- The messages that `annobin_output_note` reports: those about the name, then
those about the descriptor. -/
theorem note_checks_formats (env : Env) (st : State) (a : NoteArgs) :
    (note_checks env st a).formats
      = st.formats ++ name_check_messages a ++ desc_check_messages st.annobin_is_64bit a := by
  unfold note_checks name_check_messages desc_check_messages
  cases hn : a.name <;> cases hd : a.desc1 <;> cases hs : a.name_is_string <;>
    cases hds : a.desc_is_string <;>
    simp only [inform_if_formats, check_descsz_formats, inform_if_is_64bit,
      List.append_assoc, Bool.false_eq_true, if_false, if_true, false_and, true_and,
      List.append_nil, List.nil_append, bne_iff_ne, ne_eq, ite_not]

theorem raw_desc_words : ∀ (fuel : Nat) (bytes : List Nat),
    (raw_desc_lines fuel bytes).filterMap Asm.word = [] := by
  intro fuel
  induction fuel with
  | zero => intro bytes; rfl
  | succ fuel ih =>
    intro bytes
    unfold raw_desc_lines
    split
    · rfl
    · rw [List.filterMap_cons]
      exact ih _

theorem padding_words (sz : Nat) : (padding sz).filterMap Asm.word = [] := by
  unfold padding
  split <;> rfl

/-- The three `.dc.l` lines of a note: the size of the name, the size of the
descriptor and the type; 0 stands for the size of a null name or descriptor. -/
theorem note_text_words (K : Build) (is64 : Bool) (a : NoteArgs) :
    (note_text K is64 a).filterMap Asm.word
      = [if a.name.isSome then a.namesz else 0, if a.desc1.isSome then a.descsz else 0,
         a.type] := by
  obtain ⟨c1, c2, c3, h⟩ := note_text_parts K is64 a
  rw [h]
  by_cases hw : a.type = K.NT_GNU_BUILD_ATTRIBUTE_FUNC ∨ a.type = K.NT_GNU_BUILD_ATTRIBUTE_OPEN <;>
    cases a.name <;> cases a.desc1 <;> cases a.name_is_string <;> cases a.desc_is_string <;>
    cases a.desc2 <;> cases is64 <;>
    simp [hw, Asm.word, sym_ref, padding_words, raw_desc_words, List.filterMap_append]

theorem padding_ref_bytes (sz : Nat) : ((padding sz).map Asm.ref_bytes).sum = 0 := by
  unfold padding
  split <;> rfl

/-- The bytes of the references to symbols in a note whose descriptor holds
symbol names: one word for each symbol. -/
theorem note_text_ref_bytes (K : Build) (is64 : Bool) (a : NoteArgs) (d1 : List Nat)
    (hd : a.desc1 = some d1) (hs : a.desc_is_string = true) :
    ((note_text K is64 a).map Asm.ref_bytes).sum = word_size is64 * a.symbols := by
  obtain ⟨c1, c2, c3, h⟩ := note_text_parts K is64 a
  rw [h, hd, hs]
  unfold NoteArgs.symbols word_size
  by_cases hw : a.type = K.NT_GNU_BUILD_ATTRIBUTE_FUNC ∨ a.type = K.NT_GNU_BUILD_ATTRIBUTE_OPEN <;>
    cases a.name <;> cases a.name_is_string <;> cases a.desc2 <;> cases is64 <;>
    simp [hw, Asm.ref_bytes, sym_ref, padding_ref_bytes]

theorem descsz_check_messages_mem (is64 : Bool) (a : NoteArgs) :
    ∀ m ∈ descsz_check_messages is64 a, m ∈ descsz_messages := by
  unfold descsz_check_messages descsz_messages
  intro m hm
  repeat' split at hm
  all_goals simp at hm
  all_goals first
    | (subst hm; simp)
    | (rcases hm with rfl | rfl <;> simp)

theorem descsz_check_messages_nil (is64 : Bool) (a : NoteArgs) (d1 : List Nat)
    (hd : a.desc1 = some d1) :
    descsz_check_messages is64 a = [] ↔ a.descsz = word_size is64 * a.symbols := by
  unfold descsz_check_messages NoteArgs.symbols word_size
  rw [hd]
  by_cases h0 : a.descsz = 0
  · rw [if_pos h0]
    cases is64 <;> cases a.desc2 <;> simp [h0]
  · rw [if_neg h0]
    by_cases h4 : a.descsz = 4
    · rw [if_pos h4]
      cases is64 <;> cases a.desc2 <;> simp [h4]
    · rw [if_neg h4]
      by_cases h8 : a.descsz = 8
      · rw [if_pos h8]
        cases is64 <;> cases a.desc2 <;> simp [h8]
      · rw [if_neg h8]
        by_cases h16 : a.descsz = 16
        · rw [if_pos h16]
          cases is64 <;> cases a.desc2 <;> simp [h16]
        · rw [if_neg h16]
          cases is64 <;> cases a.desc2 <;> simp <;> omega

/-- C26: for a descriptor that holds symbol names (`desc1` not null,
`desc_is_string` set) `annobin_output_note` reports one of the messages about
the size of the descriptor iff the size requested differs from the size of a
word (8 bytes if `annobin_is_64bit`, else 4) times the number of symbols
given; without such a message the size written in the second word of the note
is the number of bytes of the references to symbols that follow, one word for
each symbol. With `desc1` null the size written is 0 whatever size was
requested. -/
theorem descriptor_size_check (K : Build) (env : Env) (st : State) (a : NoteArgs)
    (hsink : env.asm_out_file = true) :
    ∃ text : List Asm,
      (annobin_output_note K env st a).asm_out = st.asm_out ++ [Chunk.note a text] ∧
      (annobin_output_note K env st a).formats
        = st.formats ++ name_check_messages a ++ desc_check_messages st.annobin_is_64bit a ∧
      (∀ m ∈ name_check_messages a, m ∉ descsz_messages) ∧
      (∀ d1 : List Nat, a.desc1 = some d1 → a.desc_is_string = true →
        desc_check_messages st.annobin_is_64bit a
          = descsz_check_messages st.annobin_is_64bit a ∧
        (∀ m ∈ descsz_check_messages st.annobin_is_64bit a, m ∈ descsz_messages) ∧
        (descsz_check_messages st.annobin_is_64bit a ≠ []
          ↔ a.descsz ≠ word_size st.annobin_is_64bit * a.symbols) ∧
        text.filterMap Asm.word = [if a.name.isSome then a.namesz else 0, a.descsz, a.type] ∧
        (text.map Asm.ref_bytes).sum = word_size st.annobin_is_64bit * a.symbols ∧
        (descsz_check_messages st.annobin_is_64bit a = [] →
          (text.map Asm.ref_bytes).sum = a.descsz)) ∧
      (a.desc1 = none →
        text.filterMap Asm.word = [if a.name.isSome then a.namesz else 0, 0, a.type]) := by
  refine ⟨note_text K st.annobin_is_64bit a, output_note_asm_out K env st a hsink, ?_, ?_,
    ?_, ?_⟩
  · rw [output_note_formats K env st a hsink, note_checks_formats]
  · unfold name_check_messages descsz_messages
    intro m hm
    repeat' split at hm
    all_goals simp at hm
    all_goals subst hm
    all_goals decide
  · intro d1 hd hs
    have hnil := descsz_check_messages_nil st.annobin_is_64bit a d1 hd
    have hb := note_text_ref_bytes K st.annobin_is_64bit a d1 hd hs
    refine ⟨?_, descsz_check_messages_mem _ a, not_congr hnil, ?_, hb, ?_⟩
    · unfold desc_check_messages
      rw [hd]
      simp only [hs, if_true]
    · rw [note_text_words, hd]
      rfl
    · intro h
      rw [hb, hnil.mp h]
  · intro hd
    rw [note_text_words, hd]
    rfl

/-- Witness of `descriptor_size_check`: the sample note with a request for 4
bytes, on a 32-bit target, has two symbols: the message is reported. -/
theorem descriptor_size_check_witness :
    ∃ text : List Asm,
      (annobin_output_note Build.standard Env.plain (State.initial none)
          NoteArgs.sample_short).asm_out
        = (State.initial none).asm_out ++ [Chunk.note NoteArgs.sample_short text] ∧
      (annobin_output_note Build.standard Env.plain (State.initial none)
          NoteArgs.sample_short).formats = ["ICE: descz too small"] := by
  obtain ⟨text, h1, h2, _⟩ := descriptor_size_check Build.standard Env.plain
    (State.initial none) NoteArgs.sample_short rfl
  exact ⟨text, h1, h2⟩

/-- The two messages of `annobin_output_numeric_note` are not among the messages
of `annobin_output_note`. -/
theorem check_messages_not_numeric (is64 : Bool) (a : NoteArgs) :
    ∀ m ∈ name_check_messages a ++ desc_check_messages is64 a,
      m ≠ "ICE: Numeric value for %s too big to fit into 8 bytes\n" ∧
      m ≠ "ICE: Unable to record numeric value in note %s\n" := by
  intro m hm
  rcases List.mem_append.mp hm with h | h
  · unfold name_check_messages at h
    repeat' split at h
    all_goals simp at h
    all_goals subst h
    all_goals decide
  · unfold desc_check_messages at h
    split at h
    · rcases List.mem_append.mp h with h | h
      all_goals split at h
      all_goals simp at h
      all_goals subst h
      all_goals decide
    · split at h
      · have := descsz_check_messages_mem is64 a m h
        unfold descsz_messages at this
        simp only [List.mem_cons, List.mem_singleton, List.not_mem_nil, or_false] at this
        rcases this with rfl | rfl | rfl | rfl <;> decide
      · split at h
        all_goals simp at h
        all_goals subst h
        all_goals decide

theorem digits_256_gt_8 (v : Nat) : 8 < (Nat.digits 256 v).length ↔ 2 ^ 64 ≤ v := by
  have h := div_pow_eq_zero_iff_digits v 8
  rw [Nat.div_eq_zero_iff (by positivity)] at h
  have e : (256 : Nat) ^ 8 = 2 ^ 64 := by norm_num
  rw [e] at h
  omega

theorem digits_256_gt_28 (v : Nat) : 28 < (Nat.digits 256 v).length ↔ 2 ^ 224 ≤ v := by
  have h := div_pow_eq_zero_iff_digits v 28
  rw [Nat.div_eq_zero_iff (by positivity)] at h
  have e : (256 : Nat) ^ 28 = 2 ^ 224 := by norm_num
  rw [e] at h
  omega

/-- Where the loop of `annobin_output_numeric_note` is left. -/
theorem numeric_note_encode_exit (K : Build) (env : Env) (numeric_type v : Nat) :
    ((numeric_note_encode K env numeric_type v).2.1 > 12 ↔ 8 < (Nat.digits 256 v).length) ∧
    ((numeric_note_encode K env numeric_type v).2.2 ≠ 0 ↔ 28 < (Nat.digits 256 v).length) ∧
    (numeric_note_encode K env numeric_type v).2.1 ≤ 32 := by
  by_cases h0 : v = 0
  · subst h0
    simp [numeric_note_encode]
  · simp only [numeric_note_encode, h0, if_false, numeric_loop_exit]
    have hz := div_pow_eq_zero_iff_digits v (min (Nat.digits 256 v).length 28)
    refine ⟨by omega, ?_, by omega⟩
    rw [Ne, hz]
    omega

/-- C25: `annobin_output_numeric_note` reports that the value is too big to fit
into 8 bytes exactly when the value has more than 8 base-256 digits (it is
at least 2^64), and that it is unable to record the value exactly when the
loop leaves a part of the value that is not 0 (the value has more than 28
digits, the room of the buffer behind the four leading bytes). So for every
value of 64 bits neither message is reported, the loop is left at an index of
at most 12, inside the buffer of 32 bytes, with nothing left of the value, and
the note is written. -/
theorem numeric_note_diagnostics (K : Build) (env : Env) (st : State) (numeric_type v : Nat)
    (name_description : String) (start end_ : Option (List Nat)) (note_type : Nat)
    (hsink : env.asm_out_file = true) :
    ((numeric_note_encode K env numeric_type v).2.1 > 12 ↔ 8 < (Nat.digits 256 v).length) ∧
    ((numeric_note_encode K env numeric_type v).2.2 ≠ 0 ↔ 28 < (Nat.digits 256 v).length) ∧
    (8 < (Nat.digits 256 v).length ↔ 2 ^ 64 ≤ v) ∧
    (28 < (Nat.digits 256 v).length ↔ 2 ^ 224 ≤ v) ∧
    (∃ M : List String,
      (annobin_output_numeric_note K env st numeric_type v name_description start end_
          note_type).formats
        = st.formats
          ++ (if 8 < (Nat.digits 256 v).length then
                ["ICE: Numeric value for %s too big to fit into 8 bytes\n"] else [])
          ++ (if 28 < (Nat.digits 256 v).length then
                ["ICE: Unable to record numeric value in note %s\n"] else [])
          ++ M ∧
      "ICE: Numeric value for %s too big to fit into 8 bytes\n" ∉ M ∧
      "ICE: Unable to record numeric value in note %s\n" ∉ M ∧
      (v < 2 ^ 64 →
        (annobin_output_numeric_note K env st numeric_type v name_description start end_
            note_type).formats = st.formats ++ M)) ∧
    (v < 2 ^ 64 →
      (numeric_note_encode K env numeric_type v).2.1 ≤ 12 ∧
      (numeric_note_encode K env numeric_type v).2.1 < 32 ∧
      (numeric_note_encode K env numeric_type v).2.2 = 0) ∧
    (annobin_output_numeric_note K env st numeric_type v name_description start end_
        note_type).asm_out
      = st.asm_out ++
        [Chunk.note
          (numeric_note_args K env st.annobin_is_64bit numeric_type v name_description
            start end_ note_type)
          (note_text K st.annobin_is_64bit
            (numeric_note_args K env st.annobin_is_64bit numeric_type v name_description
              start end_ note_type))] := by
  obtain ⟨x1, x2, x3⟩ := numeric_note_encode_exit K env numeric_type v
  have d8 := digits_256_gt_8 v
  have d28 := digits_256_gt_28 v
  refine ⟨x1, x2, d8, d28, ?_, ?_, numeric_note_asm_out K env st numeric_type v
    name_description start end_ note_type hsink⟩
  · refine ⟨name_check_messages (numeric_note_args K env st.annobin_is_64bit numeric_type v
        name_description start end_ note_type)
      ++ desc_check_messages st.annobin_is_64bit (numeric_note_args K env st.annobin_is_64bit
        numeric_type v name_description start end_ note_type), ?_, ?_, ?_, ?_⟩
    · unfold annobin_output_numeric_note
      simp only []
      rw [output_note_formats _ _ _ _ hsink, note_checks_formats, inform_if_formats,
        inform_if_formats]
      simp only [inform_if_is_64bit, decide_eq_true_eq, bne_iff_ne, List.append_assoc]
      have e1 : (if (numeric_note_encode K env numeric_type v).2.1 > 12 then
          ["ICE: Numeric value for %s too big to fit into 8 bytes\n"] else [])
          = (if 8 < (Nat.digits 256 v).length then
              ["ICE: Numeric value for %s too big to fit into 8 bytes\n"] else []) :=
        if_congr x1 rfl rfl
      have e2 : (if (numeric_note_encode K env numeric_type v).2.2 ≠ 0 then
          ["ICE: Unable to record numeric value in note %s\n"] else [])
          = (if 28 < (Nat.digits 256 v).length then
              ["ICE: Unable to record numeric value in note %s\n"] else []) :=
        if_congr x2 rfl rfl
      rw [e1, e2]
    · intro h
      exact (check_messages_not_numeric _ _ _ h).1 rfl
    · intro h
      exact (check_messages_not_numeric _ _ _ h).2 rfl
    · intro hv
      unfold annobin_output_numeric_note
      simp only []
      rw [output_note_formats _ _ _ _ hsink, note_checks_formats, inform_if_formats,
        inform_if_formats]
      simp only [inform_if_is_64bit, List.append_assoc]
      have n1 : ¬ (numeric_note_encode K env numeric_type v).2.1 > 12 := by omega
      have n2 : (numeric_note_encode K env numeric_type v).2.2 = 0 := by
        by_contra h
        have := x2.mp h
        omega
      simp [n1, n2]
  · intro hv
    refine ⟨by omega, by omega, ?_⟩
    by_contra h
    have := x2.mp h
    omega

/-- Witness of `numeric_note_diagnostics`: the value 2^64 - 1 uses the loop up to
the index 12 and no message is reported. -/
theorem numeric_note_diagnostics_witness :
    (numeric_note_encode Build.standard Env.plain 4 18446744073709551615).2.1 = 12 ∧
    (numeric_note_encode Build.standard Env.plain 4 18446744073709551615).2.1 < 32 ∧
    (numeric_note_encode Build.standard Env.plain 4 18446744073709551615).2.2 = 0 ∧
    (annobin_output_numeric_note Build.standard Env.plain (State.initial none) 4
        18446744073709551615 "numeric: stack-size" none none 256).formats = [] :=
  ⟨by decide,
   ((numeric_note_diagnostics Build.standard Env.plain (State.initial none) 4
      18446744073709551615 "numeric: stack-size" none none 256 rfl).2.2.2.2.2.1
      (by decide)).2.1,
   ((numeric_note_diagnostics Build.standard Env.plain (State.initial none) 4
      18446744073709551615 "numeric: stack-size" none none 256 rfl).2.2.2.2.2.1
      (by decide)).2.2,
   by decide⟩

/-- C27: in a unit compiled as in `Env.plain`, for a function compiled with
another stack protector level and another optimisation level,
`annobin_create_function_notes` writes the stack protector note with the two
symbols of the function and then calls `record_GOW_settings` without symbols:
the note for the packed word requests a descriptor of 16 bytes although it has
no symbol, and `annobin_output_note` reports the message about a null `desc1`
with a size that is not 0. -/
theorem GOW_note_size_without_symbols :
    ((annobin_create_function_notes Build.standard Env.with_stack_protect_O2
        (annobin_create_global_notes Build.standard Env.plain
          (State.initial none))).notes.drop 8).map
      (fun a => (a.name_description, a.desc1, a.desc2, a.descsz))
      = [("numeric: -fstack-protector status", some [102], some [102, 95, 101, 110, 100], 16),
         ("numeric: -g/-O/-Wall", none, none, 16)] ∧
    (annobin_create_global_notes Build.standard Env.plain (State.initial none)).formats = [] ∧
    (annobin_create_function_notes Build.standard Env.with_stack_protect_O2
        (annobin_create_global_notes Build.standard Env.plain (State.initial none))).formats
      = ["ICE: null desc1 with non-zero size"] := by
  decide

theorem wrote_refl (s : State) : s.wrote s [] :=
  ⟨by simp, by simp, rfl⟩

theorem wrote_trans {s t u : State} {L M : List Chunk} (h1 : s.wrote t L) (h2 : t.wrote u M) :
    s.wrote u (L ++ M) := by
  obtain ⟨a1, b1, c1⟩ := h1
  obtain ⟨a2, b2, c2⟩ := h2
  refine ⟨by rw [a2, a1, List.append_assoc], ?_, ?_⟩
  · intro c hc
    rcases List.mem_append.mp hc with h | h
    · exact b1 c h
    · exact b2 c h
  · rw [c2, c1, List.length_append, Nat.add_comm, Function.iterate_add_apply]

theorem wrote_of_core {s t : State} (h : t.core = s.core) : s.wrote t [] := by
  refine ⟨?_, by simp, ?_⟩
  · rw [List.append_nil]
    exact core_asm_out h
  · exact core_note_count h

theorem wrote_le_refl (s : State) (n : Nat) : s.wrote_le s n := ⟨[], wrote_refl s, Nat.zero_le _⟩

theorem wrote_le_trans {s t u : State} {n m : Nat} (h1 : s.wrote_le t n) (h2 : t.wrote_le u m) :
    s.wrote_le u (n + m) := by
  obtain ⟨L, hL, lL⟩ := h1
  obtain ⟨M, hM, lM⟩ := h2
  exact ⟨L ++ M, wrote_trans hL hM, by rw [List.length_append]; omega⟩

theorem wrote_le_of_core {s t : State} (h : t.core = s.core) (n : Nat) : s.wrote_le t n :=
  ⟨[], wrote_of_core h, Nat.zero_le _⟩

theorem wrote_le_mono {s t : State} {n m : Nat} (h : s.wrote_le t n) (hnm : n ≤ m) :
    s.wrote_le t m := by
  obtain ⟨L, hL, lL⟩ := h
  exact ⟨L, hL, by omega⟩

theorem output_note_wrote (K : Build) (env : Env) (s : State) (a : NoteArgs) :
    s.wrote_le (annobin_output_note K env s a) 1 := by
  unfold annobin_output_note
  split
  · exact wrote_le_refl s 1
  · refine ⟨[Chunk.note a (note_text K (note_checks env s a).annobin_is_64bit a)], ⟨?_, ?_, ?_⟩,
      by simp⟩
    · show (note_checks env s a).asm_out ++ _ = _
      rw [core_asm_out (note_checks_core env s a)]
    · intro c hc
      rw [List.mem_singleton] at hc
      exact ⟨_, _, hc⟩
    · show ((note_checks env s a).annobin_note_count + 1) % 4294967296 = _
      rw [core_note_count (note_checks_core env s a)]
      rfl

theorem inform_wrote (env : Env) (s : State) (level : Nat) (format : String) (n : Nat) :
    s.wrote_le (annobin_inform env s level format) n :=
  wrote_le_of_core (inform_core ..) n

theorem inform_if_wrote (c : Bool) (env : Env) (s : State) (format : String) (n : Nat) :
    s.wrote_le (inform_if c env s format) n :=
  wrote_le_of_core (inform_if_core ..) n

theorem numeric_note_wrote (K : Build) (env : Env) (s : State) (numeric_type v : Nat)
    (name_description : String) (start end_ : Option (List Nat)) (note_type : Nat) :
    s.wrote_le (annobin_output_numeric_note K env s numeric_type v name_description start end_
      note_type) 1 := by
  unfold annobin_output_numeric_note
  exact wrote_le_trans (n := 0)
    (wrote_le_trans (n := 0) (m := 0) (inform_if_wrote _ env s _ 0) (inform_if_wrote _ env _ _ 0))
    (output_note_wrote ..)

theorem bool_note_wrote (K : Build) (env : Env) (s : State) (bool_type : Nat) (b : Bool)
    (name_description : String) (start end_ : Option (List Nat)) (note_type : Nat) :
    s.wrote_le (annobin_output_bool_note K env s bool_type b name_description start end_
      note_type) 1 :=
  output_note_wrote ..

theorem record_GOW_wrote (K : Build) (env : Env) (s : State) (gow : Nat) (is_local : Bool)
    (aname aname_end : Option (List Nat)) :
    s.wrote_le (record_GOW_settings K env s gow is_local aname aname_end) 1 := by
  unfold record_GOW_settings
  exact wrote_le_trans (n := 0) (inform_wrote ..) (output_note_wrote ..)

theorem stack_clash_note_wrote (K : Build) (env : Env) (s : State)
    (start end_ : Option (List Nat)) (type : Nat) :
    s.wrote_le (record_stack_clash_note K env s start end_ type) 1 :=
  output_note_wrote ..

theorem stack_prot_block_wrote (K : Build) (env : Env) (l : Locals) :
    l.st.wrote_le (stack_prot_block K env l).st 1 := by
  unfold stack_prot_block
  split
  · simp only [clear_st]
    exact wrote_le_trans (n := 0) (inform_wrote ..) (numeric_note_wrote ..)
  · exact wrote_le_refl _ 1

theorem stack_clash_block_wrote (K : Build) (env : Env) (l : Locals) :
    l.st.wrote_le (stack_clash_block K env l).st 1 := by
  unfold stack_clash_block
  split
  · simp only [clear_st]
    exact wrote_le_trans (n := 0) (inform_wrote ..) (stack_clash_note_wrote ..)
  · exact wrote_le_refl _ 1

theorem pic_block_wrote (K : Build) (env : Env) (l : Locals) :
    l.st.wrote_le (pic_block K env l).st 1 := by
  unfold pic_block
  split
  · simp only [clear_st]
    exact wrote_le_trans (n := 0) (inform_wrote ..) (numeric_note_wrote ..)
  · exact wrote_le_refl _ 1

theorem GOW_block_wrote (K : Build) (env : Env) (l : Locals) :
    l.st.wrote_le (GOW_block K env l).st 1 := by
  have hc : ∀ s : State, s.wrote_le (compute_GOWall_options K env s).2 0 := fun s =>
    wrote_le_of_core (compute_GOWall_core K env s) 0
  unfold GOW_block
  simp only []
  split
  · simp only [clear_st]
    exact wrote_le_trans (n := 0) (wrote_le_trans (n := 0) (hc _) (hc _)) (record_GOW_wrote ..)
  · exact wrote_le_mono (hc _) (Nat.zero_le _)

theorem short_enums_block_wrote (K : Build) (env : Env) (l : Locals) :
    l.st.wrote_le (short_enums_block K env l).st 1 := by
  unfold short_enums_block
  split
  · simp only [clear_st]
    exact wrote_le_trans (n := 0) (inform_wrote ..) (bool_note_wrote ..)
  · exact wrote_le_refl _ 1

theorem wrote_le_update {s t : State} (n : Nat) (h1 : t.asm_out = s.asm_out)
    (h2 : t.annobin_note_count = s.annobin_note_count) : s.wrote_le t n :=
  ⟨[], ⟨by rw [h1, List.append_nil], by simp, h2⟩, Nat.zero_le _⟩

theorem stack_size_block_wrote (K : Build) (env : Env) (l : Locals) :
    l.st.wrote_le (stack_size_block K env l).st 1 := by
  unfold stack_size_block
  split
  · simp only []
    have h1 : l.st.wrote_le
        (if toULong env.current_function_static_stack_size > l.st.stack_threshold then
          Locals.clear { l with st := (annobin_output_numeric_note K env
            (annobin_inform env l.st 1 "Recording stack usage of %lu for %s")
            K.GNU_BUILD_ATTRIBUTE_STACK_SIZE (toULong env.current_function_static_stack_size)
            "numeric: stack-size" l.aname l.aname_end K.NT_GNU_BUILD_ATTRIBUTE_FUNC) }
         else l).st 1 := by
      split
      · simp only [clear_st]
        exact wrote_le_trans (n := 0) (inform_wrote ..) (numeric_note_wrote ..)
      · exact wrote_le_refl _ 1
    generalize (if toULong env.current_function_static_stack_size > l.st.stack_threshold then
          Locals.clear { l with st := (annobin_output_numeric_note K env
            (annobin_inform env l.st 1 "Recording stack usage of %lu for %s")
            K.GNU_BUILD_ATTRIBUTE_STACK_SIZE (toULong env.current_function_static_stack_size)
            "numeric: stack-size" l.aname l.aname_end K.NT_GNU_BUILD_ATTRIBUTE_FUNC) }
         else l) = l1 at h1 ⊢
    refine wrote_le_trans (m := 0) h1 ?_
    split <;> exact wrote_le_update 0 rfl rfl
  · exact wrote_le_refl _ 1

theorem target_function_wrote (K : Build) (env : Env) (s : State)
    (aname aname_end : Option (List Nat)) :
    s.wrote_le (annobin_target_specific_function_notes K env s aname aname_end) 1 := by
  unfold annobin_target_specific_function_notes
  split
  · exact wrote_le_refl _ 1
  · simp only []
    split
    · have h1 : s.wrote_le (annobin_output_numeric_note K env
          (annobin_inform env s 1 "ISA value has changed from %lx to %lx for %s")
          K.GNU_BUILD_ATTRIBUTE_ABI (toULong env.ix86_isa_flags) "numeric: ABI" aname
          aname_end K.NT_GNU_BUILD_ATTRIBUTE_FUNC) 1 :=
        wrote_le_trans (n := 0) (inform_wrote ..) (numeric_note_wrote ..)
      generalize annobin_output_numeric_note K env
          (annobin_inform env s 1 "ISA value has changed from %lx to %lx for %s")
          K.GNU_BUILD_ATTRIBUTE_ABI (toULong env.ix86_isa_flags) "numeric: ABI" aname
          aname_end K.NT_GNU_BUILD_ATTRIBUTE_FUNC = s1 at h1 ⊢
      refine wrote_le_trans (m := 0) h1 ?_
      split_ifs <;> exact wrote_le_update 0 rfl rfl
    · exact wrote_le_refl _ 1
  · split
    · exact wrote_le_refl _ 1
    · exact wrote_le_trans (n := 0) (inform_wrote ..) (numeric_note_wrote ..)
  · split
    · exact wrote_le_refl _ 1
    · exact wrote_le_trans (n := 0) (inform_wrote ..) (numeric_note_wrote ..)

/-- The six blocks of `annobin_create_function_notes` write at most six notes. -/
theorem blocks_wrote (K : Build) (env : Env) (l : Locals) :
    l.st.wrote_le (stack_size_block K env (short_enums_block K env (GOW_block K env
      (pic_block K env (stack_clash_block K env (stack_prot_block K env l)))))).st 6 :=
  wrote_le_trans (n := 5) (wrote_le_trans (n := 4) (wrote_le_trans (n := 3)
    (wrote_le_trans (n := 2) (wrote_le_trans (n := 1) (stack_prot_block_wrote K env l)
      (stack_clash_block_wrote K env _)) (pic_block_wrote K env _)) (GOW_block_wrote K env _))
    (short_enums_block_wrote K env _)) (stack_size_block_wrote K env _)

theorem count_step_iterate (n : Nat) : ∀ c : Nat, c + n < 4294967296 →
    count_step^[n] c = c + n := by
  induction n with
  | zero => intro c _; rfl
  | succ n ih =>
    intro c h
    rw [Function.iterate_succ_apply, show count_step c = c + 1 from Nat.mod_eq_of_lt (by omega),
      ih (c + 1) (by omega)]
    omega

/-- What `annobin_create_function_notes` prints, in every case: notes, and behind
them the end label iff there is a note. -/
theorem function_notes_output (K : Build) (env : Env) (st : State)
    (hcount : st.annobin_note_count + 7 < 2 ^ 32) :
    ∃ L : List Chunk,
      (annobin_create_function_notes K env st).asm_out
        = st.asm_out ++ L
          ++ (if L = [] then [] else [Chunk.line (Asm.label (function_end_symbol env))]) ∧
      (∀ c ∈ L, ∃ a text, c = Chunk.note a text) ∧
      (annobin_create_function_notes K env st).annobin_note_count
        = st.annobin_note_count + L.length := by
  have triv : ∀ t : State, t.core = st.core →
      ∃ L : List Chunk,
        t.asm_out = st.asm_out ++ L
          ++ (if L = [] then [] else [Chunk.line (Asm.label (function_end_symbol env))]) ∧
        (∀ c ∈ L, ∃ a text, c = Chunk.note a text) ∧
        t.annobin_note_count = st.annobin_note_count + L.length := by
    intro t ht
    refine ⟨[], ?_, by simp, ?_⟩
    · simp only [if_true, List.append_nil]
      exact core_asm_out ht
    · exact core_note_count ht
  unfold annobin_create_function_notes
  split
  · exact triv st rfl
  · split
    · exact triv st rfl
    · split
      · exact triv _ (inform_core ..)
      · simp only []
        have h1 := target_function_wrote K env st
          (some ((env.function_asm_name.orElse (fun _ => env.current_function_name)).getD []))
          (some ((env.function_asm_name.orElse (fun _ => env.current_function_name)).getD []
            ++ cstr "_end"))
        generalize annobin_target_specific_function_notes K env st
          (some ((env.function_asm_name.orElse (fun _ => env.current_function_name)).getD []))
          (some ((env.function_asm_name.orElse (fun _ => env.current_function_name)).getD []
            ++ cstr "_end")) = st1 at h1 ⊢
        generalize hl0 : (if st.annobin_note_count > st1.annobin_note_count then
          (⟨st1, none, none⟩ : Locals) else _) = l0
        have hl0st : l0.st = st1 := by rw [← hl0]; split <;> rfl
        have h2 := blocks_wrote K env l0
        rw [hl0st] at h2
        obtain ⟨L, ⟨a1, a2, a3⟩, a4⟩ := wrote_le_trans h1 h2
        generalize (stack_size_block K env (short_enums_block K env (GOW_block K env
          (pic_block K env (stack_clash_block K env (stack_prot_block K env l0)))))) = l6
          at a1 a2 a3 ⊢
        rw [count_step_iterate _ _ (by omega)] at a3
        refine ⟨L, ?_, a2, ?_⟩
        · by_cases hL : L = []
          · subst hL
            rw [if_neg (by rw [a3]; simp), a1]
            simp
          · have hpos : 0 < L.length := List.length_pos.mpr hL
            rw [if_pos (by omega), if_neg hL]
            show l6.st.asm_out ++ _ = _
            rw [a1]
            rfl
        · split
          · exact a3
          · exact a3

/-- C30: `annobin_create_function_notes` prints the end label of the function,
its assembler name followed by `_end`, exactly once iff it has written at
least one note for the function (a note of the target or a generic one), that
is iff `annobin_note_count` is greater behind the call than in front of it;
nothing but notes and this label is printed. When no attribute differs and
no stack-size note is due (`function_keys` is empty) no label is printed. The
counter, an `unsigned int`, is taken not to wrap around during the call. -/
theorem function_end_label (K : Build) (env : Env) (st : State)
    (hcount : st.annobin_note_count + 7 < 2 ^ 32) :
    ∃ L : List Chunk,
      (annobin_create_function_notes K env st).asm_out
        = st.asm_out ++ L
          ++ (if L = [] then [] else [Chunk.line (Asm.label (function_end_symbol env))]) ∧
      (∀ c ∈ L, ∃ a text, c = Chunk.note a text) ∧
      (annobin_create_function_notes K env st).annobin_note_count
        = st.annobin_note_count + L.length ∧
      (L ≠ [] ↔
        (annobin_create_function_notes K env st).annobin_note_count > st.annobin_note_count) ∧
      (annobin_create_function_notes K env st).asm_out.count
          (Chunk.line (Asm.label (function_end_symbol env)))
        = st.asm_out.count (Chunk.line (Asm.label (function_end_symbol env)))
          + (if (annobin_create_function_notes K env st).annobin_note_count
                > st.annobin_note_count then 1 else 0) ∧
      (K.wf → st.annobin_enable_static_notes = true → env.asm_out_file = true →
        (env.current_function_name.isSome = true ∨ env.function_asm_name.isSome = true) →
        (notes_of L).map NoteArgs.key = function_keys K env st.frame ∧
        (function_keys K env st.frame = [] →
          (annobin_create_function_notes K env st).asm_out = st.asm_out)) := by
  obtain ⟨L, h1, h2, h3⟩ := function_notes_output K env st hcount
  have hiff : L ≠ [] ↔
      (annobin_create_function_notes K env st).annobin_note_count > st.annobin_note_count := by
    rw [h3, ← List.length_pos]
    omega
  have hno : L.count (Chunk.line (Asm.label (function_end_symbol env))) = 0 := by
    rw [List.count_eq_zero]
    intro hmem
    obtain ⟨a, text, h⟩ := h2 _ hmem
    cases h
  refine ⟨L, h1, h2, h3, hiff, ?_, ?_⟩
  · rw [h1, List.count_append, List.count_append, hno]
    by_cases hL : L = []
    · rw [if_pos hL, if_neg (fun h => (hiff.mpr h) hL)]
      rfl
    · rw [if_neg hL, if_pos (hiff.mp hL)]
      simp
  · intro hwf hstatic hsink hname
    obtain ⟨hT, hF, hSE⟩ := wf_nonzero K hwf
    have hk := (function_notes_spec K env st hstatic hsink hname hT hF hSE).2
    have e : (annobin_create_function_notes K env st).keys
        = st.keys ++ (notes_of L).map NoteArgs.key := by
      unfold State.keys
      rw [h1, notes_of_append, notes_of_append, List.map_append, List.map_append]
      split <;> simp [notes_of]
    rw [e] at hk
    have hkeys := List.append_cancel_left hk
    refine ⟨hkeys, ?_⟩
    intro hnil
    rw [hnil] at hkeys
    have hL : L = [] := by
      cases L with
      | nil => rfl
      | cons c L =>
        obtain ⟨a, text, h⟩ := h2 c (List.mem_cons_self _ _)
        subst h
        simp [notes_of] at hkeys
    rw [h1, hL]
    simp

/-- Witness of `function_end_label`: in the sample unit the function compiled
with another stack protector level and optimisation level gets two notes and
then its end label. -/
theorem function_end_label_witness :
    ∃ L : List Chunk,
      (annobin_create_function_notes Build.standard Env.with_stack_protect_O2
          (annobin_create_global_notes Build.standard Env.plain (State.initial none))).asm_out
        = (annobin_create_global_notes Build.standard Env.plain (State.initial none)).asm_out
          ++ L
          ++ (if L = [] then []
              else [Chunk.line (Asm.label (function_end_symbol Env.with_stack_protect_O2))]) ∧
      (annobin_create_function_notes Build.standard Env.with_stack_protect_O2
          (annobin_create_global_notes Build.standard Env.plain
            (State.initial none))).annobin_note_count
        = (annobin_create_global_notes Build.standard Env.plain
            (State.initial none)).annobin_note_count + L.length := by
  obtain ⟨L, h1, _, h3, _⟩ := function_end_label Build.standard Env.with_stack_protect_O2
    (annobin_create_global_notes Build.standard Env.plain (State.initial none)) (by decide)
  exact ⟨L, h1, h3⟩

theorem lines_keys (s : State) (L : List Asm) :
    ({ s with asm_out := s.asm_out ++ L.map Chunk.line } : State).keys = s.keys := by
  unfold State.keys
  show (notes_of (s.asm_out ++ L.map Chunk.line)).map NoteArgs.key = _
  rw [notes_of_append]
  have h : notes_of (L.map Chunk.line) = [] := by
    induction L with
    | nil => rfl
    | cons a L ih => simpa [notes_of] using ih
  rw [h, List.append_nil]

/-- The note that the target file writes at the end of a unit is no numeric
note: its name starts with `GN`. -/
theorem target_loader_keys (K : Build) (big_endian : Bool) (env : Env) (st : State)
    (hsink : env.asm_out_file = true) :
    ∃ T : List (Nat × List Nat),
      (annobin_target_specific_loader_notes K big_endian env st).keys = st.keys ++ T ∧
      ∀ k ∈ T, k.2 = [71, 78, 85, 0] := by
  have h : ∀ bytes : List Nat,
      (output_loader_note K env st bytes).keys
        = st.keys ++ [(K.NT_GNU_PROPERTY_TYPE_0, [71, 78, 85, 0])] := by
    intro bytes
    unfold output_loader_note
    simp only []
    rw [output_note_keys _ _ _ _ hsink]
    have := lines_keys (annobin_inform env st 1 "Creating notes for the dynamic loader")
      [Asm.pushsection K.NOTE_GNU_PROPERTY_SECTION_NAME "\"a\", %note", Asm.balign 4]
    simp only [List.map_cons, List.map_nil] at this
    rw [this, inform_keys]
    rfl
  have one : ∀ bytes : List Nat, ∃ T : List (Nat × List Nat),
      (output_loader_note K env st bytes).keys = st.keys ++ T ∧
      ∀ k ∈ T, k.2 = [71, 78, 85, 0] := by
    intro bytes
    refine ⟨_, h bytes, ?_⟩
    intro k hk
    rw [List.mem_singleton] at hk
    rw [hk]
  have none : ∃ T : List (Nat × List Nat), st.keys = st.keys ++ T ∧
      ∀ k ∈ T, k.2 = [71, 78, 85, 0] := ⟨[], by simp, by simp⟩
  unfold annobin_target_specific_loader_notes
  split
  · exact none
  · simp only []
    split
    · exact one _
    · exact one _
  · split
    · exact none
    · exact one _
  · split
    · exact none
    · exact one _

theorem GNU_not_numeric (K : Build) (sc tag : Nat) (T : List (Nat × List Nat))
    (hT : ∀ k ∈ T, k.2 = [71, 78, 85, 0]) : T.filter (is_numeric_key K sc tag) = [] := by
  rw [List.filter_eq_nil_iff]
  intro k hk
  unfold is_numeric_key
  rw [hT k hk]
  simp

theorem output_total_stack_usage_keys (K : Build) (env : Env) (st : State)
    (hsink : env.asm_out_file = true)
    (hlt : st.annobin_total_static_stack_usage < 2 ^ 64) :
    (output_total_stack_usage K env st).keys
      = st.keys
        ++ (if st.annobin_enable_stack_size_notes = true ∧
              st.annobin_total_static_stack_usage ≠ 0 then
              [(K.NT_GNU_BUILD_ATTRIBUTE_OPEN,
                numeric_name K K.GNU_BUILD_ATTRIBUTE_STACK_SIZE
                  st.annobin_total_static_stack_usage)]
            else []) := by
  unfold output_total_stack_usage
  split
  · simp only []
    have hd3 : (annobin_inform env st 1
        "Recording total static usage of %ld").annobin_total_static_stack_usage
        = st.annobin_total_static_stack_usage := by
      have := congrArg State.annobin_total_static_stack_usage
        (inform_core env st 1 "Recording total static usage of %ld")
      exact this
    have e1 := fun s : State => lines_keys s [Asm.popsection]
    have e2 := lines_keys (annobin_inform env st 1 "Recording total static usage of %ld")
      [Asm.pushsection K.GNU_BUILD_ATTRS_SECTION_NAME ""]
    simp only [List.map_cons, List.map_nil] at e1 e2
    rw [e1, numeric_note_keys _ _ _ _ _ _ _ _ _ hsink (by rw [hd3]; exact hlt), e2,
      inform_keys, hd3]
  · rw [List.append_nil]

/-- The type and name of the notes that `annobin_create_loader_notes` writes. -/
theorem loader_notes_keys (K : Build) (big_endian : Bool) (env : Env) (st : State)
    (hsink : env.asm_out_file = true)
    (hlt : st.annobin_total_static_stack_usage < 2 ^ 64) :
    ∃ T : List (Nat × List Nat),
      (annobin_create_loader_notes K big_endian env st).keys
        = st.keys
          ++ (if st.annobin_enable_dynamic_notes = true ∧
                st.annobin_enable_stack_size_notes = true ∧
                st.annobin_total_static_stack_usage ≠ 0 then
                [(K.NT_GNU_BUILD_ATTRIBUTE_OPEN,
                  numeric_name K K.GNU_BUILD_ATTRIBUTE_STACK_SIZE
                    st.annobin_total_static_stack_usage)]
              else [])
          ++ T ∧
      ∀ k ∈ T, k.2 = [71, 78, 85, 0] := by
  have hl : (output_end_symbol st).keys = st.keys := by
    have := lines_keys st
      [Asm.pushsection ".text" "",
       Asm.label (st.annobin_current_endname.getD (cstr "(null)")), Asm.popsection]
    exact this
  have d1 : (output_end_symbol st).annobin_enable_dynamic_notes
      = st.annobin_enable_dynamic_notes := rfl
  have d2 : (output_end_symbol st).annobin_enable_stack_size_notes
      = st.annobin_enable_stack_size_notes := rfl
  have d3 : (output_end_symbol st).annobin_total_static_stack_usage
      = st.annobin_total_static_stack_usage := rfl
  unfold annobin_create_loader_notes
  simp only [hsink, Bool.not_true, Bool.false_eq_true, if_false]
  rw [d1]
  cases hdyn : st.annobin_enable_dynamic_notes
  · simp only [Bool.not_false, if_true, Bool.false_eq_true, false_and, if_false,
      List.append_nil]
    exact ⟨[], by rw [hl, List.append_nil], by simp⟩
  · simp only [Bool.not_true, Bool.false_eq_true, if_false, true_and]
    obtain ⟨T, hT, hT2⟩ := target_loader_keys K big_endian env
      (output_total_stack_usage K env (output_end_symbol st)) hsink
    refine ⟨T, ?_, hT2⟩
    rw [hT, output_total_stack_usage_keys K env _ hsink (by rw [d3]; exact hlt), hl, d2, d3]

/-- C24 (amended): when dynamic notes and stack-size notes are enabled, the
output file is open and the running total `annobin_total_static_stack_usage` is
not 0, `annobin_create_loader_notes` writes exactly one numeric stack-size note
of open scope, whose value is that total; when the total is 0, or dynamic
notes or stack-size notes are disabled, it writes no such note. -/
theorem total_stack_size_note (K : Build) (big_endian : Bool) (env : Env) (st : State)
    (hsink : env.asm_out_file = true)
    (hlt : st.annobin_total_static_stack_usage < 2 ^ 64) :
    (st.annobin_enable_dynamic_notes = true → st.annobin_enable_stack_size_notes = true →
      st.annobin_total_static_stack_usage ≠ 0 →
      (annobin_create_loader_notes K big_endian env st).keys.filter
          (is_numeric_key K K.NT_GNU_BUILD_ATTRIBUTE_OPEN K.GNU_BUILD_ATTRIBUTE_STACK_SIZE)
        = st.keys.filter
            (is_numeric_key K K.NT_GNU_BUILD_ATTRIBUTE_OPEN K.GNU_BUILD_ATTRIBUTE_STACK_SIZE)
          ++ [(K.NT_GNU_BUILD_ATTRIBUTE_OPEN,
              numeric_name K K.GNU_BUILD_ATTRIBUTE_STACK_SIZE
                st.annobin_total_static_stack_usage)] ∧
      key_value (K.NT_GNU_BUILD_ATTRIBUTE_OPEN,
          numeric_name K K.GNU_BUILD_ATTRIBUTE_STACK_SIZE st.annobin_total_static_stack_usage)
        = st.annobin_total_static_stack_usage) ∧
    (st.annobin_enable_dynamic_notes = false ∨ st.annobin_enable_stack_size_notes = false ∨
        st.annobin_total_static_stack_usage = 0 →
      (annobin_create_loader_notes K big_endian env st).keys.filter
          (is_numeric_key K K.NT_GNU_BUILD_ATTRIBUTE_OPEN K.GNU_BUILD_ATTRIBUTE_STACK_SIZE)
        = st.keys.filter
            (is_numeric_key K K.NT_GNU_BUILD_ATTRIBUTE_OPEN
              K.GNU_BUILD_ATTRIBUTE_STACK_SIZE)) := by
  obtain ⟨T, hk, hT⟩ := loader_notes_keys K big_endian env st hsink hlt
  have hg := GNU_not_numeric K K.NT_GNU_BUILD_ATTRIBUTE_OPEN K.GNU_BUILD_ATTRIBUTE_STACK_SIZE
    T hT
  constructor
  · intro h1 h2 h3
    rw [hk, if_pos ⟨h1, h2, h3⟩, List.filter_append, List.filter_append, hg, List.append_nil]
    refine ⟨?_, key_value_numeric ..⟩
    congr 1
    rw [List.filter_cons, numeric_key_numeric]
    simp
  · intro h
    have hc : ¬ (st.annobin_enable_dynamic_notes = true ∧
        st.annobin_enable_stack_size_notes = true ∧
        st.annobin_total_static_stack_usage ≠ 0) := by
      rintro ⟨a, b, c⟩
      rcases h with h | h | h
      · rw [a] at h; exact absurd h (by decide)
      · rw [b] at h; exact absurd h (by decide)
      · exact c h
    rw [hk, if_neg hc, List.filter_append, List.filter_append, hg]
    simp

/-- Witness of `total_stack_size_note`: a unit whose functions used 12000 bytes
of stack gets one note with the value 12000. -/
theorem total_stack_size_note_witness :
    (annobin_create_loader_notes Build.standard false Env.plain State.with_stack_total).keys.filter
        (is_numeric_key Build.standard Build.standard.NT_GNU_BUILD_ATTRIBUTE_OPEN
          Build.standard.GNU_BUILD_ATTRIBUTE_STACK_SIZE)
      = State.with_stack_total.keys.filter
          (is_numeric_key Build.standard Build.standard.NT_GNU_BUILD_ATTRIBUTE_OPEN
            Build.standard.GNU_BUILD_ATTRIBUTE_STACK_SIZE)
        ++ [(Build.standard.NT_GNU_BUILD_ATTRIBUTE_OPEN,
            numeric_name Build.standard Build.standard.GNU_BUILD_ATTRIBUTE_STACK_SIZE
              State.with_stack_total.annobin_total_static_stack_usage)] ∧
    key_value (Build.standard.NT_GNU_BUILD_ATTRIBUTE_OPEN,
        numeric_name Build.standard Build.standard.GNU_BUILD_ATTRIBUTE_STACK_SIZE
          State.with_stack_total.annobin_total_static_stack_usage)
      = State.with_stack_total.annobin_total_static_stack_usage :=
  (total_stack_size_note Build.standard false Env.plain State.with_stack_total rfl
    (by decide)).1 rfl rfl (by decide)

/-- C24, counterexample: with stack-size notes enabled, the output file open
and a running total of 0, `annobin_create_loader_notes` writes no note at
all. -/
theorem no_note_for_zero_total :
    State.with_stack_size_notes.annobin_enable_stack_size_notes = true ∧
    State.with_stack_size_notes.annobin_enable_dynamic_notes = true ∧
    Env.plain.asm_out_file = true ∧
    State.with_stack_size_notes.annobin_total_static_stack_usage = 0 ∧
    (annobin_create_loader_notes Build.standard false Env.plain
        State.with_stack_size_notes).notes = [] := by
  decide

theorem parse_args_loop_result (env : Env) : ∀ (args : List plugin_argument) (st : State),
    (∀ a ∈ args, strip_dashes a.key = cstr "stack-threshold" → a.value.isSome = true) →
    ∃ (b : Bool) (st1 : State), parse_args_loop env args st = some (b, st1) ∧
      (b = false ↔ ∃ a ∈ args, strip_dashes a.key ∉ recognised_keys) := by
  intro args
  induction args with
  | nil =>
    intro st _
    exact ⟨true, st, rfl, by simp⟩
  | cons a rest ih =>
    intro st hval
    have hrest : ∀ x ∈ rest, strip_dashes x.key = cstr "stack-threshold" →
        x.value.isSome = true := fun x hx => hval x (List.mem_cons_of_mem _ hx)
    have step : ∀ s : State, strip_dashes a.key ∈ recognised_keys →
        ∃ (b : Bool) (st1 : State), parse_args_loop env rest s = some (b, st1) ∧
          (b = false ↔ ∃ x ∈ a :: rest, strip_dashes x.key ∉ recognised_keys) := by
      intro s hk
      obtain ⟨b, st1, h1, h2⟩ := ih s hrest
      refine ⟨b, st1, h1, ?_⟩
      rw [h2]
      constructor
      · rintro ⟨x, hx, hn⟩
        exact ⟨x, List.mem_cons_of_mem _ hx, hn⟩
      · rintro ⟨x, hx, hn⟩
        rcases List.mem_cons.mp hx with rfl | hx
        · exact absurd hk hn
        · exact ⟨x, hx, hn⟩
    have hmem : ∀ k ∈ recognised_keys, strip_dashes a.key = k →
        strip_dashes a.key ∈ recognised_keys := fun k hk h => h ▸ hk
    unfold parse_args_loop
    simp only []
    have hs : a.key.dropWhile (fun c => c == 45) = strip_dashes a.key := rfl
    rw [hs]
    by_cases h1 : strip_dashes a.key = cstr "disable"
    · rw [if_pos h1]
      exact step _ (hmem _ (by simp [recognised_keys]) h1)
    · rw [if_neg h1]
      by_cases h2 : strip_dashes a.key = cstr "enable"
      · rw [if_pos h2]
        exact step _ (hmem _ (by simp [recognised_keys]) h2)
      · rw [if_neg h2]
        by_cases h3 : strip_dashes a.key = cstr "help"
        · rw [if_pos h3]
          exact step _ (hmem _ (by simp [recognised_keys]) h3)
        · rw [if_neg h3]
          by_cases h4 : strip_dashes a.key = cstr "version"
          · rw [if_pos h4]
            exact step _ (hmem _ (by simp [recognised_keys]) h4)
          · rw [if_neg h4]
            by_cases h5 : strip_dashes a.key = cstr "verbose"
            · rw [if_pos h5]
              exact step _ (hmem _ (by simp [recognised_keys]) h5)
            · rw [if_neg h5]
              by_cases h6 : strip_dashes a.key = cstr "global-file-syms"
              · rw [if_pos h6]
                exact step _ (hmem _ (by simp [recognised_keys]) h6)
              · rw [if_neg h6]
                by_cases h7 : strip_dashes a.key = cstr "no-global-file-syms"
                · rw [if_pos h7]
                  exact step _ (hmem _ (by simp [recognised_keys]) h7)
                · rw [if_neg h7]
                  by_cases h8 : strip_dashes a.key = cstr "stack-size-notes"
                  · rw [if_pos h8]
                    exact step _ (hmem _ (by simp [recognised_keys]) h8)
                  · rw [if_neg h8]
                    by_cases h9 : strip_dashes a.key = cstr "no-stack-size-notes"
                    · rw [if_pos h9]
                      exact step _ (hmem _ (by simp [recognised_keys]) h9)
                    · rw [if_neg h9]
                      by_cases h10 : strip_dashes a.key = cstr "dynamic-notes"
                      · rw [if_pos h10]
                        exact step _ (hmem _ (by simp [recognised_keys]) h10)
                      · rw [if_neg h10]
                        by_cases h11 : strip_dashes a.key = cstr "no-dynamic-notes"
                        · rw [if_pos h11]
                          exact step _ (hmem _ (by simp [recognised_keys]) h11)
                        · rw [if_neg h11]
                          by_cases h12 : strip_dashes a.key = cstr "static-notes"
                          · rw [if_pos h12]
                            exact step _ (hmem _ (by simp [recognised_keys]) h12)
                          · rw [if_neg h12]
                            by_cases h13 : strip_dashes a.key = cstr "no-static-notes"
                            · rw [if_pos h13]
                              exact step _ (hmem _ (by simp [recognised_keys]) h13)
                            · rw [if_neg h13]
                              by_cases h14 : strip_dashes a.key = cstr "stack-threshold"
                              · rw [if_pos h14]
                                obtain ⟨v, hv⟩ := Option.isSome_iff_exists.mp (hval a (List.mem_cons_self _ _) h14)
                                rw [hv]
                                exact step _ (hmem _ (by simp [recognised_keys]) h14)
                              · rw [if_neg h14]
                                refine ⟨false, _, rfl, ?_⟩
                                simp only [true_iff]
                                refine ⟨a, List.mem_cons_self _ _, ?_⟩
                                unfold recognised_keys
                                simp only [List.mem_cons, List.mem_singleton, List.not_mem_nil, or_false, not_or]
                                exact ⟨h1, h2, h3, h4, h5, h6, h7, h8, h9, h10, h11, h12, h13, h14⟩

theorem parse_args_result (env : Env) (st : State) (argv : List plugin_argument)
    (hval : ∀ a ∈ argv, strip_dashes a.key = cstr "stack-threshold" → a.value.isSome = true) :
    ∃ (b : Bool) (st1 : State), parse_args env st argv = some (b, st1) ∧
      (b = false ↔ ∃ a ∈ argv, strip_dashes a.key ∉ recognised_keys) := by
  obtain ⟨b, st1, h1, h2⟩ := parse_args_loop_result env argv.reverse st
    (fun a ha => hval a (List.mem_reverse.mp ha))
  refine ⟨b, st1, h1, ?_⟩
  rw [h2]
  constructor
  · rintro ⟨a, ha, hn⟩
    exact ⟨a, List.mem_reverse.mp ha, hn⟩
  · rintro ⟨a, ha, hn⟩
    exact ⟨a, List.mem_reverse.mpr ha, hn⟩

/-- C23: `parse_args` returns false iff the key of at least one argument, with
its leading `-` characters removed, is none of the option names it knows
(each `stack-threshold` argument is taken to carry a value, which `strtoul`
reads); and whenever `parse_args` returns false `plugin_init` returns 1 and
registers no callback, so that none of the plugin's callbacks is ever run. A
call of `plugin_init` that registers callbacks has seen only known options. -/
theorem unrecognised_option_fails (env : Env) (host : Host) (st : State)
    (plugin_info : plugin_name_args) (version : plugin_gcc_version)
    (hval : ∀ a ∈ plugin_info.argv,
      strip_dashes a.key = cstr "stack-threshold" → a.value.isSome = true) :
    (∃ (b : Bool) (st1 : State), parse_args env st plugin_info.argv = some (b, st1) ∧
      (b = false ↔ ∃ a ∈ plugin_info.argv, strip_dashes a.key ∉ recognised_keys)) ∧
    (∀ st1 : State,
      parse_args env (check_version env host version st).1 plugin_info.argv
        = some (false, st1) →
      ∃ r : InitResult, plugin_init env host st plugin_info version = some r ∧
        r.ret = 1 ∧ r.callbacks = []) ∧
    ∃ r : InitResult, plugin_init env host st plugin_info version = some r ∧
      ((∃ a ∈ plugin_info.argv, strip_dashes a.key ∉ recognised_keys) →
        r.ret = 1 ∧ r.callbacks = []) ∧
      (r.callbacks ≠ [] →
        r.ret = 0 ∧ r.callbacks = annobin_callbacks plugin_info ∧
        ∀ a ∈ plugin_info.argv, strip_dashes a.key ∈ recognised_keys) := by
  refine ⟨parse_args_result env st plugin_info.argv hval, ?_, ?_⟩
  · intro st1 h
    unfold plugin_init
    simp only []
    split
    · exact ⟨_, rfl, rfl, rfl⟩
    · rw [h]
      exact ⟨_, rfl, rfl, rfl⟩
  · obtain ⟨b, st1, h1, h2⟩ := parse_args_result env (check_version env host version st).1
      plugin_info.argv hval
    unfold plugin_init
    simp only []
    split
    · exact ⟨_, rfl, fun _ => ⟨rfl, rfl⟩, fun h => absurd rfl h⟩
    · rw [h1]
      cases b with
      | false => exact ⟨_, rfl, fun _ => ⟨rfl, rfl⟩, fun h => absurd rfl h⟩
      | true =>
        have hall : ∀ a ∈ plugin_info.argv, strip_dashes a.key ∈ recognised_keys := by
          intro a ha
          by_contra hn
          have := h2.mpr ⟨a, ha, hn⟩
          exact absurd this (by decide)
        have hnone : ¬ ∃ a ∈ plugin_info.argv, strip_dashes a.key ∉ recognised_keys := by
          rintro ⟨a, ha, hn⟩
          exact hn (hall a ha)
        simp only []
        split
        · exact ⟨_, rfl, fun h => absurd h hnone, fun h => absurd rfl h⟩
        · split
          · exact ⟨_, rfl, fun h => absurd h hnone, fun h => absurd rfl h⟩
          · exact ⟨_, rfl, fun h => absurd h hnone, fun _ => ⟨rfl, rfl, hall⟩⟩

/-- Witness of `unrecognised_option_fails`: the arguments `verbose` and `bogus`
make `plugin_init` return 1 without a callback. -/
theorem unrecognised_option_fails_witness :
    ∃ r : InitResult,
      plugin_init Env.plain Host.sample (State.initial none) plugin_name_args.sample
        Host.sample.gcc_version = some r ∧ r.ret = 1 ∧ r.callbacks = [] := by
  obtain ⟨r, h1, h2, _⟩ := (unrecognised_option_fails Env.plain Host.sample (State.initial none)
    plugin_name_args.sample Host.sample.gcc_version (by decide)).2.2
  exact ⟨r, h1, h2 ⟨⟨cstr "bogus", none⟩, by decide, by decide⟩⟩

theorem core_x86_isa {s t : State} (h : s.core = t.core) :
    s.global_x86_isa = t.global_x86_isa ∧ s.min_x86_isa = t.min_x86_isa ∧
      s.max_x86_isa = t.max_x86_isa := by
  have h1 := congrArg State.global_x86_isa h
  have h2 := congrArg State.min_x86_isa h
  have h3 := congrArg State.max_x86_isa h
  exact ⟨h1, h2, h3⟩

theorem output_note_x86_isa (K : Build) (env : Env) (st : State) (a : NoteArgs) :
    (annobin_output_note K env st a).global_x86_isa = st.global_x86_isa ∧
      (annobin_output_note K env st a).min_x86_isa = st.min_x86_isa ∧
      (annobin_output_note K env st a).max_x86_isa = st.max_x86_isa := by
  have h := core_x86_isa (note_checks_core env st a)
  unfold annobin_output_note
  split
  · exact ⟨rfl, rfl, rfl⟩
  · exact h

theorem numeric_note_x86_isa (K : Build) (env : Env) (st : State) (numeric_type v : Nat)
    (name_description : String) (start end_ : Option (List Nat)) (note_type : Nat) :
    (annobin_output_numeric_note K env st numeric_type v name_description start end_
        note_type).global_x86_isa = st.global_x86_isa ∧
    (annobin_output_numeric_note K env st numeric_type v name_description start end_
        note_type).min_x86_isa = st.min_x86_isa ∧
    (annobin_output_numeric_note K env st numeric_type v name_description start end_
        note_type).max_x86_isa = st.max_x86_isa := by
  unfold annobin_output_numeric_note
  simp only []
  have hc := core_x86_isa (s := inform_if ((numeric_note_encode K env numeric_type v).2.2 != 0) env
      (inform_if (decide ((numeric_note_encode K env numeric_type v).2.1 > 12)) env st
        "ICE: Numeric value for %s too big to fit into 8 bytes\n")
      "ICE: Unable to record numeric value in note %s\n") (t := st)
      (by rw [inform_if_core, inform_if_core])
  exact ⟨(output_note_x86_isa K env _ _).1.trans hc.1,
    (output_note_x86_isa K env _ _).2.1.trans hc.2.1,
    (output_note_x86_isa K env _ _).2.2.trans hc.2.2⟩

/-- On x86 `annobin_record_global_target_notes` sets the three ISA variables to
the unit's value. -/
theorem x86_global_target_isa (K : Build) (hK : K.target = Target.x86_64) (env : Env)
    (st : State) :
    (annobin_record_global_target_notes K env st).global_x86_isa
        = toULong env.ix86_isa_flags ∧
      (annobin_record_global_target_notes K env st).min_x86_isa
        = toULong env.ix86_isa_flags ∧
      (annobin_record_global_target_notes K env st).max_x86_isa
        = toULong env.ix86_isa_flags := by
  unfold annobin_record_global_target_notes
  rw [hK]
  simp only []
  have h1 := core_x86_isa (inform_core env
    (annobin_output_numeric_note K env
      { st with min_x86_isa := toULong env.ix86_isa_flags,
                max_x86_isa := toULong env.ix86_isa_flags,
                global_x86_isa := toULong env.ix86_isa_flags }
      K.GNU_BUILD_ATTRIBUTE_ABI (toULong env.ix86_isa_flags) "numeric: ABI" none none
      K.NT_GNU_BUILD_ATTRIBUTE_OPEN) 1 "Record global isa of %lx")
  have h2 := numeric_note_x86_isa K env
      { st with min_x86_isa := toULong env.ix86_isa_flags,
                max_x86_isa := toULong env.ix86_isa_flags,
                global_x86_isa := toULong env.ix86_isa_flags }
      K.GNU_BUILD_ATTRIBUTE_ABI (toULong env.ix86_isa_flags) "numeric: ABI" none none
      K.NT_GNU_BUILD_ATTRIBUTE_OPEN
  exact ⟨h1.1.trans h2.1, h1.2.1.trans h2.2.1, h1.2.2.trans h2.2.2⟩

/-- One call of `annobin_target_specific_function_notes` on x86: the unit value
is kept, the running minimum and maximum take the function's value in, and with
an output file one note is written iff the value differs from the unit's. -/
theorem x86_function_isa_step (K : Build) (hK : K.target = Target.x86_64) (env : Env)
    (st : State) (aname aname_end : Option (List Nat))
    (hmin : st.min_x86_isa ≤ st.global_x86_isa) (hmax : st.global_x86_isa ≤ st.max_x86_isa) :
    (annobin_target_specific_function_notes K env st aname aname_end).global_x86_isa
        = st.global_x86_isa ∧
      (annobin_target_specific_function_notes K env st aname aname_end).min_x86_isa
        = min st.min_x86_isa (toULong env.ix86_isa_flags) ∧
      (annobin_target_specific_function_notes K env st aname aname_end).max_x86_isa
        = max st.max_x86_isa (toULong env.ix86_isa_flags) ∧
      (env.asm_out_file = true →
        (annobin_target_specific_function_notes K env st aname aname_end).notes
          = st.notes ++
            (if toULong env.ix86_isa_flags ≠ st.global_x86_isa then
              [numeric_note_args K env st.annobin_is_64bit K.GNU_BUILD_ATTRIBUTE_ABI
                (toULong env.ix86_isa_flags) "numeric: ABI" aname aname_end
                K.NT_GNU_BUILD_ATTRIBUTE_FUNC]
            else [])) := by
  unfold annobin_target_specific_function_notes
  rw [hK]
  simp only []
  by_cases hne : toULong env.ix86_isa_flags ≠ st.global_x86_isa
  · rw [if_pos hne, if_pos hne]
    have hn := numeric_note_x86_isa K env
      (annobin_inform env st 1 "ISA value has changed from %lx to %lx for %s")
      K.GNU_BUILD_ATTRIBUTE_ABI (toULong env.ix86_isa_flags) "numeric: ABI" aname aname_end
      K.NT_GNU_BUILD_ATTRIBUTE_FUNC
    have hi := core_x86_isa (inform_core env st 1 "ISA value has changed from %lx to %lx for %s")
    have hi64 := core_is_64bit (inform_core env st 1 "ISA value has changed from %lx to %lx for %s")
    have hia := core_asm_out (inform_core env st 1 "ISA value has changed from %lx to %lx for %s")
    have hout := numeric_note_asm_out K env
      (annobin_inform env st 1 "ISA value has changed from %lx to %lx for %s")
      K.GNU_BUILD_ATTRIBUTE_ABI (toULong env.ix86_isa_flags) "numeric: ABI" aname aname_end
      K.NT_GNU_BUILD_ATTRIBUTE_FUNC
    generalize annobin_output_numeric_note K env
      (annobin_inform env st 1 "ISA value has changed from %lx to %lx for %s")
      K.GNU_BUILD_ATTRIBUTE_ABI (toULong env.ix86_isa_flags) "numeric: ABI" aname aname_end
      K.NT_GNU_BUILD_ATTRIBUTE_FUNC = X at hn hout ⊢
    rw [hi.1] at hn
    rw [hi.2.1, hi.2.2] at hn
    obtain ⟨hg, hm, hM⟩ := hn
    have hnotes : env.asm_out_file = true → X.notes = st.notes ++
        [numeric_note_args K env st.annobin_is_64bit K.GNU_BUILD_ATTRIBUTE_ABI
          (toULong env.ix86_isa_flags) "numeric: ABI" aname aname_end
          K.NT_GNU_BUILD_ATTRIBUTE_FUNC] := by
      intro hs
      unfold State.notes
      rw [hout hs, hia, hi64, notes_of_append]
      simp [notes_of]
    by_cases h1 : toULong env.ix86_isa_flags < X.min_x86_isa
    · rw [if_pos h1]
      by_cases h2 : toULong env.ix86_isa_flags > X.max_x86_isa
      · exfalso; simp only [] at h2; omega
      · rw [if_neg h2]
        simp only [] at h2
        refine ⟨hg, ?_, ?_, hnotes⟩
        · show toULong env.ix86_isa_flags = _
          rw [← hm]; omega
        · show X.max_x86_isa = _
          rw [← hM]; omega
    · rw [if_neg h1]
      by_cases h2 : toULong env.ix86_isa_flags > X.max_x86_isa
      · rw [if_pos h2]
        refine ⟨hg, ?_, ?_, hnotes⟩
        · show X.min_x86_isa = _
          rw [← hm]; omega
        · show toULong env.ix86_isa_flags = _
          rw [← hM]; omega
      · rw [if_neg h2]
        refine ⟨hg, ?_, ?_, hnotes⟩
        · rw [← hm]; omega
        · rw [← hM]; omega
  · rw [if_neg hne, if_neg hne]
    have he : toULong env.ix86_isa_flags = st.global_x86_isa := not_not.mp hne
    refine ⟨rfl, ?_, ?_, fun _ => by simp⟩
    · rw [he]; omega
    · rw [he]; omega


theorem x86_function_is_64bit (K : Build) (env : Env) (st : State)
    (aname aname_end : Option (List Nat)) (hK : K.target = Target.x86_64) :
    (annobin_target_specific_function_notes K env st aname aname_end).annobin_is_64bit
      = st.annobin_is_64bit := by
  unfold annobin_target_specific_function_notes
  rw [hK]
  simp only []
  have h : (annobin_output_numeric_note K env
      (annobin_inform env st 1 "ISA value has changed from %lx to %lx for %s")
      K.GNU_BUILD_ATTRIBUTE_ABI (toULong env.ix86_isa_flags) "numeric: ABI" aname aname_end
      K.NT_GNU_BUILD_ATTRIBUTE_FUNC).annobin_is_64bit = st.annobin_is_64bit :=
    (frame_is_64bit (numeric_note_frame ..)).trans (frame_is_64bit (inform_frame ..))
  generalize annobin_output_numeric_note K env
      (annobin_inform env st 1 "ISA value has changed from %lx to %lx for %s")
      K.GNU_BUILD_ATTRIBUTE_ABI (toULong env.ix86_isa_flags) "numeric: ABI" aname aname_end
      K.NT_GNU_BUILD_ATTRIBUTE_FUNC = X at h ⊢
  split
  · split <;> split <;> exact h
  · rfl

/-- A sequence of calls of `annobin_target_specific_function_notes` on x86,
from a state in which the unit value lies between the running minimum and
maximum. -/
theorem x86_function_isa_calls (K : Build) (hK : K.target = Target.x86_64)
    (calls : List (Env × Option (List Nat) × Option (List Nat))) :
    ∀ st : State, st.min_x86_isa ≤ st.global_x86_isa → st.global_x86_isa ≤ st.max_x86_isa →
      (target_function_notes_calls K calls st).global_x86_isa = st.global_x86_isa ∧
      (target_function_notes_calls K calls st).annobin_is_64bit = st.annobin_is_64bit ∧
      (target_function_notes_calls K calls st).min_x86_isa
        = (calls.map (fun c => toULong c.1.ix86_isa_flags)).foldl min st.min_x86_isa ∧
      (target_function_notes_calls K calls st).max_x86_isa
        = (calls.map (fun c => toULong c.1.ix86_isa_flags)).foldl max st.max_x86_isa ∧
      (target_function_notes_calls K calls st).min_x86_isa ≤ st.global_x86_isa ∧
      st.global_x86_isa ≤ (target_function_notes_calls K calls st).max_x86_isa ∧
      ((∀ c ∈ calls, c.1.asm_out_file = true) →
        (target_function_notes_calls K calls st).notes
          = st.notes ++ calls.filterMap
              (x86_function_ABI_note K st.annobin_is_64bit st.global_x86_isa)) := by
  induction calls with
  | nil =>
    intro st hmin hmax
    simp [target_function_notes_calls, hmin, hmax]
  | cons c cs ih =>
    intro st hmin hmax
    obtain ⟨hg, hm, hM, hn⟩ := x86_function_isa_step K hK c.1 st c.2.1 c.2.2 hmin hmax
    have h64 := x86_function_is_64bit K c.1 st c.2.1 c.2.2 hK
    have hrec := ih (annobin_target_specific_function_notes K c.1 st c.2.1 c.2.2)
      (by rw [hg, hm]; omega) (by rw [hg, hM]; omega)
    rw [hg, h64, hm, hM] at hrec
    have hunf : target_function_notes_calls K (c :: cs) st
        = target_function_notes_calls K cs
            (annobin_target_specific_function_notes K c.1 st c.2.1 c.2.2) := rfl
    rw [hunf]
    refine ⟨hrec.1, hrec.2.1, ?_, ?_, hrec.2.2.2.2.1, hrec.2.2.2.2.2.1, ?_⟩
    · rw [hrec.2.2.1]; rfl
    · rw [hrec.2.2.2.1]; rfl
    · intro hs
      rw [hrec.2.2.2.2.2.2 (fun d hd => hs d (List.mem_cons_of_mem _ hd)),
        hn (hs c (List.mem_cons_self _ _))]
      unfold x86_function_ABI_note
      by_cases hne : toULong c.1.ix86_isa_flags ≠ st.global_x86_isa
      · rw [if_pos hne, List.filterMap_cons_some (by rw [if_pos hne])]
        simp
      · rw [if_neg hne, List.filterMap_cons_none (by rw [if_neg hne])]
        simp

/-- C31: on x86, when `annobin_record_global_target_notes` has taken the unit
ISA value `g` and `annobin_target_specific_function_notes` has been called for
functions with the values `f1`, ..., `fn`, the variable `global_x86_isa` is
`g`, `min_x86_isa` is the minimum and `max_x86_isa` the maximum of `g`, `f1`,
..., `fn`, so that `min_x86_isa <= global_x86_isa <= max_x86_isa` after every
call; with the output file open the notes written by the calls are one
function-scoped ABI note, with the function's value and symbols, for each
function whose value differs from `g`, and no other. -/
theorem x86_isa_min_max (K : Build) (hK : K.target = Target.x86_64) (env : Env) (st : State)
    (calls : List (Env × Option (List Nat) × Option (List Nat))) :
    (target_function_notes_calls K calls
        (annobin_record_global_target_notes K env st)).global_x86_isa
      = toULong env.ix86_isa_flags ∧
    (target_function_notes_calls K calls
        (annobin_record_global_target_notes K env st)).min_x86_isa
      = (calls.map (fun c => toULong c.1.ix86_isa_flags)).foldl min
          (toULong env.ix86_isa_flags) ∧
    (target_function_notes_calls K calls
        (annobin_record_global_target_notes K env st)).max_x86_isa
      = (calls.map (fun c => toULong c.1.ix86_isa_flags)).foldl max
          (toULong env.ix86_isa_flags) ∧
    (target_function_notes_calls K calls
        (annobin_record_global_target_notes K env st)).min_x86_isa
      ≤ (target_function_notes_calls K calls
          (annobin_record_global_target_notes K env st)).global_x86_isa ∧
    (target_function_notes_calls K calls
        (annobin_record_global_target_notes K env st)).global_x86_isa
      ≤ (target_function_notes_calls K calls
          (annobin_record_global_target_notes K env st)).max_x86_isa ∧
    ((∀ c ∈ calls, c.1.asm_out_file = true) →
      (target_function_notes_calls K calls
          (annobin_record_global_target_notes K env st)).notes
        = (annobin_record_global_target_notes K env st).notes ++
          calls.filterMap (x86_function_ABI_note K
            (annobin_record_global_target_notes K env st).annobin_is_64bit
            (toULong env.ix86_isa_flags))) := by
  obtain ⟨hg, hm, hM⟩ := x86_global_target_isa K hK env st
  have h := x86_function_isa_calls K hK calls (annobin_record_global_target_notes K env st)
    (by rw [hg, hm]) (by rw [hg, hM])
  rw [hg, hm, hM] at h
  refine ⟨h.1, h.2.2.1, h.2.2.2.1, ?_, ?_, h.2.2.2.2.2.2⟩
  · rw [h.1]; exact h.2.2.2.2.1
  · rw [h.1]; exact h.2.2.2.2.2.1


theorem x86_isa_min_max_witness :
    (target_function_notes_calls Build.x86_sample
        [(Env.with_isa 3, some [102], some (cstr "f_end")),
         (Env.with_isa 5, some [103], some (cstr "g_end")),
         (Env.with_isa 9, some [104], some (cstr "h_end"))]
        (annobin_record_global_target_notes Build.x86_sample (Env.with_isa 5)
          (State.initial none))).global_x86_isa = 5 ∧
    (target_function_notes_calls Build.x86_sample
        [(Env.with_isa 3, some [102], some (cstr "f_end")),
         (Env.with_isa 5, some [103], some (cstr "g_end")),
         (Env.with_isa 9, some [104], some (cstr "h_end"))]
        (annobin_record_global_target_notes Build.x86_sample (Env.with_isa 5)
          (State.initial none))).min_x86_isa = 3 ∧
    (target_function_notes_calls Build.x86_sample
        [(Env.with_isa 3, some [102], some (cstr "f_end")),
         (Env.with_isa 5, some [103], some (cstr "g_end")),
         (Env.with_isa 9, some [104], some (cstr "h_end"))]
        (annobin_record_global_target_notes Build.x86_sample (Env.with_isa 5)
          (State.initial none))).max_x86_isa = 9 ∧
    ((target_function_notes_calls Build.x86_sample
        [(Env.with_isa 3, some [102], some (cstr "f_end")),
         (Env.with_isa 5, some [103], some (cstr "g_end")),
         (Env.with_isa 9, some [104], some (cstr "h_end"))]
        (annobin_record_global_target_notes Build.x86_sample (Env.with_isa 5)
          (State.initial none))).notes.map
        (fun a => (a.type, a.desc1, a.desc2)))
      = ((annobin_record_global_target_notes Build.x86_sample (Env.with_isa 5)
          (State.initial none)).notes.map (fun a => (a.type, a.desc1, a.desc2)))
        ++ [(257, some [102], some (cstr "f_end")), (257, some [104], some (cstr "h_end"))] := by
  have h := x86_isa_min_max Build.x86_sample rfl (Env.with_isa 5) (State.initial none)
    [(Env.with_isa 3, some [102], some (cstr "f_end")),
     (Env.with_isa 5, some [103], some (cstr "g_end")),
     (Env.with_isa 9, some [104], some (cstr "h_end"))]
  refine ⟨h.1.trans (by decide), h.2.1.trans (by decide), h.2.2.1.trans (by decide), ?_⟩
  rw [h.2.2.2.2.2 (by decide), List.map_append]
  rfl

/-- C32: on x86, in a unit compiled as in `Env.plain`, for a function compiled
with another ISA value and another stack protector level,
`annobin_create_function_notes` writes two notes, the ABI note of the target
file and the stack protector note, and both carry the two symbols of the
function with a descriptor of 16 bytes: the note count has grown in
`annobin_target_specific_function_notes`, so the test `count >
annobin_note_count` behind it fails and the symbols stay. No message is
reported. -/
theorem symbols_kept_behind_target_note :
    (annobin_create_global_notes Build.x86_sample Env.plain (State.initial none)).notes.length
      = 9 ∧
    ((annobin_create_function_notes Build.x86_sample Env.with_isa_stack_protect
        (annobin_create_global_notes Build.x86_sample Env.plain
          (State.initial none))).notes.drop 9).map
      (fun a => (a.name_description, a.type, a.desc1, a.desc2, a.descsz))
      = [("numeric: ABI", 257, some [102], some [102, 95, 101, 110, 100], 16),
         ("numeric: -fstack-protector status", 257, some [102],
           some [102, 95, 101, 110, 100], 16)] ∧
    (annobin_create_global_notes Build.x86_sample Env.plain
        (State.initial none)).annobin_note_count = 9 ∧
    (annobin_target_specific_function_notes Build.x86_sample Env.with_isa_stack_protect
        (annobin_create_global_notes Build.x86_sample Env.plain (State.initial none))
        (some [102]) (some [102, 95, 101, 110, 100])).annobin_note_count = 10 ∧
    (annobin_create_function_notes Build.x86_sample Env.with_isa_stack_protect
        (annobin_create_global_notes Build.x86_sample Env.plain
          (State.initial none))).formats = [] := by
  decide

/-- C33: at the saved options `-fpreprocessed -D_GLIBCXX_ASSERTIONS
-D_FORTIFY_SOURCE=1` (static notes enabled, output file open)
`annobin_create_global_notes` writes two notes for `_FORTIFY_SOURCE`, with the
values 1 and -1 (the byte 255), and two notes for `_GLIBCXX_ASSERTIONS`, one
true and one false, where one note of each kind is due. -/
theorem two_fortify_and_assertion_notes :
    (annobin_create_global_notes Build.standard Env.with_preprocessed_assertions
        (State.initial none)).keys.filter (is_FORTIFY_key Build.standard)
      = [(256, [71, 65, 42, 70, 79, 82, 84, 73, 70, 89, 0, 1, 0]),
         (256, [71, 65, 42, 70, 79, 82, 84, 73, 70, 89, 0, 255, 0])] ∧
    (annobin_create_global_notes Build.standard Env.with_preprocessed_assertions
        (State.initial none)).keys.filter (is_GLIBCXX_key Build.standard)
      = [(256, [71, 65, 43] ++ cstr "GLIBCXX_ASSERTIONS" ++ [0]),
         (256, [71, 65, 33] ++ cstr "GLIBCXX_ASSERTIONS" ++ [0])] ∧
    (annobin_create_global_notes Build.standard Env.with_preprocessed_assertions
        (State.initial none)).notes.map (fun a => a.name_description)
      = ["string: version", "string: build-tool", "numeric: -g/-O/-Wall",
         "numeric: -fstack-protector status", "FORTIFY SOURCE level",
         "_GLIBCXX_ASSERTIONS defined", "FORTIFY SOURCE level",
         "_GLIBCXX_ASSERTIONS defined", "numeric: PIC", "bool: short-enums: off"] := by
  decide

theorem isa_step_testBit (isa mask bit r i : Nat) :
    (isa_step isa mask bit r).testBit i
      = (r.testBit i || (decide (isa &&& mask ≠ 0) && bit.testBit i)) := by
  unfold isa_step
  split
  · rename_i h
    simp [Nat.testBit_or, h]
  · rename_i h
    simp [h]

/-- The bit 5 of the result of `convert_gcc_isa_to_gnu_property_isa`, which is
`GNU_PROPERTY_X86_ISA_1_SSE3`, is never set. -/
theorem convert_isa_bit_5 (K : Build) (isa : Nat) :
    (convert_gcc_isa_to_gnu_property_isa K isa).testBit 5 = false := by
  unfold convert_gcc_isa_to_gnu_property_isa
  cases K.OPTION_MASK_ISA_AVX512F <;>
    simp only [isa_step_testBit, Nat.zero_testBit,
      (show GNU_PROPERTY_X86_ISA_1_SSE.testBit 5 = false by decide),
      (show GNU_PROPERTY_X86_ISA_1_SSE2.testBit 5 = false by decide),
      (show GNU_PROPERTY_X86_ISA_1_SSE3.testBit 5 = true by decide),
      (show GNU_PROPERTY_X86_ISA_1_SSSE3.testBit 5 = false by decide),
      (show GNU_PROPERTY_X86_ISA_1_SSE4_1.testBit 5 = false by decide),
      (show GNU_PROPERTY_X86_ISA_1_SSE4_2.testBit 5 = false by decide),
      (show GNU_PROPERTY_X86_ISA_1_AVX.testBit 5 = false by decide),
      (show GNU_PROPERTY_X86_ISA_1_AVX2.testBit 5 = false by decide),
      (show GNU_PROPERTY_X86_ISA_1_AVX512F.testBit 5 = false by decide),
      (show GNU_PROPERTY_X86_ISA_1_AVX512CD.testBit 5 = false by decide),
      (show GNU_PROPERTY_X86_ISA_1_AVX512ER.testBit 5 = false by decide),
      (show GNU_PROPERTY_X86_ISA_1_AVX512PF.testBit 5 = false by decide),
      (show GNU_PROPERTY_X86_ISA_1_AVX512VL.testBit 5 = false by decide),
      (show GNU_PROPERTY_X86_ISA_1_AVX512DQ.testBit 5 = false by decide),
      (show GNU_PROPERTY_X86_ISA_1_AVX512BW.testBit 5 = false by decide),
      Bool.and_false, Bool.or_false, Bool.false_or]

/-- The bit 6 of the result of `convert_gcc_isa_to_gnu_property_isa`, which is
`GNU_PROPERTY_X86_ISA_1_SSSE3`, is set iff the input has a bit of
`OPTION_MASK_ISA_SSE3`. -/
theorem convert_isa_bit_6 (K : Build) (isa : Nat) :
    (convert_gcc_isa_to_gnu_property_isa K isa).testBit 6
      = decide (isa &&& K.OPTION_MASK_ISA_SSE3 ≠ 0) := by
  unfold convert_gcc_isa_to_gnu_property_isa
  cases K.OPTION_MASK_ISA_AVX512F <;>
    simp only [isa_step_testBit, Nat.zero_testBit,
      (show GNU_PROPERTY_X86_ISA_1_SSE.testBit 6 = false by decide),
      (show GNU_PROPERTY_X86_ISA_1_SSE2.testBit 6 = false by decide),
      (show GNU_PROPERTY_X86_ISA_1_SSE3.testBit 6 = false by decide),
      (show GNU_PROPERTY_X86_ISA_1_SSSE3.testBit 6 = true by decide),
      (show GNU_PROPERTY_X86_ISA_1_SSE4_1.testBit 6 = false by decide),
      (show GNU_PROPERTY_X86_ISA_1_SSE4_2.testBit 6 = false by decide),
      (show GNU_PROPERTY_X86_ISA_1_AVX.testBit 6 = false by decide),
      (show GNU_PROPERTY_X86_ISA_1_AVX2.testBit 6 = false by decide),
      (show GNU_PROPERTY_X86_ISA_1_AVX512F.testBit 6 = false by decide),
      (show GNU_PROPERTY_X86_ISA_1_AVX512CD.testBit 6 = false by decide),
      (show GNU_PROPERTY_X86_ISA_1_AVX512ER.testBit 6 = false by decide),
      (show GNU_PROPERTY_X86_ISA_1_AVX512PF.testBit 6 = false by decide),
      (show GNU_PROPERTY_X86_ISA_1_AVX512VL.testBit 6 = false by decide),
      (show GNU_PROPERTY_X86_ISA_1_AVX512DQ.testBit 6 = false by decide),
      (show GNU_PROPERTY_X86_ISA_1_AVX512BW.testBit 6 = false by decide),
      Bool.and_false, Bool.or_false, Bool.false_or, Bool.and_true]

/-- C34: `convert_gcc_isa_to_gnu_property_isa` never sets the bit
`GNU_PROPERTY_X86_ISA_1_SSE3` (bit 5) of its result; for an input with a bit
of `OPTION_MASK_ISA_SSE3` it sets the bit `GNU_PROPERTY_X86_ISA_1_SSSE3` (bit
6) in its place. In the sample build, in which `OPTION_MASK_ISA_SSE3` is 4,
the input 4 gives 64 and not 32. -/
theorem SSE3_mapped_to_SSSE3 (K : Build) (isa : Nat) :
    GNU_PROPERTY_X86_ISA_1_SSE3 = 2 ^ 5 ∧ GNU_PROPERTY_X86_ISA_1_SSSE3 = 2 ^ 6 ∧
    (convert_gcc_isa_to_gnu_property_isa K isa).testBit 5 = false ∧
    ((convert_gcc_isa_to_gnu_property_isa K isa).testBit 6 = true
      ↔ isa &&& K.OPTION_MASK_ISA_SSE3 ≠ 0) ∧
    Build.x86_sample.OPTION_MASK_ISA_SSE3 = 4 ∧
    convert_gcc_isa_to_gnu_property_isa Build.x86_sample 4 = 64 ∧
    convert_gcc_isa_to_gnu_property_isa Build.x86_sample 4 ≠ GNU_PROPERTY_X86_ISA_1_SSE3 := by
  refine ⟨by decide, by decide, convert_isa_bit_5 K isa, ?_, rfl, by decide, by decide⟩
  rw [convert_isa_bit_6]
  simp

/-- The size that `record_GOW_settings` declares for the name of the note: 8
bytes and one more for each base-256 digit of the word. -/
theorem GOW_note_namesz (K : Build) (env : Env) (is64 : Bool) (gow : Nat) (is_local : Bool)
    (aname aname_end : Option (List Nat)) (hg : gow < 2 ^ 32) :
    (GOW_note_args K env is64 gow is_local aname aname_end).namesz
      = 8 + (value_bytes gow).length := by
  have hlen : (Nat.digits 256 gow).length ≤ 8 := digits_256_length_le gow (by omega)
  have hb : (sprintf (uninit env 128)
      [71, 65, fmt_c K.GNU_BUILD_ATTRIBUTE_TYPE_NUMERIC, 71, 79, 87]).length = 128 := by
    simp [sprintf, uninit]
  have h := numeric_loop_spec 121 (sprintf (uninit env 128)
      [71, 65, fmt_c K.GNU_BUILD_ATTRIBUTE_TYPE_NUMERIC, 71, 79, 87]) 7 gow
      (by omega) (by rw [hb]; omega)
  rw [value_bytes_eq_digits]
  cases is_local <;> simp only [GOW_note_args, h.1, if_true, if_false, Bool.false_eq_true] <;>
    omega

/-- C35: for every packed word below 2^32 `record_GOW_settings` (output file
open) writes a note whose name is `G`, `A`, the numeric type byte, `GOW`, a
NUL, the bytes of the word least significant first, as many as the number of
its bits divided by 8 and rounded up, and one zero byte; the size declared is
8 plus the number of those bytes, and the bytes from offset 7 read as a
little-endian integer give the word back. For the word 0 there is no value
byte in front of the zero byte (the size is 8), while
`annobin_output_numeric_note` writes two zero bytes for the value 0. -/
theorem GOW_note_name (K : Build) (env : Env) (st : State) (gow : Nat) (is_local : Bool)
    (aname aname_end : Option (List Nat)) (hsink : env.asm_out_file = true)
    (hg : gow < 2 ^ 32) :
    ∃ (a : NoteArgs) (text : List Asm),
      (record_GOW_settings K env st gow is_local aname aname_end).asm_out
        = st.asm_out ++ [Chunk.note a text] ∧
      a.name_bytes
        = [71, 65, fmt_c K.GNU_BUILD_ATTRIBUTE_TYPE_NUMERIC] ++ cstr "GOW" ++ [0]
          ++ value_bytes gow ++ [0] ∧
      (value_bytes gow).length = (Nat.size gow + 7) / 8 ∧
      a.namesz = 8 + (value_bytes gow).length ∧
      a.name_bytes.length = a.namesz ∧
      decode_le (a.name_bytes.drop 7) = gow ∧
      decode_le ((a.name_bytes.drop 7).dropLast) = gow ∧
      (gow = 0 →
        a.name_bytes = [71, 65, fmt_c K.GNU_BUILD_ATTRIBUTE_TYPE_NUMERIC, 71, 79, 87, 0, 0] ∧
        a.namesz = 8 ∧
        (numeric_note_args K env st.annobin_is_64bit K.GNU_BUILD_ATTRIBUTE_STACK_PROT 0
            "numeric: -fstack-protector status" aname aname_end
            K.NT_GNU_BUILD_ATTRIBUTE_FUNC).name_bytes
          = [71, 65, fmt_c K.GNU_BUILD_ATTRIBUTE_TYPE_NUMERIC,
             fmt_c K.GNU_BUILD_ATTRIBUTE_STACK_PROT, 0, 0] ∧
        (numeric_note_args K env st.annobin_is_64bit K.GNU_BUILD_ATTRIBUTE_STACK_PROT 0
            "numeric: -fstack-protector status" aname aname_end
            K.NT_GNU_BUILD_ATTRIBUTE_FUNC).namesz = 6) := by
  have h64 : (annobin_inform env st 1
      (if is_local then "Record a change in -g/-O/-Wall status for %s"
       else "Record status of -g/-O/-Wall")).annobin_is_64bit = st.annobin_is_64bit :=
    core_is_64bit (inform_core ..)
  have hk := GOW_note_args_key K env st.annobin_is_64bit gow is_local aname aname_end hg
  have hn : (GOW_note_args K env st.annobin_is_64bit gow is_local aname aname_end).name_bytes
      = GOW_name K gow := congrArg Prod.snd hk
  have hsz := GOW_note_namesz K env st.annobin_is_64bit gow is_local aname aname_end hg
  have hvl : (value_bytes gow).length = (Nat.size gow + 7) / 8 := by
    rw [value_bytes_eq_digits, digits_256_length]
  have hname : GOW_name K gow
      = [71, 65, fmt_c K.GNU_BUILD_ATTRIBUTE_TYPE_NUMERIC] ++ cstr "GOW" ++ [0]
        ++ value_bytes gow ++ [0] := by
    unfold GOW_name
    rw [show cstr "GOW" = [71, 79, 87] by decide]
    rfl
  have hdec : decode_le (Nat.digits 256 gow ++ [0]) = gow := by
    rw [decode_le_eq_ofDigits, Nat.ofDigits_append, Nat.ofDigits_digits]
    simp
  refine ⟨GOW_note_args K env st.annobin_is_64bit gow is_local aname aname_end,
    note_text K st.annobin_is_64bit
      (GOW_note_args K env st.annobin_is_64bit gow is_local aname aname_end), ?_, ?_, hvl, hsz,
    ?_, ?_, ?_, ?_⟩
  · unfold record_GOW_settings
    simp only []
    rw [output_note_asm_out _ _ _ _ hsink, h64, core_asm_out (inform_core ..)]
  · rw [hn, hname]
  · rw [hn, hsz]
    unfold GOW_name
    simp
    omega
  · rw [hn]
    unfold GOW_name
    rw [value_bytes_eq_digits]
    simp only [List.cons_append, List.nil_append, List.drop_succ_cons, List.drop_zero]
    exact hdec
  · rw [hn]
    exact GOW_key_value_GOW K 0 gow
  · intro h0
    subst h0
    have hnum := numeric_note_name_bytes K env st.annobin_is_64bit
      K.GNU_BUILD_ATTRIBUTE_STACK_PROT 0 "numeric: -fstack-protector status" aname aname_end
      K.NT_GNU_BUILD_ATTRIBUTE_FUNC (by norm_num)
    have hv0 : value_bytes 0 = [] := by
      rw [value_bytes_eq_digits]
      simp
    refine ⟨?_, ?_, ?_, ?_⟩
    · rw [hn]
      unfold GOW_name
      rw [hv0]
      rfl
    · rw [hsz, hv0]
      rfl
    · rw [hnum.1]
      rfl
    · rw [hnum.2]
      rfl

/-- Witness of `GOW_note_name`: the word 17707 of a compilation with
`-g -O2 -Wall` is written as the bytes 43 and 69. -/
theorem GOW_note_name_witness :
    ∃ (a : NoteArgs) (text : List Asm),
      (record_GOW_settings Build.standard Env.plain (State.initial none) 17707 true none
          none).asm_out = (State.initial none).asm_out ++ [Chunk.note a text] ∧
      a.name_bytes = [71, 65, 42, 71, 79, 87, 0, 43, 69, 0] ∧
      a.namesz = 10 := by
  obtain ⟨a, text, h1, h2, _, h4, _⟩ := GOW_note_name Build.standard Env.plain
    (State.initial none) 17707 true none none rfl (by norm_num)
  have hv : value_bytes 17707 = [43, 69] := by
    rw [value_bytes_eq_digits]
    norm_num
  refine ⟨a, text, h1, ?_, ?_⟩
  · rw [h2, hv]
    decide
  · rw [h4, hv]
    rfl

theorem cstr_inj (s t : String) : cstr s = cstr t ↔ s = t := by
  constructor
  · intro h
    unfold cstr at h
    have h1 : s.toList = t.toList :=
      List.map_injective_iff.mpr (fun a b hab => by
        have h2 := congrArg Char.ofNat hab
        rwa [Char.ofNat_toNat, Char.ofNat_toNat] at h2) h
    exact String.ext h1
  · intro h
    rw [h]

theorem core_settings {s t : State} (h : s.core = t.core) :
    s.enabled = t.enabled ∧ s.global_file_name_symbols = t.global_file_name_symbols ∧
    s.annobin_enable_stack_size_notes = t.annobin_enable_stack_size_notes ∧
    s.annobin_enable_dynamic_notes = t.annobin_enable_dynamic_notes ∧
    s.annobin_enable_static_notes = t.annobin_enable_static_notes ∧
    s.verbose_level = t.verbose_level ∧ s.stack_threshold = t.stack_threshold := by
  have h1 := congrArg State.enabled h
  have h2 := congrArg State.global_file_name_symbols h
  have h3 := congrArg State.annobin_enable_stack_size_notes h
  have h4 := congrArg State.annobin_enable_dynamic_notes h
  have h5 := congrArg State.annobin_enable_static_notes h
  have h6 := congrArg State.verbose_level h
  have h7 := congrArg State.stack_threshold h
  exact ⟨h1, h2, h3, h4, h5, h6, h7⟩

/-- One turn of the loop of `parse_args` on an argument with a known key: the
loop goes on with a state in which each setting has the value that the
argument gives it, or its earlier value when the argument gives none. -/
theorem parse_args_turn (env : Env) (a : plugin_argument) (rest : List plugin_argument)
    (st : State) (hk : strip_dashes a.key ∈ recognised_keys)
    (hv : strip_dashes a.key = cstr "stack-threshold" → a.value.isSome = true) :
    ∃ st1 : State, parse_args_loop env (a :: rest) st = parse_args_loop env rest st1 ∧
      st1.enabled = (arg_switch "enable" "disable" a).getD st.enabled ∧
      st1.global_file_name_symbols
        = (arg_switch "global-file-syms" "no-global-file-syms" a).getD
            st.global_file_name_symbols ∧
      st1.annobin_enable_stack_size_notes
        = (arg_switch "stack-size-notes" "no-stack-size-notes" a).getD
            st.annobin_enable_stack_size_notes ∧
      st1.annobin_enable_dynamic_notes
        = (arg_switch "dynamic-notes" "no-dynamic-notes" a).getD
            st.annobin_enable_dynamic_notes ∧
      st1.annobin_enable_static_notes
        = (arg_switch "static-notes" "no-static-notes" a).getD
            st.annobin_enable_static_notes ∧
      st1.verbose_level
        = (if is_verbose_arg a = true then (st.verbose_level + 1) % 4294967296
           else st.verbose_level) ∧
      st1.stack_threshold = (arg_threshold a).getD st.stack_threshold := by
  obtain ⟨key, value⟩ := a
  simp only [] at hk hv
  rw [parse_args_loop]
  simp only [is_verbose_arg]
  have hs : key.dropWhile (fun c => c == 45) = strip_dashes key := rfl
  rw [hs]
  by_cases h1 : strip_dashes key = cstr "disable"
  · rw [if_pos h1]
    refine ⟨_, rfl, ?_⟩
    simp [arg_switch, arg_threshold, h1, cstr_inj]
  · rw [if_neg h1]
    by_cases h2 : strip_dashes key = cstr "enable"
    · rw [if_pos h2]
      refine ⟨_, rfl, ?_⟩
      simp [arg_switch, arg_threshold, h2, cstr_inj]
    · rw [if_neg h2]
      by_cases h3 : strip_dashes key = cstr "help"
      · rw [if_pos h3]
        obtain ⟨e1, e2, e3, e4, e5, e6, e7⟩ := core_settings (inform_core env st 0 help_string)
        refine ⟨_, rfl, ?_⟩
        rw [e1, e2, e3, e4, e5, e6, e7]
        simp [arg_switch, arg_threshold, h3, cstr_inj]
      · rw [if_neg h3]
        by_cases h4 : strip_dashes key = cstr "version"
        · rw [if_pos h4]
          obtain ⟨e1, e2, e3, e4, e5, e6, e7⟩ := core_settings (inform_core env st 0 version_string)
          refine ⟨_, rfl, ?_⟩
          rw [e1, e2, e3, e4, e5, e6, e7]
          simp [arg_switch, arg_threshold, h4, cstr_inj]
        · rw [if_neg h4]
          by_cases h5 : strip_dashes key = cstr "verbose"
          · rw [if_pos h5]
            refine ⟨_, rfl, ?_⟩
            simp [arg_switch, arg_threshold, h5, cstr_inj]
          · rw [if_neg h5]
            by_cases h6 : strip_dashes key = cstr "global-file-syms"
            · rw [if_pos h6]
              refine ⟨_, rfl, ?_⟩
              simp [arg_switch, arg_threshold, h6, cstr_inj]
            · rw [if_neg h6]
              by_cases h7 : strip_dashes key = cstr "no-global-file-syms"
              · rw [if_pos h7]
                refine ⟨_, rfl, ?_⟩
                simp [arg_switch, arg_threshold, h7, cstr_inj]
              · rw [if_neg h7]
                by_cases h8 : strip_dashes key = cstr "stack-size-notes"
                · rw [if_pos h8]
                  refine ⟨_, rfl, ?_⟩
                  simp [arg_switch, arg_threshold, h8, cstr_inj]
                · rw [if_neg h8]
                  by_cases h9 : strip_dashes key = cstr "no-stack-size-notes"
                  · rw [if_pos h9]
                    refine ⟨_, rfl, ?_⟩
                    simp [arg_switch, arg_threshold, h9, cstr_inj]
                  · rw [if_neg h9]
                    by_cases h10 : strip_dashes key = cstr "dynamic-notes"
                    · rw [if_pos h10]
                      refine ⟨_, rfl, ?_⟩
                      simp [arg_switch, arg_threshold, h10, cstr_inj]
                    · rw [if_neg h10]
                      by_cases h11 : strip_dashes key = cstr "no-dynamic-notes"
                      · rw [if_pos h11]
                        refine ⟨_, rfl, ?_⟩
                        simp [arg_switch, arg_threshold, h11, cstr_inj]
                      · rw [if_neg h11]
                        by_cases h12 : strip_dashes key = cstr "static-notes"
                        · rw [if_pos h12]
                          refine ⟨_, rfl, ?_⟩
                          simp [arg_switch, arg_threshold, h12, cstr_inj]
                        · rw [if_neg h12]
                          by_cases h13 : strip_dashes key = cstr "no-static-notes"
                          · rw [if_pos h13]
                            refine ⟨_, rfl, ?_⟩
                            simp [arg_switch, arg_threshold, h13, cstr_inj]
                          · rw [if_neg h13]
                            by_cases h14 : strip_dashes key = cstr "stack-threshold"
                            · rw [if_pos h14]
                              cases value with
                              | none => exact absurd (hv h14) (by simp)
                              | some v =>
                                refine ⟨_, rfl, ?_⟩
                                simp [arg_switch, arg_threshold, h14, cstr_inj]
                            · rw [if_neg h14]
                              exfalso
                              unfold recognised_keys at hk
                              simp only [List.mem_cons, List.mem_singleton, List.not_mem_nil, or_false] at hk
                              rcases hk with h | h | h | h | h | h | h | h | h | h | h | h | h | h
                              · exact h1 h
                              · exact h2 h
                              · exact h3 h
                              · exact h4 h
                              · exact h5 h
                              · exact h6 h
                              · exact h7 h
                              · exact h8 h
                              · exact h9 h
                              · exact h10 h
                              · exact h11 h
                              · exact h12 h
                              · exact h13 h
                              · exact h14 h


theorem or_getD {α : Type} (r x : Option α) (d : α) :
    (r.or x).getD d = r.getD (x.getD d) := by
  cases r <;> cases x <;> rfl

theorem findSome_reverse_cons {α β : Type} (f : α → Option β) (a : α) (rest : List α) (d : β) :
    ((a :: rest).reverse.findSome? f).getD d = (rest.reverse.findSome? f).getD ((f a).getD d) := by
  rw [List.reverse_cons, List.findSome?_append, or_getD]
  cases h : f a <;> simp [List.findSome?, h]

/-- The loop of `parse_args` over arguments with known keys: it returns true,
and each setting has the value given by the argument visited last among those
that give it a value. -/
theorem parse_args_loop_settings (env : Env) : ∀ (args : List plugin_argument) (st : State),
    (∀ a ∈ args, strip_dashes a.key ∈ recognised_keys) →
    (∀ a ∈ args, strip_dashes a.key = cstr "stack-threshold" → a.value.isSome = true) →
    st.verbose_level < 4294967296 →
    ∃ st1 : State, parse_args_loop env args st = some (true, st1) ∧
      st1.enabled
        = (args.reverse.findSome? (arg_switch "enable" "disable")).getD st.enabled ∧
      st1.global_file_name_symbols
        = (args.reverse.findSome? (arg_switch "global-file-syms" "no-global-file-syms")).getD
            st.global_file_name_symbols ∧
      st1.annobin_enable_stack_size_notes
        = (args.reverse.findSome? (arg_switch "stack-size-notes" "no-stack-size-notes")).getD
            st.annobin_enable_stack_size_notes ∧
      st1.annobin_enable_dynamic_notes
        = (args.reverse.findSome? (arg_switch "dynamic-notes" "no-dynamic-notes")).getD
            st.annobin_enable_dynamic_notes ∧
      st1.annobin_enable_static_notes
        = (args.reverse.findSome? (arg_switch "static-notes" "no-static-notes")).getD
            st.annobin_enable_static_notes ∧
      st1.verbose_level = (st.verbose_level + args.countP is_verbose_arg) % 4294967296 ∧
      st1.stack_threshold = (args.reverse.findSome? arg_threshold).getD st.stack_threshold := by
  intro args
  induction args with
  | nil =>
    intro st _ _ hverb
    refine ⟨st, rfl, rfl, rfl, rfl, rfl, rfl, ?_, rfl⟩
    simp only [List.countP_nil, Nat.add_zero]
    exact (Nat.mod_eq_of_lt hverb).symm
  | cons a rest ih =>
    intro st hk hv hverb
    obtain ⟨s, hs, e1, e2, e3, e4, e5, e6, e7⟩ := parse_args_turn env a rest st
      (hk a (List.mem_cons_self _ _)) (hv a (List.mem_cons_self _ _))
    have hverb1 : s.verbose_level < 4294967296 := by
      rw [e6]
      split
      · exact Nat.mod_lt _ (by norm_num)
      · exact hverb
    obtain ⟨st1, h, f1, f2, f3, f4, f5, f6, f7⟩ := ih s
      (fun x hx => hk x (List.mem_cons_of_mem _ hx))
      (fun x hx => hv x (List.mem_cons_of_mem _ hx)) hverb1
    refine ⟨st1, hs.trans h, ?_, ?_, ?_, ?_, ?_, ?_, ?_⟩
    · rw [f1, e1, findSome_reverse_cons]
    · rw [f2, e2, findSome_reverse_cons]
    · rw [f3, e3, findSome_reverse_cons]
    · rw [f4, e4, findSome_reverse_cons]
    · rw [f5, e5, findSome_reverse_cons]
    · rw [f6, e6, List.countP_cons]
      by_cases hva : is_verbose_arg a = true
      · rw [if_pos hva, if_pos hva]
        omega
      · rw [if_neg hva, if_neg hva]
        omega
    · rw [f7, e7, findSome_reverse_cons]

/-- C36: `parse_args` visits the array from its last element to its first, so
when every key is known (and each `stack-threshold` argument carries a value)
it returns true and each setting ends with the value selected by the
argument of lowest index among those that select one, or with its earlier
value when there is none: `enable` against `disable`, `global-file-syms`,
`stack-size-notes`, `dynamic-notes` and `static-notes` against their `no-`
forms. The verbosity level has been stepped once for each `verbose` argument,
so from the level 0 it is the number of those arguments; the threshold is
taken from the `stack-threshold` argument of lowest index, and is
`DEFAULT_THRESHOLD`, which is 10240, when the value of that argument reads as
0. -/
theorem parse_args_settings (env : Env) (st : State) (argv : List plugin_argument)
    (hk : ∀ a ∈ argv, strip_dashes a.key ∈ recognised_keys)
    (hv : ∀ a ∈ argv, strip_dashes a.key = cstr "stack-threshold" → a.value.isSome = true)
    (hverb : st.verbose_level < 4294967296) :
    ∃ st1 : State, parse_args env st argv = some (true, st1) ∧
      st1.enabled = (argv.findSome? (arg_switch "enable" "disable")).getD st.enabled ∧
      st1.global_file_name_symbols
        = (argv.findSome? (arg_switch "global-file-syms" "no-global-file-syms")).getD
            st.global_file_name_symbols ∧
      st1.annobin_enable_stack_size_notes
        = (argv.findSome? (arg_switch "stack-size-notes" "no-stack-size-notes")).getD
            st.annobin_enable_stack_size_notes ∧
      st1.annobin_enable_dynamic_notes
        = (argv.findSome? (arg_switch "dynamic-notes" "no-dynamic-notes")).getD
            st.annobin_enable_dynamic_notes ∧
      st1.annobin_enable_static_notes
        = (argv.findSome? (arg_switch "static-notes" "no-static-notes")).getD
            st.annobin_enable_static_notes ∧
      st1.verbose_level = (st.verbose_level + argv.countP is_verbose_arg) % 4294967296 ∧
      (st.verbose_level = 0 → argv.length < 4294967296 →
        st1.verbose_level = argv.countP is_verbose_arg) ∧
      st1.stack_threshold = (argv.findSome? arg_threshold).getD st.stack_threshold ∧
      (∀ (i : Nat) (a : plugin_argument) (value : List Nat), argv.get? i = some a →
        (∀ j < i, ∀ b, argv.get? j = some b → strip_dashes b.key ≠ cstr "stack-threshold") →
        strip_dashes a.key = cstr "stack-threshold" → a.value = some value →
        strtoul value = 0 → st1.stack_threshold = 10240) := by
  obtain ⟨st1, h, f1, f2, f3, f4, f5, f6, f7⟩ := parse_args_loop_settings env argv.reverse st
    (fun a ha => hk a (List.mem_reverse.mp ha)) (fun a ha => hv a (List.mem_reverse.mp ha)) hverb
  rw [List.reverse_reverse] at f1 f2 f3 f4 f5 f7
  rw [List.countP_reverse] at f6
  refine ⟨st1, h, f1, f2, f3, f4, f5, f6, ?_, f7, ?_⟩
  · intro h0 hlen
    rw [f6, h0, Nat.zero_add]
    exact Nat.mod_eq_of_lt (lt_of_le_of_lt (List.countP_le_length _) hlen)
  · intro i a value hi hbefore hkey hval hzero
    rw [f7]
    have hfind : argv.findSome? arg_threshold = some DEFAULT_THRESHOLD := by
      clear f1 f2 f3 f4 f5 f6 f7 h hk hv
      induction argv generalizing i with
      | nil => simp at hi
      | cons b rest ih =>
        cases i with
        | zero =>
          simp only [List.get?_cons_zero, Option.some.injEq] at hi
          subst hi
          simp [List.findSome?, arg_threshold, hkey, hval, hzero]
        | succ i =>
          have hb : strip_dashes b.key ≠ cstr "stack-threshold" :=
            hbefore 0 (Nat.succ_pos _) b rfl
          have hnone : arg_threshold b = none := by simp [arg_threshold, hb]
          rw [List.findSome?_cons, hnone]
          exact ih i (by simpa using hi)
            (fun j hj c hc => hbefore (j + 1) (Nat.succ_lt_succ hj) c (by simpa using hc))
    rw [hfind]
    rfl


/-- Witness of `parse_args_settings`: of the arguments `enable`, `disable`,
`verbose`, `--verbose`, `stack-threshold=0`, `stack-threshold=500`,
`no-static-notes`, `static-notes` the first of each kind decides. -/
theorem parse_args_settings_witness :
    ∃ st1 : State,
      parse_args Env.plain (State.initial none) argv_contradictory = some (true, st1) ∧
      st1.enabled = true ∧ st1.annobin_enable_static_notes = false ∧
      st1.verbose_level = 2 ∧ st1.stack_threshold = 10240 := by
  obtain ⟨st1, h, f1, _, _, _, f5, f6, _, f7, _⟩ :=
    parse_args_settings Env.plain (State.initial none) argv_contradictory
      (by decide) (by decide) (by decide)
  exact ⟨st1, h, f1.trans (by decide), f5.trans (by decide), f6.trans (by decide),
    f7.trans (by decide)⟩

end Annobin
